import Mathlib

/-!
Prague sky model, ground-level version: a verification development.

Shallow embedding of `thirdparty/include/arpraguesky/ArPragueSkyModelGround.c`.

Conventions of the embedding.

* A C `double` (and `float`) is an exact rational number (`ℚ`): arithmetic is
  the arithmetic of the reals, rounding is not modelled. The transmittance is
  embedded a second time with the special values of floating-point arithmetic
  (`CDouble`: overflow to an infinity, NaN), where they decide the result.
* A C `int` is a mathematical integer (`Int`). The sizes that the loader
  computes from the counts of the data file are reduced to the 32 bits of an
  `int` (`int_wrap`); the other indices are exact.
* `unsigned short` is `Fin 65536`; `unsigned int` and `unsigned long` are
  natural numbers reduced modulo `2^32` and `2^64` after each operation that
  can leave the range (a 64-bit `unsigned long`).
* An array is a list; a read through an index is `Option`-valued and is
  `none` outside the array. A function that reads memory returns `none` when
  the C program would read outside an array or return an unassigned local.
* A pointer into the middle of a buffer is the buffer together with an
  offset (`DoublePtr`).
* The conversion `(int)x` truncates toward zero (`c_int_cast`); `floor` is
  exact. The other functions of `<math.h>` are a parameter (`LibM`).
* An output parameter or local that may stay unassigned is `Option`-valued.
* A `FILE *` is the list of the bytes still to be read, `none` for a null
  handle; `fread` takes complete records off its front. The value that the
  bytes of a record stand for is a parameter (`ScalarLayout`), the sizes of
  the scalar types are 4 (`int`, `float`), 8 (`double`) and 2
  (`unsigned short`). `malloc` succeeds for every count of entries that is not
  negative; a negative count reaches it as a size close to `2^64`, which it
  cannot serve: the array has no entry.
* A run of the loader returns (`Except.ok`), ends the process through
  `arpragueskymodelground_print_error_and_exit` (`Abort.exit`) or is undefined
  (`Abort.undefined`).
-/

/-! ## Memory -/

/-- Type of a C `unsigned short`. -/
abbrev UShort := Fin 65536

/-- Array read `a[i]` with a signed index: defined inside the array only. -/
def read_at {α : Type} (a : List α) (i : Int) : Option α :=
  if i < 0 then none else a[i.toNat]?

/-- Array write `a[i] = x` with a signed index: defined inside the array only. -/
def write_at {α : Type} (a : List α) (i : Int) (x : α) : Option (List α) :=
  if i < 0 then none else if i.toNat < a.length then some (a.set i.toNat x) else none

/-- A `const double *` that points into a buffer: the buffer and the offset. -/
structure DoublePtr where
  buf : List ℚ
  off : Int

/-- Pointer arithmetic `p + k`. -/
def DoublePtr.add (p : DoublePtr) (k : Int) : DoublePtr := ⟨p.buf, p.off + k⟩

/-- Indexed read `p[k]`. -/
def DoublePtr.read (p : DoublePtr) (k : Int) : Option ℚ := read_at p.buf (p.off + k)

/-! ## Half-precision decoding -/

/-- The loop `for(; abs<0x400; abs<<=1,hi-=0x100000) ;` of
`arpragueskymodelground_double_from_half`, on `(abs, hi)`. The first argument
bounds the number of rounds; `none` when the bound is used up. -/
def arpragueskymodelground_double_from_half_loop : Nat → Nat → Nat → Option (Nat × Nat)
  | 0, _, _ => none
  | fuel + 1, abs, hi =>
    if abs < 0x400 then
      arpragueskymodelground_double_from_half_loop fuel ((abs <<< 1) % 2 ^ 32)
        ((hi + (2 ^ 64 - 0x100000)) % 2 ^ 64)
    else some (abs, hi)

/-- The 64-bit pattern `dbits` that `arpragueskymodelground_double_from_half`
copies into its result. While `abs` is non-zero and below `0x400` each round of
the loop makes it larger, so `0x400` rounds are more than the loop can take. -/
def arpragueskymodelground_double_from_half_bits (value : UShort) : Option Nat :=
  let hi : Nat := ((value.val &&& 0x8000) <<< 16) % 2 ^ 64
  let abs : Nat := value.val &&& 0x7FFF
  let hi_final : Option Nat :=
    if abs ≠ 0 then
      let hi1 : Nat := hi ||| (0x3F000000 <<< (if abs ≥ 0x7C00 then 1 else 0))
      match arpragueskymodelground_double_from_half_loop 0x400 abs hi1 with
      | none => none
      | some (abs2, hi2) => some ((hi2 + (abs2 <<< 10) % 2 ^ 64) % 2 ^ 64)
    else some hi
  hi_final.map (fun h => (h <<< 32) % 2 ^ 64)

/-- IEEE-754 binary64 reading of a 64-bit pattern (sign: bit 63, exponent:
bits 52-62, fraction: bits 0-51) as a rational number. Patterns with exponent
field 2047 (infinities and NaN) are no rational numbers; they are read by the
formula of the normal numbers. -/
def binary64_value (bits : Nat) : ℚ :=
  let s : Nat := bits / 2 ^ 63 % 2
  let e : Nat := bits / 2 ^ 52 % 2048
  let m : Nat := bits % 2 ^ 52
  let mag : ℚ :=
    if e = 0 then (m : ℚ) * (2 : ℚ) ^ (-1074 : ℤ)
    else (1 + (m : ℚ) / 2 ^ 52) * (2 : ℚ) ^ ((e : ℤ) - 1023)
  if s = 1 then -mag else mag

/-- The `double` returned by `arpragueskymodelground_double_from_half`: the
pattern `dbits` copied (`memcpy`) into a `double`. -/
def arpragueskymodelground_double_from_half (value : UShort) : Option ℚ :=
  (arpragueskymodelground_double_from_half_bits value).map binary64_value

/-! ## Coefficient synthesis -/

/-- The body of the loop of `arpragueskymodelground_compute_pp_coefs_from_half`
run for the given number of remaining rounds from index `i` on the buffer
`coefs`. -/
def arpragueskymodelground_compute_pp_coefs_from_half_loop (breaks : List ℚ)
    (values : List UShort) (offset : Int) (scale : ℚ) : Nat → Int → List ℚ → Option (List ℚ)
  | 0, _, coefs => some coefs
  | n + 1, i, coefs => do
    let h1 ← read_at values (i + 1)
    let d1 ← arpragueskymodelground_double_from_half h1
    let val1 : ℚ := d1 / scale
    let h2 ← read_at values i
    let d2 ← arpragueskymodelground_double_from_half h2
    let val2 : ℚ := d2 / scale
    let diff : ℚ := val1 - val2
    let b1 ← read_at breaks (i + 1)
    let b0 ← read_at breaks i
    let coefs1 ← write_at coefs (offset + 2 * i) (diff / (b1 - b0))
    let coefs2 ← write_at coefs1 (offset + 2 * i + 1) val2
    arpragueskymodelground_compute_pp_coefs_from_half_loop breaks values offset scale n (i + 1) coefs2

/-- The function `arpragueskymodelground_compute_pp_coefs_from_half`: the
buffer after the call and the returned count. The loop
`for (int i = 0; i < nbreaks - 1; ++i)` runs `nbreaks - 1` rounds. -/
def arpragueskymodelground_compute_pp_coefs_from_half (nbreaks : Int) (breaks : List ℚ)
    (values : List UShort) (coefs : List ℚ) (offset : Int) (scale : ℚ) :
    Option (List ℚ × Int) := do
  let coefs1 ← arpragueskymodelground_compute_pp_coefs_from_half_loop breaks values offset scale
    (nbreaks - 1).toNat 0 coefs
  some (coefs1, 2 * nbreaks - 2)

/-! ## The model state -/

/-- The record `ArPragueSkyModelGroundState` of the header file. -/
structure ArPragueSkyModelGroundState where
  visibilities : Int
  visibility_vals : List ℚ
  albedos : Int
  albedo_vals : List ℚ
  altitudes : Int
  altitude_vals : List ℚ
  elevations : Int
  elevation_vals : List ℚ
  channels : Int
  channel_start : ℚ
  channel_width : ℚ
  tensor_components : Int
  sun_nbreaks : Int
  sun_offset : Int
  sun_stride : Int
  sun_breaks : List ℚ
  zenith_nbreaks : Int
  zenith_offset : Int
  zenith_stride : Int
  zenith_breaks : List ℚ
  emph_nbreaks : Int
  emph_offset : Int
  emph_breaks : List ℚ
  total_coefs_single_config : Int
  total_coefs_all_configs : Int
  total_configs : Int
  radiance_dataset : List ℚ
  trans_n_a : Int
  trans_n_d : Int
  trans_visibilities : Int
  trans_altitudes : Int
  trans_rank : Int
  transmission_altitudes : List ℚ
  transmission_visibilities : List ℚ
  transmission_dataset_U : List ℚ
  transmission_dataset_V : List ℚ
  elevation : ℚ
  visibility : ℚ
  albedo : ℚ

/-! ## Segment search, evaluation and reconstruction -/

/-- The function `arpragueskymodelground_lerp`. -/
def arpragueskymodelground_lerp (src dst factor : ℚ) : ℚ :=
  (1 - factor) * src + factor * dst

/-- The loop of `arpragueskymodelground_find_segment` with the given number of
remaining rounds, at the index `segment`. -/
def arpragueskymodelground_find_segment_loop (x : ℚ) (breaks : List ℚ) : Nat → Int → Option Int
  | 0, segment => some segment
  | n + 1, segment => do
    let b ← read_at breaks (segment + 1)
    if b ≥ x then some segment
    else arpragueskymodelground_find_segment_loop x breaks n (segment + 1)

/-- The function `arpragueskymodelground_find_segment`: the loop
`for (segment = 0; segment < nbreaks; ++segment)` runs at most `nbreaks`
rounds. -/
def arpragueskymodelground_find_segment (x : ℚ) (nbreaks : Int) (breaks : List ℚ) : Option Int :=
  arpragueskymodelground_find_segment_loop x breaks nbreaks.toNat 0

/-- The function `arpragueskymodelground_eval_pp`. -/
def arpragueskymodelground_eval_pp (x : ℚ) (segment : Int) (breaks : List ℚ)
    (coefs : DoublePtr) : Option ℚ := do
  let b ← read_at breaks segment
  let x0 : ℚ := x - b
  let sc : DoublePtr := coefs.add (2 * segment)
  let sc0 ← sc.read 0
  let sc1 ← sc.read 1
  some (sc0 * x0 + sc1)

/-- The loop of `arpragueskymodelground_reconstruct` over the tensor
components, with the given number of remaining rounds, at component `t` and
with the sum `res` so far. -/
def arpragueskymodelground_reconstruct_loop (state : ArPragueSkyModelGroundState)
    (gamma alpha : ℚ) (gamma_segment alpha_segment : Int) (control_params : DoublePtr) :
    Nat → Int → ℚ → Option ℚ
  | 0, _, res => some res
  | n + 1, t, res => do
    let sun_val_t ← arpragueskymodelground_eval_pp gamma gamma_segment state.sun_breaks
      (control_params.add (state.sun_offset + t * state.sun_stride))
    let zenith_val_t ← arpragueskymodelground_eval_pp alpha alpha_segment state.zenith_breaks
      (control_params.add (state.zenith_offset + t * state.zenith_stride))
    arpragueskymodelground_reconstruct_loop state gamma alpha gamma_segment alpha_segment
      control_params n (t + 1) (res + sun_val_t * zenith_val_t)

/-- The function `arpragueskymodelground_reconstruct`; the last line is the
macro `MATH_MAX(res, 0.0)`. -/
def arpragueskymodelground_reconstruct (state : ArPragueSkyModelGroundState)
    (gamma alpha theta : ℚ) (gamma_segment alpha_segment theta_segment : Int)
    (control_params : DoublePtr) : Option ℚ := do
  let res ← arpragueskymodelground_reconstruct_loop state gamma alpha gamma_segment
    alpha_segment control_params state.tensor_components.toNat 0 0
  let emph_val_t ← arpragueskymodelground_eval_pp theta theta_segment state.emph_breaks
    (control_params.add state.emph_offset)
  let res1 : ℚ := res * emph_val_t
  some (if res1 > 0 then res1 else 0)

/-! ## Parameter mapping -/

/-- The loop of `arpragueskymodelground_map_parameter` with the given number of
remaining rounds, at index `v`. When the loop ends without a `break` the local
`mapped` was never assigned: `none`. The constant is the literal `1e-6`. -/
def arpragueskymodelground_map_parameter_loop (param : ℚ) (values : List ℚ) :
    Nat → Int → Option ℚ
  | 0, _ => none
  | n + 1, v => do
    let val ← read_at values v
    if |val - param| < 1 / 1000000 then some (v : ℚ)
    else if param < val then do
      let prev ← read_at values (v - 1)
      some ((v : ℚ) - ((val - param) / (val - prev)))
    else arpragueskymodelground_map_parameter_loop param values n (v + 1)

/-- The function `arpragueskymodelground_map_parameter`. -/
def arpragueskymodelground_map_parameter (param : ℚ) (value_count : Int) (values : List ℚ) :
    Option ℚ := do
  let first ← read_at values 0
  if param < first then some 0
  else do
    let last ← read_at values (value_count - 1)
    if param > last then some ((value_count : ℚ) - 1)
    else arpragueskymodelground_map_parameter_loop param values value_count.toNat 0

/-! ## C conversions and constants -/

/-- The conversion `(int)x` of a `double` to `int`: truncation toward zero. -/
def c_int_cast (x : ℚ) : Int := if 0 ≤ x then ⌊x⌋ else ⌈x⌉

/-- The value of an `int` expression whose exact value is `x`: the value of
the same residue modulo `2^32` in the range `-2^31 .. 2^31 - 1` of a 32-bit
`int`. -/
def int_wrap (x : Int) : Int := (x + 2 ^ 31) % 2 ^ 32 - 2 ^ 31

/-- The macro `MATH_PI` of the header, a decimal literal. -/
def MATH_PI : ℚ := 3141592653589793 / 1000000000000000

/-- The macro `MATH_RAD_TO_DEG` of the header. -/
def MATH_RAD_TO_DEG : ℚ := 180 / MATH_PI

/-! ## The interpolation cascade -/

/-- The function `arpragueskymodelground_control_params_single_config`: the
pointer to the coefficient block of a configuration inside `dataset`. -/
def arpragueskymodelground_control_params_single_config (state : ArPragueSkyModelGroundState)
    (dataset : List ℚ) (total_coefs_single_config elevation altitude visibility albedo
      wavelength : Int) : DoublePtr :=
  ⟨dataset, total_coefs_single_config * (
    wavelength +
    state.channels * elevation +
    state.channels * state.elevations * altitude +
    state.channels * state.elevations * state.altitudes * albedo +
    state.channels * state.elevations * state.altitudes * state.albedos * visibility)⟩

/-- The function `arpragueskymodelground_interpolate_elevation`. -/
def arpragueskymodelground_interpolate_elevation (state : ArPragueSkyModelGroundState)
    (elevation : ℚ) (altitude visibility albedo wavelength : Int) (gamma alpha theta : ℚ)
    (gamma_segment alpha_segment theta_segment : Int) : Option ℚ := do
  let elevation_low : Int := c_int_cast elevation
  let factor : ℚ := elevation - (elevation_low : ℚ)
  let control_params_low : DoublePtr := arpragueskymodelground_control_params_single_config
    state state.radiance_dataset state.total_coefs_single_config elevation_low altitude
    visibility albedo wavelength
  let res_low ← arpragueskymodelground_reconstruct state gamma alpha theta gamma_segment
    alpha_segment theta_segment control_params_low
  if factor < 1 / 1000000 ∨ elevation_low ≥ state.elevations - 1 then some res_low
  else do
    let control_params_high : DoublePtr := arpragueskymodelground_control_params_single_config
      state state.radiance_dataset state.total_coefs_single_config (elevation_low + 1) altitude
      visibility albedo wavelength
    let res_high ← arpragueskymodelground_reconstruct state gamma alpha theta gamma_segment
      alpha_segment theta_segment control_params_high
    some (arpragueskymodelground_lerp res_low res_high factor)

/-- The function `arpragueskymodelground_interpolate_altitude`. -/
def arpragueskymodelground_interpolate_altitude (state : ArPragueSkyModelGroundState)
    (elevation altitude : ℚ) (visibility albedo wavelength : Int) (gamma alpha theta : ℚ)
    (gamma_segment alpha_segment theta_segment : Int) : Option ℚ := do
  let altitude_low : Int := c_int_cast altitude
  let factor : ℚ := altitude - (altitude_low : ℚ)
  let res_low ← arpragueskymodelground_interpolate_elevation state elevation altitude_low
    visibility albedo wavelength gamma alpha theta gamma_segment alpha_segment theta_segment
  if factor < 1 / 1000000 ∨ altitude_low ≥ state.altitudes - 1 then some res_low
  else do
    let res_high ← arpragueskymodelground_interpolate_elevation state elevation
      (altitude_low + 1) visibility albedo wavelength gamma alpha theta gamma_segment
      alpha_segment theta_segment
    some (arpragueskymodelground_lerp res_low res_high factor)

/-- The function `arpragueskymodelground_interpolate_visibility`. -/
def arpragueskymodelground_interpolate_visibility (state : ArPragueSkyModelGroundState)
    (elevation altitude visibility : ℚ) (albedo wavelength : Int) (gamma alpha theta : ℚ)
    (gamma_segment alpha_segment theta_segment : Int) : Option ℚ := do
  let visibility_low : Int := c_int_cast visibility
  let factor : ℚ := visibility - (visibility_low : ℚ)
  let res_low ← arpragueskymodelground_interpolate_altitude state elevation altitude
    visibility_low albedo wavelength gamma alpha theta gamma_segment alpha_segment theta_segment
  if factor < 1 / 1000000 ∨ visibility_low ≥ state.visibilities - 1 then some res_low
  else do
    let res_high ← arpragueskymodelground_interpolate_altitude state elevation altitude
      (visibility_low + 1) albedo wavelength gamma alpha theta gamma_segment alpha_segment
      theta_segment
    some (arpragueskymodelground_lerp res_low res_high factor)

/-- The function `arpragueskymodelground_interpolate_albedo`. -/
def arpragueskymodelground_interpolate_albedo (state : ArPragueSkyModelGroundState)
    (elevation altitude visibility albedo : ℚ) (wavelength : Int) (gamma alpha theta : ℚ)
    (gamma_segment alpha_segment theta_segment : Int) : Option ℚ := do
  let albedo_low : Int := c_int_cast albedo
  let factor : ℚ := albedo - (albedo_low : ℚ)
  let res_low ← arpragueskymodelground_interpolate_visibility state elevation altitude
    visibility albedo_low wavelength gamma alpha theta gamma_segment alpha_segment theta_segment
  if factor < 1 / 1000000 ∨ albedo_low ≥ state.albedos - 1 then some res_low
  else do
    let res_high ← arpragueskymodelground_interpolate_visibility state elevation altitude
      visibility (albedo_low + 1) wavelength gamma alpha theta gamma_segment alpha_segment
      theta_segment
    some (arpragueskymodelground_lerp res_low res_high factor)

/-- The function `arpragueskymodelground_interpolate_wavelength`: no
interpolation, the bin `(int)wavelength` is used. -/
def arpragueskymodelground_interpolate_wavelength (state : ArPragueSkyModelGroundState)
    (elevation altitude visibility albedo wavelength : ℚ) (gamma alpha theta : ℚ)
    (gamma_segment alpha_segment theta_segment : Int) : Option ℚ :=
  arpragueskymodelground_interpolate_albedo state elevation altitude visibility albedo
    (c_int_cast wavelength) gamma alpha theta gamma_segment alpha_segment theta_segment

/-- The function `arpragueskymodelground_sky_radiance`. -/
def arpragueskymodelground_sky_radiance (state : ArPragueSkyModelGroundState)
    (theta gamma shadow wavelength : ℚ) : Option ℚ := do
  let visibility_control ← arpragueskymodelground_map_parameter state.visibility
    state.visibilities state.visibility_vals
  let albedo_control ← arpragueskymodelground_map_parameter state.albedo state.albedos
    state.albedo_vals
  let altitude_control ← arpragueskymodelground_map_parameter 0 state.altitudes
    state.altitude_vals
  let elevation_control ← arpragueskymodelground_map_parameter
    (state.elevation * MATH_RAD_TO_DEG) state.elevations state.elevation_vals
  let channel_control : ℚ := (wavelength - state.channel_start) / state.channel_width
  if channel_control ≥ (state.channels : ℚ) ∨ channel_control < 0 then some 0
  else do
    let alpha : ℚ := if state.elevation < 0 then shadow else theta
    let gamma_segment ← arpragueskymodelground_find_segment gamma state.sun_nbreaks
      state.sun_breaks
    let alpha_segment ← arpragueskymodelground_find_segment alpha state.zenith_nbreaks
      state.zenith_breaks
    let theta_segment ← arpragueskymodelground_find_segment theta state.emph_nbreaks
      state.emph_breaks
    arpragueskymodelground_interpolate_wavelength state elevation_control altitude_control
      visibility_control albedo_control channel_control gamma alpha theta gamma_segment
      alpha_segment theta_segment

/-- The rule of one interpolated cascade level in the words of the
specification, for a grid axis of `count` values, a fractional index `idx` and
the evaluation `inner` of the levels below at a grid index: `low = floor(idx)`,
`factor = idx - low`; the inner value at `low` when `factor < 1e-6` or `low`
is the last valid grid index, else the blend of the inner values at `low` and
`low + 1` by `factor`. -/
def spec_cascade_level (count : Int) (idx : ℚ) (inner : Int → Option ℚ) : Option ℚ :=
  let low : Int := ⌊idx⌋
  let factor : ℚ := idx - (low : ℚ)
  if factor < 1 / 1000000 ∨ low ≥ count - 1 then inner low
  else do
    let lo ← inner low
    let hi ← inner (low + 1)
    some ((1 - factor) * lo + factor * hi)

/-- The axes of a state as `arpragueskymodelground_read_radiance` leaves them:
each count is at least 1 and each axis array has as many entries as its
count. -/
def axes_loaded (state : ArPragueSkyModelGroundState) : Prop :=
  1 ≤ state.visibilities ∧ (state.visibility_vals.length : ℤ) = state.visibilities ∧
  1 ≤ state.albedos ∧ (state.albedo_vals.length : ℤ) = state.albedos ∧
  1 ≤ state.altitudes ∧ (state.altitude_vals.length : ℤ) = state.altitudes ∧
  1 ≤ state.elevations ∧ (state.elevation_vals.length : ℤ) = state.elevations

/-! ## Transmittance -/

/-- The functions of `<math.h>` that the model calls (`floor` apart, which is
exact). Their results are taken as they come: every statement about the
transmittance code holds for each implementation of them. -/
structure LibM where
  sin : ℚ → ℚ
  cos : ℚ → ℚ
  acos : ℚ → ℚ
  sqrt : ℚ → ℚ
  pow : ℚ → ℚ → ℚ

/-- The macro `PSMG_PLANET_RADIUS` of the header. -/
def PSMG_PLANET_RADIUS : ℚ := 6378000

/-- The macro `PSMG_ATMO_WIDTH` of the header. -/
def PSMG_ATMO_WIDTH : ℚ := 100000

/-- The function `arpragueskymodelground_circle_bounds_2D`: the returned flag
and the content of `*d` after the call; the last argument is the content of
`*d` before the call (`none`: never assigned). -/
def arpragueskymodelground_circle_bounds_2D (m : LibM) (x_v y_v y_c radius : ℚ)
    (d : Option ℚ) : Int × Option ℚ :=
  let qa : ℚ := (x_v * x_v) + (y_v * y_v)
  let qb : ℚ := 2 * y_c * y_v
  let qc : ℚ := (y_c * y_c) - (radius * radius)
  let n : ℚ := (qb * qb) - (4 * qa * qc)
  if n ≤ 0 then (0, d)
  else
    let n1 : ℚ := m.sqrt n
    let d1 : ℚ := (-qb + n1) / (2 * qa)
    let d2 : ℚ := (-qb - n1) / (2 * qa)
    let dv : ℚ := if d1 > 0 ∧ d2 > 0 then (if d1 < d2 then d1 else d2)
      else (if d1 > d2 then d1 else d2)
    if dv ≤ 0 then (0, some dv) else (1, some dv)

/-- The function `arpragueskymodelground_scaleAD`: the pair `(*a, *d)`. -/
def arpragueskymodelground_scaleAD (m : LibM) (x_p y_p : ℚ) : ℚ × ℚ :=
  let n : ℚ := m.sqrt ((x_p * x_p) + (y_p * y_p))
  let a0 : ℚ := n - PSMG_PLANET_RADIUS
  let a1 : ℚ := if a0 > 0 then a0 else 0
  let a2 : ℚ := m.pow (a1 / PSMG_ATMO_WIDTH) (1 / 3)
  let d0 : ℚ := m.acos (y_p / n) * PSMG_PLANET_RADIUS
  let d1 : ℚ := d0 / (1571524413613 / 1000000)
  let d2 : ℚ := m.pow d1 (1 / 4)
  let d3 : ℚ := if d2 > 1 then 1 else d2
  (a2, d3)

/-- The end of `arpragueskymodelground_toAD` from `double distance_corrected = n;`
on; `n` is `none` when the local was never assigned. -/
def arpragueskymodelground_toAD_tail (m : LibM) (x_v y_v distance altitude : ℚ)
    (n : Option ℚ) : Option (ℚ × ℚ) := do
  let distance_corrected0 ← n
  let distance_corrected : ℚ :=
    if distance < distance_corrected0 then distance else distance_corrected0
  let x_p : ℚ := x_v * distance_corrected
  let y_p : ℚ := (y_v * distance_corrected) + PSMG_PLANET_RADIUS + altitude
  some (arpragueskymodelground_scaleAD m x_p y_p)

/-- The function `arpragueskymodelground_toAD`: the pair `(*a, *d)`. -/
def arpragueskymodelground_toAD (m : LibM) (theta distance altitude : ℚ) : Option (ℚ × ℚ) :=
  let x_v : ℚ := m.sin theta
  let y_v : ℚ := m.cos theta
  let y_c : ℚ := PSMG_PLANET_RADIUS + altitude
  let atmo_edge : ℚ := PSMG_PLANET_RADIUS + PSMG_ATMO_WIDTH
  if altitude < 1 / 1000 then
    if theta ≤ (1 / 2) * MATH_PI then
      let r := arpragueskymodelground_circle_bounds_2D m x_v y_v y_c atmo_edge none
      if r.1 = 0 then some (0, 0)
      else arpragueskymodelground_toAD_tail m x_v y_v distance altitude r.2
    else arpragueskymodelground_toAD_tail m x_v y_v distance altitude (some 0)
  else
    let r1 := arpragueskymodelground_circle_bounds_2D m x_v y_v y_c PSMG_PLANET_RADIUS none
    let atmosphere : Option (ℚ × ℚ) :=
      let r2 := arpragueskymodelground_circle_bounds_2D m x_v y_v y_c atmo_edge r1.2
      if r2.1 = 0 then some (0, 0)
      else arpragueskymodelground_toAD_tail m x_v y_v distance altitude r2.2
    if r1.1 = 1 then
      match r1.2 with
      | none => none
      | some n =>
        if n ≤ distance then
          some (arpragueskymodelground_scaleAD m (x_v * n)
            ((y_v * n) + PSMG_PLANET_RADIUS + altitude))
        else atmosphere
    else atmosphere

/-- The function `arpragueskymodelground_transmittance_coefs_index`: a pointer
into `transmission_dataset_V`. -/
def arpragueskymodelground_transmittance_coefs_index (state : ArPragueSkyModelGroundState)
    (visibility altitude wavelength : Int) : DoublePtr :=
  let transmittance_values_per_visibility : Int := state.trans_rank * 11 * state.trans_altitudes
  ⟨state.transmission_dataset_V, (visibility * transmittance_values_per_visibility) +
    (((altitude * 11) + wavelength) * state.trans_rank)⟩

/-- The loop of `arpragueskymodelground_transmittance_interpolate_wavelength`
with the given number of remaining rounds, at index `i`, on the array
`coefficients`. -/
def arpragueskymodelground_transmittance_interpolate_wavelength_loop (wll wlu : DoublePtr)
    (wavelength_w : ℚ) : Nat → Int → List ℚ → Option (List ℚ)
  | 0, _, coefficients => some coefficients
  | n + 1, i, coefficients => do
    let l ← wll.read i
    let u ← wlu.read i
    let coefficients1 ← write_at coefficients i (arpragueskymodelground_lerp l u wavelength_w)
    arpragueskymodelground_transmittance_interpolate_wavelength_loop wll wlu wavelength_w n
      (i + 1) coefficients1

/-- The function `arpragueskymodelground_transmittance_interpolate_wavelength`:
the array `coefficients` after the call. -/
def arpragueskymodelground_transmittance_interpolate_wavelength
    (state : ArPragueSkyModelGroundState) (visibility altitude wavelength_low
      wavelength_inc : Int) (wavelength_w : ℚ) (coefficients : List ℚ) : Option (List ℚ) :=
  let wll : DoublePtr :=
    arpragueskymodelground_transmittance_coefs_index state visibility altitude wavelength_low
  let wlu : DoublePtr :=
    arpragueskymodelground_transmittance_coefs_index state visibility altitude
      (wavelength_low + wavelength_inc)
  arpragueskymodelground_transmittance_interpolate_wavelength_loop wll wlu wavelength_w
    state.trans_rank.toNat 0 coefficients

/-- The innermost loop of `arpragueskymodelground_calc_transmittance_svd_altitude`
(over the rank index `i`), on the array `t`. -/
def arpragueskymodelground_calc_transmittance_svd_altitude_loop_i
    (state : ArPragueSkyModelGroundState) (altitude al dl : Int)
    (interpolated_coefficients : List ℚ) (index : Int) : Nat → Int → List ℚ → Option (List ℚ)
  | 0, _, t => some t
  | n + 1, i, t => do
    let tv ← read_at t index
    let u ← read_at state.transmission_dataset_U
      ((altitude * state.trans_n_a * state.trans_n_d * state.trans_rank) +
        (((dl * state.trans_n_a) + al) * state.trans_rank) + i)
    let c ← read_at interpolated_coefficients i
    let t1 ← write_at t index (tv + (u * c))
    arpragueskymodelground_calc_transmittance_svd_altitude_loop_i state altitude al dl
      interpolated_coefficients index n (i + 1) t1

/-- The middle loop of `arpragueskymodelground_calc_transmittance_svd_altitude`
(over `dl`), on the array `t` and the counter `index`. -/
def arpragueskymodelground_calc_transmittance_svd_altitude_loop_dl
    (state : ArPragueSkyModelGroundState) (altitude al : Int)
    (interpolated_coefficients : List ℚ) : Nat → Int → List ℚ × Int → Option (List ℚ × Int)
  | 0, _, s => some s
  | n + 1, dl, s => do
    let t1 ← arpragueskymodelground_calc_transmittance_svd_altitude_loop_i state altitude al dl
      interpolated_coefficients s.2 state.trans_rank.toNat 0 s.1
    arpragueskymodelground_calc_transmittance_svd_altitude_loop_dl state altitude al
      interpolated_coefficients n (dl + 1) (t1, s.2 + 1)

/-- The outer loop of `arpragueskymodelground_calc_transmittance_svd_altitude`
(over `al`); `d_int ≤ dl ≤ d_int + d_inc` takes `d_inc + 1` rounds. -/
def arpragueskymodelground_calc_transmittance_svd_altitude_loop_al
    (state : ArPragueSkyModelGroundState) (altitude d_int d_inc : Int)
    (interpolated_coefficients : List ℚ) : Nat → Int → List ℚ × Int → Option (List ℚ × Int)
  | 0, _, s => some s
  | n + 1, al, s => do
    let s1 ← arpragueskymodelground_calc_transmittance_svd_altitude_loop_dl state altitude al
      interpolated_coefficients (d_inc + 1).toNat d_int s
    arpragueskymodelground_calc_transmittance_svd_altitude_loop_al state altitude d_int d_inc
      interpolated_coefficients n (al + 1) s1

/-- The function `arpragueskymodelground_calc_transmittance_svd_altitude`. The
array `t` has 4 entries, `interpolated_coefficients` has 12 (their content
before the first write plays no role). -/
def arpragueskymodelground_calc_transmittance_svd_altitude
    (state : ArPragueSkyModelGroundState) (visibility altitude wavelength_low
      wavelength_inc : Int) (wavelength_factor : ℚ) (a_int d_int a_inc d_inc : Int)
    (wa wd : ℚ) : Option ℚ := do
  let t : List ℚ := [0, 0, 0, 0]
  let interpolated_coefficients ← arpragueskymodelground_transmittance_interpolate_wavelength
    state visibility altitude wavelength_low wavelength_inc wavelength_factor
    (List.replicate 12 0)
  let s ← arpragueskymodelground_calc_transmittance_svd_altitude_loop_al state altitude d_int
    d_inc interpolated_coefficients (a_inc + 1).toNat a_int (t, 0)
  let t1 : List ℚ := s.1
  let t2 ← if d_inc = 1 then do
      let t0 ← read_at t1 0
      let t1v ← read_at t1 1
      let ta ← write_at t1 0 (arpragueskymodelground_lerp t0 t1v wd)
      let t2v ← read_at ta 2
      let t3v ← read_at ta 3
      write_at ta 1 (arpragueskymodelground_lerp t2v t3v wd)
    else some t1
  let t3 ← if a_inc = 1 then do
      let t0 ← read_at t2 0
      let t1v ← read_at t2 1
      write_at t2 0 (arpragueskymodelground_lerp t0 t1v wa)
    else some t2
  read_at t3 0

/-- The function `arpragueskymodelground_nonlinlerp`. -/
def arpragueskymodelground_nonlinlerp (m : LibM) (a b w p : ℚ) : ℚ :=
  let c1 : ℚ := m.pow a p
  let c2 : ℚ := m.pow b p
  (m.pow w p - c1) / (c2 - c1)

/-- The function `arpragueskymodelground_calc_transmittance_svd`. -/
def arpragueskymodelground_calc_transmittance_svd (m : LibM)
    (state : ArPragueSkyModelGroundState) (a d : ℚ) (visibility wavelength_low
      wavelength_inc : Int) (wavelength_factor : ℚ) (altitude_low altitude_inc : Int)
    (altitude_factor : ℚ) : Option ℚ := do
  let a_int0 : Int := ⌊a * (state.trans_n_a : ℚ)⌋
  let d_int0 : Int := ⌊d * (state.trans_n_d : ℚ)⌋
  let a_sel : Int × Int × ℚ :=
    if a_int0 < state.trans_n_a - 1 then
      (a_int0, 1, arpragueskymodelground_nonlinlerp m ((a_int0 : ℚ) / (state.trans_n_a : ℚ))
        (((a_int0 + 1 : ℤ) : ℚ) / (state.trans_n_a : ℚ)) a 3)
    else (state.trans_n_a - 1, 0, 0)
  let d_sel : Int × Int × ℚ :=
    if d_int0 < state.trans_n_d - 1 then
      (d_int0, 1, arpragueskymodelground_nonlinlerp m ((d_int0 : ℚ) / (state.trans_n_d : ℚ))
        (((d_int0 + 1 : ℤ) : ℚ) / (state.trans_n_d : ℚ)) d 4)
    else (state.trans_n_d - 1, 0, 0)
  let a_int : Int := a_sel.1
  let a_inc : Int := a_sel.2.1
  let d_int : Int := d_sel.1
  let d_inc : Int := d_sel.2.1
  let wa1 : ℚ := if a_sel.2.2 < 0 then 0 else a_sel.2.2
  let wa : ℚ := if wa1 > 1 then 1 else wa1
  let wd1 : ℚ := if d_sel.2.2 < 0 then 0 else d_sel.2.2
  let wd : ℚ := if wd1 > 1 then 1 else wd1
  let trans0 ← arpragueskymodelground_calc_transmittance_svd_altitude state visibility
    altitude_low wavelength_low wavelength_inc wavelength_factor a_int d_int a_inc d_inc wa wd
  if altitude_inc = 1 then do
    let trans1 ← arpragueskymodelground_calc_transmittance_svd_altitude state visibility
      (altitude_low + altitude_inc) wavelength_low wavelength_inc wavelength_factor a_int d_int
      a_inc d_inc wa wd
    some (arpragueskymodelground_lerp trans0 trans1 altitude_factor)
  else some trans0

/-- The loop of `arpragueskymodelground_find_in_array` with the given number of
remaining rounds, at index `i`; the result is `(*index, *inc, *w)`. When the
loop ends without a `return`, `*index` and `*w` were never assigned: `none`. -/
def arpragueskymodelground_find_in_array_loop (arr : List ℚ) (value : ℚ) :
    Nat → Int → Option (Int × Int × ℚ)
  | 0, _ => none
  | n + 1, i => do
    let ai ← read_at arr i
    if value < ai then do
      let prev ← read_at arr (i - 1)
      some (i - 1, 1, (value - prev) / (ai - prev))
    else arpragueskymodelground_find_in_array_loop arr value n (i + 1)

/-- The function `arpragueskymodelground_find_in_array`: the triple
`(*index, *inc, *w)`. The loop `for (int i = 1; i < arrLength; i++)` takes
`arrLength - 1` rounds. -/
def arpragueskymodelground_find_in_array (arr : List ℚ) (arrLength : Int) (value : ℚ) :
    Option (Int × Int × ℚ) := do
  let first ← read_at arr 0
  if value ≤ first then some (0, 0, 1)
  else do
    let last ← read_at arr (arrLength - 1)
    if value ≥ last then some (arrLength - 1, 0, 0)
    else arpragueskymodelground_find_in_array_loop arr value (arrLength - 1).toNat 1

/-- The function `arpragueskymodelground_transmittance`, with exact
arithmetic: every value is a rational number and no operation overflows. The
same code with the infinities and NaN of floating-point arithmetic is
`arpragueskymodelground_transmittance_ieee`. -/
def arpragueskymodelground_transmittance (m : LibM) (state : ArPragueSkyModelGroundState)
    (theta wavelength distance : ℚ) : Option ℚ :=
  let wavelength_norm : ℚ := (wavelength - state.channel_start) / state.channel_width
  if wavelength_norm ≥ (state.channels : ℚ) ∨ wavelength_norm < 0 then some 0
  else do
    let wavelength_low : Int := c_int_cast wavelength_norm
    let wavelength_factor : ℚ := 0
    let wavelength_inc : Int := if wavelength_low < 10 then 1 else 0
    let altitude_low : Int := 0
    let altitude_factor : ℚ := 0
    let altitude_inc : Int := 0
    let vis ← arpragueskymodelground_find_in_array state.transmission_visibilities
      state.trans_visibilities state.visibility
    let vis_low : Int := vis.1
    let vis_inc : Int := vis.2.1
    let vis_factor : ℚ := vis.2.2
    let ad ← arpragueskymodelground_toAD m theta distance 0
    let trans_low ← arpragueskymodelground_calc_transmittance_svd m state ad.1 ad.2 vis_low
      wavelength_low wavelength_inc wavelength_factor altitude_low altitude_inc altitude_factor
    let trans_high ← arpragueskymodelground_calc_transmittance_svd m state ad.1 ad.2
      (vis_low + vis_inc) wavelength_low wavelength_inc wavelength_factor altitude_low
      altitude_inc altitude_factor
    let trans0 : ℚ := arpragueskymodelground_lerp trans_low trans_high vis_factor
    let trans1 : ℚ := if trans0 < 0 then 0 else (if trans0 > 1 then 1 else trans0)
    let trans2 : ℚ := trans1 * trans1
    some trans2

/-! ## A small model for concrete evaluation -/

/-- A model state with one visibility, albedo, altitude and channel, two
elevations, one tensor component and two breakpoints on each of the three
breakpoint axes; the offsets, strides and sizes are those that
`arpragueskymodelground_read_radiance` computes from these counts. -/
def sample_state : ArPragueSkyModelGroundState where
  visibilities := 1
  visibility_vals := [50]
  albedos := 1
  albedo_vals := [0]
  altitudes := 1
  altitude_vals := [0]
  elevations := 2
  elevation_vals := [0, 10]
  channels := 1
  channel_start := 320
  channel_width := 40
  tensor_components := 1
  sun_nbreaks := 2
  sun_offset := 0
  sun_stride := 4
  sun_breaks := [0, 4]
  zenith_nbreaks := 2
  zenith_offset := 2
  zenith_stride := 4
  zenith_breaks := [0, 4]
  emph_nbreaks := 2
  emph_offset := 4
  emph_breaks := [0, 4]
  total_coefs_single_config := 6
  total_coefs_all_configs := 12
  total_configs := 2
  radiance_dataset := [1, 2, 0, 3, 0, 1, 1, 4, 0, 3, 0, -1]
  trans_n_a := 1
  trans_n_d := 1
  trans_visibilities := 1
  trans_altitudes := 1
  trans_rank := 1
  transmission_altitudes := [0]
  transmission_visibilities := [50]
  transmission_dataset_U := [1]
  transmission_dataset_V := [1, 1, 1, 1, 1, 1, 1, 1, 1, 1, 1]
  elevation := 0
  visibility := 50
  albedo := 0

/-- The state `sample_state` with the two elevation grid values `0` and `5e-7`
degrees, less than `1e-6` apart, and the configured elevation at the second
grid value. -/
def sample_state_close : ArPragueSkyModelGroundState :=
  { sample_state with
    elevation_vals := [0, 1 / 2000000]
    elevation := 1 / 2000000 * (MATH_PI / 180) }

/-- The state `sample_state` with the configured elevation at 5 degrees, the
midpoint of its two elevation grid values `0` and `10`. -/
def sample_state_mid : ArPragueSkyModelGroundState :=
  { sample_state with elevation := 5 * (MATH_PI / 180) }

/-- A mathematical library for concrete evaluation: it is exact on the
arguments met when looking straight up (`theta = 0`) from the ground over the
distance 0 (`sin 0 = 0`, `cos 0 = 1`, `acos 1 = 0`, the two square roots taken
there, powers of 0 and 1). -/
def sample_libm : LibM where
  sin := fun _ => 0
  cos := fun _ => 1
  acos := fun _ => 0
  sqrt := fun x =>
    if x = 4 * (6478000 * 6478000) then 2 * 6478000
    else if x = 6378000 * 6378000 then 6378000 else 0
  pow := fun x _ => if x = 0 then 0 else 1

/-- The state `sample_state` with the single entry of `transmission_dataset_U`
negative: every bucket lookup is `-1/2`. -/
def sample_state_neg : ArPragueSkyModelGroundState :=
  { sample_state with transmission_dataset_U := [-1 / 2] }

/-- The state `sample_state` with the first two wavelength buckets of
`transmission_dataset_V` different (`1/2` and `1`). -/
def sample_state_step : ArPragueSkyModelGroundState :=
  { sample_state with transmission_dataset_V := [1 / 2, 1, 1, 1, 1, 1, 1, 1, 1, 1, 1] }

/-- The state `sample_state` with a 2 x 2 grid of transmittance coordinates
(`trans_n_a = trans_n_d = 2`, rank 1): the four U rows are `1, 2, 3, 4`. -/
def sample_state_grid : ArPragueSkyModelGroundState :=
  { sample_state with
    trans_n_a := 2
    trans_n_d := 2
    transmission_dataset_U := [1, 2, 3, 4] }

/-! ## Solar radiance -/

/-- The constant `PSMG_SUN_RAD_START_WL`. -/
def PSMG_SUN_RAD_START_WL : ℚ := 310

/-- The constant `PSMG_SUN_RAD_INC_WL`. -/
def PSMG_SUN_RAD_INC_WL : ℚ := 1

/-- The constant array `PSMG_SUN_RAD_TABLE`, entry by entry as written in the
source. -/
def PSMG_SUN_RAD_TABLE : List ℚ :=
  [9829.41, 10184, 10262.6, 10375.7, 10276, 10179.3, 10156.6, 10750.7, 11134, 11463.6, 11860.4,
    12246.2, 12524.4, 12780, 13187.4, 13632.4, 13985.9, 13658.3, 13377.4, 13358.3, 13239,
    13119.8, 13096.2, 13184, 13243.5, 13018.4, 12990.4, 13159.1, 13230.8, 13258.6, 13209.9,
    13343.2, 13404.8, 13305.4, 13496.3, 13979.1, 14153.8, 14188.4, 14122.7, 13825.4, 14033.3,
    13914.1, 13837.4, 14117.2, 13982.3, 13864.5, 14118.4, 14545.7, 15029.3, 15615.3, 15923.5,
    16134.8, 16574.5, 16509, 16336.5, 16146.6, 15965.1, 15798.6, 15899.8, 16125.4, 15854.3,
    15986.7, 15739.7, 15319.1, 15121.5, 15220.2, 15041.2, 14917.7, 14487.8, 14011, 14165.7,
    14189.5, 14540.7, 14797.5, 14641.5, 14761.6, 15153.7, 14791.8, 14907.6, 15667.4, 16313.5,
    16917, 17570.5, 18758.1, 20250.6, 21048.1, 21626.1, 22811.6, 23577.2, 23982.6, 24062.1,
    23917.9, 23914.1, 23923.2, 24052.6, 24228.6, 24360.8, 24629.6, 24774.8, 24648.3, 24666.5,
    24938.6, 24926.3, 24693.1, 24613.5, 24631.7, 24569.8, 24391.5, 24245.7, 24084.4, 23713.7,
    22985.4, 22766.6, 22818.9, 22834.3, 22737.9, 22791.6, 23086.3, 23377.7, 23461, 23935.5,
    24661.7, 25086.9, 25520.1, 25824.3, 26198, 26350.2, 26375.4, 26731.2, 27250.4, 27616,
    28145.3, 28405.9, 28406.8, 28466.2, 28521.5, 28783.8, 29025.1, 29082.6, 29081.3, 29043.1,
    28918.9, 28871.6, 29049, 29152.5, 29163.2, 29143.4, 28962.7, 28847.9, 28854, 28808.7,
    28624.1, 28544.2, 28461.4, 28411.1, 28478, 28469.8, 28513.3, 28586.5, 28628.6, 28751.5,
    28948.9, 29051, 29049.6, 29061.7, 28945.7, 28672.8, 28241.5, 27903.2, 27737, 27590.9,
    27505.6, 27270.2, 27076.2, 26929.1, 27018.2, 27206.8, 27677.2, 27939.9, 27923.9, 27899.2,
    27725.4, 27608.4, 27599.4, 27614.6, 27432.4, 27460.4, 27392.4, 27272, 27299.1, 27266.8,
    27386.5, 27595.9, 27586.9, 27504.8, 27480.6, 27329.8, 26968.4, 26676.3, 26344.7, 26182.5,
    26026.3, 25900.3, 25842.9, 25885.4, 25986.5, 26034.5, 26063.5, 26216.9, 26511.4, 26672.7,
    26828.5, 26901.8, 26861.5, 26865.4, 26774.2, 26855.8, 27087.1, 27181.3, 27183.1, 27059.8,
    26834.9, 26724.3, 26759.6, 26725.9, 26724.6, 26634.5, 26618.5, 26560.1, 26518.7, 26595.3,
    26703.2, 26712.7, 26733.9, 26744.3, 26764.4, 26753.2, 26692.7, 26682.7, 26588.1, 26478,
    26433.7, 26380.7, 26372.9, 26343.3, 26274.7, 26162.3, 26160.5, 26210, 26251.2, 26297.9,
    26228.9, 26222.3, 26269.7, 26295.6, 26317.9, 26357.5, 26376.1, 26342.4, 26303.5, 26276.7,
    26349.2, 26390, 26371.6, 26346.7, 26327.6, 26274.2, 26247.3, 26228.7, 26152.1, 25910.3,
    25833.2, 25746.5, 25654.3, 25562, 25458.8, 25438, 25399.1, 25324.3, 25350, 25514, 25464.9,
    25398.5, 25295.2, 25270.2, 25268.4, 25240.6, 25184.9, 25149.6, 25123.9, 25080.3, 25027.9,
    25012.3, 24977.9, 24852.6, 24756.4, 24663.5, 24483.6, 24398.6, 24362.6, 24325.1, 24341.7,
    24288.7, 24284.2, 24257.3, 24178.8, 24097.6, 24175.6, 24175.7, 24139.7, 24088.1, 23983.2,
    23902.7, 23822.4, 23796.2, 23796.9, 23814.5, 23765.5, 23703, 23642, 23592.6, 23552, 23514.6,
    23473.5, 23431, 23389.3, 23340, 23275.1, 23187.3, 23069.5, 22967, 22925.3, 22908.9, 22882.5,
    22825, 22715.4, 22535.5, 22267.1, 22029.4, 21941.6, 21919.5, 21878.8, 21825.6, 21766,
    21728.9, 21743.2, 21827.1, 21998.7, 22159.4, 22210, 22187.2, 22127.2, 22056.2, 22000.2,
    21945.9, 21880.2, 21817.1, 21770.3, 21724.3, 21663.2, 21603.3, 21560.4, 21519.8, 21466.2,
    21401.6, 21327.7, 21254.2, 21190.7, 21133.6, 21079.3, 21024, 20963.7, 20905.5, 20856.6,
    20816.6, 20785.2, 20746.7, 20685.3, 20617.8, 20561.1, 20500.4, 20421.2, 20333.4, 20247,
    20175.3, 20131.4, 20103.2, 20078.5, 20046.8, 19997.2, 19952.9, 19937.2, 19930.8, 19914.4,
    19880.8, 19823, 19753.8, 19685.9, 19615.3, 19537.5, 19456.8, 19377.6, 19309.4, 19261.9,
    19228, 19200.5, 19179.5, 19164.8, 19153.1, 19140.6, 19129.2, 19120.6, 19104.5, 19070.6,
    19023.9, 18969.3, 18911.4, 18855, 18798.6, 18740.8, 18672.7, 18585.2, 18501, 18442.4,
    18397.5, 18353.9, 18313.2, 18276.8, 18248.3, 18231.2, 18224, 18225.4, 18220.1, 18192.6,
    18155.1, 18119.8, 18081.6, 18035.6, 17987.4, 17942.8, 17901.7, 17864.2, 17831.1, 17802.9,
    17771.5, 17728.6, 17669.7, 17590.1, 17509.5, 17447.4, 17396, 17347.4, 17300.3, 17253.2,
    17206.1, 17159, 17127.6, 17127.6, 17133.6, 17120.4, 17097.2, 17073.3, 17043.7, 17003.4,
    16966.3, 16946.3, 16930.9, 16907.7, 16882.7, 16862, 16837.8, 16802.1, 16759.2, 16713.6,
    16661.8, 16600.8, 16542.6, 16499.4, 16458.7, 16408, 16360.6, 16329.5, 16307.4, 16286.7,
    16264.9, 16239.6, 16207.8, 16166.8, 16118.2, 16064, 16011.2, 15966.9, 15931.9, 15906.9,
    15889.1, 15875.5, 15861.2, 15841.3, 15813.1, 15774.2, 15728.8, 15681.4, 15630, 15572.9,
    15516.5, 15467.2, 15423, 15381.6, 15354.4, 15353, 15357.3, 15347.3, 15320.2, 15273.1, 15222,
    15183.1, 15149.6, 15114.6, 15076.8, 15034.6, 14992.9]

/-- The macro `MATH_HUGE_DOUBLE` (`5.78960446186580977117855E+76`). -/
def MATH_HUGE_DOUBLE : ℚ := 578960446186580977117855 * 10 ^ 53

/-- The local `sun_radiance` of `arpragueskymodelground_solar_radiance` when
the transmittance is about to be computed: `0.0`, or the blend of two entries
of the table when `wl_idx >= 0.0`. -/
def arpragueskymodelground_solar_radiance_sun_radiance (wavelength : ℚ) : Option ℚ :=
  let wl_idx : ℚ := (wavelength - PSMG_SUN_RAD_START_WL) / PSMG_SUN_RAD_INC_WL
  if wl_idx ≥ 0 then do
    let wl_idx_low : Int := ⌊wl_idx⌋
    let wl_idx_float : ℚ := wl_idx - ((⌊wl_idx⌋ : ℤ) : ℚ)
    let low ← read_at PSMG_SUN_RAD_TABLE wl_idx_low
    let high ← read_at PSMG_SUN_RAD_TABLE (wl_idx_low + 1)
    some (low * (1 - wl_idx_float) + high * wl_idx_float)
  else some 0

/-- The function `arpragueskymodelground_solar_radiance`. -/
def arpragueskymodelground_solar_radiance (m : LibM) (state : ArPragueSkyModelGroundState)
    (theta wavelength : ℚ) : Option ℚ := do
  let sun_radiance ← arpragueskymodelground_solar_radiance_sun_radiance wavelength
  let tau ← arpragueskymodelground_transmittance m state theta wavelength MATH_HUGE_DOUBLE
  some (sun_radiance * tau)

/-- The state `sample_state` with a single channel of width 600 nm, from 320 nm
to 920 nm. -/
def sample_state_wide : ArPragueSkyModelGroundState :=
  { sample_state with channel_width := 600 }

/-- A mathematical library for concrete evaluation, exact on the arguments met
when looking straight up (`theta = 0`) from the ground to the edge of the
atmosphere. -/
def sample_libm_far : LibM where
  sin := fun _ => 0
  cos := fun _ => 1
  acos := fun _ => 0
  sqrt := fun x =>
    if x = 4 * (6478000 * 6478000) then 2 * 6478000
    else if x = 6478000 * 6478000 then 6478000 else 0
  pow := fun x _ => if x = 0 then 0 else 1

/-! ## Angles -/

/-- The local array `sun_direction` of `arpragueskymodelground_compute_angles`,
over any number type with its cosine and sine. -/
def arpragueskymodelground_compute_angles_sun_direction {α : Type} [Mul α] (cos sin : α → α)
    (sun_elevation sun_azimuth : α) : α × α × α :=
  (cos sun_azimuth * cos sun_elevation, sin sun_azimuth * cos sun_elevation, sin sun_elevation)

/-- The local array `shadow_direction` of
`arpragueskymodelground_compute_angles`, over any number type with its cosine
and sine; `half_pi` stands for `MATH_PI * 0.5`. -/
def arpragueskymodelground_compute_angles_shadow_direction {α : Type} [Mul α] [Add α]
    (cos sin : α → α) (half_pi sun_elevation sun_azimuth : α) : α × α × α :=
  let shadow_angle : α := sun_elevation + half_pi
  (cos shadow_angle * cos sun_azimuth, cos shadow_angle * sin sun_azimuth, sin shadow_angle)

/-- The dot products `view_direction[0] * d[0] + view_direction[1] * d[1] +
view_direction[2] * d[2]` of `arpragueskymodelground_compute_angles`. -/
def arpragueskymodelground_compute_angles_dot {α : Type} [Mul α] [Add α] (v d : α × α × α) : α :=
  v.1 * d.1 + v.2.1 * d.2.1 + v.2.2 * d.2.2

/-- The function `arpragueskymodelground_compute_angles`: the triple
`(*theta, *gamma, *shadow)`. -/
def arpragueskymodelground_compute_angles (m : LibM) (sun_elevation sun_azimuth : ℚ)
    (view_direction up_direction : List ℚ) : Option (ℚ × ℚ × ℚ) := do
  let v0 ← read_at view_direction 0
  let u0 ← read_at up_direction 0
  let v1 ← read_at view_direction 1
  let u1 ← read_at up_direction 1
  let v2 ← read_at view_direction 2
  let u2 ← read_at up_direction 2
  let cosTheta : ℚ := arpragueskymodelground_compute_angles_dot (v0, v1, v2) (u0, u1, u2)
  let theta : ℚ := m.acos cosTheta
  let sun_direction : ℚ × ℚ × ℚ :=
    arpragueskymodelground_compute_angles_sun_direction m.cos m.sin sun_elevation sun_azimuth
  let cosGamma : ℚ := arpragueskymodelground_compute_angles_dot (v0, v1, v2) sun_direction
  let gamma : ℚ := m.acos cosGamma
  let shadow_direction : ℚ × ℚ × ℚ :=
    arpragueskymodelground_compute_angles_shadow_direction m.cos m.sin (MATH_PI * (1 / 2))
      sun_elevation sun_azimuth
  let cosShadow : ℚ := arpragueskymodelground_compute_angles_dot (v0, v1, v2) shadow_direction
  let shadow : ℚ := m.acos cosShadow
  some (theta, gamma, shadow)

/-! ## The configurations that the cascade evaluates -/

/-- The five grid indices that `arpragueskymodelground_control_params_single_config`
is called with, in the order of its parameters. -/
structure GridConfig where
  elevation : Int
  altitude : Int
  visibility : Int
  albedo : Int
  wavelength : Int

/-- The grid configurations at which `arpragueskymodelground_interpolate_elevation`
calls `arpragueskymodelground_control_params_single_config` and
`arpragueskymodelground_reconstruct`, in the order of the calls. -/
def arpragueskymodelground_interpolate_elevation_calls (state : ArPragueSkyModelGroundState)
    (elevation : ℚ) (altitude visibility albedo wavelength : Int) : List GridConfig :=
  let elevation_low : Int := c_int_cast elevation
  let factor : ℚ := elevation - (elevation_low : ℚ)
  ⟨elevation_low, altitude, visibility, albedo, wavelength⟩ ::
    (if factor < 1 / 1000000 ∨ elevation_low ≥ state.elevations - 1 then []
    else [⟨elevation_low + 1, altitude, visibility, albedo, wavelength⟩])

/-- The grid configurations evaluated under
`arpragueskymodelground_interpolate_altitude`, in the order of the calls. -/
def arpragueskymodelground_interpolate_altitude_calls (state : ArPragueSkyModelGroundState)
    (elevation altitude : ℚ) (visibility albedo wavelength : Int) : List GridConfig :=
  let altitude_low : Int := c_int_cast altitude
  let factor : ℚ := altitude - (altitude_low : ℚ)
  arpragueskymodelground_interpolate_elevation_calls state elevation altitude_low visibility
      albedo wavelength ++
    (if factor < 1 / 1000000 ∨ altitude_low ≥ state.altitudes - 1 then []
    else arpragueskymodelground_interpolate_elevation_calls state elevation (altitude_low + 1)
      visibility albedo wavelength)

/-- The grid configurations evaluated under
`arpragueskymodelground_interpolate_visibility`, in the order of the calls. -/
def arpragueskymodelground_interpolate_visibility_calls (state : ArPragueSkyModelGroundState)
    (elevation altitude visibility : ℚ) (albedo wavelength : Int) : List GridConfig :=
  let visibility_low : Int := c_int_cast visibility
  let factor : ℚ := visibility - (visibility_low : ℚ)
  arpragueskymodelground_interpolate_altitude_calls state elevation altitude visibility_low
      albedo wavelength ++
    (if factor < 1 / 1000000 ∨ visibility_low ≥ state.visibilities - 1 then []
    else arpragueskymodelground_interpolate_altitude_calls state elevation altitude
      (visibility_low + 1) albedo wavelength)

/-- The grid configurations evaluated under
`arpragueskymodelground_interpolate_albedo`, in the order of the calls. -/
def arpragueskymodelground_interpolate_albedo_calls (state : ArPragueSkyModelGroundState)
    (elevation altitude visibility albedo : ℚ) (wavelength : Int) : List GridConfig :=
  let albedo_low : Int := c_int_cast albedo
  let factor : ℚ := albedo - (albedo_low : ℚ)
  arpragueskymodelground_interpolate_visibility_calls state elevation altitude visibility
      albedo_low wavelength ++
    (if factor < 1 / 1000000 ∨ albedo_low ≥ state.albedos - 1 then []
    else arpragueskymodelground_interpolate_visibility_calls state elevation altitude visibility
      (albedo_low + 1) wavelength)

/-- The grid configurations evaluated under
`arpragueskymodelground_interpolate_wavelength`. -/
def arpragueskymodelground_interpolate_wavelength_calls (state : ArPragueSkyModelGroundState)
    (elevation altitude visibility albedo wavelength : ℚ) : List GridConfig :=
  arpragueskymodelground_interpolate_albedo_calls state elevation altitude visibility albedo
    (c_int_cast wavelength)

/-- The grid configurations at which `arpragueskymodelground_sky_radiance`
has `arpragueskymodelground_reconstruct` called, in the order of the calls
(`none` where the function itself is not defined before the cascade). -/
def arpragueskymodelground_sky_radiance_calls (state : ArPragueSkyModelGroundState)
    (theta gamma shadow wavelength : ℚ) : Option (List GridConfig) := do
  let visibility_control ← arpragueskymodelground_map_parameter state.visibility
    state.visibilities state.visibility_vals
  let albedo_control ← arpragueskymodelground_map_parameter state.albedo state.albedos
    state.albedo_vals
  let altitude_control ← arpragueskymodelground_map_parameter 0 state.altitudes
    state.altitude_vals
  let elevation_control ← arpragueskymodelground_map_parameter
    (state.elevation * MATH_RAD_TO_DEG) state.elevations state.elevation_vals
  let channel_control : ℚ := (wavelength - state.channel_start) / state.channel_width
  if channel_control ≥ (state.channels : ℚ) ∨ channel_control < 0 then some []
  else do
    let alpha : ℚ := if state.elevation < 0 then shadow else theta
    let _ ← arpragueskymodelground_find_segment gamma state.sun_nbreaks state.sun_breaks
    let _ ← arpragueskymodelground_find_segment alpha state.zenith_nbreaks state.zenith_breaks
    let _ ← arpragueskymodelground_find_segment theta state.emph_nbreaks state.emph_breaks
    some (arpragueskymodelground_interpolate_wavelength_calls state elevation_control
      altitude_control visibility_control albedo_control channel_control)

/-- The grid configuration `c` lies on the grid of `state`: each index is at
least 0 and at most its count less one. -/
def GridConfig.on_grid (state : ArPragueSkyModelGroundState) (c : GridConfig) : Prop :=
  (0 ≤ c.elevation ∧ c.elevation ≤ state.elevations - 1) ∧
  (0 ≤ c.altitude ∧ c.altitude ≤ state.altitudes - 1) ∧
  (0 ≤ c.visibility ∧ c.visibility ≤ state.visibilities - 1) ∧
  (0 ≤ c.albedo ∧ c.albedo ≤ state.albedos - 1) ∧
  (0 ≤ c.wavelength ∧ c.wavelength ≤ state.channels - 1)

/-- The result of the call of `arpragueskymodelground_reconstruct` that the
cascade makes for the grid configuration `c`. -/
def GridConfig.reconstruct (state : ArPragueSkyModelGroundState) (gamma alpha theta : ℚ)
    (gamma_segment alpha_segment theta_segment : Int) (c : GridConfig) : Option ℚ :=
  arpragueskymodelground_reconstruct state gamma alpha theta gamma_segment alpha_segment
    theta_segment (arpragueskymodelground_control_params_single_config state
      state.radiance_dataset state.total_coefs_single_config c.elevation c.altitude
      c.visibility c.albedo c.wavelength)

/-! ## The loader -/

/-- A byte of the data file. -/
abbrev Byte := Fin 256

/-- The values that the records of the data file stand for in memory: the
loader copies each record as it is (`fread`) into an `int`, a `double`, an
`unsigned short` or a `float`, so the layout of these types on the platform
decides. -/
structure ScalarLayout where
  int_value : List Byte → Int
  double_value : List Byte → ℚ
  ushort_value : List Byte → UShort
  float_value : List Byte → ℚ

/-- The size `sizeof(int)`. -/
def sizeof_int : Nat := 4

/-- The size `sizeof(double)`. -/
def sizeof_double : Nat := 8

/-- The size `sizeof(unsigned short)`. -/
def sizeof_unsigned_short : Nat := 2

/-- The size `sizeof(float)`. -/
def sizeof_float : Nat := 4

/-- The library function `fread(ptr, size, count, handle)` on the bytes of the
stream that are still to be read: the complete records that it stores, `count`
of them unless the stream ends before, and the bytes that remain. -/
def fread (size : Nat) : Nat → List Byte → List (List Byte) × List Byte
  | 0, stream => ([], stream)
  | count + 1, stream =>
    if size ≤ stream.length then
      (stream.take size :: (fread size count (stream.drop size)).1,
        (fread size count (stream.drop size)).2)
    else ([], [])

/-- The ways in which a run of the loader ends without a return: `exit` is the
call of `arpragueskymodelground_print_error_and_exit` with its message (the
message goes to `stderr` and the process ends with `exit(-1)`), `undefined` is
a step whose behaviour C leaves undefined. -/
inductive Abort where
  | exit (message : String)
  | undefined

/-- A step of the model that returns `none` is a step with undefined
behaviour. -/
def defined_or_abort {α : Type} : Option α → Except Abort α
  | some a => Except.ok a
  | none => Except.error Abort.undefined

/-- The statements `vals_read = fread(&x, sizeof(int), 1, handle);
if (vals_read != 1 || x < minimum) arpragueskymodelground_print_error_and_exit(message);`
of the loader: the value `x` and the rest of the stream. -/
def read_int_field (L : ScalarLayout) (minimum : Int) (message : String) (stream : List Byte) :
    Except Abort (Int × List Byte) :=
  let r := fread sizeof_int 1 stream
  let vals_read : Int := (r.1.length : ℤ)
  let x : Int := L.int_value (r.1.headD [])
  if vals_read ≠ 1 ∨ x < minimum then Except.error (Abort.exit message)
  else Except.ok (x, r.2)

/-- The statements `vals_read = fread(&x, sizeof(double), 1, handle);
if (vals_read != 1 || rejected(x)) arpragueskymodelground_print_error_and_exit(message);`
of the loader, where `rejected(x)` is `x < 0` for `channel_start`, `x <= 0` for
`channel_width` and absent for `zenith_scale`. -/
def read_double_field (L : ScalarLayout) (rejected : ℚ → Prop) [DecidablePred rejected]
    (message : String) (stream : List Byte) : Except Abort (ℚ × List Byte) :=
  let r := fread sizeof_double 1 stream
  let vals_read : Int := (r.1.length : ℤ)
  let x : ℚ := L.double_value (r.1.headD [])
  if vals_read ≠ 1 ∨ rejected x then Except.error (Abort.exit message)
  else Except.ok (x, r.2)

/-- The statements `vals_read = fread(array, size, count, handle);
if (vals_read != count) arpragueskymodelground_print_error_and_exit(message);`
of the loader: the array of `count` values and the rest of the stream. The
array is the result of `ALLOC_ARRAY` for `count` entries. A negative `count`
(a size that left the range of `int`) reaches `malloc` and `fread` as a
`size_t` close to `2^64`: no array is allocated and `fread` copies what is left
of the stream to the null pointer, which is undefined unless the stream is at
its end. -/
def read_records {α : Type} (value : List Byte → α) (size : Nat) (count : Int)
    (message : String) (stream : List Byte) : Except Abort (List α × List Byte) :=
  if count < 0 ∧ stream ≠ [] then Except.error Abort.undefined
  else
    let r := fread size count.toNat stream
    let vals_read : Int := (r.1.length : ℤ)
    if vals_read ≠ count then Except.error (Abort.exit message)
    else Except.ok (r.1.map value, r.2)

/-- The part `Read metadata` and `Calculate offsets and strides` of
`arpragueskymodelground_read_radiance`: the state and the rest of the
stream. The offsets, strides and sizes are `int` expressions of the counts
just read, each reduced to 32 bits (`int_wrap`). -/
def arpragueskymodelground_read_radiance_metadata (L : ScalarLayout)
    (state : ArPragueSkyModelGroundState) (stream : List Byte) :
    Except Abort (ArPragueSkyModelGroundState × List Byte) := do
  let visibilities ← read_int_field L 1 "Error reading sky model data: visibilities" stream
  let visibility_vals ← read_records L.double_value sizeof_double visibilities.1
    "Error reading sky model data: visibility_vals" visibilities.2
  let albedos ← read_int_field L 1 "Error reading sky model data: albedos" visibility_vals.2
  let albedo_vals ← read_records L.double_value sizeof_double albedos.1
    "Error reading sky model data: albedo_vals" albedos.2
  let altitudes ← read_int_field L 1 "Error reading sky model data: altitudes" albedo_vals.2
  let altitude_vals ← read_records L.double_value sizeof_double altitudes.1
    "Error reading sky model data: altitude_vals" altitudes.2
  let elevations ← read_int_field L 1 "Error reading sky model data: elevations"
    altitude_vals.2
  let elevation_vals ← read_records L.double_value sizeof_double elevations.1
    "Error reading sky model data: elevation_vals" elevations.2
  let channels ← read_int_field L 1 "Error reading sky model data: channels" elevation_vals.2
  let channel_start ← read_double_field L (fun x => x < 0)
    "Error reading sky model data: channel_start" channels.2
  let channel_width ← read_double_field L (fun x => x ≤ 0)
    "Error reading sky model data: channel_width" channel_start.2
  let tensor_components ← read_int_field L 1
    "Error reading sky model data: tensor_components" channel_width.2
  let sun_nbreaks ← read_int_field L 2 "Error reading sky model data: sun_nbreaks"
    tensor_components.2
  let sun_breaks ← read_records L.double_value sizeof_double sun_nbreaks.1
    "Error reading sky model data: sun_breaks" sun_nbreaks.2
  let zenith_nbreaks ← read_int_field L 2 "Error reading sky model data: zenith_nbreaks"
    sun_breaks.2
  let zenith_breaks ← read_records L.double_value sizeof_double zenith_nbreaks.1
    "Error reading sky model data: zenith_breaks" zenith_nbreaks.2
  let emph_nbreaks ← read_int_field L 2 "Error reading sky model data: emph_nbreaks"
    zenith_breaks.2
  let emph_breaks ← read_records L.double_value sizeof_double emph_nbreaks.1
    "Error reading sky model data: emph_breaks" emph_nbreaks.2
  let sun_offset : Int := 0
  let sun_stride : Int := int_wrap (2 * sun_nbreaks.1 - 2 + 2 * zenith_nbreaks.1 - 2)
  let zenith_offset : Int := int_wrap (sun_offset + 2 * sun_nbreaks.1 - 2)
  let zenith_stride : Int := sun_stride
  let emph_offset : Int := int_wrap (sun_offset + tensor_components.1 * sun_stride)
  let total_coefs_single_config : Int := int_wrap (emph_offset + 2 * emph_nbreaks.1 - 2)
  let total_configs : Int :=
    int_wrap (channels.1 * elevations.1 * altitudes.1 * albedos.1 * visibilities.1)
  let total_coefs_all_configs : Int := int_wrap (total_coefs_single_config * total_configs)
  Except.ok ({ state with
    visibilities := visibilities.1
    visibility_vals := visibility_vals.1
    albedos := albedos.1
    albedo_vals := albedo_vals.1
    altitudes := altitudes.1
    altitude_vals := altitude_vals.1
    elevations := elevations.1
    elevation_vals := elevation_vals.1
    channels := channels.1
    channel_start := channel_start.1
    channel_width := channel_width.1
    tensor_components := tensor_components.1
    sun_nbreaks := sun_nbreaks.1
    sun_breaks := sun_breaks.1
    zenith_nbreaks := zenith_nbreaks.1
    zenith_breaks := zenith_breaks.1
    emph_nbreaks := emph_nbreaks.1
    emph_breaks := emph_breaks.1
    sun_offset := sun_offset
    sun_stride := sun_stride
    zenith_offset := zenith_offset
    zenith_stride := zenith_stride
    emph_offset := emph_offset
    total_coefs_single_config := total_coefs_single_config
    total_configs := total_configs
    total_coefs_all_configs := total_coefs_all_configs }, emph_breaks.2)

/-- One round of the loop over `tc` of `arpragueskymodelground_read_radiance`,
on the rest of the stream, the buffer `radiance_dataset` and the counter
`offset`. The buffer `radiance_temp` is passed on as the records just read. -/
def arpragueskymodelground_read_radiance_component (L : ScalarLayout)
    (state : ArPragueSkyModelGroundState) (s : List Byte × List ℚ × Int) :
    Except Abort (List Byte × List ℚ × Int) := do
  let sun_scale : ℚ := 1
  let sun_coefs ← read_records L.ushort_value sizeof_unsigned_short state.sun_nbreaks
    "Error reading sky model data: sun_coefs" s.1
  let sun ← defined_or_abort (arpragueskymodelground_compute_pp_coefs_from_half
    state.sun_nbreaks state.sun_breaks sun_coefs.1 s.2.1 s.2.2 sun_scale)
  let offset1 : Int := s.2.2 + sun.2
  let zenith_scale ← read_double_field L (fun _ => False)
    "Error reading sky model data: zenith_scale" sun_coefs.2
  let zenith_coefs ← read_records L.ushort_value sizeof_unsigned_short state.zenith_nbreaks
    "Error reading sky model data: zenith_coefs" zenith_scale.2
  let zenith ← defined_or_abort (arpragueskymodelground_compute_pp_coefs_from_half
    state.zenith_nbreaks state.zenith_breaks zenith_coefs.1 sun.1 offset1 zenith_scale.1)
  Except.ok (zenith_coefs.2, zenith.1, offset1 + zenith.2)

/-- The loop over `tc` of `arpragueskymodelground_read_radiance`, with the
given number of remaining rounds. -/
def arpragueskymodelground_read_radiance_components_loop (L : ScalarLayout)
    (state : ArPragueSkyModelGroundState) :
    Nat → List Byte × List ℚ × Int → Except Abort (List Byte × List ℚ × Int)
  | 0, s => Except.ok s
  | n + 1, s => do
    let s1 ← arpragueskymodelground_read_radiance_component L state s
    arpragueskymodelground_read_radiance_components_loop L state n s1

/-- One round of the loop over `con` of `arpragueskymodelground_read_radiance`:
the `tensor_components` rounds over `tc`, then the emphasis coefficients. -/
def arpragueskymodelground_read_radiance_config (L : ScalarLayout)
    (state : ArPragueSkyModelGroundState) (s : List Byte × List ℚ × Int) :
    Except Abort (List Byte × List ℚ × Int) := do
  let s1 ← arpragueskymodelground_read_radiance_components_loop L state
    state.tensor_components.toNat s
  let emph_scale : ℚ := 1
  let emph_coefs ← read_records L.ushort_value sizeof_unsigned_short state.emph_nbreaks
    "Error reading sky model data: emph_coefs" s1.1
  let emph ← defined_or_abort (arpragueskymodelground_compute_pp_coefs_from_half
    state.emph_nbreaks state.emph_breaks emph_coefs.1 s1.2.1 s1.2.2 emph_scale)
  Except.ok (emph_coefs.2, emph.1, s1.2.2 + emph.2)

/-- The loop over `con` of `arpragueskymodelground_read_radiance`, with the
given number of remaining rounds. -/
def arpragueskymodelground_read_radiance_configs_loop (L : ScalarLayout)
    (state : ArPragueSkyModelGroundState) :
    Nat → List Byte × List ℚ × Int → Except Abort (List Byte × List ℚ × Int)
  | 0, s => Except.ok s
  | n + 1, s => do
    let s1 ← arpragueskymodelground_read_radiance_config L state s
    arpragueskymodelground_read_radiance_configs_loop L state n s1

/-- The part `Read data` of `arpragueskymodelground_read_radiance`: the rest of
the stream, the buffer `radiance_dataset` and the counter `offset` at the end.
The buffer is allocated with `total_coefs_all_configs` entries (their content
before the first write plays no role), with no entry when that size is
negative; the loop over `con` makes no round when `total_configs` is not
positive. The counter `offset` is exact: in a run that is defined it never
passes the number of entries of the buffer. -/
def arpragueskymodelground_read_radiance_data (L : ScalarLayout)
    (state : ArPragueSkyModelGroundState) (stream : List Byte) :
    Except Abort (List Byte × List ℚ × Int) :=
  arpragueskymodelground_read_radiance_configs_loop L state state.total_configs.toNat
    (stream, List.replicate state.total_coefs_all_configs.toNat 0, 0)

/-- The function `arpragueskymodelground_read_radiance`: the state and the
rest of the stream. -/
def arpragueskymodelground_read_radiance (L : ScalarLayout)
    (state : ArPragueSkyModelGroundState) (stream : List Byte) :
    Except Abort (ArPragueSkyModelGroundState × List Byte) := do
  let m ← arpragueskymodelground_read_radiance_metadata L state stream
  let d ← arpragueskymodelground_read_radiance_data L m.1 m.2
  Except.ok ({ m.1 with radiance_dataset := d.2.1 }, d.1)

/-- The function `arpragueskymodelground_read_transmittance`: the state and
the rest of the stream. The sizes `total_coefs_U` and `total_coefs_V` are `int`
expressions, reduced to 32 bits (`int_wrap`). -/
def arpragueskymodelground_read_transmittance (L : ScalarLayout)
    (state : ArPragueSkyModelGroundState) (stream : List Byte) :
    Except Abort (ArPragueSkyModelGroundState × List Byte) := do
  let trans_n_d ← read_int_field L 1 "Error reading sky model data: trans_n_d" stream
  let trans_n_a ← read_int_field L 1 "Error reading sky model data: trans_n_a" trans_n_d.2
  let trans_visibilities ← read_int_field L 1
    "Error reading sky model data: trans_visibilities" trans_n_a.2
  let trans_altitudes ← read_int_field L 1 "Error reading sky model data: trans_altitudes"
    trans_visibilities.2
  let trans_rank ← read_int_field L 1 "Error reading sky model data: trans_rank"
    trans_altitudes.2
  let transmission_altitudes ← read_records L.float_value sizeof_float trans_altitudes.1
    "Error reading sky model data: transmission_altitudes" trans_rank.2
  let transmission_visibilities ← read_records L.float_value sizeof_float trans_visibilities.1
    "Error reading sky model data: transmission_visibilities" transmission_altitudes.2
  let total_coefs_U : Int :=
    int_wrap (trans_n_d.1 * trans_n_a.1 * trans_rank.1 * trans_altitudes.1)
  let total_coefs_V : Int :=
    int_wrap (trans_visibilities.1 * trans_rank.1 * 11 * trans_altitudes.1)
  let transmission_dataset_U ← read_records L.float_value sizeof_float total_coefs_U
    "Error reading sky model data: transmission_dataset_U" transmission_visibilities.2
  let transmission_dataset_V ← read_records L.float_value sizeof_float total_coefs_V
    "Error reading sky model data: transmission_dataset_V" transmission_dataset_U.2
  Except.ok ({ state with
    trans_n_d := trans_n_d.1
    trans_n_a := trans_n_a.1
    trans_visibilities := trans_visibilities.1
    trans_altitudes := trans_altitudes.1
    trans_rank := trans_rank.1
    transmission_altitudes := transmission_altitudes.1
    transmission_visibilities := transmission_visibilities.1
    transmission_dataset_U := transmission_dataset_U.1
    transmission_dataset_V := transmission_dataset_V.1 }, transmission_dataset_V.2)

/-- The function `arpragueskymodelground_state_alloc_init`. The argument
`state` is the record as `ALLOC` returns it, `file` is the content of the file
at `path_to_dataset`, `none` when `fopen` cannot open it and returns `NULL`:
the result of `fopen` goes to `fread` untested, and `fread` on a null stream is
undefined. -/
def arpragueskymodelground_state_alloc_init (L : ScalarLayout)
    (state : ArPragueSkyModelGroundState) (file : Option (List Byte))
    (elevation visibility albedo : ℚ) : Except Abort ArPragueSkyModelGroundState :=
  match file with
  | none => Except.error Abort.undefined
  | some stream => do
    let r ← arpragueskymodelground_read_radiance L state stream
    let t ← arpragueskymodelground_read_transmittance L r.1 r.2
    Except.ok { t.1 with
      elevation := elevation
      visibility := visibility
      albedo := albedo }

/-! ## The structure of the data file -/

/-- The array that `count` records of `size` bytes each stand for. -/
def records_of {α : Type} (value : List Byte → α) (size : Nat) (count : Int)
    (bytes : List Byte) : List α :=
  (fread size count.toNat bytes).1.map value

/-- The metadata part of the data file, field by field, as the comment
`Structure of the metadata part of the data file` of
`arpragueskymodelground_read_radiance` lists it: the bytes of each field. -/
structure RadianceMetadataBytes where
  visibilities : List Byte
  visibility_vals : List Byte
  albedos : List Byte
  albedo_vals : List Byte
  altitudes : List Byte
  altitude_vals : List Byte
  elevations : List Byte
  elevation_vals : List Byte
  channels : List Byte
  channel_start : List Byte
  channel_width : List Byte
  tensor_components : List Byte
  sun_nbreaks : List Byte
  sun_breaks : List Byte
  zenith_nbreaks : List Byte
  zenith_breaks : List Byte
  emph_nbreaks : List Byte
  emph_breaks : List Byte

/-- The bytes of the metadata part in the order of the file. -/
def RadianceMetadataBytes.bytes (f : RadianceMetadataBytes) : List Byte :=
  f.visibilities ++ (f.visibility_vals ++ (f.albedos ++ (f.albedo_vals ++ (f.altitudes ++
    (f.altitude_vals ++ (f.elevations ++ (f.elevation_vals ++ (f.channels ++
    (f.channel_start ++ (f.channel_width ++ (f.tensor_components ++ (f.sun_nbreaks ++
    (f.sun_breaks ++ (f.zenith_nbreaks ++ (f.zenith_breaks ++ (f.emph_nbreaks ++
    f.emph_breaks))))))))))))))))

/-- The metadata part holds every record in full and each scalar field is at
or above its minimum: `1` for the counts, `2` for the numbers of breakpoints,
`channel_start >= 0` and `channel_width > 0`. -/
def RadianceMetadataBytes.well_formed (L : ScalarLayout) (f : RadianceMetadataBytes) : Prop :=
  (f.visibilities.length = sizeof_int ∧ 1 ≤ L.int_value f.visibilities) ∧
  (f.visibility_vals.length : ℤ) = sizeof_double * L.int_value f.visibilities ∧
  (f.albedos.length = sizeof_int ∧ 1 ≤ L.int_value f.albedos) ∧
  (f.albedo_vals.length : ℤ) = sizeof_double * L.int_value f.albedos ∧
  (f.altitudes.length = sizeof_int ∧ 1 ≤ L.int_value f.altitudes) ∧
  (f.altitude_vals.length : ℤ) = sizeof_double * L.int_value f.altitudes ∧
  (f.elevations.length = sizeof_int ∧ 1 ≤ L.int_value f.elevations) ∧
  (f.elevation_vals.length : ℤ) = sizeof_double * L.int_value f.elevations ∧
  (f.channels.length = sizeof_int ∧ 1 ≤ L.int_value f.channels) ∧
  (f.channel_start.length = sizeof_double ∧ 0 ≤ L.double_value f.channel_start) ∧
  (f.channel_width.length = sizeof_double ∧ 0 < L.double_value f.channel_width) ∧
  (f.tensor_components.length = sizeof_int ∧ 1 ≤ L.int_value f.tensor_components) ∧
  (f.sun_nbreaks.length = sizeof_int ∧ 2 ≤ L.int_value f.sun_nbreaks) ∧
  (f.sun_breaks.length : ℤ) = sizeof_double * L.int_value f.sun_nbreaks ∧
  (f.zenith_nbreaks.length = sizeof_int ∧ 2 ≤ L.int_value f.zenith_nbreaks) ∧
  (f.zenith_breaks.length : ℤ) = sizeof_double * L.int_value f.zenith_nbreaks ∧
  (f.emph_nbreaks.length = sizeof_int ∧ 2 ≤ L.int_value f.emph_nbreaks) ∧
  (f.emph_breaks.length : ℤ) = sizeof_double * L.int_value f.emph_nbreaks

/-- The value of `sun_stride` (and of `zenith_stride`) for the counts of the
metadata part, as `arpragueskymodelground_read_radiance` computes it. -/
def RadianceMetadataBytes.sun_stride (L : ScalarLayout) (f : RadianceMetadataBytes) : Int :=
  int_wrap (2 * L.int_value f.sun_nbreaks - 2 + 2 * L.int_value f.zenith_nbreaks - 2)

/-- The value of `emph_offset` for the counts of the metadata part. -/
def RadianceMetadataBytes.emph_offset (L : ScalarLayout) (f : RadianceMetadataBytes) : Int :=
  int_wrap (0 + L.int_value f.tensor_components * f.sun_stride L)

/-- The value of `total_coefs_single_config` for the counts of the metadata
part. -/
def RadianceMetadataBytes.total_coefs_single_config (L : ScalarLayout)
    (f : RadianceMetadataBytes) : Int :=
  int_wrap (f.emph_offset L + 2 * L.int_value f.emph_nbreaks - 2)

/-- The value of `total_configs` for the counts of the metadata part. -/
def RadianceMetadataBytes.total_configs (L : ScalarLayout) (f : RadianceMetadataBytes) : Int :=
  int_wrap (L.int_value f.channels * L.int_value f.elevations * L.int_value f.altitudes *
    L.int_value f.albedos * L.int_value f.visibilities)

/-- The state that the metadata part stands for: each field with the value
of its bytes, and the offsets, strides and sizes as
`arpragueskymodelground_read_radiance` computes them from these values, each
reduced to the 32 bits of an `int`. -/
def RadianceMetadataBytes.state (L : ScalarLayout) (state : ArPragueSkyModelGroundState)
    (f : RadianceMetadataBytes) : ArPragueSkyModelGroundState :=
  { state with
    visibilities := L.int_value f.visibilities
    visibility_vals := records_of L.double_value sizeof_double (L.int_value f.visibilities)
      f.visibility_vals
    albedos := L.int_value f.albedos
    albedo_vals := records_of L.double_value sizeof_double (L.int_value f.albedos)
      f.albedo_vals
    altitudes := L.int_value f.altitudes
    altitude_vals := records_of L.double_value sizeof_double (L.int_value f.altitudes)
      f.altitude_vals
    elevations := L.int_value f.elevations
    elevation_vals := records_of L.double_value sizeof_double (L.int_value f.elevations)
      f.elevation_vals
    channels := L.int_value f.channels
    channel_start := L.double_value f.channel_start
    channel_width := L.double_value f.channel_width
    tensor_components := L.int_value f.tensor_components
    sun_nbreaks := L.int_value f.sun_nbreaks
    sun_breaks := records_of L.double_value sizeof_double (L.int_value f.sun_nbreaks)
      f.sun_breaks
    zenith_nbreaks := L.int_value f.zenith_nbreaks
    zenith_breaks := records_of L.double_value sizeof_double (L.int_value f.zenith_nbreaks)
      f.zenith_breaks
    emph_nbreaks := L.int_value f.emph_nbreaks
    emph_breaks := records_of L.double_value sizeof_double (L.int_value f.emph_nbreaks)
      f.emph_breaks
    sun_offset := 0
    sun_stride := f.sun_stride L
    zenith_offset := int_wrap (0 + 2 * L.int_value f.sun_nbreaks - 2)
    zenith_stride := f.sun_stride L
    emph_offset := f.emph_offset L
    total_coefs_single_config := f.total_coefs_single_config L
    total_configs := f.total_configs L
    total_coefs_all_configs := int_wrap (f.total_coefs_single_config L * f.total_configs L) }
/-- The transmittance part of the data file, field by field in the order in
which `arpragueskymodelground_read_transmittance` reads it: the bytes of each
field. -/
structure TransmittanceBytes where
  trans_n_d : List Byte
  trans_n_a : List Byte
  trans_visibilities : List Byte
  trans_altitudes : List Byte
  trans_rank : List Byte
  transmission_altitudes : List Byte
  transmission_visibilities : List Byte
  transmission_dataset_U : List Byte
  transmission_dataset_V : List Byte

/-- The bytes of the transmittance part in the order of the file. -/
def TransmittanceBytes.bytes (f : TransmittanceBytes) : List Byte :=
  f.trans_n_d ++ (f.trans_n_a ++ (f.trans_visibilities ++ (f.trans_altitudes ++
    (f.trans_rank ++ (f.transmission_altitudes ++ (f.transmission_visibilities ++
    (f.transmission_dataset_U ++ f.transmission_dataset_V)))))))

/-- The value of `total_coefs_U` for the counts of the transmittance part, as
`arpragueskymodelground_read_transmittance` computes it. -/
def TransmittanceBytes.total_coefs_U (L : ScalarLayout) (f : TransmittanceBytes) : Int :=
  int_wrap (L.int_value f.trans_n_d * L.int_value f.trans_n_a * L.int_value f.trans_rank *
    L.int_value f.trans_altitudes)

/-- The value of `total_coefs_V` for the counts of the transmittance part. -/
def TransmittanceBytes.total_coefs_V (L : ScalarLayout) (f : TransmittanceBytes) : Int :=
  int_wrap (L.int_value f.trans_visibilities * L.int_value f.trans_rank * 11 *
    L.int_value f.trans_altitudes)

/-- The transmittance part holds every record in full (`total_coefs_U` and
`total_coefs_V` of them in the two data sets) and each of its five counts is
at least 1. -/
def TransmittanceBytes.well_formed (L : ScalarLayout) (f : TransmittanceBytes) : Prop :=
  (f.trans_n_d.length = sizeof_int ∧ 1 ≤ L.int_value f.trans_n_d) ∧
  (f.trans_n_a.length = sizeof_int ∧ 1 ≤ L.int_value f.trans_n_a) ∧
  (f.trans_visibilities.length = sizeof_int ∧ 1 ≤ L.int_value f.trans_visibilities) ∧
  (f.trans_altitudes.length = sizeof_int ∧ 1 ≤ L.int_value f.trans_altitudes) ∧
  (f.trans_rank.length = sizeof_int ∧ 1 ≤ L.int_value f.trans_rank) ∧
  (f.transmission_altitudes.length : ℤ) = sizeof_float * L.int_value f.trans_altitudes ∧
  (f.transmission_visibilities.length : ℤ) = sizeof_float * L.int_value f.trans_visibilities ∧
  (f.transmission_dataset_U.length : ℤ) = sizeof_float * f.total_coefs_U L ∧
  (f.transmission_dataset_V.length : ℤ) = sizeof_float * f.total_coefs_V L

/-- The state that the transmittance part stands for: each field with the
value of its bytes. -/
def TransmittanceBytes.state (L : ScalarLayout) (state : ArPragueSkyModelGroundState)
    (f : TransmittanceBytes) : ArPragueSkyModelGroundState :=
  { state with
    trans_n_d := L.int_value f.trans_n_d
    trans_n_a := L.int_value f.trans_n_a
    trans_visibilities := L.int_value f.trans_visibilities
    trans_altitudes := L.int_value f.trans_altitudes
    trans_rank := L.int_value f.trans_rank
    transmission_altitudes := records_of L.float_value sizeof_float
      (L.int_value f.trans_altitudes) f.transmission_altitudes
    transmission_visibilities := records_of L.float_value sizeof_float
      (L.int_value f.trans_visibilities) f.transmission_visibilities
    transmission_dataset_U := records_of L.float_value sizeof_float (f.total_coefs_U L)
      f.transmission_dataset_U
    transmission_dataset_V := records_of L.float_value sizeof_float (f.total_coefs_V L)
      f.transmission_dataset_V }
/-- The number of bytes of the data part of the data file that
`arpragueskymodelground_read_radiance` reads: for each of its rounds over the
configurations (`total_configs` rounds, none when that count is negative), for
each tensor component `sun_nbreaks` halves, one double and `zenith_nbreaks`
halves, and then `emph_nbreaks` halves. -/
def RadianceMetadataBytes.data_size (L : ScalarLayout) (f : RadianceMetadataBytes) : Int :=
  ((f.total_configs L).toNat : ℤ) *
    (L.int_value f.tensor_components *
        (sizeof_unsigned_short * L.int_value f.sun_nbreaks + sizeof_double +
          sizeof_unsigned_short * L.int_value f.zenith_nbreaks) +
      sizeof_unsigned_short * L.int_value f.emph_nbreaks)

/-- The number of entries of `radiance_dataset` that the rounds of
`arpragueskymodelground_read_radiance` over the configurations write: for each
round, for each tensor component `2 * sun_nbreaks - 2` and
`2 * zenith_nbreaks - 2` coefficients, and then `2 * emph_nbreaks - 2`. -/
def RadianceMetadataBytes.coefs_written (L : ScalarLayout) (f : RadianceMetadataBytes) : Int :=
  ((f.total_configs L).toNat : ℤ) *
    (((L.int_value f.tensor_components).toNat : ℤ) *
        ((2 * L.int_value f.sun_nbreaks - 2) + (2 * L.int_value f.zenith_nbreaks - 2)) +
      (2 * L.int_value f.emph_nbreaks - 2))

/-- The coefficients that the loader writes fit into the buffer that it
allocates with `total_coefs_all_configs` entries. -/
def RadianceMetadataBytes.fits (L : ScalarLayout) (f : RadianceMetadataBytes) : Prop :=
  f.coefs_written L ≤
    ((int_wrap (f.total_coefs_single_config L * f.total_configs L)).toNat : ℤ)

/-- The number of coefficients of the data file for the counts of its metadata
part, as an exact integer: `tensor_components * (2 * (sun_nbreaks - 1) +
2 * (zenith_nbreaks - 1)) + 2 * (emph_nbreaks - 1)` for each combination of
channel, elevation, altitude, albedo and visibility. -/
def RadianceMetadataBytes.exact_total_coefs (L : ScalarLayout) (f : RadianceMetadataBytes) :
    Int :=
  (L.int_value f.tensor_components *
      (2 * (L.int_value f.sun_nbreaks - 1) + 2 * (L.int_value f.zenith_nbreaks - 1)) +
    2 * (L.int_value f.emph_nbreaks - 1)) *
  (L.int_value f.channels * L.int_value f.elevations * L.int_value f.altitudes *
    L.int_value f.albedos * L.int_value f.visibilities)

/-- The number of radiance coefficients that the counts of a state describe,
as an exact integer: `tensor_components * (2 * (sun_nbreaks - 1) +
2 * (zenith_nbreaks - 1)) + 2 * (emph_nbreaks - 1)` for each combination of
channel, elevation, altitude, albedo and visibility. -/
def ArPragueSkyModelGroundState.exact_total_coefs (st : ArPragueSkyModelGroundState) : Int :=
  (st.tensor_components * (2 * (st.sun_nbreaks - 1) + 2 * (st.zenith_nbreaks - 1)) +
    2 * (st.emph_nbreaks - 1)) *
  (st.channels * st.elevations * st.altitudes * st.albedos * st.visibilities)

/-- The data file, part by part: the metadata, the data part of the radiance
coefficients, the transmittance part, and what follows (never read). -/
structure DatasetBytes where
  metadata : RadianceMetadataBytes
  radiance_data : List Byte
  transmittance : TransmittanceBytes
  trailing : List Byte

/-- The bytes of the data file in the order of the file. -/
def DatasetBytes.bytes (f : DatasetBytes) : List Byte :=
  f.metadata.bytes ++ (f.radiance_data ++ (f.transmittance.bytes ++ f.trailing))

/-- The data file holds every record in full and each scalar field is at or
above its minimum. -/
def DatasetBytes.well_formed (L : ScalarLayout) (f : DatasetBytes) : Prop :=
  f.metadata.well_formed L ∧ (f.radiance_data.length : ℤ) = f.metadata.data_size L ∧
  f.transmittance.well_formed L

/-- A layout for concrete evaluation: each record stands for the value of its
first byte. -/
def sample_layout : ScalarLayout where
  int_value := fun b => ((b.headD 0).val : ℤ)
  double_value := fun b => ((b.headD 0).val : ℚ)
  ushort_value := fun b => Fin.castLE (by decide) (b.headD 0)
  float_value := fun b => ((b.headD 0).val : ℚ)

/-- The metadata part of a small data file: one visibility, albedo, altitude
and channel, two elevations, one tensor component and two breakpoints on each
of the three breakpoint axes. -/
def sample_metadata_bytes : RadianceMetadataBytes where
  visibilities := [1, 0, 0, 0]
  visibility_vals := [50, 0, 0, 0, 0, 0, 0, 0]
  albedos := [1, 0, 0, 0]
  albedo_vals := [0, 0, 0, 0, 0, 0, 0, 0]
  altitudes := [1, 0, 0, 0]
  altitude_vals := [0, 0, 0, 0, 0, 0, 0, 0]
  elevations := [2, 0, 0, 0]
  elevation_vals := [0, 0, 0, 0, 0, 0, 0, 0, 10, 0, 0, 0, 0, 0, 0, 0]
  channels := [1, 0, 0, 0]
  channel_start := [200, 0, 0, 0, 0, 0, 0, 0]
  channel_width := [40, 0, 0, 0, 0, 0, 0, 0]
  tensor_components := [1, 0, 0, 0]
  sun_nbreaks := [2, 0, 0, 0]
  sun_breaks := [0, 0, 0, 0, 0, 0, 0, 0, 4, 0, 0, 0, 0, 0, 0, 0]
  zenith_nbreaks := [2, 0, 0, 0]
  zenith_breaks := [0, 0, 0, 0, 0, 0, 0, 0, 4, 0, 0, 0, 0, 0, 0, 0]
  emph_nbreaks := [2, 0, 0, 0]
  emph_breaks := [0, 0, 0, 0, 0, 0, 0, 0, 4, 0, 0, 0, 0, 0, 0, 0]

/-- The data part of the small data file: two configurations of 20 bytes each
(two sun halves, `zenith_scale`, two zenith halves, two emphasis halves). -/
def sample_radiance_data : List Byte :=
  [1, 0, 2, 0, 1, 0, 0, 0, 0, 0, 0, 0, 3, 0, 4, 0, 5, 0, 6, 0,
   2, 0, 3, 0, 1, 0, 0, 0, 0, 0, 0, 0, 4, 0, 5, 0, 6, 0, 7, 0]

/-- The transmittance part of the small data file: all five counts are 1. -/
def sample_transmittance_bytes : TransmittanceBytes where
  trans_n_d := [1, 0, 0, 0]
  trans_n_a := [1, 0, 0, 0]
  trans_visibilities := [1, 0, 0, 0]
  trans_altitudes := [1, 0, 0, 0]
  trans_rank := [1, 0, 0, 0]
  transmission_altitudes := [0, 0, 0, 0]
  transmission_visibilities := [50, 0, 0, 0]
  transmission_dataset_U := [1, 0, 0, 0]
  transmission_dataset_V := [1, 0, 0, 0, 1, 0, 0, 0, 1, 0, 0, 0, 1, 0, 0, 0, 1, 0, 0, 0,
    1, 0, 0, 0, 1, 0, 0, 0, 1, 0, 0, 0, 1, 0, 0, 0, 1, 0, 0, 0, 1, 0, 0, 0]

/-- The small data file. -/
def sample_dataset_bytes : DatasetBytes where
  metadata := sample_metadata_bytes
  radiance_data := sample_radiance_data
  transmittance := sample_transmittance_bytes
  trailing := []

/-! ## Memory reads of the segment search -/

/-- The indices of `breaks` that the loop of `arpragueskymodelground_find_segment`
reads, in the order of the reads, with the given number of remaining rounds at
the index `segment`: each round reads `breaks[segment + 1]` and the loop ends
at the first entry `≥ x`. A read outside the array ends the list. -/
def arpragueskymodelground_find_segment_loop_reads (x : ℚ) (breaks : List ℚ) :
    Nat → Int → List Int
  | 0, _ => []
  | n + 1, segment =>
    (segment + 1) ::
      match read_at breaks (segment + 1) with
      | some b =>
        if b ≥ x then []
        else arpragueskymodelground_find_segment_loop_reads x breaks n (segment + 1)
      | none => []

/-- The indices of `breaks` that `arpragueskymodelground_find_segment` reads. -/
def arpragueskymodelground_find_segment_reads (x : ℚ) (nbreaks : Int) (breaks : List ℚ) :
    List Int :=
  arpragueskymodelground_find_segment_loop_reads x breaks nbreaks.toNat 0

/-! ## Grid cells of the transmittance -/

/-- The grid cell that `arpragueskymodelground_calc_transmittance_svd` selects
for one of its two coordinates: the values of its locals `(a_int, a_inc, wa)`
for the coordinate `a` with `n = trans_n_a` and the exponent `p = 3.0`, and of
`(d_int, d_inc, wd)` for the coordinate `d` with `n = trans_n_d` and `p = 4.0`,
at the call of `arpragueskymodelground_calc_transmittance_svd_altitude` (the
weight after the two clamping assignments). -/
def arpragueskymodelground_calc_transmittance_svd_cell (m : LibM) (n : Int) (x p : ℚ) :
    Int × Int × ℚ :=
  let x_int0 : Int := ⌊x * (n : ℚ)⌋
  let x_sel : Int × Int × ℚ :=
    if x_int0 < n - 1 then
      (x_int0, 1, arpragueskymodelground_nonlinlerp m ((x_int0 : ℚ) / (n : ℚ))
        (((x_int0 + 1 : ℤ) : ℚ) / (n : ℚ)) x p)
    else (n - 1, 0, 0)
  let w1 : ℚ := if x_sel.2.2 < 0 then 0 else x_sel.2.2
  let w : ℚ := if w1 > 1 then 1 else w1
  (x_sel.1, x_sel.2.1, w)

/-- The small data file with the sun breakpoints `0` and `3`: the last one is
below `MATH_PI`. -/
def sample_dataset_bytes_short : DatasetBytes :=
  { sample_dataset_bytes with
    metadata := { sample_metadata_bytes with
      sun_breaks := [0, 0, 0, 0, 0, 0, 0, 0, 3, 0, 0, 0, 0, 0, 0, 0] } }

/-- The metadata part of a data file with 128 visibilities, albedos, altitudes
and elevations (each axis with 128 values `0`) and the given number of
channels; the other fields are those of the small data file, so a
configuration has 6 coefficients. With 8 channels the file describes `2^31`
configurations, with 4 channels `2^30` configurations of `6 * 2^30`
coefficients. -/
def sample_metadata_bytes_wide (channels : Byte) : RadianceMetadataBytes :=
  { sample_metadata_bytes with
    visibilities := [128, 0, 0, 0]
    visibility_vals := List.replicate 1024 0
    albedos := [128, 0, 0, 0]
    albedo_vals := List.replicate 1024 0
    altitudes := [128, 0, 0, 0]
    altitude_vals := List.replicate 1024 0
    elevations := [128, 0, 0, 0]
    elevation_vals := List.replicate 1024 0
    channels := [channels, 0, 0, 0] }

/-- A data file with `128 * 128 * 128 * 128 * 8 = 2^31` configurations in its
metadata: the metadata part, no coefficient, and the transmittance part of the
small data file. -/
def sample_dataset_bytes_wide : DatasetBytes where
  metadata := sample_metadata_bytes_wide 8
  radiance_data := []
  transmittance := sample_transmittance_bytes
  trailing := []

/-! ## Transmittance with the special values of floating-point arithmetic

The definitions above read every `double` and `float` as a rational number.
The definitions of this section embed the same code of the transmittance once
more, now with the special values of IEEE 754 arithmetic: a value is a finite
number, an infinity or NaN; a finite result whose magnitude reaches the
overflow threshold of its type is an infinity. Finite values stay exact
(rounding is not modelled), and zero has no sign. -/

/-- A C `double` or `float`: a finite number, `+inf`, `-inf` or NaN. -/
inductive CDouble where
  | fin (q : ℚ)
  | pinf
  | ninf
  | nan
deriving DecidableEq

/-- The least magnitude that rounds to an infinity in `double` arithmetic
(round to nearest): `2^1024 - 2^970`. -/
def DBL_OVERFLOW : ℚ := 2 ^ 1024 - 2 ^ 970

/-- The least magnitude that rounds to an infinity in `float` arithmetic
(round to nearest): `2^128 - 2^103`, just above `FLT_MAX`. -/
def FLT_OVERFLOW : ℚ := 2 ^ 128 - 2 ^ 103

/-- The floating-point value of an operation whose exact result is the finite
number `q`, in a type with the overflow threshold `bound`. -/
def CDouble.of_exact (bound q : ℚ) : CDouble :=
  if q ≥ bound then CDouble.pinf else if q ≤ -bound then CDouble.ninf else CDouble.fin q

/-- The operator `-x` on `double`. -/
def CDouble.neg : CDouble → CDouble
  | CDouble.fin a => CDouble.fin (-a)
  | CDouble.pinf => CDouble.ninf
  | CDouble.ninf => CDouble.pinf
  | CDouble.nan => CDouble.nan

/-- The operator `x + y` on `double`: `inf + (-inf)` is NaN. -/
def CDouble.add : CDouble → CDouble → CDouble
  | CDouble.nan, _ => CDouble.nan
  | _, CDouble.nan => CDouble.nan
  | CDouble.fin a, CDouble.fin b => CDouble.of_exact DBL_OVERFLOW (a + b)
  | CDouble.fin _, CDouble.pinf => CDouble.pinf
  | CDouble.fin _, CDouble.ninf => CDouble.ninf
  | CDouble.pinf, CDouble.fin _ => CDouble.pinf
  | CDouble.ninf, CDouble.fin _ => CDouble.ninf
  | CDouble.pinf, CDouble.pinf => CDouble.pinf
  | CDouble.ninf, CDouble.ninf => CDouble.ninf
  | CDouble.pinf, CDouble.ninf => CDouble.nan
  | CDouble.ninf, CDouble.pinf => CDouble.nan

/-- The operator `x - y` on `double`. -/
def CDouble.sub (x y : CDouble) : CDouble := CDouble.add x (CDouble.neg y)

/-- The operator `x * y` on `double`: `0 * inf` is NaN. -/
def CDouble.mul : CDouble → CDouble → CDouble
  | CDouble.nan, _ => CDouble.nan
  | _, CDouble.nan => CDouble.nan
  | CDouble.fin a, CDouble.fin b => CDouble.of_exact DBL_OVERFLOW (a * b)
  | CDouble.fin a, CDouble.pinf =>
    if a = 0 then CDouble.nan else if 0 < a then CDouble.pinf else CDouble.ninf
  | CDouble.fin a, CDouble.ninf =>
    if a = 0 then CDouble.nan else if 0 < a then CDouble.ninf else CDouble.pinf
  | CDouble.pinf, CDouble.fin b =>
    if b = 0 then CDouble.nan else if 0 < b then CDouble.pinf else CDouble.ninf
  | CDouble.ninf, CDouble.fin b =>
    if b = 0 then CDouble.nan else if 0 < b then CDouble.ninf else CDouble.pinf
  | CDouble.pinf, CDouble.pinf => CDouble.pinf
  | CDouble.ninf, CDouble.ninf => CDouble.pinf
  | CDouble.pinf, CDouble.ninf => CDouble.ninf
  | CDouble.ninf, CDouble.pinf => CDouble.ninf

/-- The operator `x < y` on `double`: false when an operand is NaN. -/
def CDouble.lt : CDouble → CDouble → Bool
  | CDouble.fin a, CDouble.fin b => decide (a < b)
  | CDouble.fin _, CDouble.pinf => true
  | CDouble.ninf, CDouble.fin _ => true
  | CDouble.ninf, CDouble.pinf => true
  | _, _ => false

/-- The conversion of a `double` to `float` at a store into a `float`
object. -/
def CDouble.to_float : CDouble → CDouble
  | CDouble.fin a => CDouble.of_exact FLT_OVERFLOW a
  | x => x

/-- The function `arpragueskymodelground_lerp` with the special values. -/
def arpragueskymodelground_lerp_ieee (src dst factor : CDouble) : CDouble :=
  CDouble.add (CDouble.mul (CDouble.sub (CDouble.fin 1) factor) src) (CDouble.mul factor dst)

/-- The loop of `arpragueskymodelground_transmittance_interpolate_wavelength`
with the special values: `wll[i]` and `wlu[i]` are `float` entries of the
dataset, the entries of `coefficients` are `double`. -/
def arpragueskymodelground_transmittance_interpolate_wavelength_loop_ieee (wll wlu : DoublePtr)
    (wavelength_w : ℚ) : Nat → Int → List CDouble → Option (List CDouble)
  | 0, _, coefficients => some coefficients
  | n + 1, i, coefficients => do
    let l ← wll.read i
    let u ← wlu.read i
    let coefficients1 ← write_at coefficients i
      (arpragueskymodelground_lerp_ieee (CDouble.fin l) (CDouble.fin u) (CDouble.fin wavelength_w))
    arpragueskymodelground_transmittance_interpolate_wavelength_loop_ieee wll wlu wavelength_w n
      (i + 1) coefficients1

/-- The function `arpragueskymodelground_transmittance_interpolate_wavelength`
with the special values. -/
def arpragueskymodelground_transmittance_interpolate_wavelength_ieee
    (state : ArPragueSkyModelGroundState) (visibility altitude wavelength_low
      wavelength_inc : Int) (wavelength_w : ℚ) (coefficients : List CDouble) :
    Option (List CDouble) :=
  let wll : DoublePtr :=
    arpragueskymodelground_transmittance_coefs_index state visibility altitude wavelength_low
  let wlu : DoublePtr :=
    arpragueskymodelground_transmittance_coefs_index state visibility altitude
      (wavelength_low + wavelength_inc)
  arpragueskymodelground_transmittance_interpolate_wavelength_loop_ieee wll wlu wavelength_w
    state.trans_rank.toNat 0 coefficients

/-- The innermost loop of `arpragueskymodelground_calc_transmittance_svd_altitude`
with the special values: the sum `t[index] + U[...] * interpolated_coefficients[i]`
is a `double` and is stored into the `float` object `t[index]`. -/
def arpragueskymodelground_calc_transmittance_svd_altitude_loop_i_ieee
    (state : ArPragueSkyModelGroundState) (altitude al dl : Int)
    (interpolated_coefficients : List CDouble) (index : Int) :
    Nat → Int → List CDouble → Option (List CDouble)
  | 0, _, t => some t
  | n + 1, i, t => do
    let tv ← read_at t index
    let u ← read_at state.transmission_dataset_U
      ((altitude * state.trans_n_a * state.trans_n_d * state.trans_rank) +
        (((dl * state.trans_n_a) + al) * state.trans_rank) + i)
    let c ← read_at interpolated_coefficients i
    let t1 ← write_at t index
      (CDouble.to_float (CDouble.add tv (CDouble.mul (CDouble.fin u) c)))
    arpragueskymodelground_calc_transmittance_svd_altitude_loop_i_ieee state altitude al dl
      interpolated_coefficients index n (i + 1) t1

/-- The middle loop of `arpragueskymodelground_calc_transmittance_svd_altitude`
with the special values. -/
def arpragueskymodelground_calc_transmittance_svd_altitude_loop_dl_ieee
    (state : ArPragueSkyModelGroundState) (altitude al : Int)
    (interpolated_coefficients : List CDouble) :
    Nat → Int → List CDouble × Int → Option (List CDouble × Int)
  | 0, _, s => some s
  | n + 1, dl, s => do
    let t1 ← arpragueskymodelground_calc_transmittance_svd_altitude_loop_i_ieee state altitude
      al dl interpolated_coefficients s.2 state.trans_rank.toNat 0 s.1
    arpragueskymodelground_calc_transmittance_svd_altitude_loop_dl_ieee state altitude al
      interpolated_coefficients n (dl + 1) (t1, s.2 + 1)

/-- The outer loop of `arpragueskymodelground_calc_transmittance_svd_altitude`
with the special values. -/
def arpragueskymodelground_calc_transmittance_svd_altitude_loop_al_ieee
    (state : ArPragueSkyModelGroundState) (altitude d_int d_inc : Int)
    (interpolated_coefficients : List CDouble) :
    Nat → Int → List CDouble × Int → Option (List CDouble × Int)
  | 0, _, s => some s
  | n + 1, al, s => do
    let s1 ← arpragueskymodelground_calc_transmittance_svd_altitude_loop_dl_ieee state altitude
      al interpolated_coefficients (d_inc + 1).toNat d_int s
    arpragueskymodelground_calc_transmittance_svd_altitude_loop_al_ieee state altitude d_int
      d_inc interpolated_coefficients n (al + 1) s1

/-- The function `arpragueskymodelground_calc_transmittance_svd_altitude` with
the special values: `t` is an array of four `float`, each assignment to one of
its entries converts the `double` result to `float`; the value returned is the
`float` `t[0]` as a `double`. -/
def arpragueskymodelground_calc_transmittance_svd_altitude_ieee
    (state : ArPragueSkyModelGroundState) (visibility altitude wavelength_low
      wavelength_inc : Int) (wavelength_factor : ℚ) (a_int d_int a_inc d_inc : Int)
    (wa wd : ℚ) : Option CDouble := do
  let t : List CDouble := [CDouble.fin 0, CDouble.fin 0, CDouble.fin 0, CDouble.fin 0]
  let interpolated_coefficients ←
    arpragueskymodelground_transmittance_interpolate_wavelength_ieee state visibility altitude
      wavelength_low wavelength_inc wavelength_factor (List.replicate 12 (CDouble.fin 0))
  let s ← arpragueskymodelground_calc_transmittance_svd_altitude_loop_al_ieee state altitude
    d_int d_inc interpolated_coefficients (a_inc + 1).toNat a_int (t, 0)
  let t1 : List CDouble := s.1
  let t2 ← if d_inc = 1 then do
      let t0 ← read_at t1 0
      let t1v ← read_at t1 1
      let ta ← write_at t1 0
        (CDouble.to_float (arpragueskymodelground_lerp_ieee t0 t1v (CDouble.fin wd)))
      let t2v ← read_at ta 2
      let t3v ← read_at ta 3
      write_at ta 1 (CDouble.to_float (arpragueskymodelground_lerp_ieee t2v t3v (CDouble.fin wd)))
    else some t1
  let t3 ← if a_inc = 1 then do
      let t0 ← read_at t2 0
      let t1v ← read_at t2 1
      write_at t2 0 (CDouble.to_float (arpragueskymodelground_lerp_ieee t0 t1v (CDouble.fin wa)))
    else some t2
  read_at t3 0

/-- The function `arpragueskymodelground_calc_transmittance_svd` with the
special values; the cells of the two coordinates are those of
`arpragueskymodelground_calc_transmittance_svd_cell`. -/
def arpragueskymodelground_calc_transmittance_svd_ieee (m : LibM)
    (state : ArPragueSkyModelGroundState) (a d : ℚ) (visibility wavelength_low
      wavelength_inc : Int) (wavelength_factor : ℚ) (altitude_low altitude_inc : Int)
    (altitude_factor : ℚ) : Option CDouble := do
  let a_cell : Int × Int × ℚ :=
    arpragueskymodelground_calc_transmittance_svd_cell m state.trans_n_a a 3
  let d_cell : Int × Int × ℚ :=
    arpragueskymodelground_calc_transmittance_svd_cell m state.trans_n_d d 4
  let trans0 ← arpragueskymodelground_calc_transmittance_svd_altitude_ieee state visibility
    altitude_low wavelength_low wavelength_inc wavelength_factor a_cell.1 d_cell.1 a_cell.2.1
    d_cell.2.1 a_cell.2.2 d_cell.2.2
  if altitude_inc = 1 then do
    let trans1 ← arpragueskymodelground_calc_transmittance_svd_altitude_ieee state visibility
      (altitude_low + altitude_inc) wavelength_low wavelength_inc wavelength_factor a_cell.1
      d_cell.1 a_cell.2.1 d_cell.2.1 a_cell.2.2 d_cell.2.2
    some (arpragueskymodelground_lerp_ieee trans0 trans1 (CDouble.fin altitude_factor))
  else some trans0

/-- The function `arpragueskymodelground_transmittance` with the special
values. The arguments and the fields of the state are finite numbers. -/
def arpragueskymodelground_transmittance_ieee (m : LibM) (state : ArPragueSkyModelGroundState)
    (theta wavelength distance : ℚ) : Option CDouble :=
  let wavelength_norm : ℚ := (wavelength - state.channel_start) / state.channel_width
  if wavelength_norm ≥ (state.channels : ℚ) ∨ wavelength_norm < 0 then some (CDouble.fin 0)
  else do
    let wavelength_low : Int := c_int_cast wavelength_norm
    let wavelength_factor : ℚ := 0
    let wavelength_inc : Int := if wavelength_low < 10 then 1 else 0
    let altitude_low : Int := 0
    let altitude_factor : ℚ := 0
    let altitude_inc : Int := 0
    let vis ← arpragueskymodelground_find_in_array state.transmission_visibilities
      state.trans_visibilities state.visibility
    let vis_low : Int := vis.1
    let vis_inc : Int := vis.2.1
    let vis_factor : ℚ := vis.2.2
    let ad ← arpragueskymodelground_toAD m theta distance 0
    let trans_low ← arpragueskymodelground_calc_transmittance_svd_ieee m state ad.1 ad.2
      vis_low wavelength_low wavelength_inc wavelength_factor altitude_low altitude_inc
      altitude_factor
    let trans_high ← arpragueskymodelground_calc_transmittance_svd_ieee m state ad.1 ad.2
      (vis_low + vis_inc) wavelength_low wavelength_inc wavelength_factor altitude_low
      altitude_inc altitude_factor
    let trans0 : CDouble :=
      arpragueskymodelground_lerp_ieee trans_low trans_high (CDouble.fin vis_factor)
    let trans1 : CDouble :=
      if CDouble.lt trans0 (CDouble.fin 0) then CDouble.fin 0
      else (if CDouble.lt (CDouble.fin 1) trans0 then CDouble.fin 1 else trans0)
    let trans2 : CDouble := CDouble.mul trans1 trans1
    some trans2

/-- The state `sample_state` with the entry of `transmission_dataset_U` and
the entries of `transmission_dataset_V` at `3e38`, below `FLT_MAX`. -/
def sample_state_huge : ArPragueSkyModelGroundState :=
  { sample_state with
    transmission_dataset_U := [3 * 10 ^ 38]
    transmission_dataset_V := List.replicate 11 (3 * 10 ^ 38) }

/-! Theorems -/

/-! ## Half-precision decoding: proofs -/

theorem half_loop_step (fuel abs hi : Nat) :
    arpragueskymodelground_double_from_half_loop (fuel + 1) abs hi =
      if abs < 0x400 then
        arpragueskymodelground_double_from_half_loop fuel ((abs <<< 1) % 2 ^ 32)
          ((hi + (2 ^ 64 - 0x100000)) % 2 ^ 64)
      else some (abs, hi) := rfl

theorem half_loop_done (fuel abs hi : Nat) (h : 0x400 ≤ abs) :
    arpragueskymodelground_double_from_half_loop (fuel + 1) abs hi = some (abs, hi) := by
  have h1 : ¬ abs < 0x400 := by omega
  rw [half_loop_step, if_neg h1]

theorem half_loop_shift (k : Nat) : ∀ (fuel abs hi : Nat), 0x400 ≤ abs * 2 ^ k →
    abs * 2 ^ k < 0x800 → k < fuel → k * 0x100000 ≤ hi → hi < 2 ^ 64 →
    arpragueskymodelground_double_from_half_loop fuel abs hi
      = some (abs * 2 ^ k, hi - k * 0x100000) := by
  induction k with
  | zero =>
    intro fuel abs hi h1 _ h3 _ _
    obtain ⟨f, rfl⟩ : ∃ f, fuel = f + 1 := ⟨fuel - 1, by omega⟩
    simpa using half_loop_done f abs hi (by simpa using h1)
  | succ k ih =>
    intro fuel abs hi h1 h2 h3 h4 h5
    obtain ⟨f, rfl⟩ : ∃ f, fuel = f + 1 := ⟨fuel - 1, by omega⟩
    have hpow : 1 ≤ 2 ^ k := Nat.one_le_two_pow
    have hk : abs * 2 ^ (k + 1) = abs * 2 * 2 ^ k := by ring
    have habs : abs < 0x400 := by
      by_contra hc
      have : 0x400 * 2 ≤ abs * 2 * 2 ^ k := by nlinarith
      omega
    have e1 : (abs <<< 1) % 2 ^ 32 = abs * 2 := by
      rw [Nat.shiftLeft_eq]; omega
    have e2 : (hi + (2 ^ 64 - 0x100000)) % 2 ^ 64 = hi - 0x100000 := by omega
    rw [half_loop_step, if_pos habs, e1, e2,
      ih f (abs * 2) (hi - 0x100000) (by omega) (by omega) (by omega) (by omega) (by omega)]
    rw [hk]
    have e3 : hi - 0x100000 - k * 0x100000 = hi - (k + 1) * 0x100000 := by omega
    rw [e3]

theorem half_shift_exists : ∀ (n abs : Nat), 0 < abs → abs < 0x800 → 0x800 ≤ abs * 2 ^ n →
    ∃ k, k < n ∧ 0x400 ≤ abs * 2 ^ k ∧ abs * 2 ^ k < 0x800 := by
  intro n
  induction n with
  | zero => intro abs _ h2 h3; simp at h3; omega
  | succ n ih =>
    intro abs h1 h2 h3
    by_cases hc : 0x400 ≤ abs
    · exact ⟨0, by omega, by simpa using hc, by simpa using h2⟩
    · obtain ⟨k, hk1, hk2, hk3⟩ := ih (abs * 2) (by omega) (by omega) (by
        have : abs * 2 ^ (n + 1) = abs * 2 * 2 ^ n := by ring
        omega)
      refine ⟨k + 1, by omega, ?_, ?_⟩
      · have : abs * 2 ^ (k + 1) = abs * 2 * 2 ^ k := by ring
        omega
      · have : abs * 2 ^ (k + 1) = abs * 2 * 2 ^ k := by ring
        omega

theorem and_sign_bit (n : Nat) (h : n < 65536) : n &&& 0x8000 = n / 2 ^ 15 * 2 ^ 15 := by
  have h1 : (0x8000 : Nat) = 2 ^ 15 := by norm_num
  rw [h1, Nat.and_two_pow, Nat.testBit_to_div_mod]
  have h2 : n / 32768 = 0 ∨ n / 32768 = 1 := by omega
  rcases h2 with h2 | h2 <;> simp [h2]

theorem and_abs_bits (n : Nat) : n &&& 0x7FFF = n % 2 ^ 15 := by
  have h1 : (0x7FFF : Nat) = 2 ^ 15 - 1 := by norm_num
  rw [h1, Nat.and_pow_two_sub_one_eq_mod]

theorem or_exp_bias (s : Nat) (h : s < 2) :
    (s * 2 ^ 15) <<< 16 % 2 ^ 64 ||| 0x3F000000 <<< 0 = s * 2 ^ 31 + 0x3F000000 := by
  have h2 : s = 0 ∨ s = 1 := by omega
  rcases h2 with h2 | h2 <;> subst h2 <;> decide

theorem half_bits_unfold (v : UShort) :
    arpragueskymodelground_double_from_half_bits v =
      (if v.val % 2 ^ 15 ≠ 0 then
        match arpragueskymodelground_double_from_half_loop 0x400 (v.val % 2 ^ 15)
          ((v.val / 2 ^ 15 * 2 ^ 15) <<< 16 % 2 ^ 64 |||
            (0x3F000000 <<< (if v.val % 2 ^ 15 ≥ 0x7C00 then 1 else 0))) with
        | none => none
        | some (abs2, hi2) => some ((hi2 + (abs2 <<< 10) % 2 ^ 64) % 2 ^ 64)
      else some ((v.val / 2 ^ 15 * 2 ^ 15) <<< 16 % 2 ^ 64)).map
        (fun h => (h <<< 32) % 2 ^ 64) := by
  unfold arpragueskymodelground_double_from_half_bits
  simp only [and_sign_bit v.val v.isLt, and_abs_bits]

theorem half_bits_normal (v : UShort) (h1 : 1 ≤ v.val / 2 ^ 10 % 32)
    (h2 : v.val / 2 ^ 10 % 32 ≠ 31) :
    arpragueskymodelground_double_from_half_bits v =
      some ((v.val / 2 ^ 15 * 2 ^ 31 + (1008 + v.val / 2 ^ 10 % 32) * 2 ^ 20
        + v.val % 1024 * 2 ^ 10) * 2 ^ 32) := by
  have hv := v.isLt
  have habs0 : v.val % 2 ^ 15 ≠ 0 := by omega
  have habs1 : ¬ (v.val % 2 ^ 15 ≥ 0x7C00) := by omega
  have habs2 : 0x400 ≤ v.val % 2 ^ 15 := by omega
  rw [half_bits_unfold, if_pos habs0, if_neg habs1, or_exp_bias _ (by omega),
    half_loop_done _ _ _ habs2]
  simp only [Option.map_some', Nat.shiftLeft_eq]
  refine congrArg some ?_
  omega

theorem half_bits_subnormal (v : UShort) (h1 : v.val / 2 ^ 10 % 32 = 0)
    (h2 : v.val % 1024 ≠ 0) :
    ∃ k a, 1 ≤ k ∧ k ≤ 10 ∧ a = v.val % 1024 * 2 ^ k ∧ 1024 ≤ a ∧ a < 2048 ∧
      arpragueskymodelground_double_from_half_bits v =
        some ((v.val / 2 ^ 15 * 2 ^ 31 + (1009 - k) * 2 ^ 20 + (a - 1024) * 2 ^ 10) * 2 ^ 32) := by
  have hv := v.isLt
  have hm : v.val % 2 ^ 15 = v.val % 1024 := by omega
  have habs0 : v.val % 2 ^ 15 ≠ 0 := by omega
  have habs1 : ¬ (v.val % 2 ^ 15 ≥ 0x7C00) := by omega
  obtain ⟨k, hk1, hk2, hk3⟩ := half_shift_exists 11 (v.val % 1024) (by omega) (by omega)
    (by norm_num; omega)
  have hk0 : 1 ≤ k := by
    rcases Nat.eq_zero_or_pos k with h0 | h0
    · subst h0; simp at hk2; omega
    · exact h0
  refine ⟨k, v.val % 1024 * 2 ^ k, hk0, by omega, rfl, hk2, hk3, ?_⟩
  rw [half_bits_unfold, if_pos habs0, if_neg habs1, or_exp_bias _ (by omega), hm,
    half_loop_shift k _ _ _ hk2 hk3 (by omega) (by omega) (by omega)]
  simp only [Option.map_some', Nat.shiftLeft_eq]
  refine congrArg some ?_
  generalize v.val % 1024 * 2 ^ k = a at hk2 hk3
  omega

theorem half_bits_zero (v : UShort) (h1 : v.val / 2 ^ 10 % 32 = 0) (h2 : v.val % 1024 = 0) :
    arpragueskymodelground_double_from_half_bits v = some (v.val / 2 ^ 15 * 2 ^ 63) := by
  have hv := v.isLt
  have habs0 : ¬ (v.val % 2 ^ 15 ≠ 0) := by omega
  rw [half_bits_unfold, if_neg habs0]
  simp only [Option.map_some', Nat.shiftLeft_eq]
  refine congrArg some ?_
  omega

theorem binary64_value_normal (s e m : Nat) (hs : s < 2) (he1 : 1 ≤ e) (he2 : e ≤ 30)
    (hm : m < 1024) :
    binary64_value ((s * 2 ^ 31 + (1008 + e) * 2 ^ 20 + m * 2 ^ 10) * 2 ^ 32) =
      (-1) ^ s * (2 : ℚ) ^ ((e : ℤ) - 15) * (1 + (m : ℚ) / 1024) := by
  have hS : (s * 2 ^ 31 + (1008 + e) * 2 ^ 20 + m * 2 ^ 10) * 2 ^ 32 / 2 ^ 63 % 2 = s := by omega
  have hE : (s * 2 ^ 31 + (1008 + e) * 2 ^ 20 + m * 2 ^ 10) * 2 ^ 32 / 2 ^ 52 % 2048
      = 1008 + e := by omega
  have hM : (s * 2 ^ 31 + (1008 + e) * 2 ^ 20 + m * 2 ^ 10) * 2 ^ 32 % 2 ^ 52
      = m * 2 ^ 42 := by omega
  simp only [binary64_value, hS, hE, hM]
  have hne : ¬ (1008 + e = 0) := by omega
  rw [if_neg hne]
  have hexp : ((1008 + e : ℕ) : ℤ) - 1023 = (e : ℤ) - 15 := by push_cast; ring
  have hfrac : ((m * 2 ^ 42 : ℕ) : ℚ) / 2 ^ 52 = (m : ℚ) / 1024 := by
    push_cast; field_simp; ring
  rw [hexp, hfrac]
  have h2 : s = 0 ∨ s = 1 := by omega
  rcases h2 with h2 | h2 <;> subst h2 <;> simp <;> ring

theorem binary64_value_subnormal (s k a m : Nat) (hs : s < 2) (hk1 : 1 ≤ k) (hk2 : k ≤ 10)
    (ha : a = m * 2 ^ k) (ha1 : 1024 ≤ a) (ha2 : a < 2048) :
    binary64_value ((s * 2 ^ 31 + (1009 - k) * 2 ^ 20 + (a - 1024) * 2 ^ 10) * 2 ^ 32) =
      (-1) ^ s * (m : ℚ) * (2 : ℚ) ^ (-24 : ℤ) := by
  obtain ⟨j, hj⟩ : ∃ j, j + k = 1009 := ⟨1009 - k, by omega⟩
  obtain ⟨r, hr⟩ : ∃ r, r + 1024 = a := ⟨a - 1024, by omega⟩
  have hj2 : 1009 - k = j := by omega
  have hr2 : a - 1024 = r := by omega
  rw [hj2, hr2]
  have hS : (s * 2 ^ 31 + j * 2 ^ 20 + r * 2 ^ 10) * 2 ^ 32 / 2 ^ 63 % 2 = s := by omega
  have hE : (s * 2 ^ 31 + j * 2 ^ 20 + r * 2 ^ 10) * 2 ^ 32 / 2 ^ 52 % 2048 = j := by omega
  have hM : (s * 2 ^ 31 + j * 2 ^ 20 + r * 2 ^ 10) * 2 ^ 32 % 2 ^ 52 = r * 2 ^ 42 := by omega
  simp only [binary64_value, hS, hE, hM]
  have hne : ¬ (j = 0) := by omega
  rw [if_neg hne]
  have hexp : (j : ℤ) - 1023 = -14 - (k : ℤ) := by omega
  have hfrac : 1 + ((r * 2 ^ 42 : ℕ) : ℚ) / 2 ^ 52 = (m : ℚ) * 2 ^ k / 1024 := by
    have hra : (r : ℚ) + 1024 = (m : ℚ) * 2 ^ k := by
      have := congrArg (Nat.cast : ℕ → ℚ) (hr.trans ha)
      push_cast at this
      exact this
    push_cast; field_simp; linarith
  have hpow : (2 : ℚ) ^ (-14 - (k : ℤ)) = (2 : ℚ) ^ (-14 : ℤ) / 2 ^ k := by
    rw [zpow_sub₀ (by norm_num), zpow_natCast]
  rw [hexp, hfrac, hpow]
  have h2k : (2 : ℚ) ^ k ≠ 0 := pow_ne_zero _ (by norm_num)
  have h14 : (2 : ℚ) ^ (-14 : ℤ) = 1 / 16384 := by norm_num [zpow_neg]
  have h24 : (2 : ℚ) ^ (-24 : ℤ) = 1 / 16777216 := by norm_num [zpow_neg]
  rw [h14, h24]
  have h2 : s = 0 ∨ s = 1 := by omega
  rcases h2 with h2 | h2 <;> subst h2 <;> field_simp <;> ring

theorem binary64_value_zero (s : Nat) : binary64_value (s * 2 ^ 63) = 0 := by
  have hE : s * 2 ^ 63 / 2 ^ 52 % 2048 = 0 := by omega
  have hM : s * 2 ^ 63 % 2 ^ 52 = 0 := by omega
  simp only [binary64_value, hE, hM]
  simp

/-- C2: the known patterns decode exactly: `0x0000` to the bits of `+0.0`,
`0x3C00` to the bits of `1.0`, `0x8000` to the bits of `-0.0` and the smallest
subnormal `0x0001` to the bits of `2^(-24)`. -/
theorem double_from_half_known_patterns :
    arpragueskymodelground_double_from_half_bits 0x0000 = some 0x0000000000000000 ∧
    arpragueskymodelground_double_from_half_bits 0x3C00 = some 0x3FF0000000000000 ∧
    arpragueskymodelground_double_from_half_bits 0x8000 = some 0x8000000000000000 ∧
    arpragueskymodelground_double_from_half_bits 0x0001 = some 0x3E70000000000000 := by
  refine ⟨?_, ?_, ?_, ?_⟩ <;> decide

/-- C1: for every 16-bit pattern whose exponent field is not 31 the function
returns a 64-bit pattern that carries the sign bit of the half and whose
binary64 reading is the value of the half: `(-1)^s * 2^(e-15) * (1 + m/1024)`
for `e ≥ 1`, `(-1)^s * m * 2^(-24)` for `e = 0`, and the signed zero
`s * 2^63` when `e = 0` and `m = 0`. -/
theorem double_from_half_exact (v : UShort) (hfin : v.val / 2 ^ 10 % 32 ≠ 31) :
    ∃ bits, arpragueskymodelground_double_from_half_bits v = some bits ∧
      arpragueskymodelground_double_from_half v = some (binary64_value bits) ∧
      bits < 2 ^ 64 ∧ bits / 2 ^ 63 = v.val / 2 ^ 15 ∧
      (1 ≤ v.val / 2 ^ 10 % 32 → binary64_value bits =
        (-1) ^ (v.val / 2 ^ 15) * (2 : ℚ) ^ (((v.val / 2 ^ 10 % 32 : ℕ) : ℤ) - 15)
          * (1 + ((v.val % 1024 : ℕ) : ℚ) / 1024)) ∧
      (v.val / 2 ^ 10 % 32 = 0 → binary64_value bits =
        (-1) ^ (v.val / 2 ^ 15) * ((v.val % 1024 : ℕ) : ℚ) * (2 : ℚ) ^ (-24 : ℤ)) ∧
      (v.val / 2 ^ 10 % 32 = 0 → v.val % 1024 = 0 → bits = v.val / 2 ^ 15 * 2 ^ 63) := by
  have hv := v.isLt
  have hs : v.val / 2 ^ 15 < 2 := by omega
  by_cases he : 1 ≤ v.val / 2 ^ 10 % 32
  · have hb := half_bits_normal v he hfin
    refine ⟨_, hb, by rw [arpragueskymodelground_double_from_half, hb]; rfl, by omega, by omega,
      fun _ => binary64_value_normal _ _ _ hs he (by omega) (by omega), fun h => by omega,
      fun h => by omega⟩
  · have he0 : v.val / 2 ^ 10 % 32 = 0 := by omega
    by_cases hm : v.val % 1024 = 0
    · have hb := half_bits_zero v he0 hm
      refine ⟨_, hb, by rw [arpragueskymodelground_double_from_half, hb]; rfl, by omega, by omega,
        fun h => by omega, fun _ => ?_, fun _ _ => rfl⟩
      rw [binary64_value_zero, hm]
      simp
    · obtain ⟨k, a, hk1, hk2, ha, ha1, ha2, hb⟩ := half_bits_subnormal v he0 hm
      refine ⟨_, hb, by rw [arpragueskymodelground_double_from_half, hb]; rfl, by omega, by omega,
        fun h => by omega, fun _ => binary64_value_subnormal _ k a _ hs hk1 hk2 ha ha1 ha2,
        fun _ h => absurd h hm⟩

theorem double_from_half_exact_witness :
    ((0x3C00 : UShort).val / 2 ^ 10 % 32 ≠ 31) ∧
    ∃ bits, arpragueskymodelground_double_from_half_bits 0x3C00 = some bits ∧
      arpragueskymodelground_double_from_half 0x3C00 = some (binary64_value bits) ∧
      bits < 2 ^ 64 ∧ bits / 2 ^ 63 = (0x3C00 : UShort).val / 2 ^ 15 ∧
      (1 ≤ (0x3C00 : UShort).val / 2 ^ 10 % 32 → binary64_value bits =
        (-1) ^ ((0x3C00 : UShort).val / 2 ^ 15)
          * (2 : ℚ) ^ ((((0x3C00 : UShort).val / 2 ^ 10 % 32 : ℕ) : ℤ) - 15)
          * (1 + (((0x3C00 : UShort).val % 1024 : ℕ) : ℚ) / 1024)) ∧
      ((0x3C00 : UShort).val / 2 ^ 10 % 32 = 0 → binary64_value bits =
        (-1) ^ ((0x3C00 : UShort).val / 2 ^ 15) * (((0x3C00 : UShort).val % 1024 : ℕ) : ℚ)
          * (2 : ℚ) ^ (-24 : ℤ)) ∧
      ((0x3C00 : UShort).val / 2 ^ 10 % 32 = 0 → (0x3C00 : UShort).val % 1024 = 0 →
        bits = (0x3C00 : UShort).val / 2 ^ 15 * 2 ^ 63) :=
  ⟨by decide, double_from_half_exact 0x3C00 (by decide)⟩

theorem double_from_half_bits_total (v : UShort) :
    ∃ bits, arpragueskymodelground_double_from_half_bits v = some bits := by
  have hv := v.isLt
  by_cases h0 : v.val % 2 ^ 15 ≠ 0
  · by_cases h1 : 0x400 ≤ v.val % 2 ^ 15
    · rw [half_bits_unfold, if_pos h0, half_loop_done _ _ _ h1]
      exact ⟨_, rfl⟩
    · obtain ⟨k, a, _, _, _, _, _, hb⟩ := half_bits_subnormal v (by omega) (by omega)
      exact ⟨_, hb⟩
  · rw [half_bits_unfold, if_neg h0]
    exact ⟨_, rfl⟩

theorem double_from_half_total (v : UShort) :
    ∃ q, arpragueskymodelground_double_from_half v = some q := by
  obtain ⟨bits, hb⟩ := double_from_half_bits_total v
  exact ⟨binary64_value bits, by rw [arpragueskymodelground_double_from_half, hb]; rfl⟩

/-! ## Memory lemmas -/

theorem read_at_natCast {α : Type} (a : List α) (n : Nat) : read_at a (n : ℤ) = a[n]? := by
  simp [read_at]

theorem read_at_of_lt {α : Type} (a : List α) (n : Nat) (h : n < a.length) :
    read_at a (n : ℤ) = some a[n] := by
  simp [read_at, h]

theorem write_at_natCast {α : Type} (a : List α) (n : Nat) (x : α) (h : n < a.length) :
    write_at a (n : ℤ) x = some (a.set n x) := by
  simp [write_at, h]

theorem read_at_ofNat {α : Type} (a : List α) (n : Nat) :
    read_at a (no_index (@OfNat.ofNat ℤ n instOfNat)) = a[n]? := read_at_natCast a n

theorem write_at_ofNat {α : Type} (a : List α) (n : Nat) (x : α) :
    write_at a (no_index (@OfNat.ofNat ℤ n instOfNat)) x =
      if n < a.length then some (a.set n x) else none := by
  have h : (@OfNat.ofNat ℤ n instOfNat) = (n : ℤ) := rfl
  simp [write_at, h]

theorem read_at_eq_some_iff {α : Type} (a : List α) (i : Int) (x : α) :
    read_at a i = some x ↔ 0 ≤ i ∧ a[i.toNat]? = some x := by
  unfold read_at
  by_cases h : i < 0
  · simp [h]
  · simp [h]; intro _; omega

/-! ## Coefficient synthesis: proofs -/

theorem compute_pp_coefs_loop_succ (breaks : List ℚ) (values : List UShort) (offset : Int)
    (scale : ℚ) (n : Nat) (i : Int) (coefs : List ℚ) :
    arpragueskymodelground_compute_pp_coefs_from_half_loop breaks values offset scale (n + 1) i coefs
      = (read_at values (i + 1)).bind fun h1 =>
        (arpragueskymodelground_double_from_half h1).bind fun d1 =>
        (read_at values i).bind fun h2 =>
        (arpragueskymodelground_double_from_half h2).bind fun d2 =>
        (read_at breaks (i + 1)).bind fun b1 =>
        (read_at breaks i).bind fun b0 =>
        (write_at coefs (offset + 2 * i) ((d1 / scale - d2 / scale) / (b1 - b0))).bind fun coefs1 =>
        (write_at coefs1 (offset + 2 * i + 1) (d2 / scale)).bind fun coefs2 =>
        arpragueskymodelground_compute_pp_coefs_from_half_loop breaks values offset scale n (i + 1)
          coefs2 := rfl

theorem compute_pp_coefs_loop_spec (breaks : List ℚ) (values : List UShort) (o : Nat)
    (scale : ℚ) : ∀ (n k : Nat) (coefs : List ℚ), k + n < values.length →
    k + n < breaks.length → o + 2 * (k + n) ≤ coefs.length →
    ∃ coefs1, arpragueskymodelground_compute_pp_coefs_from_half_loop breaks values (o : ℤ) scale
        n (k : ℤ) coefs = some coefs1 ∧ coefs1.length = coefs.length ∧
      (∀ p, p < o + 2 * k → coefs1[p]? = coefs[p]?) ∧
      (∀ j, k ≤ j → j < k + n → ∃ r0 r1 h0 h1 b0 b1, values[j]? = some r0 ∧
        values[j + 1]? = some r1 ∧ arpragueskymodelground_double_from_half r0 = some h0 ∧
        arpragueskymodelground_double_from_half r1 = some h1 ∧ breaks[j]? = some b0 ∧
        breaks[j + 1]? = some b1 ∧
        coefs1[o + 2 * j]? = some ((h1 / scale - h0 / scale) / (b1 - b0)) ∧
        coefs1[o + 2 * j + 1]? = some (h0 / scale)) := by
  intro n
  induction n with
  | zero =>
    intro k coefs _ _ _
    exact ⟨coefs, rfl, rfl, fun _ _ => rfl, fun j h1 h2 => by omega⟩
  | succ n ih =>
    intro k coefs hv hb hc
    obtain ⟨h0, hh0⟩ := double_from_half_total (values[k])
    obtain ⟨h1, hh1⟩ := double_from_half_total (values[k + 1])
    have e1 : ((k : ℤ) + 1) = ((k + 1 : ℕ) : ℤ) := by push_cast; ring
    have e2 : ((o : ℤ) + 2 * (k : ℤ)) = ((o + 2 * k : ℕ) : ℤ) := by push_cast; ring
    have e3 : ((o + 2 * k : ℕ) : ℤ) + 1 = ((o + 2 * k + 1 : ℕ) : ℤ) := by push_cast; ring
    obtain ⟨coefs1, hc1, hlen, hlow, hseg⟩ := ih (k + 1)
      ((coefs.set (o + 2 * k) ((h1 / scale - h0 / scale) / (breaks[k + 1] - breaks[k]))).set
        (o + 2 * k + 1) (h0 / scale)) (by omega) (by omega) (by simp; omega)
    refine ⟨coefs1, ?_, by simpa using hlen, ?_, ?_⟩
    · rw [compute_pp_coefs_loop_succ, e1, e2, e3, read_at_of_lt values (k + 1) (by omega),
        read_at_of_lt values k (by omega), read_at_of_lt breaks (k + 1) (by omega),
        read_at_of_lt breaks k (by omega)]
      simp only [Option.some_bind, hh0, hh1]
      rw [write_at_natCast _ _ _ (by omega)]
      simp only [Option.some_bind]
      rw [write_at_natCast _ _ _ (by simp; omega)]
      simp only [Option.some_bind]
      exact hc1
    · intro p hp
      rw [hlow p (by omega), List.getElem?_set_ne (by omega), List.getElem?_set_ne (by omega)]
    · intro j hj1 hj2
      rcases Nat.eq_or_lt_of_le hj1 with hjk | hjk
      · subst hjk
        refine ⟨values[k], values[k + 1], h0, h1, breaks[k], breaks[k + 1],
          List.getElem?_eq_getElem _, List.getElem?_eq_getElem _, hh0, hh1,
          List.getElem?_eq_getElem _, List.getElem?_eq_getElem _, ?_, ?_⟩
        · rw [hlow _ (by omega), List.getElem?_set_ne (by omega),
            List.getElem?_set_self (by omega)]
        · rw [hlow _ (by omega), List.getElem?_set_self (by simp; omega)]
      · exact hseg j (by omega) (by omega)

theorem compute_pp_coefs_segments (nbreaks : Int) (breaks : List ℚ) (values : List UShort)
    (coefs : List ℚ) (offset : Int) (scale : ℚ) (hn : 2 ≤ nbreaks)
    (hb : nbreaks ≤ breaks.length) (hv : nbreaks ≤ values.length) (ho : 0 ≤ offset)
    (hc : offset + 2 * (nbreaks - 1) ≤ coefs.length) :
    ∃ coefs1, arpragueskymodelground_compute_pp_coefs_from_half nbreaks breaks values coefs
        offset scale = some (coefs1, 2 * (nbreaks - 1)) ∧ coefs1.length = coefs.length ∧
      ∀ i : Int, 0 ≤ i → i ≤ nbreaks - 2 → ∃ r0 r1 h0 h1 b0 b1,
        read_at values i = some r0 ∧ read_at values (i + 1) = some r1 ∧
        arpragueskymodelground_double_from_half r0 = some h0 ∧
        arpragueskymodelground_double_from_half r1 = some h1 ∧
        read_at breaks i = some b0 ∧ read_at breaks (i + 1) = some b1 ∧
        read_at coefs1 (offset + 2 * i) = some ((h1 / scale - h0 / scale) / (b1 - b0)) ∧
        read_at coefs1 (offset + 2 * i + 1) = some (h0 / scale) := by
  obtain ⟨o, rfl⟩ := Int.eq_ofNat_of_zero_le ho
  obtain ⟨m, rfl⟩ := Int.eq_ofNat_of_zero_le (show (0 : ℤ) ≤ nbreaks by omega)
  obtain ⟨coefs1, hc1, hlen, _, hseg⟩ := compute_pp_coefs_loop_spec breaks values o scale
    (m - 1) 0 coefs (by omega) (by omega) (by omega)
  have hm : ((m : ℤ) - 1).toNat = m - 1 := by omega
  refine ⟨coefs1, ?_, hlen, ?_⟩
  · unfold arpragueskymodelground_compute_pp_coefs_from_half
    rw [hm]
    have h0 : ((0 : ℕ) : ℤ) = 0 := rfl
    rw [h0] at hc1
    rw [hc1]
    simp only [Option.bind_eq_bind, Option.some_bind]
    refine congrArg some (Prod.ext rfl ?_)
    show 2 * (m : ℤ) - 2 = 2 * ((m : ℤ) - 1)
    ring
  · intro i hi0 hi1
    obtain ⟨j, rfl⟩ := Int.eq_ofNat_of_zero_le hi0
    obtain ⟨r0, r1, h0, h1, b0, b1, e1, e2, e3, e4, e5, e6, e7, e8⟩ :=
      hseg j (by omega) (by omega)
    have c1 : ((j : ℤ) + 1) = ((j + 1 : ℕ) : ℤ) := by push_cast; ring
    have c2 : ((o : ℤ) + 2 * (j : ℤ)) = ((o + 2 * j : ℕ) : ℤ) := by push_cast; ring
    have c3 : ((o + 2 * j : ℕ) : ℤ) + 1 = ((o + 2 * j + 1 : ℕ) : ℤ) := by push_cast; ring
    refine ⟨r0, r1, h0, h1, b0, b1, ?_, ?_, e3, e4, ?_, ?_, ?_, ?_⟩
    · rw [read_at_natCast]; exact e1
    · rw [c1, read_at_natCast]; exact e2
    · rw [read_at_natCast]; exact e5
    · rw [c1, read_at_natCast]; exact e6
    · rw [c2, read_at_natCast]; exact e7
    · rw [c2, c3, read_at_natCast]; exact e8

theorem eval_pp_of_reads (x : ℚ) (segment : Int) (breaks buf : List ℚ) (off : Int)
    (b c0 c1 : ℚ) (hb : read_at breaks segment = some b)
    (h0 : read_at buf (off + 2 * segment) = some c0)
    (h1 : read_at buf (off + 2 * segment + 1) = some c1) :
    arpragueskymodelground_eval_pp x segment breaks ⟨buf, off⟩ = some (c0 * (x - b) + c1) := by
  simp [arpragueskymodelground_eval_pp, DoublePtr.add, DoublePtr.read, hb, h0, h1]

theorem pairwise_read_lt (axis : List ℚ) (hinc : axis.Pairwise (· < ·)) (i j : Int) (a b : ℚ)
    (hi : read_at axis i = some a) (hj : read_at axis j = some b) (hij : i < j) : a < b := by
  rw [read_at_eq_some_iff] at hi hj
  obtain ⟨hi0, hi1⟩ := hi
  obtain ⟨hj0, hj1⟩ := hj
  rw [List.getElem?_eq_some] at hi1 hj1
  obtain ⟨hil, rfl⟩ := hi1
  obtain ⟨hjl, rfl⟩ := hj1
  exact List.pairwise_iff_getElem.mp hinc i.toNat j.toNat hil hjl (by omega)

/-- C3: for `nbreaks ≥ 2` and a non-zero scale (arrays of at least `nbreaks`
entries, room for the block in the buffer) the function returns
`2*(nbreaks-1)` and has written, for each segment `i` in `[0, nbreaks-2]`,
`coefs[offset+2i] = (v1 - v0)/(breaks[i+1] - breaks[i])` and
`coefs[offset+2i+1] = v0` with `v0 = half(raw[i])/scale` and
`v1 = half(raw[i+1])/scale`. -/
theorem compute_pp_coefs_from_half_spec (nbreaks : Int) (breaks : List ℚ)
    (values : List UShort) (coefs : List ℚ) (offset : Int) (scale : ℚ) (hn : 2 ≤ nbreaks)
    (_ : scale ≠ 0) (hb : nbreaks ≤ breaks.length) (hv : nbreaks ≤ values.length)
    (ho : 0 ≤ offset) (hc : offset + 2 * (nbreaks - 1) ≤ coefs.length) :
    ∃ coefs1, arpragueskymodelground_compute_pp_coefs_from_half nbreaks breaks values coefs
        offset scale = some (coefs1, 2 * (nbreaks - 1)) ∧ coefs1.length = coefs.length ∧
      ∀ i : Int, 0 ≤ i → i ≤ nbreaks - 2 → ∃ r0 r1 h0 h1 b0 b1,
        read_at values i = some r0 ∧ read_at values (i + 1) = some r1 ∧
        arpragueskymodelground_double_from_half r0 = some h0 ∧
        arpragueskymodelground_double_from_half r1 = some h1 ∧
        read_at breaks i = some b0 ∧ read_at breaks (i + 1) = some b1 ∧
        read_at coefs1 (offset + 2 * i) = some ((h1 / scale - h0 / scale) / (b1 - b0)) ∧
        read_at coefs1 (offset + 2 * i + 1) = some (h0 / scale) :=
  compute_pp_coefs_segments nbreaks breaks values coefs offset scale hn hb hv ho hc

theorem compute_pp_coefs_from_half_spec_witness :
    ∃ coefs1, arpragueskymodelground_compute_pp_coefs_from_half 2 [0, 2] [0x3C00, 0x4000]
        [7, 7, 7] 1 3 = some (coefs1, 2 * (2 - 1)) ∧ coefs1.length = [(7 : ℚ), 7, 7].length ∧
      ∀ i : Int, 0 ≤ i → i ≤ 2 - 2 → ∃ r0 r1 h0 h1 b0 b1,
        read_at [(0x3C00 : UShort), 0x4000] i = some r0 ∧
        read_at [(0x3C00 : UShort), 0x4000] (i + 1) = some r1 ∧
        arpragueskymodelground_double_from_half r0 = some h0 ∧
        arpragueskymodelground_double_from_half r1 = some h1 ∧
        read_at [(0 : ℚ), 2] i = some b0 ∧ read_at [(0 : ℚ), 2] (i + 1) = some b1 ∧
        read_at coefs1 (1 + 2 * i) = some ((h1 / 3 - h0 / 3) / (b1 - b0)) ∧
        read_at coefs1 (1 + 2 * i + 1) = some (h0 / 3) :=
  compute_pp_coefs_from_half_spec 2 [0, 2] [0x3C00, 0x4000] [7, 7, 7] 1 3 (by norm_num)
    (by norm_num) (by simp) (by simp) (by norm_num) (by simp)

/-- C4: round trip in exact arithmetic. For strictly increasing breaks and a
non-zero scale, evaluating `arpragueskymodelground_eval_pp` on the synthesised
coefficients at the two breakpoints of each segment `i` in `[0, nbreaks-2]`
gives `half(raw[i])/scale` and `half(raw[i+1])/scale`; consecutive segments
agree at their common breakpoint. -/
theorem pp_coefs_round_trip (nbreaks : Int) (breaks : List ℚ) (values : List UShort)
    (coefs : List ℚ) (offset : Int) (scale : ℚ) (hn : 2 ≤ nbreaks) (_ : scale ≠ 0)
    (hinc : breaks.Pairwise (· < ·))
    (hb : nbreaks ≤ breaks.length) (hv : nbreaks ≤ values.length) (ho : 0 ≤ offset)
    (hc : offset + 2 * (nbreaks - 1) ≤ coefs.length) :
    ∃ coefs1, arpragueskymodelground_compute_pp_coefs_from_half nbreaks breaks values coefs
        offset scale = some (coefs1, 2 * (nbreaks - 1)) ∧
      (∀ i : Int, 0 ≤ i → i ≤ nbreaks - 2 → ∃ r0 r1 h0 h1 b0 b1,
        read_at values i = some r0 ∧ read_at values (i + 1) = some r1 ∧
        arpragueskymodelground_double_from_half r0 = some h0 ∧
        arpragueskymodelground_double_from_half r1 = some h1 ∧
        read_at breaks i = some b0 ∧ read_at breaks (i + 1) = some b1 ∧
        arpragueskymodelground_eval_pp b0 i breaks ⟨coefs1, offset⟩ = some (h0 / scale) ∧
        arpragueskymodelground_eval_pp b1 i breaks ⟨coefs1, offset⟩ = some (h1 / scale)) ∧
      (∀ i : Int, 0 ≤ i → i + 1 ≤ nbreaks - 2 → ∃ b1 y, read_at breaks (i + 1) = some b1 ∧
        arpragueskymodelground_eval_pp b1 i breaks ⟨coefs1, offset⟩ = some y ∧
        arpragueskymodelground_eval_pp b1 (i + 1) breaks ⟨coefs1, offset⟩ = some y) := by
  obtain ⟨coefs1, hc1, _, hseg⟩ :=
    compute_pp_coefs_segments nbreaks breaks values coefs offset scale hn hb hv ho hc
  have key : ∀ i : Int, 0 ≤ i → i ≤ nbreaks - 2 → ∃ r0 r1 h0 h1 b0 b1,
      read_at values i = some r0 ∧ read_at values (i + 1) = some r1 ∧
      arpragueskymodelground_double_from_half r0 = some h0 ∧
      arpragueskymodelground_double_from_half r1 = some h1 ∧
      read_at breaks i = some b0 ∧ read_at breaks (i + 1) = some b1 ∧
      arpragueskymodelground_eval_pp b0 i breaks ⟨coefs1, offset⟩ = some (h0 / scale) ∧
      arpragueskymodelground_eval_pp b1 i breaks ⟨coefs1, offset⟩ = some (h1 / scale) := by
    intro i hi0 hi1
    obtain ⟨r0, r1, h0, h1, b0, b1, e1, e2, e3, e4, e5, e6, e7, e8⟩ := hseg i hi0 hi1
    have hlt : b0 < b1 := pairwise_read_lt breaks hinc i (i + 1) b0 b1 e5 e6 (by omega)
    have hne : b1 - b0 ≠ 0 := by linarith
    refine ⟨r0, r1, h0, h1, b0, b1, e1, e2, e3, e4, e5, e6, ?_, ?_⟩
    · rw [eval_pp_of_reads b0 i breaks coefs1 offset b0 _ _ e5 e7 e8]
      refine congrArg some ?_
      ring
    · rw [eval_pp_of_reads b1 i breaks coefs1 offset b0 _ _ e5 e7 e8]
      refine congrArg some ?_
      field_simp
      ring
  refine ⟨coefs1, hc1, key, ?_⟩
  intro i hi0 hi1
  obtain ⟨_, r1, _, h1, _, b1, _, e2, _, e4, _, e6, _, e8⟩ := key i hi0 (by omega)
  obtain ⟨r0, _, h0, _, b0, _, e1, _, e3, _, e5, _, e7, _⟩ := key (i + 1) (by omega) hi1
  have hbb : b0 = b1 := Option.some.inj (e5.symm.trans e6)
  have hrr : r0 = r1 := Option.some.inj (e1.symm.trans e2)
  subst hbb hrr
  have hhh : h0 = h1 := Option.some.inj (e3.symm.trans e4)
  subst hhh
  exact ⟨b0, h0 / scale, e6, e8, e7⟩

theorem pp_coefs_round_trip_witness :
    ∃ coefs1, arpragueskymodelground_compute_pp_coefs_from_half 3 [0, 2, 5]
        [0x3C00, 0x4000, 0x3800] [7, 7, 7, 7, 7] 1 3 = some (coefs1, 2 * (3 - 1)) ∧
      (∀ i : Int, 0 ≤ i → i ≤ 3 - 2 → ∃ r0 r1 h0 h1 b0 b1,
        read_at [(0x3C00 : UShort), 0x4000, 0x3800] i = some r0 ∧
        read_at [(0x3C00 : UShort), 0x4000, 0x3800] (i + 1) = some r1 ∧
        arpragueskymodelground_double_from_half r0 = some h0 ∧
        arpragueskymodelground_double_from_half r1 = some h1 ∧
        read_at [(0 : ℚ), 2, 5] i = some b0 ∧ read_at [(0 : ℚ), 2, 5] (i + 1) = some b1 ∧
        arpragueskymodelground_eval_pp b0 i [0, 2, 5] ⟨coefs1, 1⟩ = some (h0 / 3) ∧
        arpragueskymodelground_eval_pp b1 i [0, 2, 5] ⟨coefs1, 1⟩ = some (h1 / 3)) ∧
      (∀ i : Int, 0 ≤ i → i + 1 ≤ 3 - 2 → ∃ b1 y, read_at [(0 : ℚ), 2, 5] (i + 1) = some b1 ∧
        arpragueskymodelground_eval_pp b1 i [0, 2, 5] ⟨coefs1, 1⟩ = some y ∧
        arpragueskymodelground_eval_pp b1 (i + 1) [0, 2, 5] ⟨coefs1, 1⟩ = some y) :=
  pp_coefs_round_trip 3 [0, 2, 5] [0x3C00, 0x4000, 0x3800] [7, 7, 7, 7, 7] 1 3 (by norm_num)
    (by norm_num) (by norm_num) (by simp) (by simp) (by norm_num) (by simp)

/-! ## Reconstruction: proofs -/

theorem eval_pp_eq_some_iff (x : ℚ) (segment : Int) (breaks : List ℚ) (coefs : DoublePtr)
    (y : ℚ) :
    arpragueskymodelground_eval_pp x segment breaks coefs = some y ↔
      ∃ b c0 c1, read_at breaks segment = some b ∧ coefs.read (2 * segment) = some c0 ∧
        coefs.read (2 * segment + 1) = some c1 ∧ y = c0 * (x - b) + c1 := by
  simp only [arpragueskymodelground_eval_pp, DoublePtr.add, DoublePtr.read, Option.bind_eq_bind,
    Option.bind_eq_some, Option.some.injEq, add_zero, add_assoc]
  constructor
  · rintro ⟨b, hb, c0, h0, c1, h1, rfl⟩
    exact ⟨b, c0, c1, hb, h0, h1, rfl⟩
  · rintro ⟨b, c0, c1, hb, h0, h1, rfl⟩
    exact ⟨b, hb, c0, h0, c1, h1, rfl⟩

theorem reconstruct_loop_succ (state : ArPragueSkyModelGroundState) (gamma alpha : ℚ)
    (gamma_segment alpha_segment : Int) (control_params : DoublePtr) (n : Nat) (t : Int)
    (res : ℚ) :
    arpragueskymodelground_reconstruct_loop state gamma alpha gamma_segment alpha_segment
        control_params (n + 1) t res =
      (arpragueskymodelground_eval_pp gamma gamma_segment state.sun_breaks
        (control_params.add (state.sun_offset + t * state.sun_stride))).bind fun sun_val_t =>
      (arpragueskymodelground_eval_pp alpha alpha_segment state.zenith_breaks
        (control_params.add (state.zenith_offset + t * state.zenith_stride))).bind
        fun zenith_val_t =>
      arpragueskymodelground_reconstruct_loop state gamma alpha gamma_segment alpha_segment
        control_params n (t + 1) (res + sun_val_t * zenith_val_t) := rfl

theorem reconstruct_loop_sum (state : ArPragueSkyModelGroundState) (gamma alpha : ℚ)
    (gamma_segment alpha_segment : Int) (control_params : DoublePtr) (sun zen : Nat → ℚ) :
    ∀ (n t0 : Nat) (res : ℚ),
    (∀ t : Nat, t0 ≤ t → t < t0 + n →
      arpragueskymodelground_eval_pp gamma gamma_segment state.sun_breaks
        (control_params.add (state.sun_offset + t * state.sun_stride)) = some (sun t)) →
    (∀ t : Nat, t0 ≤ t → t < t0 + n →
      arpragueskymodelground_eval_pp alpha alpha_segment state.zenith_breaks
        (control_params.add (state.zenith_offset + t * state.zenith_stride)) = some (zen t)) →
    arpragueskymodelground_reconstruct_loop state gamma alpha gamma_segment alpha_segment
        control_params n (t0 : ℤ) res =
      some (res + ∑ t ∈ Finset.range n, sun (t0 + t) * zen (t0 + t)) := by
  intro n
  induction n with
  | zero => intro t0 res _ _; simp [arpragueskymodelground_reconstruct_loop]
  | succ n ih =>
    intro t0 res hsun hzen
    have e1 : ((t0 : ℤ) + 1) = ((t0 + 1 : ℕ) : ℤ) := by push_cast; ring
    rw [reconstruct_loop_succ, hsun t0 (le_refl _) (by omega), hzen t0 (le_refl _) (by omega)]
    simp only [Option.some_bind]
    rw [e1, ih (t0 + 1) _ (fun t h1 h2 => hsun t (by omega) (by omega))
      (fun t h1 h2 => hzen t (by omega) (by omega)), Finset.sum_range_succ']
    refine congrArg some ?_
    have e2 : ∀ t, t0 + 1 + t = t0 + (t + 1) := fun t => by ring
    simp only [e2, add_zero]
    ring

theorem reconstruct_eq (state : ArPragueSkyModelGroundState) (gamma alpha theta : ℚ)
    (gamma_segment alpha_segment theta_segment : Int) (control_params : DoublePtr)
    (sun zen : Nat → ℚ) (emph : ℚ)
    (hsun : ∀ t : Nat, (t : ℤ) < state.tensor_components →
      arpragueskymodelground_eval_pp gamma gamma_segment state.sun_breaks
        (control_params.add (state.sun_offset + t * state.sun_stride)) = some (sun t))
    (hzen : ∀ t : Nat, (t : ℤ) < state.tensor_components →
      arpragueskymodelground_eval_pp alpha alpha_segment state.zenith_breaks
        (control_params.add (state.zenith_offset + t * state.zenith_stride)) = some (zen t))
    (hemph : arpragueskymodelground_eval_pp theta theta_segment state.emph_breaks
        (control_params.add state.emph_offset) = some emph) :
    arpragueskymodelground_reconstruct state gamma alpha theta gamma_segment alpha_segment
        theta_segment control_params =
      some (max 0 ((∑ t ∈ Finset.range state.tensor_components.toNat, sun t * zen t) * emph)) := by
  have hloop := reconstruct_loop_sum state gamma alpha gamma_segment alpha_segment control_params
    sun zen state.tensor_components.toNat 0 0 (fun t _ h2 => hsun t (by omega))
    (fun t _ h2 => hzen t (by omega))
  have h0 : ((0 : ℕ) : ℤ) = 0 := rfl
  rw [h0] at hloop
  unfold arpragueskymodelground_reconstruct
  rw [hloop, hemph]
  simp only [Option.bind_eq_bind, Option.some_bind, zero_add]
  refine congrArg some ?_
  split_ifs with h
  · exact (max_eq_right (le_of_lt h)).symm
  · exact (max_eq_left (not_lt.mp h)).symm

theorem reconstruct_some_nonneg (state : ArPragueSkyModelGroundState) (gamma alpha theta : ℚ)
    (gamma_segment alpha_segment theta_segment : Int) (control_params : DoublePtr) (r : ℚ)
    (h : arpragueskymodelground_reconstruct state gamma alpha theta gamma_segment alpha_segment
        theta_segment control_params = some r) : 0 ≤ r := by
  simp only [arpragueskymodelground_reconstruct, Option.bind_eq_bind, Option.bind_eq_some,
    Option.some.injEq] at h
  obtain ⟨res, _, emph, _, rfl⟩ := h
  split_ifs with h1
  · exact le_of_lt h1
  · exact le_refl _

/-- C5: when the evaluations of the sun, zenith and emphasis terms read inside
the coefficient block, `arpragueskymodelground_reconstruct` returns
`max(0, S * E)`, `S` the sum over the tensor components of the products of the
sun term at `gamma` and the zenith term at `alpha`, `E` the emphasis term at
`theta`; and `eval_pp(x, s, b, c) = c[2s]*(x - b[s]) + c[2s+1]`. -/
theorem reconstruct_spec (state : ArPragueSkyModelGroundState) (gamma alpha theta : ℚ)
    (gamma_segment alpha_segment theta_segment : Int) (control_params : DoublePtr)
    (sun zen : Nat → ℚ) (emph : ℚ)
    (hsun : ∀ t : Nat, (t : ℤ) < state.tensor_components →
      arpragueskymodelground_eval_pp gamma gamma_segment state.sun_breaks
        (control_params.add (state.sun_offset + t * state.sun_stride)) = some (sun t))
    (hzen : ∀ t : Nat, (t : ℤ) < state.tensor_components →
      arpragueskymodelground_eval_pp alpha alpha_segment state.zenith_breaks
        (control_params.add (state.zenith_offset + t * state.zenith_stride)) = some (zen t))
    (hemph : arpragueskymodelground_eval_pp theta theta_segment state.emph_breaks
        (control_params.add state.emph_offset) = some emph) :
    arpragueskymodelground_reconstruct state gamma alpha theta gamma_segment alpha_segment
        theta_segment control_params =
      some (max 0 ((∑ t ∈ Finset.range state.tensor_components.toNat, sun t * zen t) * emph)) ∧
    ∀ (x : ℚ) (s : Int) (b : List ℚ) (c : DoublePtr) (y : ℚ),
      arpragueskymodelground_eval_pp x s b c = some y ↔
        ∃ bs c0 c1, read_at b s = some bs ∧ c.read (2 * s) = some c0 ∧
          c.read (2 * s + 1) = some c1 ∧ y = c0 * (x - bs) + c1 :=
  ⟨reconstruct_eq state gamma alpha theta gamma_segment alpha_segment theta_segment
    control_params sun zen emph hsun hzen hemph, eval_pp_eq_some_iff⟩

theorem reconstruct_spec_witness :
    arpragueskymodelground_reconstruct sample_state 1 2 3 0 0 0
        ⟨sample_state.radiance_dataset, 0⟩ =
      some (max 0 ((∑ t ∈ Finset.range sample_state.tensor_components.toNat,
        (fun _ => (3 : ℚ)) t * (fun _ => (3 : ℚ)) t) * 1)) ∧
    ∀ (x : ℚ) (s : Int) (b : List ℚ) (c : DoublePtr) (y : ℚ),
      arpragueskymodelground_eval_pp x s b c = some y ↔
        ∃ bs c0 c1, read_at b s = some bs ∧ c.read (2 * s) = some c0 ∧
          c.read (2 * s + 1) = some c1 ∧ y = c0 * (x - bs) + c1 :=
  reconstruct_spec sample_state 1 2 3 0 0 0 ⟨sample_state.radiance_dataset, 0⟩
    (fun _ => 3) (fun _ => 3) 1
    (fun t ht => by
      have h0 : t = 0 := by simp [sample_state] at ht; omega
      subst h0
      norm_num [arpragueskymodelground_eval_pp, DoublePtr.add, DoublePtr.read, read_at_ofNat,
        sample_state])
    (fun t ht => by
      have h0 : t = 0 := by simp [sample_state] at ht; omega
      subst h0
      norm_num [arpragueskymodelground_eval_pp, DoublePtr.add, DoublePtr.read, read_at_ofNat,
        sample_state])
    (by
      norm_num [arpragueskymodelground_eval_pp, DoublePtr.add, DoublePtr.read, read_at_ofNat,
        sample_state])

/-- C6: `arpragueskymodelground_reconstruct` never returns a negative value,
and when the evaluations read inside the coefficient block it returns a value
that is `0` whenever the unclamped product `S * E` is negative. -/
theorem reconstruct_nonneg (state : ArPragueSkyModelGroundState) (gamma alpha theta : ℚ)
    (gamma_segment alpha_segment theta_segment : Int) (control_params : DoublePtr)
    (sun zen : Nat → ℚ) (emph : ℚ)
    (hsun : ∀ t : Nat, (t : ℤ) < state.tensor_components →
      arpragueskymodelground_eval_pp gamma gamma_segment state.sun_breaks
        (control_params.add (state.sun_offset + t * state.sun_stride)) = some (sun t))
    (hzen : ∀ t : Nat, (t : ℤ) < state.tensor_components →
      arpragueskymodelground_eval_pp alpha alpha_segment state.zenith_breaks
        (control_params.add (state.zenith_offset + t * state.zenith_stride)) = some (zen t))
    (hemph : arpragueskymodelground_eval_pp theta theta_segment state.emph_breaks
        (control_params.add state.emph_offset) = some emph) :
    (∀ (g a th : ℚ) (gs zs ts : Int) (cp : DoublePtr) (r : ℚ),
      arpragueskymodelground_reconstruct state g a th gs zs ts cp = some r → 0 ≤ r) ∧
    ∃ r, arpragueskymodelground_reconstruct state gamma alpha theta gamma_segment alpha_segment
        theta_segment control_params = some r ∧ 0 ≤ r ∧
      ((∑ t ∈ Finset.range state.tensor_components.toNat, sun t * zen t) * emph < 0 → r = 0) := by
  refine ⟨fun g a th gs zs ts cp r h => reconstruct_some_nonneg state g a th gs zs ts cp r h,
    _, reconstruct_eq state gamma alpha theta gamma_segment alpha_segment theta_segment
      control_params sun zen emph hsun hzen hemph, le_max_left _ _, fun h => ?_⟩
  exact max_eq_left (le_of_lt h)

theorem reconstruct_nonneg_witness :
    (∀ (g a th : ℚ) (gs zs ts : Int) (cp : DoublePtr) (r : ℚ),
      arpragueskymodelground_reconstruct sample_state g a th gs zs ts cp = some r → 0 ≤ r) ∧
    ∃ r, arpragueskymodelground_reconstruct sample_state 1 2 3 0 0 0
        ⟨sample_state.radiance_dataset, 6⟩ = some r ∧ 0 ≤ r ∧
      ((∑ t ∈ Finset.range sample_state.tensor_components.toNat,
        (fun _ => (5 : ℚ)) t * (fun _ => (3 : ℚ)) t) * (-1) < 0 → r = 0) :=
  reconstruct_nonneg sample_state 1 2 3 0 0 0 ⟨sample_state.radiance_dataset, 6⟩
    (fun _ => 5) (fun _ => 3) (-1)
    (fun t ht => by
      have h0 : t = 0 := by simp [sample_state] at ht; omega
      subst h0
      norm_num [arpragueskymodelground_eval_pp, DoublePtr.add, DoublePtr.read, read_at_ofNat,
        sample_state])
    (fun t ht => by
      have h0 : t = 0 := by simp [sample_state] at ht; omega
      subst h0
      norm_num [arpragueskymodelground_eval_pp, DoublePtr.add, DoublePtr.read, read_at_ofNat,
        sample_state])
    (by
      norm_num [arpragueskymodelground_eval_pp, DoublePtr.add, DoublePtr.read, read_at_ofNat,
        sample_state])

/-! ## Segment search: proofs -/

theorem find_segment_loop_succ (x : ℚ) (breaks : List ℚ) (n : Nat) (segment : Int) :
    arpragueskymodelground_find_segment_loop x breaks (n + 1) segment =
      (read_at breaks (segment + 1)).bind fun b =>
        if b ≥ x then some segment
        else arpragueskymodelground_find_segment_loop x breaks n (segment + 1) := rfl

theorem find_segment_loop_skip (x : ℚ) (breaks : List ℚ) : ∀ (k n s : Nat),
    (∀ j, s ≤ j → j < s + k → ∃ b, breaks[j + 1]? = some b ∧ b < x) →
    arpragueskymodelground_find_segment_loop x breaks (n + k) (s : ℤ) =
      arpragueskymodelground_find_segment_loop x breaks n ((s + k : ℕ) : ℤ) := by
  intro k
  induction k with
  | zero => intro n s _; rfl
  | succ k ih =>
    intro n s h
    obtain ⟨b, hb1, hb2⟩ := h s (le_refl _) (by omega)
    have e1 : ((s : ℤ) + 1) = ((s + 1 : ℕ) : ℤ) := by push_cast; ring
    have e2 : n + (k + 1) = (n + k) + 1 := by ring
    have e3 : s + (k + 1) = s + 1 + k := by ring
    rw [e2, find_segment_loop_succ, e1, read_at_natCast, hb1]
    simp only [Option.some_bind, ge_iff_le, not_le.mpr hb2, if_false]
    rw [ih n (s + 1) (fun j h1 h2 => h j (by omega) (by omega)), e3]

theorem find_segment_loop_stop (x : ℚ) (breaks : List ℚ) (n s : Nat) (b : ℚ)
    (hb : breaks[s + 1]? = some b) (hx : b ≥ x) :
    arpragueskymodelground_find_segment_loop x breaks (n + 1) (s : ℤ) = some (s : ℤ) := by
  have e1 : ((s : ℤ) + 1) = ((s + 1 : ℕ) : ℤ) := by push_cast; ring
  rw [find_segment_loop_succ, e1, read_at_natCast, hb]
  simp only [Option.some_bind, hx, if_true]

/-- C10: for `nbreaks ≥ 2` breakpoints and an `x` for which some segment `i` in
`[0, nbreaks-2]` has `breaks[i+1] ≥ x`, `arpragueskymodelground_find_segment`
returns the least such index. -/
theorem find_segment_first (x : ℚ) (nbreaks : Int) (breaks : List ℚ) (hn : 2 ≤ nbreaks)
    (hlen : (breaks.length : ℤ) = nbreaks)
    (hex : ∃ i : Nat, (i : ℤ) ≤ nbreaks - 2 ∧ ∃ b, breaks[i + 1]? = some b ∧ b ≥ x) :
    ∃ s : Nat, arpragueskymodelground_find_segment x nbreaks breaks = some (s : ℤ) ∧
      (s : ℤ) ≤ nbreaks - 2 ∧ (∃ b, breaks[s + 1]? = some b ∧ b ≥ x) ∧
      ∀ j : Nat, j < s → ∃ b, breaks[j + 1]? = some b ∧ b < x := by
  classical
  have hex2 : ∃ i : Nat, (i : ℤ) ≤ nbreaks - 2 ∧ ∃ b, breaks[i + 1]? = some b ∧ b ≥ x := hex
  obtain ⟨hs1, b, hb1, hb2⟩ := Nat.find_spec hex2
  have hmin : ∀ j : Nat, j < Nat.find hex2 → ∃ b, breaks[j + 1]? = some b ∧ b < x := by
    intro j hj
    have hnot := Nat.find_min hex2 hj
    have hjl : j + 1 < breaks.length := by omega
    refine ⟨breaks[j + 1], List.getElem?_eq_getElem hjl, ?_⟩
    by_contra hc
    exact hnot ⟨by omega, breaks[j + 1], List.getElem?_eq_getElem hjl, not_lt.mp hc⟩
  refine ⟨Nat.find hex2, ?_, hs1, ⟨b, hb1, hb2⟩, hmin⟩
  obtain ⟨m, hm⟩ : ∃ m : Nat, nbreaks.toNat = m + 1 + Nat.find hex2 :=
    ⟨nbreaks.toNat - 1 - Nat.find hex2, by omega⟩
  unfold arpragueskymodelground_find_segment
  have h0 : (0 : ℤ) = ((0 : ℕ) : ℤ) := rfl
  rw [hm, h0, find_segment_loop_skip x breaks (Nat.find hex2) (m + 1) 0
    (fun j _ h2 => hmin j (by omega))]
  have e : 0 + Nat.find hex2 = Nat.find hex2 := by ring
  rw [e]
  exact find_segment_loop_stop x breaks m _ b hb1 hb2

theorem find_segment_first_witness :
    ∃ s : Nat, arpragueskymodelground_find_segment 3 4 [0, 1, 5, 7] = some (s : ℤ) ∧
      (s : ℤ) ≤ 4 - 2 ∧ (∃ b, [(0 : ℚ), 1, 5, 7][s + 1]? = some b ∧ b ≥ 3) ∧
      ∀ j : Nat, j < s → ∃ b, [(0 : ℚ), 1, 5, 7][j + 1]? = some b ∧ b < 3 :=
  find_segment_first 3 4 [0, 1, 5, 7] (by norm_num) (by simp)
    ⟨2, by norm_num, 7, by simp, by norm_num⟩

/-! ## Parameter mapping: proofs -/

theorem map_parameter_loop_succ (param : ℚ) (values : List ℚ) (n : Nat) (v : Int) :
    arpragueskymodelground_map_parameter_loop param values (n + 1) v =
      (read_at values v).bind fun val =>
        if |val - param| < 1 / 1000000 then some (v : ℚ)
        else if param < val then
          (read_at values (v - 1)).bind fun prev =>
            some ((v : ℚ) - ((val - param) / (val - prev)))
        else arpragueskymodelground_map_parameter_loop param values n (v + 1) := rfl

theorem map_parameter_loop_skip (param : ℚ) (values : List ℚ) : ∀ (k n v : Nat),
    (∀ j, v ≤ j → j < v + k → ∃ val, values[j]? = some val ∧
      1 / 1000000 ≤ |val - param| ∧ val ≤ param) →
    arpragueskymodelground_map_parameter_loop param values (n + k) (v : ℤ) =
      arpragueskymodelground_map_parameter_loop param values n ((v + k : ℕ) : ℤ) := by
  intro k
  induction k with
  | zero => intro n v _; rfl
  | succ k ih =>
    intro n v h
    obtain ⟨val, hv1, hv2, hv3⟩ := h v (le_refl _) (by omega)
    have e1 : ((v : ℤ) + 1) = ((v + 1 : ℕ) : ℤ) := by push_cast; ring
    have e2 : n + (k + 1) = (n + k) + 1 := by ring
    have e3 : v + (k + 1) = v + 1 + k := by ring
    rw [e2, map_parameter_loop_succ, read_at_natCast, hv1]
    simp only [Option.some_bind, not_lt.mpr hv2, not_lt.mpr hv3, if_false]
    rw [e1, ih n (v + 1) (fun j h1 h2 => h j (by omega) (by omega)), e3]

theorem map_parameter_unfold (param : ℚ) (value_count : Int) (values : List ℚ) :
    arpragueskymodelground_map_parameter param value_count values =
      (read_at values 0).bind fun first =>
        if param < first then some 0
        else (read_at values (value_count - 1)).bind fun last =>
          if param > last then some ((value_count : ℚ) - 1)
          else arpragueskymodelground_map_parameter_loop param values value_count.toNat 0 := rfl

theorem map_parameter_edges (param : ℚ) (value_count : Int) (values : List ℚ)
    (first last : ℚ) (hf : read_at values 0 = some first)
    (hl : read_at values (value_count - 1) = some last) :
    (param < first → arpragueskymodelground_map_parameter param value_count values = some 0) ∧
    (param > last → first ≤ param →
      arpragueskymodelground_map_parameter param value_count values
        = some ((value_count : ℚ) - 1)) ∧
    (first ≤ param → param ≤ last →
      arpragueskymodelground_map_parameter param value_count values =
        arpragueskymodelground_map_parameter_loop param values value_count.toNat 0) := by
  rw [map_parameter_unfold, hf]
  simp only [Option.some_bind, hl]
  refine ⟨fun h => by rw [if_pos h], fun h1 h2 => ?_, fun h1 h2 => ?_⟩
  · rw [if_neg (not_lt.mpr h2), if_pos h1]
  · rw [if_neg (not_lt.mpr h1), if_neg (not_lt.mpr h2)]

/-- C7 (counterexample): on the axis `[5, 1]` the value `3` is above the last
entry, and the function returns `0`, not `len - 1 = 1`. -/
theorem map_parameter_above_last_counterexample :
    read_at [(5 : ℚ), 1] (2 - 1) = some 1 ∧ (3 : ℚ) > 1 ∧
    arpragueskymodelground_map_parameter 3 2 [5, 1] = some 0 ∧
    arpragueskymodelground_map_parameter 3 2 [5, 1] ≠ some ((2 : ℚ) - 1) := by
  have h : arpragueskymodelground_map_parameter 3 2 [5, 1] = some 0 := by decide
  refine ⟨by decide, by norm_num, h, ?_⟩
  rw [h]
  norm_num

/-- C7 (amended): for an axis of length `len ≥ 1` the function returns `0` when
the value is below `axis[0]`, and returns `len - 1` when the value is above
`axis[len-1]` and not below `axis[0]`. -/
theorem map_parameter_outside (param : ℚ) (value_count : Int) (values : List ℚ)
    (hn : 1 ≤ value_count) (hlen : (values.length : ℤ) = value_count) :
    ∃ first last, read_at values 0 = some first ∧
      read_at values (value_count - 1) = some last ∧
      (param < first → arpragueskymodelground_map_parameter param value_count values = some 0) ∧
      (param > last → first ≤ param →
        arpragueskymodelground_map_parameter param value_count values
          = some ((value_count : ℚ) - 1)) := by
  obtain ⟨m, rfl⟩ := Int.eq_ofNat_of_zero_le (show (0 : ℤ) ≤ value_count by omega)
  have h0 : 0 < values.length := by omega
  have h1 : m - 1 < values.length := by omega
  have e0 : read_at values 0 = some values[0] := read_at_of_lt values 0 h0
  have e1 : read_at values ((m : ℤ) - 1) = some values[m - 1] := by
    have e : ((m : ℤ) - 1) = ((m - 1 : ℕ) : ℤ) := by omega
    rw [e]; exact read_at_of_lt values (m - 1) h1
  obtain ⟨a, b, _⟩ := map_parameter_edges param (m : ℤ) values _ _ e0 e1
  exact ⟨_, _, e0, e1, a, b⟩

theorem map_parameter_outside_witness :
    ∃ first last, read_at [(5 : ℚ), 7, 9] 0 = some first ∧
      read_at [(5 : ℚ), 7, 9] (3 - 1) = some last ∧
      ((10 : ℚ) < first → arpragueskymodelground_map_parameter 10 3 [5, 7, 9] = some 0) ∧
      ((10 : ℚ) > last → first ≤ 10 →
        arpragueskymodelground_map_parameter 10 3 [5, 7, 9] = some (((3 : ℤ) : ℚ) - 1)) :=
  map_parameter_outside 10 3 [5, 7, 9] (by norm_num) (by simp)

theorem map_parameter_loop_snap (param : ℚ) (values : List ℚ) (n v : Nat) (val : ℚ)
    (hv : values[v]? = some val) (hs : |val - param| < 1 / 1000000) :
    arpragueskymodelground_map_parameter_loop param values (n + 1) (v : ℤ) = some (v : ℚ) := by
  rw [map_parameter_loop_succ, read_at_natCast, hv]
  simp only [Option.some_bind, hs, if_true, Int.cast_natCast]

theorem map_parameter_loop_frac (param : ℚ) (values : List ℚ) (n v : Nat) (val prev : ℚ)
    (h1 : 1 ≤ v) (hv : values[v]? = some val) (hp : values[v - 1]? = some prev)
    (hs : 1 / 1000000 ≤ |val - param|) (hlt : param < val) :
    arpragueskymodelground_map_parameter_loop param values (n + 1) (v : ℤ) =
      some ((v : ℚ) - (val - param) / (val - prev)) := by
  have e : ((v : ℤ) - 1) = ((v - 1 : ℕ) : ℤ) := by omega
  rw [map_parameter_loop_succ, read_at_natCast, hv]
  simp only [Option.some_bind, not_lt.mpr hs, if_false, hlt, if_true, e, read_at_natCast, hp,
    Int.cast_natCast]

/-- C8 (counterexample): on the strictly increasing axis `[0, 1/2000000]` the
axis value `axis[1]` is mapped to `0`, not to its index `1`. -/
theorem map_parameter_at_axis_value_counterexample :
    List.Pairwise (· < ·) [(0 : ℚ), 1 / 2000000] ∧
    read_at [(0 : ℚ), 1 / 2000000] 1 = some (1 / 2000000) ∧
    arpragueskymodelground_map_parameter (1 / 2000000) 2 [0, 1 / 2000000] = some 0 ∧
    arpragueskymodelground_map_parameter (1 / 2000000) 2 [0, 1 / 2000000] ≠ some 1 := by
  have h : arpragueskymodelground_map_parameter (1 / 2000000) 2 [0, 1 / 2000000] = some 0 := by
    norm_num [arpragueskymodelground_map_parameter, arpragueskymodelground_map_parameter_loop,
      read_at_ofNat, abs_lt]
  refine ⟨by norm_num, by simp [read_at_ofNat], h, ?_⟩
  rw [h]
  norm_num

theorem map_parameter_axis_entry (values : List ℚ) (value_count : Int) (i : Nat) (a : ℚ)
    (hlen : (values.length : ℤ) = value_count) (hinc : values.Pairwise (· < ·))
    (hi : values[i]? = some a)
    (hgap : ∀ j : Nat, j < i → ∀ b, values[j]? = some b → 1 / 1000000 ≤ a - b) :
    arpragueskymodelground_map_parameter a value_count values = some (i : ℚ) := by
  obtain ⟨hil, hia⟩ := List.getElem?_eq_some.mp hi
  have hpw := List.pairwise_iff_getElem.mp hinc
  obtain ⟨m, rfl⟩ := Int.eq_ofNat_of_zero_le (show (0 : ℤ) ≤ value_count by omega)
  have hm : values.length = m := by omega
  have e0 : read_at values 0 = some values[0] := read_at_of_lt values 0 (by omega)
  have e1 : read_at values ((m : ℤ) - 1) = some values[m - 1] := by
    have e : ((m : ℤ) - 1) = ((m - 1 : ℕ) : ℤ) := by omega
    rw [e]; exact read_at_of_lt values (m - 1) (by omega)
  have hfirst : values[0] ≤ a := by
    rcases Nat.eq_zero_or_pos i with h0 | h0
    · subst h0; exact le_of_eq hia
    · rw [← hia]; exact le_of_lt (hpw 0 i (by omega) hil h0)
  have hlast : a ≤ values[m - 1] := by
    rcases Nat.lt_or_ge i (m - 1) with h0 | h0
    · rw [← hia]; exact le_of_lt (hpw i (m - 1) hil (by omega) h0)
    · have : i = m - 1 := by omega
      subst this; exact le_of_eq hia.symm
  rw [(map_parameter_edges a (m : ℤ) values _ _ e0 e1).2.2 hfirst hlast]
  obtain ⟨r, hr⟩ : ∃ r : Nat, (m : ℤ).toNat = r + 1 + i := ⟨m - 1 - i, by omega⟩
  have h0 : (0 : ℤ) = ((0 : ℕ) : ℤ) := rfl
  have hskip : ∀ j, 0 ≤ j → j < 0 + i → ∃ val, values[j]? = some val ∧
      1 / 1000000 ≤ |val - a| ∧ val ≤ a := by
    intro j _ hj
    have hjl : j < values.length := by omega
    have hlt : values[j] < a := by rw [← hia]; exact hpw j i hjl hil (by omega)
    have hg := hgap j (by omega) values[j] (List.getElem?_eq_getElem hjl)
    refine ⟨values[j], List.getElem?_eq_getElem hjl, ?_, le_of_lt hlt⟩
    rw [abs_sub_comm, abs_of_pos (by linarith)]
    exact hg
  rw [hr, h0, map_parameter_loop_skip a values i (r + 1) 0 hskip]
  have e : 0 + i = i := by ring
  rw [e]
  exact map_parameter_loop_snap a values r i a hi (by norm_num)

/-- C8 (amended): for a strictly increasing axis and an index `i` such that no
earlier entry lies within `1e-6` of `axis[i]`, the function maps `axis[i]` to
exactly `i`. -/
theorem map_parameter_at_axis_value (values : List ℚ) (value_count : Int) (i : Nat) (a : ℚ)
    (hlen : (values.length : ℤ) = value_count) (hinc : values.Pairwise (· < ·))
    (hi : values[i]? = some a)
    (hgap : ∀ j : Nat, j < i → ∀ b, values[j]? = some b → 1 / 1000000 ≤ a - b) :
    arpragueskymodelground_map_parameter a value_count values = some (i : ℚ) :=
  map_parameter_axis_entry values value_count i a hlen hinc hi hgap

theorem map_parameter_at_axis_value_witness :
    arpragueskymodelground_map_parameter 7 3 [5, 7, 9] = some ((1 : ℕ) : ℚ) :=
  map_parameter_at_axis_value [5, 7, 9] 3 1 7 (by simp) (by norm_num) (by simp)
    (fun j hj b hb => by
      have h0 : j = 0 := by omega
      subst h0
      simp at hb
      subst hb
      norm_num)

/-- C9: for a strictly increasing axis and a value between `axis[0]` and
`axis[last]` that is not within `1e-6` of any axis entry, the function returns
`v - (axis[v] - value)/(axis[v] - axis[v-1])`, `v` the first index with
`axis[v] ≥ value`; the result lies strictly between `v - 1` and `v`. -/
theorem map_parameter_fractional (param : ℚ) (value_count : Int) (values : List ℚ)
    (first last : ℚ) (hlen : (values.length : ℤ) = value_count)
    (_ : values.Pairwise (· < ·)) (hf : read_at values 0 = some first)
    (hl : read_at values (value_count - 1) = some last) (h1 : first ≤ param)
    (h2 : param ≤ last)
    (hfar : ∀ (j : Nat) (c : ℚ), values[j]? = some c → 1 / 1000000 ≤ |c - param|) :
    ∃ (v : Nat) (a b : ℚ), 1 ≤ v ∧ (v : ℤ) < value_count ∧ values[v]? = some a ∧
      values[v - 1]? = some b ∧ a ≥ param ∧
      (∀ (j : Nat) (c : ℚ), j < v → values[j]? = some c → c < param) ∧
      arpragueskymodelground_map_parameter param value_count values =
        some ((v : ℚ) - (a - param) / (a - b)) ∧
      (v : ℚ) - 1 < (v : ℚ) - (a - param) / (a - b) ∧
      (v : ℚ) - (a - param) / (a - b) < (v : ℚ) := by
  classical
  obtain ⟨hf0, hf1⟩ := (read_at_eq_some_iff values 0 first).mp hf
  obtain ⟨hl0, hl1⟩ := (read_at_eq_some_iff values (value_count - 1) last).mp hl
  obtain ⟨hll, _⟩ := List.getElem?_eq_some.mp hl1
  obtain ⟨m, rfl⟩ := Int.eq_ofNat_of_zero_le (show (0 : ℤ) ≤ value_count by omega)
  have hm : values.length = m := by omega
  have hex : ∃ v : Nat, v < m ∧ ∃ a, values[v]? = some a ∧ a ≥ param :=
    ⟨((m : ℤ) - 1).toNat, by omega, last, hl1, h2⟩
  obtain ⟨hv1, a, ha1, ha2⟩ := Nat.find_spec hex
  have hmin : ∀ (j : Nat) (c : ℚ), j < Nat.find hex → values[j]? = some c → c < param := by
    intro j c hj hc
    by_contra hcon
    exact Nat.find_min hex hj ⟨by omega, c, hc, not_lt.mp hcon⟩
  have hane : param < a := by
    rcases lt_or_eq_of_le ha2 with h | h
    · exact h
    · have := hfar _ a ha1
      rw [h, sub_self, abs_zero] at this
      norm_num at this
  have hvpos : 1 ≤ Nat.find hex := by
    rcases Nat.eq_zero_or_pos (Nat.find hex) with h0 | h0
    · exfalso
      rw [h0] at ha1
      have hfa : first = a := Option.some.inj (hf1.symm.trans ha1)
      linarith
    · exact h0
  have hbl : Nat.find hex - 1 < values.length := by omega
  have hb1 : values[Nat.find hex - 1]? = some values[Nat.find hex - 1] :=
    List.getElem?_eq_getElem hbl
  have hblt : values[Nat.find hex - 1] < param := hmin _ _ (by omega) hb1
  have hden : 0 < a - values[Nat.find hex - 1] := by linarith
  have hnum : 0 < a - param := by linarith
  refine ⟨Nat.find hex, a, values[Nat.find hex - 1], hvpos, by omega, ha1, hb1, ha2, hmin,
    ?_, ?_, ?_⟩
  · rw [(map_parameter_edges param (m : ℤ) values _ _ hf hl).2.2 h1 h2]
    obtain ⟨r, hr⟩ : ∃ r : Nat, (m : ℤ).toNat = r + 1 + Nat.find hex :=
      ⟨m - 1 - Nat.find hex, by omega⟩
    have h0 : (0 : ℤ) = ((0 : ℕ) : ℤ) := rfl
    have hskip : ∀ j, 0 ≤ j → j < 0 + Nat.find hex → ∃ val, values[j]? = some val ∧
        1 / 1000000 ≤ |val - param| ∧ val ≤ param := by
      intro j _ hj
      have hjl : j < values.length := by omega
      exact ⟨values[j], List.getElem?_eq_getElem hjl,
        hfar j _ (List.getElem?_eq_getElem hjl),
        le_of_lt (hmin j _ (by omega) (List.getElem?_eq_getElem hjl))⟩
    rw [hr, h0, map_parameter_loop_skip param values (Nat.find hex) (r + 1) 0 hskip]
    have e : 0 + Nat.find hex = Nat.find hex := by ring
    rw [e]
    exact map_parameter_loop_frac param values r _ a _ hvpos ha1 hb1 (hfar _ a ha1) hane
  · have hlt1 : (a - param) / (a - values[Nat.find hex - 1]) < 1 := by
      rw [div_lt_one hden]; linarith
    linarith
  · have hpos : 0 < (a - param) / (a - values[Nat.find hex - 1]) := div_pos hnum hden
    linarith

theorem map_parameter_fractional_witness :
    ∃ (v : Nat) (a b : ℚ), 1 ≤ v ∧ (v : ℤ) < 3 ∧ [(5 : ℚ), 7, 9][v]? = some a ∧
      [(5 : ℚ), 7, 9][v - 1]? = some b ∧ a ≥ 8 ∧
      (∀ (j : Nat) (c : ℚ), j < v → [(5 : ℚ), 7, 9][j]? = some c → c < 8) ∧
      arpragueskymodelground_map_parameter 8 3 [5, 7, 9] =
        some ((v : ℚ) - (a - 8) / (a - b)) ∧
      (v : ℚ) - 1 < (v : ℚ) - (a - 8) / (a - b) ∧
      (v : ℚ) - (a - 8) / (a - b) < (v : ℚ) :=
  map_parameter_fractional 8 3 [5, 7, 9] 5 9 (by simp) (by norm_num)
    (by simp [read_at_ofNat]) (by norm_num [read_at_ofNat]) (by norm_num) (by norm_num)
    (fun j c hc => by
      have hj : j < 3 := by
        have := (List.getElem?_eq_some.mp hc).1
        simpa using this
      interval_cases j <;> simp at hc <;> subst hc <;> norm_num [abs_of_pos, abs_of_neg])

/-! ## Segment search beyond the last breakpoint -/

theorem find_segment_past_end (x : ℚ) (nbreaks : Int) (breaks : List ℚ) (hn : 2 ≤ nbreaks)
    (hlen : (breaks.length : ℤ) = nbreaks) (hx : ∀ b ∈ breaks, b < x) :
    arpragueskymodelground_find_segment x nbreaks breaks = none := by
  obtain ⟨m, hm⟩ : ∃ m : Nat, nbreaks.toNat = 1 + m := ⟨nbreaks.toNat - 1, by omega⟩
  have hskip : ∀ j, 0 ≤ j → j < 0 + m → ∃ b, breaks[j + 1]? = some b ∧ b < x := by
    intro j _ hj
    have hjl : j + 1 < breaks.length := by omega
    exact ⟨breaks[j + 1], List.getElem?_eq_getElem hjl, hx _ (List.getElem_mem _)⟩
  have h0 : (0 : ℤ) = ((0 : ℕ) : ℤ) := rfl
  unfold arpragueskymodelground_find_segment
  rw [hm, h0, find_segment_loop_skip x breaks m 1 0 hskip, find_segment_loop_succ]
  have e1 : (((0 + m : ℕ) : ℤ) + 1) = ((m + 1 : ℕ) : ℤ) := by push_cast; ring
  have hnone : breaks[m + 1]? = none := List.getElem?_eq_none (by omega)
  rw [e1, read_at_natCast, hnone]
  rfl

/-- C11: the scan beyond the last breakpoint, evaluated. With `x = 3` above
the three breakpoints `[0, 1, 2]` the last round of the loop reads
`breaks[3]`, outside the array; what the function returns depends on the
memory behind the array: `nbreaks - 1 = 2` when it holds a value `≥ x`,
`nbreaks = 3` when it holds a smaller one. -/
theorem find_segment_exhausted_reads_past_end :
    arpragueskymodelground_find_segment 3 3 [0, 1, 2] = none ∧
    arpragueskymodelground_find_segment 3 3 [0, 1, 2, 5] = some 2 ∧
    arpragueskymodelground_find_segment 3 3 [0, 1, 2, 1] = some 3 := by
  refine ⟨by decide, by decide, by decide⟩

/-! ## The cascade: proofs -/

theorem c_int_cast_of_nonneg (x : ℚ) (h : 0 ≤ x) : c_int_cast x = ⌊x⌋ := by
  unfold c_int_cast
  rw [if_pos h]

theorem c_int_cast_intCast (n : Int) : c_int_cast (n : ℚ) = n := by
  unfold c_int_cast
  split_ifs <;> simp

/-- C13: for a factor strictly between 0 and 1 the blend
`arpragueskymodelground_lerp lo hi f = (1-f)*lo + f*hi` lies between
`min lo hi` and `max lo hi`. -/
theorem lerp_between (lo hi f : ℚ) (h0 : 0 < f) (h1 : f < 1) :
    arpragueskymodelground_lerp lo hi f = (1 - f) * lo + f * hi ∧
    min lo hi ≤ arpragueskymodelground_lerp lo hi f ∧
    arpragueskymodelground_lerp lo hi f ≤ max lo hi := by
  unfold arpragueskymodelground_lerp
  refine ⟨rfl, ?_, ?_⟩
  · rcases le_total lo hi with h | h
    · rw [min_eq_left h]; nlinarith
    · rw [min_eq_right h]; nlinarith
  · rcases le_total lo hi with h | h
    · rw [max_eq_right h]; nlinarith
    · rw [max_eq_left h]; nlinarith

theorem lerp_between_witness :
    arpragueskymodelground_lerp 2 6 (1 / 4) = (1 - 1 / 4) * 2 + 1 / 4 * 6 ∧
    min 2 6 ≤ arpragueskymodelground_lerp 2 6 (1 / 4) ∧
    arpragueskymodelground_lerp 2 6 (1 / 4) ≤ max 2 6 :=
  lerp_between 2 6 (1 / 4) (by norm_num) (by norm_num)

theorem cascade_level_eq (count : Int) (idx : ℚ) (hidx : 0 ≤ idx) (inner : Int → Option ℚ) :
    ((inner (c_int_cast idx)).bind fun res_low =>
      if idx - ((c_int_cast idx : ℤ) : ℚ) < 1 / 1000000 ∨ c_int_cast idx ≥ count - 1 then
        some res_low
      else (inner (c_int_cast idx + 1)).bind fun res_high =>
        some (arpragueskymodelground_lerp res_low res_high (idx - ((c_int_cast idx : ℤ) : ℚ))))
      = spec_cascade_level count idx inner := by
  rw [c_int_cast_of_nonneg idx hidx]
  unfold spec_cascade_level
  by_cases hc : idx - ((⌊idx⌋ : ℤ) : ℚ) < 1 / 1000000 ∨ ⌊idx⌋ ≥ count - 1
  · simp only [hc, if_true, Option.bind_some]
  · simp only [hc, if_false, arpragueskymodelground_lerp, Option.bind_eq_bind]

/-- C12: at each of the four interpolated cascade levels and for a
non-negative fractional index the function is the level rule of the
specification (`spec_cascade_level`): the inner evaluation at
`low = floor(idx)` when `factor = idx - low < 1e-6` or `low ≥ count - 1`,
else `(1 - factor) * inner(low) + factor * inner(low + 1)`. -/
theorem cascade_levels_spec (state : ArPragueSkyModelGroundState) (idx : ℚ) (hidx : 0 ≤ idx)
    (elevation altitude visibility : ℚ) (ialt ivis ialb iwl : Int) (gamma alpha theta : ℚ)
    (gs zs ts : Int) :
    arpragueskymodelground_interpolate_elevation state idx ialt ivis ialb iwl gamma alpha theta
        gs zs ts =
      spec_cascade_level state.elevations idx (fun k =>
        arpragueskymodelground_reconstruct state gamma alpha theta gs zs ts
          (arpragueskymodelground_control_params_single_config state state.radiance_dataset
            state.total_coefs_single_config k ialt ivis ialb iwl)) ∧
    arpragueskymodelground_interpolate_altitude state elevation idx ivis ialb iwl gamma alpha
        theta gs zs ts =
      spec_cascade_level state.altitudes idx (fun k =>
        arpragueskymodelground_interpolate_elevation state elevation k ivis ialb iwl gamma alpha
          theta gs zs ts) ∧
    arpragueskymodelground_interpolate_visibility state elevation altitude idx ialb iwl gamma
        alpha theta gs zs ts =
      spec_cascade_level state.visibilities idx (fun k =>
        arpragueskymodelground_interpolate_altitude state elevation altitude k ialb iwl gamma
          alpha theta gs zs ts) ∧
    arpragueskymodelground_interpolate_albedo state elevation altitude visibility idx iwl gamma
        alpha theta gs zs ts =
      spec_cascade_level state.albedos idx (fun k =>
        arpragueskymodelground_interpolate_visibility state elevation altitude visibility k iwl
          gamma alpha theta gs zs ts) :=
  ⟨cascade_level_eq state.elevations idx hidx (fun k =>
      arpragueskymodelground_reconstruct state gamma alpha theta gs zs ts
        (arpragueskymodelground_control_params_single_config state state.radiance_dataset
          state.total_coefs_single_config k ialt ivis ialb iwl)),
    cascade_level_eq state.altitudes idx hidx (fun k =>
      arpragueskymodelground_interpolate_elevation state elevation k ivis ialb iwl gamma alpha
        theta gs zs ts),
    cascade_level_eq state.visibilities idx hidx (fun k =>
      arpragueskymodelground_interpolate_altitude state elevation altitude k ialb iwl gamma
        alpha theta gs zs ts),
    cascade_level_eq state.albedos idx hidx (fun k =>
      arpragueskymodelground_interpolate_visibility state elevation altitude visibility k iwl
        gamma alpha theta gs zs ts)⟩

theorem cascade_levels_spec_witness :
    arpragueskymodelground_interpolate_elevation sample_state (1 / 2) 0 0 0 0 1 2 3 0 0 0 =
      spec_cascade_level sample_state.elevations (1 / 2) (fun k =>
        arpragueskymodelground_reconstruct sample_state 1 2 3 0 0 0
          (arpragueskymodelground_control_params_single_config sample_state
            sample_state.radiance_dataset sample_state.total_coefs_single_config k 0 0 0 0)) ∧
    arpragueskymodelground_interpolate_altitude sample_state 0 (1 / 2) 0 0 0 1 2 3 0 0 0 =
      spec_cascade_level sample_state.altitudes (1 / 2) (fun k =>
        arpragueskymodelground_interpolate_elevation sample_state 0 k 0 0 0 1 2 3 0 0 0) ∧
    arpragueskymodelground_interpolate_visibility sample_state 0 0 (1 / 2) 0 0 1 2 3 0 0 0 =
      spec_cascade_level sample_state.visibilities (1 / 2) (fun k =>
        arpragueskymodelground_interpolate_altitude sample_state 0 0 k 0 0 1 2 3 0 0 0) ∧
    arpragueskymodelground_interpolate_albedo sample_state 0 0 0 (1 / 2) 0 1 2 3 0 0 0 =
      spec_cascade_level sample_state.albedos (1 / 2) (fun k =>
        arpragueskymodelground_interpolate_visibility sample_state 0 0 0 k 0 1 2 3 0 0 0) :=
  cascade_levels_spec sample_state (1 / 2) (by norm_num) 0 0 0 0 0 0 0 1 2 3 0 0 0

/-! ## Sky radiance: proofs -/

theorem map_parameter_loop_total (param : ℚ) (values : List ℚ) (first last : ℚ)
    (hf : values[0]? = some first) (hl : values[values.length - 1]? = some last)
    (h2 : param ≤ last) : ∀ (k v : Nat), v + (k + 1) = values.length →
    (v = 0 → first ≤ param) →
    ∃ r, arpragueskymodelground_map_parameter_loop param values (k + 1) (v : ℤ) = some r := by
  intro k
  induction k with
  | zero =>
    intro v hv _
    have hvl : v = values.length - 1 := by omega
    subst hvl
    by_cases hs : |last - param| < 1 / 1000000
    · exact ⟨_, map_parameter_loop_snap param values 0 _ last hl hs⟩
    · have hlt : param < last := by
        rcases lt_or_eq_of_le h2 with h | h
        · exact h
        · exfalso; apply hs; rw [h, sub_self, abs_zero]; norm_num
      have h1 : 1 ≤ values.length - 1 := by
        by_contra hc
        have h0 : values.length - 1 = 0 := by omega
        rw [h0] at hl
        have hfl : first = last := Option.some.inj (hf.symm.trans hl)
        have := ‹values.length - 1 = 0 → first ≤ param› h0
        linarith
      have hp : values[values.length - 1 - 1]? = some values[values.length - 1 - 1] :=
        List.getElem?_eq_getElem (by omega)
      exact ⟨_, map_parameter_loop_frac param values 0 _ last _ h1 hl hp (not_lt.mp hs) hlt⟩
  | succ k ih =>
    intro v hv hv0
    have hvl : v < values.length := by omega
    have hval : values[v]? = some values[v] := List.getElem?_eq_getElem hvl
    by_cases hs : |values[v] - param| < 1 / 1000000
    · exact ⟨_, map_parameter_loop_snap param values (k + 1) v _ hval hs⟩
    · by_cases hlt : param < values[v]
      · have h1 : 1 ≤ v := by
          by_contra hc
          have h0 : v = 0 := by omega
          subst h0
          have hfv : first = values[0] := Option.some.inj (hf.symm.trans hval)
          have := hv0 rfl
          linarith
        have hp : values[v - 1]? = some values[v - 1] := List.getElem?_eq_getElem (by omega)
        exact ⟨_, map_parameter_loop_frac param values (k + 1) v _ _ h1 hval hp
          (not_lt.mp hs) hlt⟩
      · have e1 : ((v : ℤ) + 1) = ((v + 1 : ℕ) : ℤ) := by push_cast; ring
        obtain ⟨r, hr⟩ := ih (v + 1) (by omega) (fun h => by omega)
        refine ⟨r, ?_⟩
        rw [map_parameter_loop_succ, read_at_natCast, hval]
        simp only [Option.some_bind, hs, if_false, hlt, e1]
        exact hr

theorem map_parameter_total (param : ℚ) (value_count : Int) (values : List ℚ)
    (hn : 1 ≤ value_count) (hlen : (values.length : ℤ) = value_count) :
    ∃ r, arpragueskymodelground_map_parameter param value_count values = some r := by
  obtain ⟨m, rfl⟩ := Int.eq_ofNat_of_zero_le (show (0 : ℤ) ≤ value_count by omega)
  have hm : values.length = m := by omega
  have hf : values[0]? = some values[0] := List.getElem?_eq_getElem (by omega)
  have hl : values[values.length - 1]? = some values[values.length - 1] :=
    List.getElem?_eq_getElem (by omega)
  have e0 : read_at values 0 = some values[0] := read_at_of_lt values 0 (by omega)
  have e1 : read_at values ((m : ℤ) - 1) = some values[values.length - 1] := by
    have e : ((values.length - 1 : ℕ) : ℤ) = (m : ℤ) - 1 := by omega
    have hr := read_at_natCast values (values.length - 1)
    rw [e] at hr
    exact hr.trans hl
  obtain ⟨a, b, c⟩ := map_parameter_edges param (m : ℤ) values _ _ e0 e1
  by_cases h1 : param < values[0]
  · exact ⟨_, a h1⟩
  · by_cases h2 : param > values[values.length - 1]
    · exact ⟨_, b h2 (not_lt.mp h1)⟩
    · rw [c (not_lt.mp h1) (not_lt.mp h2)]
      obtain ⟨k, hk⟩ : ∃ k : Nat, (m : ℤ).toNat = k + 1 := ⟨m - 1, by omega⟩
      have h0 : (0 : ℤ) = ((0 : ℕ) : ℤ) := rfl
      rw [hk, h0]
      exact map_parameter_loop_total param values _ _ hf hl (not_lt.mp h2) k 0 (by omega)
        (fun _ => not_lt.mp h1)

theorem sky_radiance_unfold (state : ArPragueSkyModelGroundState)
    (theta gamma shadow wavelength : ℚ) :
    arpragueskymodelground_sky_radiance state theta gamma shadow wavelength =
      (arpragueskymodelground_map_parameter state.visibility state.visibilities
        state.visibility_vals).bind fun visibility_control =>
      (arpragueskymodelground_map_parameter state.albedo state.albedos
        state.albedo_vals).bind fun albedo_control =>
      (arpragueskymodelground_map_parameter 0 state.altitudes
        state.altitude_vals).bind fun altitude_control =>
      (arpragueskymodelground_map_parameter (state.elevation * MATH_RAD_TO_DEG) state.elevations
        state.elevation_vals).bind fun elevation_control =>
      if (wavelength - state.channel_start) / state.channel_width ≥ (state.channels : ℚ) ∨
          (wavelength - state.channel_start) / state.channel_width < 0 then some 0
      else
        (arpragueskymodelground_find_segment gamma state.sun_nbreaks
          state.sun_breaks).bind fun gamma_segment =>
        (arpragueskymodelground_find_segment (if state.elevation < 0 then shadow else theta)
          state.zenith_nbreaks state.zenith_breaks).bind fun alpha_segment =>
        (arpragueskymodelground_find_segment theta state.emph_nbreaks
          state.emph_breaks).bind fun theta_segment =>
        arpragueskymodelground_interpolate_wavelength state elevation_control altitude_control
          visibility_control albedo_control
          ((wavelength - state.channel_start) / state.channel_width) gamma
          (if state.elevation < 0 then shadow else theta) theta gamma_segment alpha_segment
          theta_segment := rfl

theorem sky_radiance_zero_outside (state : ArPragueSkyModelGroundState)
    (theta gamma shadow wavelength : ℚ) (haxes : axes_loaded state)
    (hw : 0 < state.channel_width)
    (hout : wavelength < state.channel_start ∨
      wavelength ≥ state.channel_start + state.channels * state.channel_width) :
    arpragueskymodelground_sky_radiance state theta gamma shadow wavelength = some 0 := by
  obtain ⟨hv1, hv2, ha1, ha2, hh1, hh2, he1, he2⟩ := haxes
  obtain ⟨rv, hrv⟩ := map_parameter_total state.visibility _ _ hv1 hv2
  obtain ⟨ra, hra⟩ := map_parameter_total state.albedo _ _ ha1 ha2
  obtain ⟨rh, hrh⟩ := map_parameter_total 0 _ _ hh1 hh2
  obtain ⟨re, hre⟩ := map_parameter_total (state.elevation * MATH_RAD_TO_DEG) _ _ he1 he2
  rw [sky_radiance_unfold, hrv, hra, hrh, hre]
  simp only [Option.some_bind]
  have hc : (wavelength - state.channel_start) / state.channel_width ≥ (state.channels : ℚ) ∨
      (wavelength - state.channel_start) / state.channel_width < 0 := by
    rcases hout with h | h
    · right
      exact div_neg_of_neg_of_pos (by linarith) hw
    · left
      rw [ge_iff_le, le_div_iff₀ hw]
      linarith
  rw [if_pos hc]

theorem interpolate_elevation_int (state : ArPragueSkyModelGroundState) (k : Int)
    (altitude visibility albedo wavelength : Int) (gamma alpha theta : ℚ) (gs zs ts : Int) :
    arpragueskymodelground_interpolate_elevation state (k : ℚ) altitude visibility albedo
        wavelength gamma alpha theta gs zs ts =
      arpragueskymodelground_reconstruct state gamma alpha theta gs zs ts
        (arpragueskymodelground_control_params_single_config state state.radiance_dataset
          state.total_coefs_single_config k altitude visibility albedo wavelength) := by
  unfold arpragueskymodelground_interpolate_elevation
  simp [c_int_cast_intCast]

theorem interpolate_altitude_int (state : ArPragueSkyModelGroundState) (elevation : ℚ)
    (k : Int) (visibility albedo wavelength : Int) (gamma alpha theta : ℚ) (gs zs ts : Int) :
    arpragueskymodelground_interpolate_altitude state elevation (k : ℚ) visibility albedo
        wavelength gamma alpha theta gs zs ts =
      arpragueskymodelground_interpolate_elevation state elevation k visibility albedo
        wavelength gamma alpha theta gs zs ts := by
  unfold arpragueskymodelground_interpolate_altitude
  simp [c_int_cast_intCast]

theorem interpolate_visibility_int (state : ArPragueSkyModelGroundState)
    (elevation altitude : ℚ) (k : Int) (albedo wavelength : Int) (gamma alpha theta : ℚ)
    (gs zs ts : Int) :
    arpragueskymodelground_interpolate_visibility state elevation altitude (k : ℚ) albedo
        wavelength gamma alpha theta gs zs ts =
      arpragueskymodelground_interpolate_altitude state elevation altitude k albedo
        wavelength gamma alpha theta gs zs ts := by
  unfold arpragueskymodelground_interpolate_visibility
  simp [c_int_cast_intCast]

theorem interpolate_albedo_int (state : ArPragueSkyModelGroundState)
    (elevation altitude visibility : ℚ) (k : Int) (wavelength : Int) (gamma alpha theta : ℚ)
    (gs zs ts : Int) :
    arpragueskymodelground_interpolate_albedo state elevation altitude visibility (k : ℚ)
        wavelength gamma alpha theta gs zs ts =
      arpragueskymodelground_interpolate_visibility state elevation altitude visibility k
        wavelength gamma alpha theta gs zs ts := by
  unfold arpragueskymodelground_interpolate_albedo
  simp [c_int_cast_intCast]

theorem c_int_cast_of_bin (c : ℚ) (b : Int) (hb : 0 ≤ b) (h1 : (b : ℚ) ≤ c)
    (h2 : c < (b : ℚ) + 1) : c_int_cast c = b := by
  have hc : 0 ≤ c := le_trans (by exact_mod_cast hb) h1
  rw [c_int_cast_of_nonneg c hc, Int.floor_eq_iff]
  exact ⟨h1, h2⟩

theorem channel_of_bin (start width wavelength : ℚ) (b : Int) (hw : 0 < width)
    (h1 : start + b * width ≤ wavelength) (h2 : wavelength < start + (b + 1) * width) :
    (b : ℚ) ≤ (wavelength - start) / width ∧ (wavelength - start) / width < (b : ℚ) + 1 := by
  constructor
  · rw [le_div_iff₀ hw]; linarith
  · rw [div_lt_iff₀ hw]; linarith

theorem sky_radiance_in_range (state : ArPragueSkyModelGroundState)
    (theta gamma shadow wavelength : ℚ) (vc ac hc ec : ℚ) (b gs zs ts : Int)
    (hv : arpragueskymodelground_map_parameter state.visibility state.visibilities
      state.visibility_vals = some vc)
    (ha : arpragueskymodelground_map_parameter state.albedo state.albedos
      state.albedo_vals = some ac)
    (hh : arpragueskymodelground_map_parameter 0 state.altitudes
      state.altitude_vals = some hc)
    (he : arpragueskymodelground_map_parameter (state.elevation * MATH_RAD_TO_DEG)
      state.elevations state.elevation_vals = some ec)
    (hw : 0 < state.channel_width) (hb0 : 0 ≤ b) (hb1 : b < state.channels)
    (hw1 : state.channel_start + b * state.channel_width ≤ wavelength)
    (hw2 : wavelength < state.channel_start + (b + 1) * state.channel_width)
    (hgs : arpragueskymodelground_find_segment gamma state.sun_nbreaks state.sun_breaks
      = some gs)
    (hzs : arpragueskymodelground_find_segment (if state.elevation < 0 then shadow else theta)
      state.zenith_nbreaks state.zenith_breaks = some zs)
    (hts : arpragueskymodelground_find_segment theta state.emph_nbreaks state.emph_breaks
      = some ts) :
    arpragueskymodelground_sky_radiance state theta gamma shadow wavelength =
      arpragueskymodelground_interpolate_albedo state ec hc vc ac b gamma
        (if state.elevation < 0 then shadow else theta) theta gs zs ts := by
  obtain ⟨hc1, hc2⟩ := channel_of_bin state.channel_start state.channel_width wavelength b hw
    hw1 hw2
  have hcb := c_int_cast_of_bin _ b hb0 hc1 hc2
  have hnot : ¬ ((wavelength - state.channel_start) / state.channel_width
      ≥ (state.channels : ℚ) ∨ (wavelength - state.channel_start) / state.channel_width < 0) := by
    have hbq : (b : ℚ) + 1 ≤ (state.channels : ℚ) := by exact_mod_cast Int.add_one_le_of_lt hb1
    have hb0q : (0 : ℚ) ≤ (b : ℚ) := by exact_mod_cast hb0
    intro h
    rcases h with h | h
    · linarith
    · linarith
  rw [sky_radiance_unfold, hv, ha, hh, he]
  simp only [Option.some_bind]
  rw [if_neg hnot, hgs, hzs, hts]
  simp only [Option.some_bind]
  unfold arpragueskymodelground_interpolate_wavelength
  rw [hcb]

theorem sample_close_reconstruct_low :
    arpragueskymodelground_reconstruct sample_state_close 1 1 1 0 0 0
      (arpragueskymodelground_control_params_single_config sample_state_close
        sample_state_close.radiance_dataset sample_state_close.total_coefs_single_config
        0 0 0 0 0) = some 9 := by
  norm_num [arpragueskymodelground_reconstruct, arpragueskymodelground_reconstruct_loop,
    arpragueskymodelground_eval_pp, arpragueskymodelground_control_params_single_config,
    DoublePtr.add, DoublePtr.read, read_at_ofNat, sample_state_close, sample_state]

theorem sample_close_reconstruct_high :
    arpragueskymodelground_reconstruct sample_state_close 1 1 1 0 0 0
      (arpragueskymodelground_control_params_single_config sample_state_close
        sample_state_close.radiance_dataset sample_state_close.total_coefs_single_config
        1 0 0 0 0) = some 0 := by
  norm_num [arpragueskymodelground_reconstruct, arpragueskymodelground_reconstruct_loop,
    arpragueskymodelground_eval_pp, arpragueskymodelground_control_params_single_config,
    DoublePtr.add, DoublePtr.read, read_at_ofNat, sample_state_close, sample_state]

theorem sample_close_maps :
    arpragueskymodelground_map_parameter sample_state_close.visibility
      sample_state_close.visibilities sample_state_close.visibility_vals = some 0 ∧
    arpragueskymodelground_map_parameter sample_state_close.albedo
      sample_state_close.albedos sample_state_close.albedo_vals = some 0 ∧
    arpragueskymodelground_map_parameter 0 sample_state_close.altitudes
      sample_state_close.altitude_vals = some 0 ∧
    arpragueskymodelground_map_parameter (sample_state_close.elevation * MATH_RAD_TO_DEG)
      sample_state_close.elevations sample_state_close.elevation_vals = some 0 := by
  refine ⟨?_, ?_, ?_, ?_⟩ <;>
  norm_num [arpragueskymodelground_map_parameter, arpragueskymodelground_map_parameter_loop,
    read_at_ofNat, abs_lt, sample_state_close, sample_state, MATH_RAD_TO_DEG, MATH_PI]

theorem sky_radiance_of_indices (state : ArPragueSkyModelGroundState)
    (theta gamma shadow wavelength : ℚ) (iv ia ih ie b gs zs ts : Int)
    (hv : arpragueskymodelground_map_parameter state.visibility state.visibilities
      state.visibility_vals = some (iv : ℚ))
    (ha : arpragueskymodelground_map_parameter state.albedo state.albedos
      state.albedo_vals = some (ia : ℚ))
    (hh : arpragueskymodelground_map_parameter 0 state.altitudes
      state.altitude_vals = some (ih : ℚ))
    (he : arpragueskymodelground_map_parameter (state.elevation * MATH_RAD_TO_DEG)
      state.elevations state.elevation_vals = some (ie : ℚ))
    (hw : 0 < state.channel_width) (hb0 : 0 ≤ b) (hb1 : b < state.channels)
    (hw1 : state.channel_start + b * state.channel_width ≤ wavelength)
    (hw2 : wavelength < state.channel_start + (b + 1) * state.channel_width)
    (hgs : arpragueskymodelground_find_segment gamma state.sun_nbreaks state.sun_breaks
      = some gs)
    (hzs : arpragueskymodelground_find_segment (if state.elevation < 0 then shadow else theta)
      state.zenith_nbreaks state.zenith_breaks = some zs)
    (hts : arpragueskymodelground_find_segment theta state.emph_nbreaks state.emph_breaks
      = some ts) :
    arpragueskymodelground_sky_radiance state theta gamma shadow wavelength =
      arpragueskymodelground_reconstruct state gamma
        (if state.elevation < 0 then shadow else theta) theta gs zs ts
        (arpragueskymodelground_control_params_single_config state state.radiance_dataset
          state.total_coefs_single_config ie ih iv ia b) := by
  rw [sky_radiance_in_range state theta gamma shadow wavelength _ _ _ _ b gs zs ts hv ha hh he
    hw hb0 hb1 hw1 hw2 hgs hzs hts, interpolate_albedo_int, interpolate_visibility_int,
    interpolate_altitude_int, interpolate_elevation_int]

/-- C15 (counterexample): in `sample_state_close` the configured elevation in
degrees equals the entry of index 1 of the strictly increasing elevation axis
`[0, 5e-7]`, visibility and albedo equal the entry of index 0 of their axes,
the altitude axis maps 0 to index 0 and the wavelength 330 lies in bin 0; the
sky radiance is `9`, the reconstruction of configuration `(0, 0, 0, 0, 0)`,
while the reconstruction of configuration `(0, 1, 0, 0, 0)` is `0`. -/
theorem sky_radiance_grid_exact_counterexample :
    sample_state_close.elevation_vals.Pairwise (· < ·) ∧
    sample_state_close.elevation_vals[1]? =
      some (sample_state_close.elevation * MATH_RAD_TO_DEG) ∧
    sample_state_close.visibility_vals[0]? = some sample_state_close.visibility ∧
    sample_state_close.albedo_vals[0]? = some sample_state_close.albedo ∧
    arpragueskymodelground_map_parameter 0 sample_state_close.altitudes
      sample_state_close.altitude_vals = some 0 ∧
    sample_state_close.channel_start + 0 * sample_state_close.channel_width ≤ 330 ∧
    330 < sample_state_close.channel_start + (0 + 1) * sample_state_close.channel_width ∧
    arpragueskymodelground_sky_radiance sample_state_close 1 1 2 330 = some 9 ∧
    arpragueskymodelground_reconstruct sample_state_close 1 1 1 0 0 0
      (arpragueskymodelground_control_params_single_config sample_state_close
        sample_state_close.radiance_dataset sample_state_close.total_coefs_single_config
        1 0 0 0 0) = some 0 := by
  obtain ⟨m1, m2, m3, m4⟩ := sample_close_maps
  have hpos : ¬ (sample_state_close.elevation < 0) := by
    norm_num [sample_state_close, sample_state, MATH_PI]
  refine ⟨by norm_num [sample_state_close, sample_state],
    by norm_num [sample_state_close, sample_state, MATH_RAD_TO_DEG, MATH_PI],
    by simp [sample_state_close, sample_state], by simp [sample_state_close, sample_state],
    m3, by norm_num [sample_state_close, sample_state],
    by norm_num [sample_state_close, sample_state], ?_, sample_close_reconstruct_high⟩
  have hs := sky_radiance_of_indices sample_state_close 1 1 2 330 0 0 0 0 0 0 0 0
    (by simpa using m1) (by simpa using m2) (by simpa using m3) (by simpa using m4)
    (by norm_num [sample_state_close, sample_state]) (le_refl _)
    (by norm_num [sample_state_close, sample_state])
    (by norm_num [sample_state_close, sample_state])
    (by norm_num [sample_state_close, sample_state])
    (by decide) (by rw [if_neg hpos]; decide) (by decide)
  rw [hs, if_neg hpos]
  exact sample_close_reconstruct_low

/-- C15 (amended): grid-exact query. When the configured visibility, albedo
and elevation in degrees equal the entries of index `iv`, `ia`, `ie` of their
strictly increasing axes and no earlier entry of the axis lies within `1e-6`
of that entry, the altitude axis maps 0 to the integer index `ih` and the
wavelength lies in bin `b` of `[0, channels)`, the sky radiance is the single
reconstruction of the coefficient block of configuration `(b, ie, ih, ia, iv)`. -/
theorem sky_radiance_grid_exact (state : ArPragueSkyModelGroundState)
    (theta gamma shadow wavelength : ℚ) (iv ia ie ih : Nat) (b gs zs ts : Int)
    (hvlen : (state.visibility_vals.length : ℤ) = state.visibilities)
    (hvinc : state.visibility_vals.Pairwise (· < ·))
    (hv : state.visibility_vals[iv]? = some state.visibility)
    (hvgap : ∀ j : Nat, j < iv → ∀ x, state.visibility_vals[j]? = some x →
      1 / 1000000 ≤ state.visibility - x)
    (halen : (state.albedo_vals.length : ℤ) = state.albedos)
    (hainc : state.albedo_vals.Pairwise (· < ·))
    (ha : state.albedo_vals[ia]? = some state.albedo)
    (hagap : ∀ j : Nat, j < ia → ∀ x, state.albedo_vals[j]? = some x →
      1 / 1000000 ≤ state.albedo - x)
    (helen : (state.elevation_vals.length : ℤ) = state.elevations)
    (heinc : state.elevation_vals.Pairwise (· < ·))
    (he : state.elevation_vals[ie]? = some (state.elevation * MATH_RAD_TO_DEG))
    (hegap : ∀ j : Nat, j < ie → ∀ x, state.elevation_vals[j]? = some x →
      1 / 1000000 ≤ state.elevation * MATH_RAD_TO_DEG - x)
    (hh : arpragueskymodelground_map_parameter 0 state.altitudes state.altitude_vals
      = some (ih : ℚ))
    (hw : 0 < state.channel_width) (hb0 : 0 ≤ b) (hb1 : b < state.channels)
    (hw1 : state.channel_start + b * state.channel_width ≤ wavelength)
    (hw2 : wavelength < state.channel_start + (b + 1) * state.channel_width)
    (hgs : arpragueskymodelground_find_segment gamma state.sun_nbreaks state.sun_breaks
      = some gs)
    (hzs : arpragueskymodelground_find_segment (if state.elevation < 0 then shadow else theta)
      state.zenith_nbreaks state.zenith_breaks = some zs)
    (hts : arpragueskymodelground_find_segment theta state.emph_nbreaks state.emph_breaks
      = some ts) :
    arpragueskymodelground_sky_radiance state theta gamma shadow wavelength =
      arpragueskymodelground_reconstruct state gamma
        (if state.elevation < 0 then shadow else theta) theta gs zs ts
        (arpragueskymodelground_control_params_single_config state state.radiance_dataset
          state.total_coefs_single_config ie ih iv ia b) := by
  have mv := map_parameter_axis_entry _ _ iv _ hvlen hvinc hv hvgap
  have ma := map_parameter_axis_entry _ _ ia _ halen hainc ha hagap
  have me := map_parameter_axis_entry _ _ ie _ helen heinc he hegap
  exact sky_radiance_of_indices state theta gamma shadow wavelength iv ia ih ie b gs zs ts
    (by simpa using mv) (by simpa using ma) (by simpa using hh) (by simpa using me)
    hw hb0 hb1 hw1 hw2 hgs hzs hts

theorem sky_radiance_grid_exact_witness :
    arpragueskymodelground_sky_radiance sample_state 1 1 2 330 =
      arpragueskymodelground_reconstruct sample_state 1
        (if sample_state.elevation < 0 then 2 else 1) 1 0 0 0
        (arpragueskymodelground_control_params_single_config sample_state
          sample_state.radiance_dataset sample_state.total_coefs_single_config
          ((0 : ℕ) : ℤ) ((0 : ℕ) : ℤ) ((0 : ℕ) : ℤ) ((0 : ℕ) : ℤ) 0) :=
  sky_radiance_grid_exact sample_state 1 1 2 330 0 0 0 0 0 0 0 0
    (by simp [sample_state]) (by simp [sample_state]) (by simp [sample_state])
    (fun j hj => absurd hj (Nat.not_lt_zero j))
    (by simp [sample_state]) (by simp [sample_state]) (by simp [sample_state])
    (fun j hj => absurd hj (Nat.not_lt_zero j))
    (by simp [sample_state]) (by norm_num [sample_state]) (by simp [sample_state])
    (fun j hj => absurd hj (Nat.not_lt_zero j))
    (by norm_num [arpragueskymodelground_map_parameter,
      arpragueskymodelground_map_parameter_loop, read_at_ofNat, sample_state])
    (by norm_num [sample_state]) (le_refl _) (by norm_num [sample_state])
    (by norm_num [sample_state]) (by norm_num [sample_state])
    (by decide) (by decide) (by decide)

theorem map_parameter_midpoint (values : List ℚ) (value_count : Int) (i : Nat) (e0 e1 : ℚ)
    (hlen : (values.length : ℤ) = value_count) (hinc : values.Pairwise (· < ·))
    (h0 : values[i]? = some e0) (h1 : values[i + 1]? = some e1)
    (hgap : 2 / 1000000 < e1 - e0) :
    arpragueskymodelground_map_parameter ((e0 + e1) / 2) value_count values
      = some ((i : ℚ) + 1 / 2) := by
  obtain ⟨hil, hie⟩ := List.getElem?_eq_some.mp h0
  obtain ⟨hjl, hje⟩ := List.getElem?_eq_some.mp h1
  have hpw := List.pairwise_iff_getElem.mp hinc
  obtain ⟨m, rfl⟩ := Int.eq_ofNat_of_zero_le (show (0 : ℤ) ≤ value_count by omega)
  have hm : values.length = m := by omega
  have e0r : read_at values 0 = some values[0] := read_at_of_lt values 0 (by omega)
  have e1r : read_at values ((m : ℤ) - 1) = some values[m - 1] := by
    have e : ((m : ℤ) - 1) = ((m - 1 : ℕ) : ℤ) := by omega
    rw [e]; exact read_at_of_lt values (m - 1) (by omega)
  have hle : ∀ j (hj : j < values.length), j ≤ i → values[j] ≤ e0 := by
    intro j hj hji
    rcases Nat.eq_or_lt_of_le hji with h | h
    · subst h; exact le_of_eq hie
    · rw [← hie]; exact le_of_lt (hpw j i hj hil h)
  have hge : e1 ≤ values[m - 1] := by
    rcases Nat.lt_or_ge (i + 1) (m - 1) with h | h
    · rw [← hje]; exact le_of_lt (hpw (i + 1) (m - 1) hjl (by omega) h)
    · have : i + 1 = m - 1 := by omega
      rw [← hje]; exact le_of_eq (by simp only [this])
  have hfirst : values[0] ≤ (e0 + e1) / 2 := by
    have := hle 0 (by omega) (by omega)
    linarith
  have hlast : (e0 + e1) / 2 ≤ values[m - 1] := by linarith
  rw [(map_parameter_edges _ (m : ℤ) values _ _ e0r e1r).2.2 hfirst hlast]
  obtain ⟨r, hr⟩ : ∃ r : Nat, (m : ℤ).toNat = r + 1 + (i + 1) := ⟨m - 1 - (i + 1), by omega⟩
  have hz : (0 : ℤ) = ((0 : ℕ) : ℤ) := rfl
  have hskip : ∀ j, 0 ≤ j → j < 0 + (i + 1) → ∃ val, values[j]? = some val ∧
      1 / 1000000 ≤ |val - (e0 + e1) / 2| ∧ val ≤ (e0 + e1) / 2 := by
    intro j _ hj
    have hjl2 : j < values.length := by omega
    have hv := hle j hjl2 (by omega)
    refine ⟨values[j], List.getElem?_eq_getElem hjl2, ?_, by linarith⟩
    rw [abs_sub_comm, abs_of_pos (by linarith)]
    linarith
  rw [hr, hz, map_parameter_loop_skip _ values (i + 1) (r + 1) 0 hskip]
  have e : 0 + (i + 1) = i + 1 := by ring
  rw [e, map_parameter_loop_frac _ values r (i + 1) e1 e0 (by omega) h1 (by simpa using h0)
    (by rw [abs_of_pos (by linarith)]; linarith) (by linarith)]
  refine congrArg some ?_
  have hne : e1 - e0 ≠ 0 := by linarith
  push_cast
  field_simp
  ring

theorem interpolate_elevation_half (state : ArPragueSkyModelGroundState) (i : Nat)
    (altitude visibility albedo wavelength : Int) (gamma alpha theta : ℚ) (gs zs ts : Int)
    (r0 r1 : ℚ) (hi : (i : ℤ) + 1 < state.elevations)
    (h0 : arpragueskymodelground_reconstruct state gamma alpha theta gs zs ts
      (arpragueskymodelground_control_params_single_config state state.radiance_dataset
        state.total_coefs_single_config i altitude visibility albedo wavelength) = some r0)
    (h1 : arpragueskymodelground_reconstruct state gamma alpha theta gs zs ts
      (arpragueskymodelground_control_params_single_config state state.radiance_dataset
        state.total_coefs_single_config (i + 1) altitude visibility albedo wavelength)
          = some r1) :
    arpragueskymodelground_interpolate_elevation state ((i : ℚ) + 1 / 2) altitude visibility
        albedo wavelength gamma alpha theta gs zs ts = some ((r0 + r1) / 2) := by
  have hc : c_int_cast ((i : ℚ) + 1 / 2) = (i : ℤ) := by
    apply c_int_cast_of_bin _ _ (by omega)
    · push_cast; linarith
    · push_cast; linarith
  have hnot : ¬ ((i : ℚ) + 1 / 2 - (((i : ℕ) : ℤ) : ℚ) < 1 / 1000000 ∨
      (i : ℤ) ≥ state.elevations - 1) := by
    push_cast
    intro h
    rcases h with h | h
    · linarith
    · omega
  unfold arpragueskymodelground_interpolate_elevation
  simp only [hc, h0, h1, Option.bind_eq_bind, Option.some_bind, if_neg hnot,
    arpragueskymodelground_lerp]
  refine congrArg some ?_
  push_cast
  ring

/-- C16: midpoint query in exact arithmetic. When visibility, albedo and
altitude map to integer grid indices (as every value equal to an entry of a
strictly increasing axis does) and the configured elevation in degrees
is the midpoint of two adjacent values of the strictly increasing elevation
axis that are more than `2e-6` apart, the sky radiance is the arithmetic mean
of the two reconstructions at the elevation indices `i` and `i + 1`. -/
theorem sky_radiance_elevation_midpoint (state : ArPragueSkyModelGroundState)
    (theta gamma shadow wavelength : ℚ) (iv ia ih : Int) (i : Nat) (e0 e1 : ℚ)
    (b gs zs ts : Int) (r0 r1 : ℚ)
    (hv : arpragueskymodelground_map_parameter state.visibility state.visibilities
      state.visibility_vals = some (iv : ℚ))
    (ha : arpragueskymodelground_map_parameter state.albedo state.albedos
      state.albedo_vals = some (ia : ℚ))
    (hh : arpragueskymodelground_map_parameter 0 state.altitudes
      state.altitude_vals = some (ih : ℚ))
    (helen : (state.elevation_vals.length : ℤ) = state.elevations)
    (heinc : state.elevation_vals.Pairwise (· < ·))
    (he0 : state.elevation_vals[i]? = some e0) (he1 : state.elevation_vals[i + 1]? = some e1)
    (hgap : 2 / 1000000 < e1 - e0)
    (hmid : state.elevation * MATH_RAD_TO_DEG = (e0 + e1) / 2)
    (hw : 0 < state.channel_width) (hb0 : 0 ≤ b) (hb1 : b < state.channels)
    (hw1 : state.channel_start + b * state.channel_width ≤ wavelength)
    (hw2 : wavelength < state.channel_start + (b + 1) * state.channel_width)
    (hgs : arpragueskymodelground_find_segment gamma state.sun_nbreaks state.sun_breaks
      = some gs)
    (hzs : arpragueskymodelground_find_segment (if state.elevation < 0 then shadow else theta)
      state.zenith_nbreaks state.zenith_breaks = some zs)
    (hts : arpragueskymodelground_find_segment theta state.emph_nbreaks state.emph_breaks
      = some ts)
    (hr0 : arpragueskymodelground_reconstruct state gamma
      (if state.elevation < 0 then shadow else theta) theta gs zs ts
      (arpragueskymodelground_control_params_single_config state state.radiance_dataset
        state.total_coefs_single_config i ih iv ia b) = some r0)
    (hr1 : arpragueskymodelground_reconstruct state gamma
      (if state.elevation < 0 then shadow else theta) theta gs zs ts
      (arpragueskymodelground_control_params_single_config state state.radiance_dataset
        state.total_coefs_single_config (i + 1) ih iv ia b) = some r1) :
    arpragueskymodelground_sky_radiance state theta gamma shadow wavelength
      = some ((r0 + r1) / 2) := by
  have me := map_parameter_midpoint _ _ i e0 e1 helen heinc he0 he1 hgap
  rw [← hmid] at me
  have hi : (i : ℤ) + 1 < state.elevations := by
    have := (List.getElem?_eq_some.mp he1).1
    omega
  rw [sky_radiance_in_range state theta gamma shadow wavelength _ _ _ _ b gs zs ts hv ha hh me
    hw hb0 hb1 hw1 hw2 hgs hzs hts, interpolate_albedo_int, interpolate_visibility_int,
    interpolate_altitude_int]
  exact interpolate_elevation_half state i ih iv ia b gamma _ theta gs zs ts r0 r1 hi hr0 hr1

theorem sky_radiance_elevation_midpoint_witness :
    arpragueskymodelground_sky_radiance sample_state_mid 1 1 2 330 = some ((9 + 0) / 2) :=
  sky_radiance_elevation_midpoint sample_state_mid 1 1 2 330 0 0 0 0 0 10 0 0 0 0 9 0
    (by norm_num [arpragueskymodelground_map_parameter,
      arpragueskymodelground_map_parameter_loop, read_at_ofNat, sample_state_mid, sample_state])
    (by norm_num [arpragueskymodelground_map_parameter,
      arpragueskymodelground_map_parameter_loop, read_at_ofNat, sample_state_mid, sample_state])
    (by norm_num [arpragueskymodelground_map_parameter,
      arpragueskymodelground_map_parameter_loop, read_at_ofNat, sample_state_mid, sample_state])
    (by simp [sample_state_mid, sample_state])
    (by norm_num [sample_state_mid, sample_state])
    (by simp [sample_state_mid, sample_state]) (by simp [sample_state_mid, sample_state])
    (by norm_num)
    (by norm_num [sample_state_mid, sample_state, MATH_RAD_TO_DEG, MATH_PI])
    (by norm_num [sample_state_mid, sample_state]) (le_refl _)
    (by norm_num [sample_state_mid, sample_state])
    (by norm_num [sample_state_mid, sample_state])
    (by norm_num [sample_state_mid, sample_state])
    (by decide)
    (by rw [if_neg (by norm_num [sample_state_mid, sample_state, MATH_PI])]; decide)
    (by decide)
    (by
      rw [if_neg (by norm_num [sample_state_mid, sample_state, MATH_PI])]
      norm_num [arpragueskymodelground_reconstruct, arpragueskymodelground_reconstruct_loop,
        arpragueskymodelground_eval_pp, arpragueskymodelground_control_params_single_config,
        DoublePtr.add, DoublePtr.read, read_at_ofNat, sample_state_mid, sample_state])
    (by
      rw [if_neg (by norm_num [sample_state_mid, sample_state, MATH_PI])]
      norm_num [arpragueskymodelground_reconstruct, arpragueskymodelground_reconstruct_loop,
        arpragueskymodelground_eval_pp, arpragueskymodelground_control_params_single_config,
        DoublePtr.add, DoublePtr.read, read_at_ofNat, sample_state_mid, sample_state])

theorem sample_maps :
    arpragueskymodelground_map_parameter sample_state.visibility
      sample_state.visibilities sample_state.visibility_vals = some 0 ∧
    arpragueskymodelground_map_parameter sample_state.albedo
      sample_state.albedos sample_state.albedo_vals = some 0 ∧
    arpragueskymodelground_map_parameter 0 sample_state.altitudes
      sample_state.altitude_vals = some 0 ∧
    arpragueskymodelground_map_parameter (sample_state.elevation * MATH_RAD_TO_DEG)
      sample_state.elevations sample_state.elevation_vals = some 0 := by
  refine ⟨?_, ?_, ?_, ?_⟩ <;>
  norm_num [arpragueskymodelground_map_parameter, arpragueskymodelground_map_parameter_loop,
    read_at_ofNat, abs_lt, sample_state, MATH_RAD_TO_DEG, MATH_PI]

theorem sample_reconstruct_low :
    arpragueskymodelground_reconstruct sample_state 1 1 1 0 0 0
      (arpragueskymodelground_control_params_single_config sample_state
        sample_state.radiance_dataset sample_state.total_coefs_single_config
        0 0 0 0 0) = some 9 := by
  norm_num [arpragueskymodelground_reconstruct, arpragueskymodelground_reconstruct_loop,
    arpragueskymodelground_eval_pp, arpragueskymodelground_control_params_single_config,
    DoublePtr.add, DoublePtr.read, read_at_ofNat, sample_state]

/-- C17 (counterexample): in `sample_state` (channel start 320, width 40, one
channel) the channel indices of the wavelengths 300 and 340, `-1/2` and `1/2`,
both truncate to bin 0, and the sky radiance is `0` at 300 and `9` at 340. -/
theorem sky_radiance_same_bin_counterexample :
    c_int_cast ((300 - sample_state.channel_start) / sample_state.channel_width) = 0 ∧
    c_int_cast ((340 - sample_state.channel_start) / sample_state.channel_width) = 0 ∧
    (0 : ℤ) < sample_state.channels ∧
    arpragueskymodelground_sky_radiance sample_state 1 1 2 300 = some 0 ∧
    arpragueskymodelground_sky_radiance sample_state 1 1 2 340 = some 9 := by
  obtain ⟨m1, m2, m3, m4⟩ := sample_maps
  have hpos : ¬ (sample_state.elevation < 0) := by norm_num [sample_state]
  refine ⟨?_, ?_, by norm_num [sample_state], ?_, ?_⟩
  · have h : (300 - sample_state.channel_start) / sample_state.channel_width = -1 / 2 := by
      norm_num [sample_state]
    rw [h]
    unfold c_int_cast
    rw [if_neg (by norm_num), Int.ceil_eq_iff]
    norm_num
  · exact c_int_cast_of_bin _ 0 (le_refl _) (by norm_num [sample_state])
      (by norm_num [sample_state])
  · exact sky_radiance_zero_outside sample_state 1 1 2 300
      (by simp [axes_loaded, sample_state]) (by norm_num [sample_state])
      (Or.inl (by norm_num [sample_state]))
  · have hs := sky_radiance_of_indices sample_state 1 1 2 340 0 0 0 0 0 0 0 0
      (by simpa using m1) (by simpa using m2) (by simpa using m3) (by simpa using m4)
      (by norm_num [sample_state]) (le_refl _) (by norm_num [sample_state])
      (by norm_num [sample_state]) (by norm_num [sample_state])
      (by decide) (by rw [if_neg hpos]; decide) (by decide)
    rw [hs, if_neg hpos]
    exact sample_reconstruct_low

/-- C17 (amended): the wavelength is not interpolated. For two wavelengths
whose channel indices lie in `[0, channels)` and truncate to the same bin, and
identical other arguments and model, the two sky radiances are equal. -/
theorem sky_radiance_same_bin (state : ArPragueSkyModelGroundState)
    (theta gamma shadow w1 w2 : ℚ)
    (h1 : 0 ≤ (w1 - state.channel_start) / state.channel_width)
    (h1c : (w1 - state.channel_start) / state.channel_width < (state.channels : ℚ))
    (h2 : 0 ≤ (w2 - state.channel_start) / state.channel_width)
    (h2c : (w2 - state.channel_start) / state.channel_width < (state.channels : ℚ))
    (hbin : c_int_cast ((w1 - state.channel_start) / state.channel_width) =
      c_int_cast ((w2 - state.channel_start) / state.channel_width)) :
    arpragueskymodelground_sky_radiance state theta gamma shadow w1 =
      arpragueskymodelground_sky_radiance state theta gamma shadow w2 := by
  have n1 : ¬ ((w1 - state.channel_start) / state.channel_width ≥ (state.channels : ℚ) ∨
      (w1 - state.channel_start) / state.channel_width < 0) := by
    intro h; rcases h with h | h <;> linarith
  have n2 : ¬ ((w2 - state.channel_start) / state.channel_width ≥ (state.channels : ℚ) ∨
      (w2 - state.channel_start) / state.channel_width < 0) := by
    intro h; rcases h with h | h <;> linarith
  rw [sky_radiance_unfold, sky_radiance_unfold]
  simp only [if_neg n1, if_neg n2, arpragueskymodelground_interpolate_wavelength, hbin]

theorem sky_radiance_same_bin_witness :
    arpragueskymodelground_sky_radiance sample_state 1 1 2 330 =
      arpragueskymodelground_sky_radiance sample_state 1 1 2 350 :=
  sky_radiance_same_bin sample_state 1 1 2 330 350 (by norm_num [sample_state])
    (by norm_num [sample_state]) (by norm_num [sample_state]) (by norm_num [sample_state])
    ((c_int_cast_of_bin _ 0 (le_refl _) (by norm_num [sample_state])
      (by norm_num [sample_state])).trans
     (c_int_cast_of_bin _ 0 (le_refl _) (by norm_num [sample_state])
      (by norm_num [sample_state])).symm)

/-- C18: the zenith-term argument `alpha` of
`arpragueskymodelground_sky_radiance` is the shadow angle when the configured
elevation is negative and `theta` otherwise: for an in-range wavelength the
result is the cascade evaluated with `alpha = shadow` in the first case and
with `alpha = theta` in the second; hence for `elevation ≥ 0` any two values
of the shadow argument give the same result. -/
theorem sky_radiance_shadow_use (state : ArPragueSkyModelGroundState)
    (theta gamma shadow wavelength : ℚ) :
    (state.elevation < 0 → ∀ (vc ac hc ec : ℚ) (b gs zs ts : Int),
      arpragueskymodelground_map_parameter state.visibility state.visibilities
        state.visibility_vals = some vc →
      arpragueskymodelground_map_parameter state.albedo state.albedos
        state.albedo_vals = some ac →
      arpragueskymodelground_map_parameter 0 state.altitudes state.altitude_vals = some hc →
      arpragueskymodelground_map_parameter (state.elevation * MATH_RAD_TO_DEG)
        state.elevations state.elevation_vals = some ec →
      0 < state.channel_width → 0 ≤ b → b < state.channels →
      state.channel_start + b * state.channel_width ≤ wavelength →
      wavelength < state.channel_start + (b + 1) * state.channel_width →
      arpragueskymodelground_find_segment gamma state.sun_nbreaks state.sun_breaks = some gs →
      arpragueskymodelground_find_segment shadow state.zenith_nbreaks state.zenith_breaks
        = some zs →
      arpragueskymodelground_find_segment theta state.emph_nbreaks state.emph_breaks = some ts →
      arpragueskymodelground_sky_radiance state theta gamma shadow wavelength =
        arpragueskymodelground_interpolate_albedo state ec hc vc ac b gamma shadow theta
          gs zs ts) ∧
    (0 ≤ state.elevation → ∀ (vc ac hc ec : ℚ) (b gs zs ts : Int),
      arpragueskymodelground_map_parameter state.visibility state.visibilities
        state.visibility_vals = some vc →
      arpragueskymodelground_map_parameter state.albedo state.albedos
        state.albedo_vals = some ac →
      arpragueskymodelground_map_parameter 0 state.altitudes state.altitude_vals = some hc →
      arpragueskymodelground_map_parameter (state.elevation * MATH_RAD_TO_DEG)
        state.elevations state.elevation_vals = some ec →
      0 < state.channel_width → 0 ≤ b → b < state.channels →
      state.channel_start + b * state.channel_width ≤ wavelength →
      wavelength < state.channel_start + (b + 1) * state.channel_width →
      arpragueskymodelground_find_segment gamma state.sun_nbreaks state.sun_breaks = some gs →
      arpragueskymodelground_find_segment theta state.zenith_nbreaks state.zenith_breaks
        = some zs →
      arpragueskymodelground_find_segment theta state.emph_nbreaks state.emph_breaks = some ts →
      arpragueskymodelground_sky_radiance state theta gamma shadow wavelength =
        arpragueskymodelground_interpolate_albedo state ec hc vc ac b gamma theta theta
          gs zs ts) ∧
    (0 ≤ state.elevation → ∀ shadow2 : ℚ,
      arpragueskymodelground_sky_radiance state theta gamma shadow wavelength =
        arpragueskymodelground_sky_radiance state theta gamma shadow2 wavelength) := by
  refine ⟨?_, ?_, ?_⟩
  · intro hneg vc ac hc ec b gs zs ts hv ha hh he hw hb0 hb1 hw1 hw2 hgs hzs hts
    have h := sky_radiance_in_range state theta gamma shadow wavelength vc ac hc ec b gs zs ts
      hv ha hh he hw hb0 hb1 hw1 hw2 hgs (by rw [if_pos hneg]; exact hzs) hts
    rw [if_pos hneg] at h
    exact h
  · intro hpos vc ac hc ec b gs zs ts hv ha hh he hw hb0 hb1 hw1 hw2 hgs hzs hts
    have hn : ¬ state.elevation < 0 := not_lt.mpr hpos
    have h := sky_radiance_in_range state theta gamma shadow wavelength vc ac hc ec b gs zs ts
      hv ha hh he hw hb0 hb1 hw1 hw2 hgs (by rw [if_neg hn]; exact hzs) hts
    rw [if_neg hn] at h
    exact h
  · intro hpos shadow2
    have hn : ¬ state.elevation < 0 := not_lt.mpr hpos
    rw [sky_radiance_unfold, sky_radiance_unfold]
    simp only [if_neg hn]

theorem sky_radiance_shadow_use_witness :
    arpragueskymodelground_sky_radiance sample_state 1 1 2 330 =
      arpragueskymodelground_sky_radiance sample_state 1 1 3 330 :=
  (sky_radiance_shadow_use sample_state 1 1 2 330).2.2 (by norm_num [sample_state]) 3

/-! ## Transmittance: proofs -/

theorem transmittance_unfold (m : LibM) (state : ArPragueSkyModelGroundState)
    (theta wavelength distance : ℚ) :
    arpragueskymodelground_transmittance m state theta wavelength distance =
      if (wavelength - state.channel_start) / state.channel_width ≥ (state.channels : ℚ) ∨
          (wavelength - state.channel_start) / state.channel_width < 0 then some 0
      else
        (arpragueskymodelground_find_in_array state.transmission_visibilities
          state.trans_visibilities state.visibility).bind fun vis =>
        (arpragueskymodelground_toAD m theta distance 0).bind fun ad =>
        (arpragueskymodelground_calc_transmittance_svd m state ad.1 ad.2 vis.1
          (c_int_cast ((wavelength - state.channel_start) / state.channel_width))
          (if c_int_cast ((wavelength - state.channel_start) / state.channel_width) < 10
            then 1 else 0) 0 0 0 0).bind fun trans_low =>
        (arpragueskymodelground_calc_transmittance_svd m state ad.1 ad.2 (vis.1 + vis.2.1)
          (c_int_cast ((wavelength - state.channel_start) / state.channel_width))
          (if c_int_cast ((wavelength - state.channel_start) / state.channel_width) < 10
            then 1 else 0) 0 0 0 0).bind fun trans_high =>
        some ((if arpragueskymodelground_lerp trans_low trans_high vis.2.2 < 0 then 0
            else (if arpragueskymodelground_lerp trans_low trans_high vis.2.2 > 1 then 1
              else arpragueskymodelground_lerp trans_low trans_high vis.2.2)) *
          (if arpragueskymodelground_lerp trans_low trans_high vis.2.2 < 0 then 0
            else (if arpragueskymodelground_lerp trans_low trans_high vis.2.2 > 1 then 1
              else arpragueskymodelground_lerp trans_low trans_high vis.2.2))) := rfl

theorem clamp_square_range (t : ℚ) :
    0 ≤ (if t < 0 then 0 else (if t > 1 then 1 else t)) *
        (if t < 0 then 0 else (if t > 1 then 1 else t)) ∧
    (if t < 0 then 0 else (if t > 1 then 1 else t)) *
        (if t < 0 then 0 else (if t > 1 then 1 else t)) ≤ 1 := by
  split_ifs with h1 h2
  · norm_num
  · norm_num
  · have h3 : 0 ≤ t := not_lt.mp h1
    have h4 : t ≤ 1 := not_lt.mp h2
    constructor <;> nlinarith

theorem transmittance_some_range (m : LibM) (state : ArPragueSkyModelGroundState)
    (theta wavelength distance r : ℚ)
    (h : arpragueskymodelground_transmittance m state theta wavelength distance = some r) :
    0 ≤ r ∧ r ≤ 1 := by
  rw [transmittance_unfold] at h
  by_cases hc : (wavelength - state.channel_start) / state.channel_width
      ≥ (state.channels : ℚ) ∨ (wavelength - state.channel_start) / state.channel_width < 0
  · rw [if_pos hc] at h
    cases h
    norm_num
  · rw [if_neg hc] at h
    simp only [Option.bind_eq_some, Option.some.injEq] at h
    obtain ⟨vis, _, ad, _, tl, _, th, _, rfl⟩ := h
    exact clamp_square_range _

/-- C20: for a model with `channel_width > 0`,
`arpragueskymodelground_transmittance` returns `0` whenever the channel index
`(wavelength - channel_start)/channel_width` is outside `[0, channels)`, for
every `theta` and `distance`. -/
theorem transmittance_out_of_range (m : LibM) (state : ArPragueSkyModelGroundState)
    (theta wavelength distance : ℚ) (_ : 0 < state.channel_width)
    (hout : ¬ (0 ≤ (wavelength - state.channel_start) / state.channel_width ∧
      (wavelength - state.channel_start) / state.channel_width < (state.channels : ℚ))) :
    arpragueskymodelground_transmittance m state theta wavelength distance = some 0 := by
  rw [transmittance_unfold, if_pos]
  by_contra hc
  apply hout
  constructor
  · by_contra h; exact hc (Or.inr (not_le.mp h))
  · by_contra h; exact hc (Or.inl (not_lt.mp h))

theorem transmittance_out_of_range_witness :
    arpragueskymodelground_transmittance sample_libm sample_state 0 300 0 = some 0 :=
  transmittance_out_of_range sample_libm sample_state 0 300 0 (by norm_num [sample_state])
    (by norm_num [sample_state])

/-- With exact arithmetic every value that `arpragueskymodelground_transmittance`
returns lies in `[0, 1]`; and for an in-range wavelength, when the visibility
search, the coordinate mapping and the two bucket lookups return, the function
returns the square of their blend clamped to `[0, 1]`, a value of `[0, 1]`. -/
theorem transmittance_range (m : LibM) (state : ArPragueSkyModelGroundState)
    (theta wavelength distance : ℚ) :
    (∀ r, arpragueskymodelground_transmittance m state theta wavelength distance = some r →
      0 ≤ r ∧ r ≤ 1) ∧
    (∀ (vis : Int × Int × ℚ) (ad : ℚ × ℚ) (trans_low trans_high : ℚ),
      0 ≤ (wavelength - state.channel_start) / state.channel_width →
      (wavelength - state.channel_start) / state.channel_width < (state.channels : ℚ) →
      arpragueskymodelground_find_in_array state.transmission_visibilities
        state.trans_visibilities state.visibility = some vis →
      arpragueskymodelground_toAD m theta distance 0 = some ad →
      arpragueskymodelground_calc_transmittance_svd m state ad.1 ad.2 vis.1
        (c_int_cast ((wavelength - state.channel_start) / state.channel_width))
        (if c_int_cast ((wavelength - state.channel_start) / state.channel_width) < 10
          then 1 else 0) 0 0 0 0 = some trans_low →
      arpragueskymodelground_calc_transmittance_svd m state ad.1 ad.2 (vis.1 + vis.2.1)
        (c_int_cast ((wavelength - state.channel_start) / state.channel_width))
        (if c_int_cast ((wavelength - state.channel_start) / state.channel_width) < 10
          then 1 else 0) 0 0 0 0 = some trans_high →
      ∃ r, arpragueskymodelground_transmittance m state theta wavelength distance = some r ∧
        r = (min 1 (max 0 (arpragueskymodelground_lerp trans_low trans_high vis.2.2))) ^ 2 ∧
        0 ≤ r ∧ r ≤ 1) := by
  refine ⟨fun r h => transmittance_some_range m state theta wavelength distance r h, ?_⟩
  intro vis ad tl th h0 h1 hvis had hl hh
  have hnot : ¬ ((wavelength - state.channel_start) / state.channel_width
      ≥ (state.channels : ℚ) ∨ (wavelength - state.channel_start) / state.channel_width < 0) := by
    intro h; rcases h with h | h <;> linarith
  have hr : arpragueskymodelground_transmittance m state theta wavelength distance = some
      ((if arpragueskymodelground_lerp tl th vis.2.2 < 0 then 0
          else (if arpragueskymodelground_lerp tl th vis.2.2 > 1 then 1
            else arpragueskymodelground_lerp tl th vis.2.2)) *
        (if arpragueskymodelground_lerp tl th vis.2.2 < 0 then 0
          else (if arpragueskymodelground_lerp tl th vis.2.2 > 1 then 1
            else arpragueskymodelground_lerp tl th vis.2.2))) := by
    rw [transmittance_unfold, if_neg hnot, hvis, had]
    simp only [Option.some_bind, hl, hh]
  refine ⟨_, hr, ?_, clamp_square_range _⟩
  generalize arpragueskymodelground_lerp tl th vis.2.2 = t
  split_ifs with h2 h3
  · rw [max_eq_left (le_of_lt h2), min_eq_right (by norm_num)]; ring
  · rw [max_eq_right (by linarith), min_eq_left (le_of_lt h3)]; ring
  · rw [max_eq_right (not_lt.mp h2), min_eq_right (not_lt.mp h3)]; ring

theorem sample_find_in_array :
    arpragueskymodelground_find_in_array sample_state.transmission_visibilities
      sample_state.trans_visibilities sample_state.visibility = some (0, 0, 1) := by
  norm_num [arpragueskymodelground_find_in_array, read_at_ofNat, sample_state]

theorem sample_toAD : arpragueskymodelground_toAD sample_libm 0 0 0 = some (0, 0) := by
  norm_num [arpragueskymodelground_toAD, arpragueskymodelground_toAD_tail,
    arpragueskymodelground_circle_bounds_2D, arpragueskymodelground_scaleAD, sample_libm,
    PSMG_PLANET_RADIUS, PSMG_ATMO_WIDTH, MATH_PI]

theorem sample_calc_transmittance_svd :
    arpragueskymodelground_calc_transmittance_svd sample_libm sample_state 0 0 0 0 1 0 0 0 0
      = some 1 := by
  norm_num [arpragueskymodelground_calc_transmittance_svd,
    arpragueskymodelground_calc_transmittance_svd_altitude,
    arpragueskymodelground_calc_transmittance_svd_altitude_loop_al,
    arpragueskymodelground_calc_transmittance_svd_altitude_loop_dl,
    arpragueskymodelground_calc_transmittance_svd_altitude_loop_i,
    arpragueskymodelground_transmittance_interpolate_wavelength,
    arpragueskymodelground_transmittance_interpolate_wavelength_loop,
    arpragueskymodelground_transmittance_coefs_index, arpragueskymodelground_lerp,
    DoublePtr.read, read_at_ofNat, write_at_ofNat, List.replicate, sample_state]

theorem sample_channel_bin :
    c_int_cast ((330 - sample_state.channel_start) / sample_state.channel_width) = 0 :=
  c_int_cast_of_bin _ 0 (le_refl _) (by norm_num [sample_state]) (by norm_num [sample_state])

theorem transmittance_range_witness :
    ∃ r, arpragueskymodelground_transmittance sample_libm sample_state 0 330 0 = some r ∧
      r = (min 1 (max 0 (arpragueskymodelground_lerp 1 1 1))) ^ 2 ∧ 0 ≤ r ∧ r ≤ 1 :=
  (transmittance_range sample_libm sample_state 0 330 0).2 (0, 0, 1) (0, 0) 1 1
    (by norm_num [sample_state]) (by norm_num [sample_state]) sample_find_in_array sample_toAD
    (by rw [sample_channel_bin]; exact sample_calc_transmittance_svd)
    (by rw [sample_channel_bin]; exact sample_calc_transmittance_svd)

/-! ## Grid-exact parameters -/

theorem map_parameter_axis_entry_integer (values : List ℚ) (value_count : Int) (i : Nat)
    (a : ℚ) (hlen : (values.length : ℤ) = value_count) (hinc : values.Pairwise (· < ·))
    (hi : values[i]? = some a) :
    ∃ j : Nat, j ≤ i ∧ arpragueskymodelground_map_parameter a value_count values
      = some (j : ℚ) := by
  classical
  obtain ⟨hil, hia⟩ := List.getElem?_eq_some.mp hi
  have hpw := List.pairwise_iff_getElem.mp hinc
  obtain ⟨m, rfl⟩ := Int.eq_ofNat_of_zero_le (show (0 : ℤ) ≤ value_count by omega)
  have hm : values.length = m := by omega
  have hex : ∃ j : Nat, ∃ b, values[j]? = some b ∧ |b - a| < 1 / 1000000 :=
    ⟨i, a, hi, by rw [sub_self, abs_zero]; norm_num⟩
  obtain ⟨b, hb1, hb2⟩ := Nat.find_spec hex
  have hji : Nat.find hex ≤ i := Nat.find_min' hex ⟨a, hi, by rw [sub_self, abs_zero]; norm_num⟩
  have e0 : read_at values 0 = some values[0] := read_at_of_lt values 0 (by omega)
  have e1 : read_at values ((m : ℤ) - 1) = some values[m - 1] := by
    have e : ((m : ℤ) - 1) = ((m - 1 : ℕ) : ℤ) := by omega
    rw [e]; exact read_at_of_lt values (m - 1) (by omega)
  have hfirst : values[0] ≤ a := by
    rcases Nat.eq_zero_or_pos i with h0 | h0
    · subst h0; exact le_of_eq hia
    · exact (le_of_lt (hpw 0 i (by omega) hil h0)).trans (le_of_eq hia)
  have hlast : a ≤ values[m - 1] := by
    rcases Nat.lt_or_ge i (m - 1) with h0 | h0
    · exact (le_of_eq hia.symm).trans (le_of_lt (hpw i (m - 1) hil (by omega) h0))
    · have : i = m - 1 := by omega
      subst this; exact le_of_eq hia.symm
  refine ⟨Nat.find hex, hji, ?_⟩
  rw [(map_parameter_edges a (m : ℤ) values _ _ e0 e1).2.2 hfirst hlast]
  obtain ⟨r, hr⟩ : ∃ r : Nat, (m : ℤ).toNat = r + 1 + Nat.find hex :=
    ⟨m - 1 - Nat.find hex, by omega⟩
  have hz : (0 : ℤ) = ((0 : ℕ) : ℤ) := rfl
  have hskip : ∀ k, 0 ≤ k → k < 0 + Nat.find hex → ∃ val, values[k]? = some val ∧
      1 / 1000000 ≤ |val - a| ∧ val ≤ a := by
    intro k _ hk
    have hkl : k < values.length := by omega
    have hlt : values[k] < a := lt_of_lt_of_eq (hpw k i hkl hil (by omega)) hia
    refine ⟨values[k], List.getElem?_eq_getElem hkl, ?_, le_of_lt hlt⟩
    by_contra hc
    exact Nat.find_min hex (show k < Nat.find hex by omega)
      ⟨values[k], List.getElem?_eq_getElem hkl, not_le.mp hc⟩
  rw [hr, hz, map_parameter_loop_skip a values (Nat.find hex) (r + 1) 0 hskip]
  have e : 0 + Nat.find hex = Nat.find hex := by ring
  rw [e]
  exact map_parameter_loop_snap a values r _ b hb1 hb2

/-! ## Transmittance: the order of clamping and squaring -/

theorem clamp_square_eq (t : ℚ) :
    (if t < 0 then 0 else (if t > 1 then 1 else t)) *
        (if t < 0 then 0 else (if t > 1 then 1 else t)) = (min 1 (max 0 t)) ^ 2 := by
  split_ifs with h2 h3
  · rw [max_eq_left (le_of_lt h2), min_eq_right (by norm_num)]; ring
  · rw [max_eq_right (by linarith), min_eq_left (le_of_lt h3)]; ring
  · rw [max_eq_right (not_lt.mp h2), min_eq_right (not_lt.mp h3)]; ring

theorem transmittance_blend_eq (m : LibM) (state : ArPragueSkyModelGroundState)
    (theta wavelength distance : ℚ) (vis : Int × Int × ℚ) (ad : ℚ × ℚ)
    (trans_low trans_high : ℚ)
    (h0 : 0 ≤ (wavelength - state.channel_start) / state.channel_width)
    (h1 : (wavelength - state.channel_start) / state.channel_width < (state.channels : ℚ))
    (hvis : arpragueskymodelground_find_in_array state.transmission_visibilities
      state.trans_visibilities state.visibility = some vis)
    (had : arpragueskymodelground_toAD m theta distance 0 = some ad)
    (hl : arpragueskymodelground_calc_transmittance_svd m state ad.1 ad.2 vis.1
      (c_int_cast ((wavelength - state.channel_start) / state.channel_width))
      (if c_int_cast ((wavelength - state.channel_start) / state.channel_width) < 10
        then 1 else 0) 0 0 0 0 = some trans_low)
    (hh : arpragueskymodelground_calc_transmittance_svd m state ad.1 ad.2 (vis.1 + vis.2.1)
      (c_int_cast ((wavelength - state.channel_start) / state.channel_width))
      (if c_int_cast ((wavelength - state.channel_start) / state.channel_width) < 10
        then 1 else 0) 0 0 0 0 = some trans_high) :
    arpragueskymodelground_transmittance m state theta wavelength distance =
      some ((min 1 (max 0 (arpragueskymodelground_lerp trans_low trans_high vis.2.2))) ^ 2) := by
  have hnot : ¬ ((wavelength - state.channel_start) / state.channel_width
      ≥ (state.channels : ℚ) ∨ (wavelength - state.channel_start) / state.channel_width < 0) := by
    intro h; rcases h with h | h <;> linarith
  rw [transmittance_unfold, if_neg hnot, hvis, had]
  simp only [Option.some_bind, hl, hh]
  rw [clamp_square_eq]

theorem clamp_then_square_vs_square_then_clamp (t : ℚ) :
    ((min 1 (max 0 t)) ^ 2 = min 1 (max 0 (t * t)) ↔ 0 ≤ t) := by
  constructor
  · intro h
    by_contra hneg
    have hlt : t < 0 := not_le.mp hneg
    rw [max_eq_left (le_of_lt hlt), min_eq_right (by norm_num)] at h
    have hpos : 0 < t * t := by nlinarith
    rw [max_eq_right (le_of_lt hpos)] at h
    have : (0 : ℚ) < min 1 (t * t) := lt_min (by norm_num) hpos
    rw [← h] at this
    norm_num at this
  · intro h
    rw [max_eq_right h, max_eq_right (by nlinarith)]
    rcases le_total t 1 with h1 | h1
    · rw [min_eq_right h1, min_eq_right (by nlinarith)]; ring
    · rw [min_eq_left h1, min_eq_left (by nlinarith)]; norm_num

theorem sample_neg_find_in_array :
    arpragueskymodelground_find_in_array sample_state_neg.transmission_visibilities
      sample_state_neg.trans_visibilities sample_state_neg.visibility = some (0, 0, 1) := by
  norm_num [arpragueskymodelground_find_in_array, read_at_ofNat, sample_state, sample_state_neg]

theorem sample_neg_calc_transmittance_svd :
    arpragueskymodelground_calc_transmittance_svd sample_libm sample_state_neg 0 0 0 0 1 0 0 0 0
      = some (-1 / 2) := by
  norm_num [arpragueskymodelground_calc_transmittance_svd,
    arpragueskymodelground_calc_transmittance_svd_altitude,
    arpragueskymodelground_calc_transmittance_svd_altitude_loop_al,
    arpragueskymodelground_calc_transmittance_svd_altitude_loop_dl,
    arpragueskymodelground_calc_transmittance_svd_altitude_loop_i,
    arpragueskymodelground_transmittance_interpolate_wavelength,
    arpragueskymodelground_transmittance_interpolate_wavelength_loop,
    arpragueskymodelground_transmittance_coefs_index, arpragueskymodelground_lerp,
    DoublePtr.read, read_at_ofNat, write_at_ofNat, List.replicate, sample_state,
    sample_state_neg]

theorem sample_neg_channel_bin :
    c_int_cast ((330 - sample_state_neg.channel_start) / sample_state_neg.channel_width) = 0 :=
  c_int_cast_of_bin _ 0 (le_refl _) (by norm_num [sample_state, sample_state_neg])
    (by norm_num [sample_state, sample_state_neg])

/-- C21 (counterexample): on `sample_state_neg` both visibility-bucket lookups
are `-1/2` and the blend weight is `1`, so the blended value is `t = -1/2`;
`arpragueskymodelground_transmittance` returns `0` at the in-range wavelength
330, while squaring first and clamping afterwards gives
`min(1, max(0, t*t)) = 1/4`. -/
theorem transmittance_square_then_clamp_counterexample :
    arpragueskymodelground_find_in_array sample_state_neg.transmission_visibilities
      sample_state_neg.trans_visibilities sample_state_neg.visibility = some (0, 0, 1) ∧
    arpragueskymodelground_toAD sample_libm 0 0 0 = some (0, 0) ∧
    arpragueskymodelground_calc_transmittance_svd sample_libm sample_state_neg 0 0 0
      (c_int_cast ((330 - sample_state_neg.channel_start) / sample_state_neg.channel_width))
      (if c_int_cast ((330 - sample_state_neg.channel_start) / sample_state_neg.channel_width)
        < 10 then 1 else 0) 0 0 0 0 = some (-1 / 2) ∧
    arpragueskymodelground_lerp (-1 / 2) (-1 / 2) 1 = -1 / 2 ∧
    arpragueskymodelground_transmittance sample_libm sample_state_neg 0 330 0 = some 0 ∧
    min 1 (max 0 ((-1 / 2 : ℚ) * (-1 / 2))) = 1 / 4 ∧
    arpragueskymodelground_transmittance sample_libm sample_state_neg 0 330 0 ≠
      some (min 1 (max 0 ((-1 / 2 : ℚ) * (-1 / 2)))) := by
  have hsvd : arpragueskymodelground_calc_transmittance_svd sample_libm sample_state_neg 0 0 0
      (c_int_cast ((330 - sample_state_neg.channel_start) / sample_state_neg.channel_width))
      (if c_int_cast ((330 - sample_state_neg.channel_start) / sample_state_neg.channel_width)
        < 10 then 1 else 0) 0 0 0 0 = some (-1 / 2) := by
    rw [sample_neg_channel_bin]; exact sample_neg_calc_transmittance_svd
  have ht : arpragueskymodelground_transmittance sample_libm sample_state_neg 0 330 0
      = some 0 := by
    rw [transmittance_blend_eq sample_libm sample_state_neg 0 330 0 (0, 0, 1) (0, 0)
      (-1 / 2) (-1 / 2) (by norm_num [sample_state, sample_state_neg])
      (by norm_num [sample_state, sample_state_neg]) sample_neg_find_in_array sample_toAD
      hsvd hsvd]
    norm_num [arpragueskymodelground_lerp]
  have hm : min 1 (max 0 ((-1 / 2 : ℚ) * (-1 / 2))) = 1 / 4 := by norm_num
  refine ⟨sample_neg_find_in_array, sample_toAD, hsvd, ?_, ht, hm, ?_⟩
  · norm_num [arpragueskymodelground_lerp]
  · rw [ht, hm]; norm_num

/-- C21 (amended): for an in-range wavelength, when the visibility search, the
coordinate mapping and the two visibility-bucket lookups return,
`arpragueskymodelground_transmittance` blends the two lookups into `t`, clamps
`t` to `[0, 1]` and then squares: the result is `(min(1, max(0, t)))^2`. This
is `min(1, max(0, t*t))` exactly when `0 ≤ t`; a negative blend gives `0`. -/
theorem transmittance_clamp_then_square (m : LibM) (state : ArPragueSkyModelGroundState)
    (theta wavelength distance : ℚ) (vis : Int × Int × ℚ) (ad : ℚ × ℚ)
    (trans_low trans_high : ℚ)
    (h0 : 0 ≤ (wavelength - state.channel_start) / state.channel_width)
    (h1 : (wavelength - state.channel_start) / state.channel_width < (state.channels : ℚ))
    (hvis : arpragueskymodelground_find_in_array state.transmission_visibilities
      state.trans_visibilities state.visibility = some vis)
    (had : arpragueskymodelground_toAD m theta distance 0 = some ad)
    (hl : arpragueskymodelground_calc_transmittance_svd m state ad.1 ad.2 vis.1
      (c_int_cast ((wavelength - state.channel_start) / state.channel_width))
      (if c_int_cast ((wavelength - state.channel_start) / state.channel_width) < 10
        then 1 else 0) 0 0 0 0 = some trans_low)
    (hh : arpragueskymodelground_calc_transmittance_svd m state ad.1 ad.2 (vis.1 + vis.2.1)
      (c_int_cast ((wavelength - state.channel_start) / state.channel_width))
      (if c_int_cast ((wavelength - state.channel_start) / state.channel_width) < 10
        then 1 else 0) 0 0 0 0 = some trans_high) :
    arpragueskymodelground_transmittance m state theta wavelength distance =
      some ((min 1 (max 0 (arpragueskymodelground_lerp trans_low trans_high vis.2.2))) ^ 2) ∧
    ((min 1 (max 0 (arpragueskymodelground_lerp trans_low trans_high vis.2.2))) ^ 2 =
        min 1 (max 0 (arpragueskymodelground_lerp trans_low trans_high vis.2.2 *
          arpragueskymodelground_lerp trans_low trans_high vis.2.2)) ↔
      0 ≤ arpragueskymodelground_lerp trans_low trans_high vis.2.2) ∧
    (arpragueskymodelground_lerp trans_low trans_high vis.2.2 < 0 →
      arpragueskymodelground_transmittance m state theta wavelength distance = some 0) :=
  ⟨transmittance_blend_eq m state theta wavelength distance vis ad trans_low trans_high h0 h1
      hvis had hl hh,
    clamp_then_square_vs_square_then_clamp _,
    fun hneg => by
      rw [transmittance_blend_eq m state theta wavelength distance vis ad trans_low trans_high
        h0 h1 hvis had hl hh, max_eq_left (le_of_lt hneg), min_eq_right (by norm_num)]
      norm_num⟩

theorem transmittance_clamp_then_square_witness :
    arpragueskymodelground_transmittance sample_libm sample_state_neg 0 330 0 =
      some ((min 1 (max 0 (arpragueskymodelground_lerp (-1 / 2) (-1 / 2) 1))) ^ 2) ∧
    ((min 1 (max 0 (arpragueskymodelground_lerp (-1 / 2) (-1 / 2) 1))) ^ 2 =
        min 1 (max 0 (arpragueskymodelground_lerp (-1 / 2) (-1 / 2) 1 *
          arpragueskymodelground_lerp (-1 / 2) (-1 / 2) 1)) ↔
      0 ≤ arpragueskymodelground_lerp (-1 / 2) (-1 / 2) 1) ∧
    (arpragueskymodelground_lerp (-1 / 2) (-1 / 2) 1 < 0 →
      arpragueskymodelground_transmittance sample_libm sample_state_neg 0 330 0 = some 0) :=
  transmittance_clamp_then_square sample_libm sample_state_neg 0 330 0 (0, 0, 1) (0, 0)
    (-1 / 2) (-1 / 2) (by norm_num [sample_state, sample_state_neg])
    (by norm_num [sample_state, sample_state_neg]) sample_neg_find_in_array sample_toAD
    (by rw [sample_neg_channel_bin]; exact sample_neg_calc_transmittance_svd)
    (by rw [sample_neg_channel_bin]; exact sample_neg_calc_transmittance_svd)

/-! ## Transmittance: the wavelength buckets of the V coefficients -/

theorem transmittance_interpolate_wavelength_loop_succ (wll wlu : DoublePtr) (w : ℚ) (n : Nat)
    (i : Int) (coefficients : List ℚ) :
    arpragueskymodelground_transmittance_interpolate_wavelength_loop wll wlu w (n + 1) i
        coefficients =
      (wll.read i).bind fun l => (wlu.read i).bind fun u =>
        (write_at coefficients i (arpragueskymodelground_lerp l u w)).bind fun c1 =>
          arpragueskymodelground_transmittance_interpolate_wavelength_loop wll wlu w n (i + 1)
            c1 := rfl

theorem transmittance_interpolate_wavelength_loop_spec (wll wlu : DoublePtr) (w : ℚ) :
    ∀ (n i : Nat) (coefficients : List ℚ), i + n ≤ coefficients.length →
      (∀ j : Nat, i ≤ j → j < i + n → ∃ l u, wll.read j = some l ∧ wlu.read j = some u) →
      ∃ out, arpragueskymodelground_transmittance_interpolate_wavelength_loop wll wlu w n i
            coefficients = some out ∧
        out.length = coefficients.length ∧
        (∀ j : Nat, j < i → read_at out j = read_at coefficients j) ∧
        (∀ j : Nat, i ≤ j → j < i + n → ∀ l u, wll.read j = some l → wlu.read j = some u →
          read_at out j = some (arpragueskymodelground_lerp l u w)) := by
  intro n
  induction n with
  | zero =>
    intro i coefficients _ _
    exact ⟨coefficients, rfl, rfl, fun _ _ => rfl, fun j h1 h2 => by omega⟩
  | succ n ih =>
    intro i coefficients hlen hreads
    obtain ⟨l, u, hl, hu⟩ := hreads i (le_refl _) (by omega)
    have hw : write_at coefficients (i : ℤ) (arpragueskymodelground_lerp l u w) =
        some (coefficients.set i (arpragueskymodelground_lerp l u w)) :=
      write_at_natCast coefficients i _ (by omega)
    obtain ⟨out, hout, hlen1, hpre, hpost⟩ := ih (i + 1)
      (coefficients.set i (arpragueskymodelground_lerp l u w))
      (by rw [List.length_set]; omega)
      (fun j h1 h2 => hreads j (by omega) (by omega))
    refine ⟨out, ?_, ?_, ?_, ?_⟩
    · rw [transmittance_interpolate_wavelength_loop_succ, hl, hu]
      simp only [Option.some_bind, hw]
      exact_mod_cast hout
    · rw [hlen1, List.length_set]
    · intro j hj
      rw [hpre j (by omega), read_at_natCast, read_at_natCast, List.getElem?_set_ne (by omega)]
    · intro j h1 h2 l1 u1 hl1 hu1
      rcases Nat.eq_or_lt_of_le h1 with h | h
      · subst h
        rw [hl] at hl1
        rw [hu] at hu1
        cases hl1
        cases hu1
        rw [hpre i (by omega), read_at_natCast, List.getElem?_set_self (by omega)]
      · exact hpost j (by omega) (by omega) l1 u1 hl1 hu1

theorem transmittance_interpolate_wavelength_zero (state : ArPragueSkyModelGroundState)
    (visibility altitude wavelength_low wavelength_inc : Int) (r : Nat)
    (coefficients : List ℚ) (hr : state.trans_rank = (r : ℤ)) (hlen : r ≤ coefficients.length)
    (hreads : ∀ j : Nat, j < r → ∃ l u,
      (arpragueskymodelground_transmittance_coefs_index state visibility altitude
        wavelength_low).read j = some l ∧
      (arpragueskymodelground_transmittance_coefs_index state visibility altitude
        (wavelength_low + wavelength_inc)).read j = some u) :
    ∃ out, arpragueskymodelground_transmittance_interpolate_wavelength state visibility altitude
          wavelength_low wavelength_inc 0 coefficients = some out ∧
      out.length = coefficients.length ∧
      ∀ j : Nat, j < r → read_at out j =
        (arpragueskymodelground_transmittance_coefs_index state visibility altitude
          wavelength_low).read j := by
  obtain ⟨out, hout, hl, _, hpost⟩ := transmittance_interpolate_wavelength_loop_spec
    (arpragueskymodelground_transmittance_coefs_index state visibility altitude wavelength_low)
    (arpragueskymodelground_transmittance_coefs_index state visibility altitude
      (wavelength_low + wavelength_inc)) 0 r 0 coefficients (by omega)
    (fun j _ h2 => hreads j (by omega))
  refine ⟨out, ?_, hl, ?_⟩
  · unfold arpragueskymodelground_transmittance_interpolate_wavelength
    rw [hr]
    exact hout
  · intro j hj
    obtain ⟨l, u, h1, h2⟩ := hreads j hj
    rw [hpost j (Nat.zero_le _) (by omega) l u h1 h2, h1]
    unfold arpragueskymodelground_lerp
    congr 1
    ring

theorem sample_step_channel_bin :
    c_int_cast ((340 - sample_state_step.channel_start) / sample_state_step.channel_width) = 0 :=
  c_int_cast_of_bin _ 0 (le_refl _) (by norm_num [sample_state, sample_state_step])
    (by norm_num [sample_state, sample_state_step])

theorem sample_step_find_in_array :
    arpragueskymodelground_find_in_array sample_state_step.transmission_visibilities
      sample_state_step.trans_visibilities sample_state_step.visibility = some (0, 0, 1) := by
  norm_num [arpragueskymodelground_find_in_array, read_at_ofNat, sample_state,
    sample_state_step]

theorem sample_step_calc_transmittance_svd :
    arpragueskymodelground_calc_transmittance_svd sample_libm sample_state_step 0 0 0 0 1 0 0 0 0
      = some (1 / 2) := by
  norm_num [arpragueskymodelground_calc_transmittance_svd,
    arpragueskymodelground_calc_transmittance_svd_altitude,
    arpragueskymodelground_calc_transmittance_svd_altitude_loop_al,
    arpragueskymodelground_calc_transmittance_svd_altitude_loop_dl,
    arpragueskymodelground_calc_transmittance_svd_altitude_loop_i,
    arpragueskymodelground_transmittance_interpolate_wavelength,
    arpragueskymodelground_transmittance_interpolate_wavelength_loop,
    arpragueskymodelground_transmittance_coefs_index, arpragueskymodelground_lerp,
    DoublePtr.read, read_at_ofNat, write_at_ofNat, List.replicate, sample_state,
    sample_state_step]

/-- C22 (counterexample): on `sample_state_step` (rank 1, wavelength buckets
`V[0] = 1/2` and `V[1] = 1`) the wavelength 340 has the channel index `1/2`:
bucket `k = 0`, fractional part `1/2`. The coefficient vector that
`arpragueskymodelground_transmittance` works with (weight
`wavelength_factor = 0`) starts with `1/2`, the entry of bucket 0 alone, and
the function returns `(1/2)^2 = 1/4`; the interpolation weighted by the
fractional part would give the coefficient `3/4`. -/
theorem transmittance_wavelength_weight_counterexample :
    (340 - sample_state_step.channel_start) / sample_state_step.channel_width = 1 / 2 ∧
    c_int_cast ((340 - sample_state_step.channel_start) / sample_state_step.channel_width) = 0 ∧
    (arpragueskymodelground_transmittance_coefs_index sample_state_step 0 0 0).read 0
      = some (1 / 2) ∧
    (arpragueskymodelground_transmittance_coefs_index sample_state_step 0 0 (0 + 1)).read 0
      = some 1 ∧
    arpragueskymodelground_transmittance_interpolate_wavelength sample_state_step 0 0 0 1 0
      (List.replicate 12 0) = some (1 / 2 :: List.replicate 11 0) ∧
    arpragueskymodelground_lerp (1 / 2) 1 (1 / 2) = 3 / 4 ∧
    arpragueskymodelground_transmittance sample_libm sample_state_step 0 340 0
      = some (1 / 4) := by
  refine ⟨by norm_num [sample_state, sample_state_step], sample_step_channel_bin, ?_, ?_, ?_,
    ?_, ?_⟩
  · norm_num [arpragueskymodelground_transmittance_coefs_index, DoublePtr.read, read_at_ofNat,
      sample_state, sample_state_step]
  · norm_num [arpragueskymodelground_transmittance_coefs_index, DoublePtr.read, read_at_ofNat,
      sample_state, sample_state_step]
  · norm_num [arpragueskymodelground_transmittance_interpolate_wavelength,
      arpragueskymodelground_transmittance_interpolate_wavelength_loop,
      arpragueskymodelground_transmittance_coefs_index, arpragueskymodelground_lerp,
      DoublePtr.read, read_at_ofNat, write_at_ofNat, List.replicate, sample_state,
      sample_state_step]
  · norm_num [arpragueskymodelground_lerp]
  · have hsvd : arpragueskymodelground_calc_transmittance_svd sample_libm sample_state_step
        0 0 0
        (c_int_cast ((340 - sample_state_step.channel_start) / sample_state_step.channel_width))
        (if c_int_cast ((340 - sample_state_step.channel_start) /
          sample_state_step.channel_width) < 10 then 1 else 0) 0 0 0 0 = some (1 / 2) := by
      rw [sample_step_channel_bin]; exact sample_step_calc_transmittance_svd
    rw [transmittance_blend_eq sample_libm sample_state_step 0 340 0 (0, 0, 1) (0, 0)
      (1 / 2) (1 / 2) (by norm_num [sample_state, sample_state_step])
      (by norm_num [sample_state, sample_state_step]) sample_step_find_in_array sample_toAD
      hsvd hsvd]
    norm_num [arpragueskymodelground_lerp]

/-- C22 (amended): for an in-range wavelength
`arpragueskymodelground_transmittance` passes the bucket
`k = (int)(channel index)`, the increment `1` (`0` from bucket 10 on) and the
constant weight `wavelength_factor = 0` to the bucket lookups; and with the
weight `0` the V coefficient vector that
`arpragueskymodelground_transmittance_interpolate_wavelength` writes is
wavelength bucket `k` alone, at every bucket: entry `j` below the rank is entry
`j` of bucket `k`, whatever the adjacent bucket holds. -/
theorem transmittance_wavelength_bucket_alone (m : LibM) (state : ArPragueSkyModelGroundState)
    (theta wavelength distance : ℚ) (visibility altitude : Int) (r : Nat)
    (coefficients : List ℚ)
    (h0 : 0 ≤ (wavelength - state.channel_start) / state.channel_width)
    (h1 : (wavelength - state.channel_start) / state.channel_width < (state.channels : ℚ))
    (hr : state.trans_rank = (r : ℤ)) (hlen : r ≤ coefficients.length)
    (hreads : ∀ j : Nat, j < r → ∃ l u,
      (arpragueskymodelground_transmittance_coefs_index state visibility altitude
        (c_int_cast ((wavelength - state.channel_start) / state.channel_width))).read j
        = some l ∧
      (arpragueskymodelground_transmittance_coefs_index state visibility altitude
        (c_int_cast ((wavelength - state.channel_start) / state.channel_width) +
          (if c_int_cast ((wavelength - state.channel_start) / state.channel_width) < 10
            then 1 else 0))).read j = some u) :
    arpragueskymodelground_transmittance m state theta wavelength distance =
      ((arpragueskymodelground_find_in_array state.transmission_visibilities
          state.trans_visibilities state.visibility).bind fun vis =>
        (arpragueskymodelground_toAD m theta distance 0).bind fun ad =>
        (arpragueskymodelground_calc_transmittance_svd m state ad.1 ad.2 vis.1
          (c_int_cast ((wavelength - state.channel_start) / state.channel_width))
          (if c_int_cast ((wavelength - state.channel_start) / state.channel_width) < 10
            then 1 else 0) 0 0 0 0).bind fun trans_low =>
        (arpragueskymodelground_calc_transmittance_svd m state ad.1 ad.2 (vis.1 + vis.2.1)
          (c_int_cast ((wavelength - state.channel_start) / state.channel_width))
          (if c_int_cast ((wavelength - state.channel_start) / state.channel_width) < 10
            then 1 else 0) 0 0 0 0).bind fun trans_high =>
        some ((min 1 (max 0 (arpragueskymodelground_lerp trans_low trans_high vis.2.2))) ^ 2)) ∧
    ∃ out, arpragueskymodelground_transmittance_interpolate_wavelength state visibility altitude
          (c_int_cast ((wavelength - state.channel_start) / state.channel_width))
          (if c_int_cast ((wavelength - state.channel_start) / state.channel_width) < 10
            then 1 else 0) 0 coefficients = some out ∧
      out.length = coefficients.length ∧
      ∀ j : Nat, j < r → read_at out j =
        (arpragueskymodelground_transmittance_coefs_index state visibility altitude
          (c_int_cast ((wavelength - state.channel_start) / state.channel_width))).read j := by
  refine ⟨?_, transmittance_interpolate_wavelength_zero state visibility altitude _ _ r
    coefficients hr hlen hreads⟩
  have hnot : ¬ ((wavelength - state.channel_start) / state.channel_width
      ≥ (state.channels : ℚ) ∨ (wavelength - state.channel_start) / state.channel_width < 0) := by
    intro h; rcases h with h | h <;> linarith
  rw [transmittance_unfold, if_neg hnot]
  simp only [clamp_square_eq]

theorem transmittance_wavelength_bucket_alone_witness :
    arpragueskymodelground_transmittance sample_libm sample_state_step 0 340 0 =
      ((arpragueskymodelground_find_in_array sample_state_step.transmission_visibilities
          sample_state_step.trans_visibilities sample_state_step.visibility).bind fun vis =>
        (arpragueskymodelground_toAD sample_libm 0 0 0).bind fun ad =>
        (arpragueskymodelground_calc_transmittance_svd sample_libm sample_state_step ad.1 ad.2
          vis.1
          (c_int_cast ((340 - sample_state_step.channel_start) /
            sample_state_step.channel_width))
          (if c_int_cast ((340 - sample_state_step.channel_start) /
            sample_state_step.channel_width) < 10 then 1 else 0) 0 0 0 0).bind fun trans_low =>
        (arpragueskymodelground_calc_transmittance_svd sample_libm sample_state_step ad.1 ad.2
          (vis.1 + vis.2.1)
          (c_int_cast ((340 - sample_state_step.channel_start) /
            sample_state_step.channel_width))
          (if c_int_cast ((340 - sample_state_step.channel_start) /
            sample_state_step.channel_width) < 10 then 1 else 0) 0 0 0 0).bind fun trans_high =>
        some ((min 1 (max 0 (arpragueskymodelground_lerp trans_low trans_high vis.2.2))) ^ 2)) ∧
    ∃ out, arpragueskymodelground_transmittance_interpolate_wavelength sample_state_step 0 0
          (c_int_cast ((340 - sample_state_step.channel_start) /
            sample_state_step.channel_width))
          (if c_int_cast ((340 - sample_state_step.channel_start) /
            sample_state_step.channel_width) < 10 then 1 else 0) 0 (List.replicate 12 0)
          = some out ∧
      out.length = (List.replicate 12 (0 : ℚ)).length ∧
      ∀ j : Nat, j < 1 → read_at out j =
        (arpragueskymodelground_transmittance_coefs_index sample_state_step 0 0
          (c_int_cast ((340 - sample_state_step.channel_start) /
            sample_state_step.channel_width))).read j :=
  transmittance_wavelength_bucket_alone sample_libm sample_state_step 0 340 0 0 0 1
    (List.replicate 12 0) (by norm_num [sample_state, sample_state_step])
    (by norm_num [sample_state, sample_state_step]) (by simp [sample_state, sample_state_step])
    (by simp)
    (by
      intro j hj
      have hj0 : j = 0 := by omega
      subst hj0
      rw [sample_step_channel_bin]
      refine ⟨1 / 2, 1, ?_, ?_⟩
      · norm_num [arpragueskymodelground_transmittance_coefs_index, DoublePtr.read, read_at_ofNat,
          sample_state, sample_state_step]
      · norm_num [arpragueskymodelground_transmittance_coefs_index, DoublePtr.read, read_at_ofNat,
          sample_state, sample_state_step])

/-! ## Transmittance: the bilinear blend of the corners -/

theorem write_at_of_read_at {α : Type} (a : List α) (i : Int) (x y : α)
    (h : read_at a i = some x) : write_at a i y = some (a.set i.toNat y) := by
  obtain ⟨h0, h1⟩ := (read_at_eq_some_iff a i x).mp h
  obtain ⟨hl, _⟩ := List.getElem?_eq_some.mp h1
  unfold write_at
  rw [if_neg (by omega), if_pos hl]

theorem read_at_set_self {α : Type} (a : List α) (i : Int) (x y : α)
    (h : read_at a i = some x) : read_at (a.set i.toNat y) i = some y := by
  obtain ⟨h0, h1⟩ := (read_at_eq_some_iff a i x).mp h
  obtain ⟨hl, _⟩ := List.getElem?_eq_some.mp h1
  rw [read_at_eq_some_iff]
  exact ⟨h0, by rw [List.getElem?_set_self hl]⟩

theorem calc_transmittance_svd_altitude_loop_i_succ (state : ArPragueSkyModelGroundState)
    (altitude al dl : Int) (interpolated_coefficients : List ℚ) (index : Int) (n : Nat)
    (i : Int) (t : List ℚ) :
    arpragueskymodelground_calc_transmittance_svd_altitude_loop_i state altitude al dl
        interpolated_coefficients index (n + 1) i t =
      (read_at t index).bind fun tv =>
        (read_at state.transmission_dataset_U
          ((altitude * state.trans_n_a * state.trans_n_d * state.trans_rank) +
            (((dl * state.trans_n_a) + al) * state.trans_rank) + i)).bind fun u =>
        (read_at interpolated_coefficients i).bind fun c =>
        (write_at t index (tv + (u * c))).bind fun t1 =>
        arpragueskymodelground_calc_transmittance_svd_altitude_loop_i state altitude al dl
          interpolated_coefficients index n (i + 1) t1 := rfl

theorem calc_transmittance_svd_altitude_loop_i_spec (state : ArPragueSkyModelGroundState)
    (altitude al dl : Int) (interpolated_coefficients : List ℚ) (index : Int)
    (u v : Nat → ℚ) :
    ∀ (n i0 : Nat) (t : List ℚ) (x : ℚ), read_at t index = some x →
      (∀ k : Nat, k < n →
        read_at state.transmission_dataset_U
          ((altitude * state.trans_n_a * state.trans_n_d * state.trans_rank) +
            (((dl * state.trans_n_a) + al) * state.trans_rank) + ((i0 + k : ℕ) : ℤ))
          = some (u (i0 + k)) ∧
        read_at interpolated_coefficients ((i0 + k : ℕ) : ℤ) = some (v (i0 + k))) →
      arpragueskymodelground_calc_transmittance_svd_altitude_loop_i state altitude al dl
          interpolated_coefficients index n (i0 : ℤ) t =
        some (t.set index.toNat (x + ∑ k in Finset.range n, u (i0 + k) * v (i0 + k))) := by
  intro n
  induction n with
  | zero =>
    intro i0 t x hx _
    obtain ⟨_, h1⟩ := (read_at_eq_some_iff t index x).mp hx
    obtain ⟨hl, hv⟩ := List.getElem?_eq_some.mp h1
    simp only [Finset.range_zero, Finset.sum_empty, add_zero]
    have hs : t.set index.toNat x = t := by
      apply List.ext_getElem?
      intro j
      by_cases hj : index.toNat = j
      · subst hj; rw [List.getElem?_set_self hl, h1]
      · rw [List.getElem?_set_ne hj]
    rw [hs]
    rfl
  | succ n ih =>
    intro i0 t x hx hreads
    obtain ⟨hu0, hv0⟩ := hreads 0 (Nat.succ_pos n)
    rw [Nat.add_zero] at hu0 hv0
    rw [calc_transmittance_svd_altitude_loop_i_succ, hx, Option.some_bind, hu0,
      Option.some_bind, hv0, Option.some_bind,
      write_at_of_read_at t index x _ hx, Option.some_bind]
    have e : ((i0 : ℤ) + 1) = ((i0 + 1 : ℕ) : ℤ) := by push_cast; ring
    rw [e, ih (i0 + 1) _ (x + u i0 * v i0) (read_at_set_self t index x _ hx)
      (fun k hk => by
        have := hreads (k + 1) (by omega)
        rw [show i0 + (k + 1) = i0 + 1 + k by ring] at this
        exact this)]
    rw [List.set_set, Finset.sum_range_succ']
    have hsum : ∀ k, u (i0 + 1 + k) * v (i0 + 1 + k) = u (i0 + (k + 1)) * v (i0 + (k + 1)) := by
      intro k; rw [show i0 + 1 + k = i0 + (k + 1) by ring]
    simp only [hsum, Nat.add_zero]
    have hval : x + u i0 * v i0 + ∑ k in Finset.range n, u (i0 + (k + 1)) * v (i0 + (k + 1)) =
        x + (∑ k in Finset.range n, u (i0 + (k + 1)) * v (i0 + (k + 1)) + u i0 * v i0) := by
      ring
    rw [hval]

theorem calc_transmittance_svd_altitude_corner (state : ArPragueSkyModelGroundState)
    (altitude al dl : Int) (interpolated_coefficients : List ℚ) (index : Int)
    (u v : Nat → ℚ) (r : Nat) (t : List ℚ) (x : ℚ) (hr : state.trans_rank = (r : ℤ))
    (hx : read_at t index = some x)
    (hu : ∀ k : Nat, k < r → read_at state.transmission_dataset_U
      ((altitude * state.trans_n_a * state.trans_n_d * state.trans_rank) +
        (((dl * state.trans_n_a) + al) * state.trans_rank) + (k : ℤ)) = some (u k))
    (hv : ∀ k : Nat, k < r → read_at interpolated_coefficients (k : ℤ) = some (v k)) :
    arpragueskymodelground_calc_transmittance_svd_altitude_loop_i state altitude al dl
        interpolated_coefficients index state.trans_rank.toNat 0 t =
      some (t.set index.toNat (x + ∑ k in Finset.range r, u k * v k)) := by
  have h := calc_transmittance_svd_altitude_loop_i_spec state altitude al dl
    interpolated_coefficients index u v r 0 t x hx
    (fun k hk => by
      rw [Nat.zero_add]
      exact ⟨hu k hk, hv k hk⟩)
  simp only [Nat.zero_add] at h
  rw [hr, Int.toNat_ofNat]
  exact h

theorem calc_transmittance_svd_altitude_loop_dl_succ (state : ArPragueSkyModelGroundState)
    (altitude al : Int) (interpolated_coefficients : List ℚ) (n : Nat) (dl : Int)
    (s : List ℚ × Int) :
    arpragueskymodelground_calc_transmittance_svd_altitude_loop_dl state altitude al
        interpolated_coefficients (n + 1) dl s =
      (arpragueskymodelground_calc_transmittance_svd_altitude_loop_i state altitude al dl
        interpolated_coefficients s.2 state.trans_rank.toNat 0 s.1).bind fun t1 =>
      arpragueskymodelground_calc_transmittance_svd_altitude_loop_dl state altitude al
        interpolated_coefficients n (dl + 1) (t1, s.2 + 1) := rfl

theorem calc_transmittance_svd_altitude_loop_al_succ (state : ArPragueSkyModelGroundState)
    (altitude d_int d_inc : Int) (interpolated_coefficients : List ℚ) (n : Nat) (al : Int)
    (s : List ℚ × Int) :
    arpragueskymodelground_calc_transmittance_svd_altitude_loop_al state altitude d_int d_inc
        interpolated_coefficients (n + 1) al s =
      (arpragueskymodelground_calc_transmittance_svd_altitude_loop_dl state altitude al
        interpolated_coefficients (d_inc + 1).toNat d_int s).bind fun s1 =>
      arpragueskymodelground_calc_transmittance_svd_altitude_loop_al state altitude d_int d_inc
        interpolated_coefficients n (al + 1) s1 := rfl

theorem calc_transmittance_svd_altitude_blend (state : ArPragueSkyModelGroundState)
    (visibility altitude wavelength_low wavelength_inc : Int) (wavelength_factor : ℚ)
    (a_int d_int a_inc d_inc : Int) (wa wd : ℚ) (r : Nat) (coefs : List ℚ)
    (u : Int → Int → Nat → ℚ) (v : Nat → ℚ)
    (ha : a_inc = 0 ∨ a_inc = 1) (hd : d_inc = 0 ∨ d_inc = 1)
    (hr : state.trans_rank = (r : ℤ))
    (hcoefs : arpragueskymodelground_transmittance_interpolate_wavelength state visibility
      altitude wavelength_low wavelength_inc wavelength_factor (List.replicate 12 0)
      = some coefs)
    (hv : ∀ k : Nat, k < r → read_at coefs (k : ℤ) = some (v k))
    (hu : ∀ al dl : Int, a_int ≤ al → al ≤ a_int + a_inc → d_int ≤ dl → dl ≤ d_int + d_inc →
      ∀ k : Nat, k < r → read_at state.transmission_dataset_U
        ((altitude * state.trans_n_a * state.trans_n_d * state.trans_rank) +
          (((dl * state.trans_n_a) + al) * state.trans_rank) + (k : ℤ)) = some (u al dl k)) :
    arpragueskymodelground_calc_transmittance_svd_altitude state visibility altitude
        wavelength_low wavelength_inc wavelength_factor a_int d_int a_inc d_inc wa wd =
      some (if a_inc = 1 then
          (if d_inc = 1 then
            (1 - wa) * ((1 - wd) * (∑ k in Finset.range r, u a_int d_int k * v k) +
                wd * (∑ k in Finset.range r, u a_int (d_int + 1) k * v k)) +
              wa * ((1 - wd) * (∑ k in Finset.range r, u (a_int + 1) d_int k * v k) +
                wd * (∑ k in Finset.range r, u (a_int + 1) (d_int + 1) k * v k))
          else (1 - wa) * (∑ k in Finset.range r, u a_int d_int k * v k) +
              wa * (∑ k in Finset.range r, u (a_int + 1) d_int k * v k))
        else
          (if d_inc = 1 then
            (1 - wd) * (∑ k in Finset.range r, u a_int d_int k * v k) +
              wd * (∑ k in Finset.range r, u a_int (d_int + 1) k * v k)
          else ∑ k in Finset.range r, u a_int d_int k * v k)) := by
  have corner : ∀ (al dl index : Int) (t : List ℚ) (x : ℚ), a_int ≤ al → al ≤ a_int + a_inc →
      d_int ≤ dl → dl ≤ d_int + d_inc → read_at t index = some x →
      arpragueskymodelground_calc_transmittance_svd_altitude_loop_i state altitude al dl
          coefs index state.trans_rank.toNat 0 t =
        some (t.set index.toNat (x + ∑ k in Finset.range r, u al dl k * v k)) :=
    fun al dl index t x h1 h2 h3 h4 hx =>
      calc_transmittance_svd_altitude_corner state altitude al dl coefs index (u al dl) v r t x
        hr hx (hu al dl h1 h2 h3 h4) hv
  have t1 : ((0 : ℤ) + 1).toNat = 1 := rfl
  have t2 : ((1 : ℤ) + 1).toNat = 2 := rfl
  unfold arpragueskymodelground_calc_transmittance_svd_altitude
  simp only [bind, pure, hcoefs, Option.some_bind]
  rcases ha with ha | ha <;> rcases hd with hd | hd <;> subst ha <;> subst hd
  · rw [t1, calc_transmittance_svd_altitude_loop_al_succ, t1,
      calc_transmittance_svd_altitude_loop_dl_succ,
      corner a_int d_int 0 [0, 0, 0, 0] 0 (by omega) (by omega) (by omega) (by omega)
        (by simp [read_at_ofNat])]
    simp [arpragueskymodelground_calc_transmittance_svd_altitude_loop_dl,
      arpragueskymodelground_calc_transmittance_svd_altitude_loop_al, read_at_ofNat]
  · rw [t1, calc_transmittance_svd_altitude_loop_al_succ, t2,
      calc_transmittance_svd_altitude_loop_dl_succ,
      corner a_int d_int 0 [0, 0, 0, 0] 0 (by omega) (by omega) (by omega) (by omega)
        (by simp [read_at_ofNat]), Option.some_bind,
      calc_transmittance_svd_altitude_loop_dl_succ,
      corner a_int (d_int + 1) (0 + 1) _ 0 (by omega) (by omega) (by omega) (by omega)
        (by simp [read_at_ofNat])]
    simp [arpragueskymodelground_calc_transmittance_svd_altitude_loop_dl,
      arpragueskymodelground_calc_transmittance_svd_altitude_loop_al, read_at_ofNat,
      write_at_ofNat, arpragueskymodelground_lerp]
  · rw [t2, calc_transmittance_svd_altitude_loop_al_succ, t1,
      calc_transmittance_svd_altitude_loop_dl_succ,
      corner a_int d_int 0 [0, 0, 0, 0] 0 (by omega) (by omega) (by omega) (by omega)
        (by simp [read_at_ofNat]), Option.some_bind]
    simp only [arpragueskymodelground_calc_transmittance_svd_altitude_loop_dl,
      Option.some_bind]
    rw [calc_transmittance_svd_altitude_loop_al_succ, t1,
      calc_transmittance_svd_altitude_loop_dl_succ,
      corner (a_int + 1) d_int (0 + 1) _ 0 (by omega) (by omega) (by omega) (by omega)
        (by simp [read_at_ofNat])]
    simp [arpragueskymodelground_calc_transmittance_svd_altitude_loop_dl,
      arpragueskymodelground_calc_transmittance_svd_altitude_loop_al, read_at_ofNat,
      write_at_ofNat, arpragueskymodelground_lerp]
  · rw [t2, calc_transmittance_svd_altitude_loop_al_succ, t2,
      calc_transmittance_svd_altitude_loop_dl_succ,
      corner a_int d_int 0 [0, 0, 0, 0] 0 (by omega) (by omega) (by omega) (by omega)
        (by simp [read_at_ofNat]), Option.some_bind,
      calc_transmittance_svd_altitude_loop_dl_succ,
      corner a_int (d_int + 1) (0 + 1) _ 0 (by omega) (by omega) (by omega) (by omega)
        (by simp [read_at_ofNat]), Option.some_bind]
    simp only [arpragueskymodelground_calc_transmittance_svd_altitude_loop_dl,
      Option.some_bind]
    rw [calc_transmittance_svd_altitude_loop_al_succ, t2,
      calc_transmittance_svd_altitude_loop_dl_succ,
      corner (a_int + 1) d_int (0 + 1 + 1) _ 0 (by omega) (by omega) (by omega) (by omega)
        (by simp [read_at_ofNat]), Option.some_bind,
      calc_transmittance_svd_altitude_loop_dl_succ,
      corner (a_int + 1) (d_int + 1) (0 + 1 + 1 + 1) _ 0 (by omega) (by omega) (by omega)
        (by omega) (by simp [read_at_ofNat])]
    simp [arpragueskymodelground_calc_transmittance_svd_altitude_loop_dl,
      arpragueskymodelground_calc_transmittance_svd_altitude_loop_al, read_at_ofNat,
      write_at_ofNat, arpragueskymodelground_lerp]

/-- C29: for `a_inc`, `d_inc` in `{0, 1}` and all weights `wa`, `wd`, when the
V coefficient vector `v` was written and the U rows `u al dl` of the corners
that exist can be read, `arpragueskymodelground_calc_transmittance_svd_altitude`
returns the bilinear blend of exactly these corners, where `c al dl` is the dot
product over the rank of the U row `(altitude, dl, al)` with `v`: the full
blend of four corners when both increments are 1, the blend along `a` when only
`a_inc` is 1, the blend along `d` when only `d_inc` is 1, and `c a d` when both
are 0. -/
theorem calc_transmittance_svd_altitude_bilinear (state : ArPragueSkyModelGroundState)
    (visibility altitude wavelength_low wavelength_inc : Int) (wavelength_factor : ℚ)
    (a_int d_int a_inc d_inc : Int) (wa wd : ℚ) (r : Nat) (coefs : List ℚ)
    (u : Int → Int → Nat → ℚ) (v : Nat → ℚ) (c : Int → Int → ℚ)
    (ha : a_inc = 0 ∨ a_inc = 1) (hd : d_inc = 0 ∨ d_inc = 1)
    (hr : state.trans_rank = (r : ℤ))
    (hcoefs : arpragueskymodelground_transmittance_interpolate_wavelength state visibility
      altitude wavelength_low wavelength_inc wavelength_factor (List.replicate 12 0)
      = some coefs)
    (hv : ∀ k : Nat, k < r → read_at coefs (k : ℤ) = some (v k))
    (hu : ∀ al dl : Int, a_int ≤ al → al ≤ a_int + a_inc → d_int ≤ dl → dl ≤ d_int + d_inc →
      ∀ k : Nat, k < r → read_at state.transmission_dataset_U
        ((altitude * state.trans_n_a * state.trans_n_d * state.trans_rank) +
          (((dl * state.trans_n_a) + al) * state.trans_rank) + (k : ℤ)) = some (u al dl k))
    (hc : ∀ al dl : Int, c al dl = ∑ k in Finset.range r, u al dl k * v k) :
    (a_inc = 1 ∧ d_inc = 1 →
      arpragueskymodelground_calc_transmittance_svd_altitude state visibility altitude
          wavelength_low wavelength_inc wavelength_factor a_int d_int a_inc d_inc wa wd =
        some ((1 - wa) * ((1 - wd) * c a_int d_int + wd * c a_int (d_int + 1)) +
          wa * ((1 - wd) * c (a_int + 1) d_int + wd * c (a_int + 1) (d_int + 1)))) ∧
    (a_inc = 1 ∧ d_inc = 0 →
      arpragueskymodelground_calc_transmittance_svd_altitude state visibility altitude
          wavelength_low wavelength_inc wavelength_factor a_int d_int a_inc d_inc wa wd =
        some ((1 - wa) * c a_int d_int + wa * c (a_int + 1) d_int)) ∧
    (a_inc = 0 ∧ d_inc = 1 →
      arpragueskymodelground_calc_transmittance_svd_altitude state visibility altitude
          wavelength_low wavelength_inc wavelength_factor a_int d_int a_inc d_inc wa wd =
        some ((1 - wd) * c a_int d_int + wd * c a_int (d_int + 1))) ∧
    (a_inc = 0 ∧ d_inc = 0 →
      arpragueskymodelground_calc_transmittance_svd_altitude state visibility altitude
          wavelength_low wavelength_inc wavelength_factor a_int d_int a_inc d_inc wa wd =
        some (c a_int d_int)) := by
  have h := calc_transmittance_svd_altitude_blend state visibility altitude wavelength_low
    wavelength_inc wavelength_factor a_int d_int a_inc d_inc wa wd r coefs u v ha hd hr hcoefs
    hv hu
  simp only [← hc] at h
  refine ⟨?_, ?_, ?_, ?_⟩
  · rintro ⟨h1, h2⟩
    rw [h, if_pos h1, if_pos h2]
  · rintro ⟨h1, h2⟩
    rw [h, if_pos h1, if_neg (by omega)]
  · rintro ⟨h1, h2⟩
    rw [h, if_neg (by omega), if_pos h2]
  · rintro ⟨h1, h2⟩
    rw [h, if_neg (by omega), if_neg (by omega)]

theorem calc_transmittance_svd_altitude_bilinear_witness :
    arpragueskymodelground_calc_transmittance_svd_altitude sample_state_grid 0 0 0 1 0 0 0 1 1
        (1 / 2) (1 / 4) =
      some ((1 - 1 / 2) * ((1 - 1 / 4) * (((0 * 2 + 0 + 1 : ℤ) : ℚ)) +
          1 / 4 * (((0 + 1) * 2 + 0 + 1 : ℤ) : ℚ)) +
        1 / 2 * ((1 - 1 / 4) * (((0 * 2 + (0 + 1) + 1 : ℤ) : ℚ)) +
          1 / 4 * ((((0 + 1) * 2 + (0 + 1) + 1 : ℤ) : ℚ)))) :=
  (calc_transmittance_svd_altitude_bilinear sample_state_grid 0 0 0 1 0 0 0 1 1 (1 / 2) (1 / 4)
    1 (1 :: List.replicate 11 0) (fun al dl _ => ((dl * 2 + al + 1 : ℤ) : ℚ)) (fun _ => 1)
    (fun al dl => ((dl * 2 + al + 1 : ℤ) : ℚ)) (Or.inr rfl) (Or.inr rfl)
    (by simp [sample_state_grid, sample_state])
    (by
      norm_num [arpragueskymodelground_transmittance_interpolate_wavelength,
        arpragueskymodelground_transmittance_interpolate_wavelength_loop,
        arpragueskymodelground_transmittance_coefs_index, arpragueskymodelground_lerp,
        DoublePtr.read, read_at_ofNat, write_at_ofNat, List.replicate, sample_state,
        sample_state_grid])
    (by
      intro k hk
      have hk0 : k = 0 := by omega
      subst hk0
      norm_num [read_at_ofNat, List.replicate])
    (by
      intro al dl h1 h2 h3 h4 k hk
      have hk0 : k = 0 := by omega
      subst hk0
      have hal : al = 0 ∨ al = 1 := by omega
      have hdl : dl = 0 ∨ dl = 1 := by omega
      rcases hal with rfl | rfl <;> rcases hdl with rfl | rfl <;>
        norm_num [read_at_ofNat, sample_state, sample_state_grid])
    (by intro al dl; simp)).1 ⟨rfl, rfl⟩

/-! ## Solar radiance: proofs -/

set_option maxRecDepth 100000 in
theorem sun_rad_table_length : PSMG_SUN_RAD_TABLE.length = 521 := by rfl

set_option maxRecDepth 100000 in
theorem sun_rad_table_at_451 : read_at PSMG_SUN_RAD_TABLE 451 = some 17347.4 := by
  rw [read_at_ofNat]; rfl

set_option maxRecDepth 100000 in
theorem sun_rad_table_at_490 : read_at PSMG_SUN_RAD_TABLE 490 = some 16011.2 := by
  rw [read_at_ofNat]; rfl

set_option maxRecDepth 100000 in
theorem sun_rad_table_at_491 : read_at PSMG_SUN_RAD_TABLE 491 = some 15966.9 := by
  rw [read_at_ofNat]; rfl

set_option maxRecDepth 100000 in
theorem sun_rad_table_at_20 : read_at PSMG_SUN_RAD_TABLE 20 = some 13239 := by
  rw [read_at_ofNat]; rfl

set_option maxRecDepth 100000 in
theorem sun_rad_table_at_21 : read_at PSMG_SUN_RAD_TABLE 21 = some 13119.8 := by
  rw [read_at_ofNat]; rfl

theorem solar_radiance_unfold (m : LibM) (state : ArPragueSkyModelGroundState)
    (theta wavelength : ℚ) :
    arpragueskymodelground_solar_radiance m state theta wavelength =
      (arpragueskymodelground_solar_radiance_sun_radiance wavelength).bind fun sun_radiance =>
      (arpragueskymodelground_transmittance m state theta wavelength MATH_HUGE_DOUBLE).bind
        fun tau => some (sun_radiance * tau) := rfl

theorem solar_radiance_sun_radiance_below (wavelength : ℚ) (h : wavelength < 310) :
    arpragueskymodelground_solar_radiance_sun_radiance wavelength = some 0 := by
  unfold arpragueskymodelground_solar_radiance_sun_radiance
  rw [if_neg]
  rw [PSMG_SUN_RAD_START_WL, PSMG_SUN_RAD_INC_WL, div_one]
  intro hc
  linarith

theorem solar_radiance_sun_radiance_inside (wavelength : ℚ) (h0 : 310 ≤ wavelength)
    (h1 : wavelength < 830) :
    0 ≤ ⌊wavelength - 310⌋ ∧ ⌊wavelength - 310⌋ + 1 < (PSMG_SUN_RAD_TABLE.length : ℤ) ∧
    ∃ low high, read_at PSMG_SUN_RAD_TABLE ⌊wavelength - 310⌋ = some low ∧
      read_at PSMG_SUN_RAD_TABLE (⌊wavelength - 310⌋ + 1) = some high ∧
      arpragueskymodelground_solar_radiance_sun_radiance wavelength =
        some ((1 - (wavelength - 310 - ((⌊wavelength - 310⌋ : ℤ) : ℚ))) * low +
          (wavelength - 310 - ((⌊wavelength - 310⌋ : ℤ) : ℚ)) * high) := by
  have hk0 : 0 ≤ ⌊wavelength - 310⌋ := Int.floor_nonneg.mpr (by linarith)
  have hk1 : ⌊wavelength - 310⌋ < 520 := by
    rw [Int.floor_lt]; push_cast; linarith
  obtain ⟨k, hk⟩ := Int.eq_ofNat_of_zero_le hk0
  have hkl : k < 520 := by omega
  have hlen := sun_rad_table_length
  obtain ⟨low, e0⟩ : ∃ low, read_at PSMG_SUN_RAD_TABLE ⌊wavelength - 310⌋ = some low := by
    rw [hk, read_at_natCast]
    exact ⟨_, List.getElem?_eq_getElem (show k < PSMG_SUN_RAD_TABLE.length by omega)⟩
  obtain ⟨high, e1⟩ : ∃ high, read_at PSMG_SUN_RAD_TABLE (⌊wavelength - 310⌋ + 1)
      = some high := by
    have e : ((k : ℤ) + 1) = ((k + 1 : ℕ) : ℤ) := by push_cast; ring
    rw [hk, e, read_at_natCast]
    exact ⟨_, List.getElem?_eq_getElem (show k + 1 < PSMG_SUN_RAD_TABLE.length by omega)⟩
  refine ⟨hk0, by rw [hlen]; omega, low, high, e0, e1, ?_⟩
  unfold arpragueskymodelground_solar_radiance_sun_radiance
  simp only [PSMG_SUN_RAD_START_WL, PSMG_SUN_RAD_INC_WL, div_one]
  rw [if_pos (by linarith)]
  simp only [bind, e0, e1, Option.some_bind]
  congr 1
  ring

/-- C23 (counterexample): `PSMG_SUN_RAD_TABLE` has 521 entries, not 451; at
760 nm the read of `T[k+1]` has the index 451, which is not below 451, and
the entry is there (`17347.4`). -/
theorem solar_table_size_counterexample :
    PSMG_SUN_RAD_TABLE.length = 521 ∧ PSMG_SUN_RAD_TABLE.length ≠ 451 ∧
    ⌊((760 : ℚ) - PSMG_SUN_RAD_START_WL) / PSMG_SUN_RAD_INC_WL⌋ + 1 = 451 ∧
    ¬ (⌊((760 : ℚ) - PSMG_SUN_RAD_START_WL) / PSMG_SUN_RAD_INC_WL⌋ + 1 < 451) ∧
    read_at PSMG_SUN_RAD_TABLE
      (⌊((760 : ℚ) - PSMG_SUN_RAD_START_WL) / PSMG_SUN_RAD_INC_WL⌋ + 1) = some 17347.4 := by
  have hk : ⌊((760 : ℚ) - PSMG_SUN_RAD_START_WL) / PSMG_SUN_RAD_INC_WL⌋ = 450 := by
    rw [Int.floor_eq_iff]
    norm_num [PSMG_SUN_RAD_START_WL, PSMG_SUN_RAD_INC_WL]
  refine ⟨sun_rad_table_length, by rw [sun_rad_table_length]; decide, by rw [hk]; rfl,
    by rw [hk]; decide, ?_⟩
  rw [hk]
  exact sun_rad_table_at_451

theorem solar_radiance_inside (m : LibM) (state : ArPragueSkyModelGroundState)
    (theta wavelength tau : ℚ) (h0 : 310 ≤ wavelength) (h1 : wavelength < 830)
    (htau : arpragueskymodelground_transmittance m state theta wavelength MATH_HUGE_DOUBLE
      = some tau) :
    PSMG_SUN_RAD_TABLE.length = 521 ∧
    0 ≤ ⌊wavelength - 310⌋ ∧ ⌊wavelength - 310⌋ + 1 < (PSMG_SUN_RAD_TABLE.length : ℤ) ∧
    ∃ low high, read_at PSMG_SUN_RAD_TABLE ⌊wavelength - 310⌋ = some low ∧
      read_at PSMG_SUN_RAD_TABLE (⌊wavelength - 310⌋ + 1) = some high ∧
      arpragueskymodelground_solar_radiance m state theta wavelength =
        some (((1 - (wavelength - 310 - ((⌊wavelength - 310⌋ : ℤ) : ℚ))) * low +
          (wavelength - 310 - ((⌊wavelength - 310⌋ : ℤ) : ℚ)) * high) * tau) := by
  obtain ⟨hk0, hk1, low, high, hl, hh, hs⟩ :=
    solar_radiance_sun_radiance_inside wavelength h0 h1
  refine ⟨sun_rad_table_length, hk0, hk1, low, high, hl, hh, ?_⟩
  rw [solar_radiance_unfold, hs, htau]
  rfl

/-- C23 (amended): the solar table `T = PSMG_SUN_RAD_TABLE` has 521 entries
(310 nm to 830 nm in steps of 1 nm). For every wavelength `w` with
`310 ≤ w < 830`, so for every `w` of 310-760 nm, and with
`k = floor(w - 310)`, `f = (w - 310) - k`: both reads `T[k]` and `T[k+1]` are
within the 521 entries, and when the transmittance for `(theta, w,
MATH_HUGE_DOUBLE)` is `tau`, `arpragueskymodelground_solar_radiance` returns
`((1-f)*T[k] + f*T[k+1]) * tau`. -/
theorem solar_radiance_in_table (m : LibM) (state : ArPragueSkyModelGroundState)
    (theta wavelength tau : ℚ) (h0 : 310 ≤ wavelength) (h1 : wavelength < 830)
    (htau : arpragueskymodelground_transmittance m state theta wavelength MATH_HUGE_DOUBLE
      = some tau) :
    PSMG_SUN_RAD_TABLE.length = 521 ∧
    0 ≤ ⌊wavelength - 310⌋ ∧ ⌊wavelength - 310⌋ + 1 < (PSMG_SUN_RAD_TABLE.length : ℤ) ∧
    ∃ low high, read_at PSMG_SUN_RAD_TABLE ⌊wavelength - 310⌋ = some low ∧
      read_at PSMG_SUN_RAD_TABLE (⌊wavelength - 310⌋ + 1) = some high ∧
      arpragueskymodelground_solar_radiance m state theta wavelength =
        some (((1 - (wavelength - 310 - ((⌊wavelength - 310⌋ : ℤ) : ℚ))) * low +
          (wavelength - 310 - ((⌊wavelength - 310⌋ : ℤ) : ℚ)) * high) * tau) :=
  solar_radiance_inside m state theta wavelength tau h0 h1 htau

theorem sample_far_toAD :
    arpragueskymodelground_toAD sample_libm_far 0 MATH_HUGE_DOUBLE 0 = some (1, 0) := by
  norm_num [arpragueskymodelground_toAD, arpragueskymodelground_toAD_tail,
    arpragueskymodelground_circle_bounds_2D, arpragueskymodelground_scaleAD, sample_libm_far,
    PSMG_PLANET_RADIUS, PSMG_ATMO_WIDTH, MATH_PI, MATH_HUGE_DOUBLE]

theorem sample_far_calc_transmittance_svd :
    arpragueskymodelground_calc_transmittance_svd sample_libm_far sample_state 1 0 0 0 1 0 0 0 0
      = some 1 := by
  norm_num [arpragueskymodelground_calc_transmittance_svd,
    arpragueskymodelground_calc_transmittance_svd_altitude,
    arpragueskymodelground_calc_transmittance_svd_altitude_loop_al,
    arpragueskymodelground_calc_transmittance_svd_altitude_loop_dl,
    arpragueskymodelground_calc_transmittance_svd_altitude_loop_i,
    arpragueskymodelground_transmittance_interpolate_wavelength,
    arpragueskymodelground_transmittance_interpolate_wavelength_loop,
    arpragueskymodelground_transmittance_coefs_index, arpragueskymodelground_lerp,
    DoublePtr.read, read_at_ofNat, write_at_ofNat, List.replicate, sample_state]

theorem sample_far_transmittance :
    arpragueskymodelground_transmittance sample_libm_far sample_state 0 330 MATH_HUGE_DOUBLE
      = some 1 := by
  rw [transmittance_blend_eq sample_libm_far sample_state 0 330 MATH_HUGE_DOUBLE (0, 0, 1) (1, 0)
    1 1 (by norm_num [sample_state]) (by norm_num [sample_state]) sample_find_in_array
    sample_far_toAD
    (by rw [sample_channel_bin]; exact sample_far_calc_transmittance_svd)
    (by rw [sample_channel_bin]; exact sample_far_calc_transmittance_svd)]
  norm_num [arpragueskymodelground_lerp]

theorem solar_radiance_in_table_witness :
    PSMG_SUN_RAD_TABLE.length = 521 ∧
    0 ≤ ⌊(330 : ℚ) - 310⌋ ∧ ⌊(330 : ℚ) - 310⌋ + 1 < (PSMG_SUN_RAD_TABLE.length : ℤ) ∧
    ∃ low high, read_at PSMG_SUN_RAD_TABLE ⌊(330 : ℚ) - 310⌋ = some low ∧
      read_at PSMG_SUN_RAD_TABLE (⌊(330 : ℚ) - 310⌋ + 1) = some high ∧
      arpragueskymodelground_solar_radiance sample_libm_far sample_state 0 330 =
        some (((1 - (330 - 310 - ((⌊(330 : ℚ) - 310⌋ : ℤ) : ℚ))) * low +
          (330 - 310 - ((⌊(330 : ℚ) - 310⌋ : ℤ) : ℚ)) * high) * 1) :=
  solar_radiance_in_table sample_libm_far sample_state 0 330 1 (by norm_num) (by norm_num)
    sample_far_transmittance

/-! ## Solar radiance outside 310-760 nm -/

theorem sample_wide_channel_bin :
    c_int_cast ((800 - sample_state_wide.channel_start) / sample_state_wide.channel_width) = 0 :=
  c_int_cast_of_bin _ 0 (le_refl _) (by norm_num [sample_state, sample_state_wide])
    (by norm_num [sample_state, sample_state_wide])

theorem sample_wide_find_in_array :
    arpragueskymodelground_find_in_array sample_state_wide.transmission_visibilities
      sample_state_wide.trans_visibilities sample_state_wide.visibility = some (0, 0, 1) := by
  norm_num [arpragueskymodelground_find_in_array, read_at_ofNat, sample_state,
    sample_state_wide]

theorem sample_wide_calc_transmittance_svd :
    arpragueskymodelground_calc_transmittance_svd sample_libm_far sample_state_wide 1 0 0 0 1 0
      0 0 0 = some 1 := by
  norm_num [arpragueskymodelground_calc_transmittance_svd,
    arpragueskymodelground_calc_transmittance_svd_altitude,
    arpragueskymodelground_calc_transmittance_svd_altitude_loop_al,
    arpragueskymodelground_calc_transmittance_svd_altitude_loop_dl,
    arpragueskymodelground_calc_transmittance_svd_altitude_loop_i,
    arpragueskymodelground_transmittance_interpolate_wavelength,
    arpragueskymodelground_transmittance_interpolate_wavelength_loop,
    arpragueskymodelground_transmittance_coefs_index, arpragueskymodelground_lerp,
    DoublePtr.read, read_at_ofNat, write_at_ofNat, List.replicate, sample_state,
    sample_state_wide]

theorem sample_wide_transmittance :
    arpragueskymodelground_transmittance sample_libm_far sample_state_wide 0 800
      MATH_HUGE_DOUBLE = some 1 := by
  rw [transmittance_blend_eq sample_libm_far sample_state_wide 0 800 MATH_HUGE_DOUBLE (0, 0, 1)
    (1, 0) 1 1 (by norm_num [sample_state, sample_state_wide])
    (by norm_num [sample_state, sample_state_wide]) sample_wide_find_in_array
    sample_far_toAD
    (by rw [sample_wide_channel_bin]; exact sample_wide_calc_transmittance_svd)
    (by rw [sample_wide_channel_bin]; exact sample_wide_calc_transmittance_svd)]
  norm_num [arpragueskymodelground_lerp]

theorem sample_sun_radiance_800 :
    arpragueskymodelground_solar_radiance_sun_radiance 800 = some 16011.2 := by
  have hk : ⌊((800 : ℚ) - 310)⌋ = 490 := by
    rw [Int.floor_eq_iff]; norm_num
  unfold arpragueskymodelground_solar_radiance_sun_radiance
  simp only [PSMG_SUN_RAD_START_WL, PSMG_SUN_RAD_INC_WL, div_one]
  rw [if_pos (by norm_num), hk]
  have h1 : (490 : ℤ) + 1 = 491 := rfl
  simp only [bind, h1, sun_rad_table_at_490, sun_rad_table_at_491, Option.some_bind]
  norm_num

/-- C24 (counterexample): at 800 nm, above 760 nm, the base solar radiance is
read from the table (`T[490] = 16011.2`), not `0`; on `sample_state_wide`,
whose channel covers 800 nm, the transmittance is `1` and
`arpragueskymodelground_solar_radiance` returns `16011.2`, not `0`. -/
theorem solar_radiance_above_760_counterexample :
    read_at PSMG_SUN_RAD_TABLE 490 = some 16011.2 ∧
    arpragueskymodelground_solar_radiance_sun_radiance 800 = some 16011.2 ∧
    arpragueskymodelground_solar_radiance_sun_radiance 800 ≠ some 0 ∧
    arpragueskymodelground_transmittance sample_libm_far sample_state_wide 0 800
      MATH_HUGE_DOUBLE = some 1 ∧
    arpragueskymodelground_solar_radiance sample_libm_far sample_state_wide 0 800
      = some 16011.2 ∧
    arpragueskymodelground_solar_radiance sample_libm_far sample_state_wide 0 800 ≠ some 0 := by
  have hs : arpragueskymodelground_solar_radiance sample_libm_far sample_state_wide 0 800
      = some 16011.2 := by
    rw [solar_radiance_unfold, sample_sun_radiance_800, sample_wide_transmittance]
    norm_num
  refine ⟨sun_rad_table_at_490, sample_sun_radiance_800, ?_, sample_wide_transmittance, hs, ?_⟩
  · rw [sample_sun_radiance_800]; norm_num
  · rw [hs]; norm_num

theorem solar_radiance_outside (m : LibM) (state : ArPragueSkyModelGroundState)
    (theta wavelength tau : ℚ)
    (htau : arpragueskymodelground_transmittance m state theta wavelength MATH_HUGE_DOUBLE
      = some tau) :
    (wavelength < 310 →
      arpragueskymodelground_solar_radiance_sun_radiance wavelength = some 0 ∧
      arpragueskymodelground_solar_radiance m state theta wavelength = some 0) ∧
    (760 < wavelength → wavelength < 830 →
      ∃ low high, read_at PSMG_SUN_RAD_TABLE ⌊wavelength - 310⌋ = some low ∧
        read_at PSMG_SUN_RAD_TABLE (⌊wavelength - 310⌋ + 1) = some high ∧
        arpragueskymodelground_solar_radiance_sun_radiance wavelength =
          some ((1 - (wavelength - 310 - ((⌊wavelength - 310⌋ : ℤ) : ℚ))) * low +
            (wavelength - 310 - ((⌊wavelength - 310⌋ : ℤ) : ℚ)) * high) ∧
        arpragueskymodelground_solar_radiance m state theta wavelength =
          some (((1 - (wavelength - 310 - ((⌊wavelength - 310⌋ : ℤ) : ℚ))) * low +
            (wavelength - 310 - ((⌊wavelength - 310⌋ : ℤ) : ℚ)) * high) * tau) ∧
        (tau = 0 → arpragueskymodelground_solar_radiance m state theta wavelength = some 0)) := by
  constructor
  · intro h
    have hs := solar_radiance_sun_radiance_below wavelength h
    refine ⟨hs, ?_⟩
    rw [solar_radiance_unfold, hs, htau]
    simp
  · intro h0 h1
    obtain ⟨_, _, low, high, hl, hh, hs⟩ :=
      solar_radiance_sun_radiance_inside wavelength (by linarith) h1
    have hr : arpragueskymodelground_solar_radiance m state theta wavelength =
        some (((1 - (wavelength - 310 - ((⌊wavelength - 310⌋ : ℤ) : ℚ))) * low +
          (wavelength - 310 - ((⌊wavelength - 310⌋ : ℤ) : ℚ)) * high) * tau) := by
      rw [solar_radiance_unfold, hs, htau]
      rfl
    refine ⟨low, high, hl, hh, hs, hr, ?_⟩
    intro ht
    rw [hr, ht, mul_zero]

/-- C24 (amended): when the transmittance for `(theta, w, MATH_HUGE_DOUBLE)`
is `tau`: for every wavelength `w` below 310 nm the base solar radiance used
by `arpragueskymodelground_solar_radiance` is `0`, without a read of the
table, and the returned solar radiance is `0`; for `760 < w < 830` the table,
which reaches up to 830 nm, is read, the base radiance is the blend
`(1-f)*T[k] + f*T[k+1]` of its entries and the returned radiance is that blend
times `tau`, which is `0` when `tau = 0`. -/
theorem solar_radiance_outside_table_range (m : LibM) (state : ArPragueSkyModelGroundState)
    (theta wavelength tau : ℚ)
    (htau : arpragueskymodelground_transmittance m state theta wavelength MATH_HUGE_DOUBLE
      = some tau) :
    (wavelength < 310 →
      arpragueskymodelground_solar_radiance_sun_radiance wavelength = some 0 ∧
      arpragueskymodelground_solar_radiance m state theta wavelength = some 0) ∧
    (760 < wavelength → wavelength < 830 →
      ∃ low high, read_at PSMG_SUN_RAD_TABLE ⌊wavelength - 310⌋ = some low ∧
        read_at PSMG_SUN_RAD_TABLE (⌊wavelength - 310⌋ + 1) = some high ∧
        arpragueskymodelground_solar_radiance_sun_radiance wavelength =
          some ((1 - (wavelength - 310 - ((⌊wavelength - 310⌋ : ℤ) : ℚ))) * low +
            (wavelength - 310 - ((⌊wavelength - 310⌋ : ℤ) : ℚ)) * high) ∧
        arpragueskymodelground_solar_radiance m state theta wavelength =
          some (((1 - (wavelength - 310 - ((⌊wavelength - 310⌋ : ℤ) : ℚ))) * low +
            (wavelength - 310 - ((⌊wavelength - 310⌋ : ℤ) : ℚ)) * high) * tau) ∧
        (tau = 0 → arpragueskymodelground_solar_radiance m state theta wavelength = some 0)) :=
  solar_radiance_outside m state theta wavelength tau htau

theorem solar_radiance_outside_table_range_witness :
    (arpragueskymodelground_solar_radiance_sun_radiance 300 = some 0 ∧
      arpragueskymodelground_solar_radiance sample_libm_far sample_state 0 300 = some 0) ∧
    ∃ low high, read_at PSMG_SUN_RAD_TABLE ⌊(800 : ℚ) - 310⌋ = some low ∧
      read_at PSMG_SUN_RAD_TABLE (⌊(800 : ℚ) - 310⌋ + 1) = some high ∧
      arpragueskymodelground_solar_radiance_sun_radiance 800 =
        some ((1 - (800 - 310 - ((⌊(800 : ℚ) - 310⌋ : ℤ) : ℚ))) * low +
          (800 - 310 - ((⌊(800 : ℚ) - 310⌋ : ℤ) : ℚ)) * high) ∧
      arpragueskymodelground_solar_radiance sample_libm_far sample_state_wide 0 800 =
        some (((1 - (800 - 310 - ((⌊(800 : ℚ) - 310⌋ : ℤ) : ℚ))) * low +
          (800 - 310 - ((⌊(800 : ℚ) - 310⌋ : ℤ) : ℚ)) * high) * 1) ∧
      ((1 : ℚ) = 0 →
        arpragueskymodelground_solar_radiance sample_libm_far sample_state_wide 0 800
          = some 0) :=
  ⟨(solar_radiance_outside_table_range sample_libm_far sample_state 0 300 0
      (by rw [transmittance_unfold, if_pos]; norm_num [sample_state])).1 (by norm_num),
    (solar_radiance_outside_table_range sample_libm_far sample_state_wide 0 800 1
      sample_wide_transmittance).2 (by norm_num) (by norm_num)⟩

/-! ## Angles: proofs -/

/-- C28: for every sun elevation `el`, azimuth `az` and vectors `view`, `up`
of three components, `arpragueskymodelground_compute_angles` returns
`theta = acos(view . up)`, `gamma = acos(view . s)` with
`s = (cos az * cos el, sin az * cos el, sin el)` and `shadow = acos(view . n)`
with `n = (cos(el + MATH_PI/2) * cos az, cos(el + MATH_PI/2) * sin az,
sin(el + MATH_PI/2))`, for the `acos`, `cos`, `sin` of the mathematical
library; and with the real cosine and sine and the real `pi` for `MATH_PI`,
the vector `n` of this formula is the sun direction at the elevation raised by
90 degrees, `(-sin el * cos az, -sin el * sin az, cos el)`, a unit vector
perpendicular to `s`. -/
theorem compute_angles_spec (m : LibM) (el az v0 v1 v2 u0 u1 u2 : ℚ) :
    arpragueskymodelground_compute_angles m el az [v0, v1, v2] [u0, u1, u2] =
      some (m.acos (v0 * u0 + v1 * u1 + v2 * u2),
        m.acos (v0 * (m.cos az * m.cos el) + v1 * (m.sin az * m.cos el) + v2 * m.sin el),
        m.acos (v0 * (m.cos (el + MATH_PI * (1 / 2)) * m.cos az) +
          v1 * (m.cos (el + MATH_PI * (1 / 2)) * m.sin az) +
          v2 * m.sin (el + MATH_PI * (1 / 2)))) ∧
    ∀ el az : ℝ,
      arpragueskymodelground_compute_angles_shadow_direction Real.cos Real.sin
          (Real.pi * (1 / 2)) el az =
        (-Real.sin el * Real.cos az, -Real.sin el * Real.sin az, Real.cos el) ∧
      arpragueskymodelground_compute_angles_dot
          (arpragueskymodelground_compute_angles_shadow_direction Real.cos Real.sin
            (Real.pi * (1 / 2)) el az)
          (arpragueskymodelground_compute_angles_shadow_direction Real.cos Real.sin
            (Real.pi * (1 / 2)) el az) = 1 ∧
      arpragueskymodelground_compute_angles_dot
          (arpragueskymodelground_compute_angles_shadow_direction Real.cos Real.sin
            (Real.pi * (1 / 2)) el az)
          (arpragueskymodelground_compute_angles_sun_direction Real.cos Real.sin el az) = 0 := by
  constructor
  · simp [arpragueskymodelground_compute_angles, arpragueskymodelground_compute_angles_dot,
      arpragueskymodelground_compute_angles_sun_direction,
      arpragueskymodelground_compute_angles_shadow_direction, read_at_ofNat]
  · intro el az
    have hc : Real.cos (el + Real.pi * (1 / 2)) = -Real.sin el := by
      rw [mul_one_div, Real.cos_add_pi_div_two]
    have hs : Real.sin (el + Real.pi * (1 / 2)) = Real.cos el := by
      rw [mul_one_div, Real.sin_add_pi_div_two]
    have h1 := Real.sin_sq_add_cos_sq el
    have h2 := Real.sin_sq_add_cos_sq az
    refine ⟨?_, ?_, ?_⟩
    · simp only [arpragueskymodelground_compute_angles_shadow_direction, hc, hs]
    · simp only [arpragueskymodelground_compute_angles_shadow_direction,
        arpragueskymodelground_compute_angles_dot, hc, hs]
      have e : -Real.sin el * Real.cos az * (-Real.sin el * Real.cos az) +
          -Real.sin el * Real.sin az * (-Real.sin el * Real.sin az) + Real.cos el * Real.cos el =
          Real.sin el ^ 2 * (Real.sin az ^ 2 + Real.cos az ^ 2) + Real.cos el ^ 2 := by ring
      rw [e, h2, mul_one, h1]
    · simp only [arpragueskymodelground_compute_angles_shadow_direction,
        arpragueskymodelground_compute_angles_sun_direction,
        arpragueskymodelground_compute_angles_dot, hc, hs]
      have e : -Real.sin el * Real.cos az * (Real.cos az * Real.cos el) +
          -Real.sin el * Real.sin az * (Real.sin az * Real.cos el) + Real.cos el * Real.sin el =
          Real.sin el * Real.cos el * (1 - (Real.sin az ^ 2 + Real.cos az ^ 2)) := by ring
      rw [e, h2]
      ring

/-! ## The configurations that the cascade evaluates: proofs -/

theorem c_int_cast_on_axis (x : ℚ) (count : Int) (h0 : 0 ≤ x) (h1 : x ≤ (count : ℚ) - 1) :
    0 ≤ c_int_cast x ∧ c_int_cast x ≤ count - 1 := by
  rw [c_int_cast_of_nonneg x h0]
  refine ⟨Int.floor_nonneg.mpr h0, ?_⟩
  have h2 : ((⌊x⌋ : ℤ) : ℚ) ≤ ((count - 1 : ℤ) : ℚ) := by
    push_cast
    exact (Int.floor_le x).trans h1
  exact_mod_cast h2

theorem c_int_cast_channel (x : ℚ) (count : Int) (h0 : 0 ≤ x) (h1 : x < (count : ℚ)) :
    0 ≤ c_int_cast x ∧ c_int_cast x ≤ count - 1 := by
  rw [c_int_cast_of_nonneg x h0]
  refine ⟨Int.floor_nonneg.mpr h0, ?_⟩
  have h2 : ⌊x⌋ < count := by
    rw [Int.floor_lt]; exact h1
  omega

theorem interpolate_elevation_calls_on_grid (state : ArPragueSkyModelGroundState)
    (elevation : ℚ) (altitude visibility albedo wavelength : Int)
    (he0 : 0 ≤ elevation) (he1 : elevation ≤ (state.elevations : ℚ) - 1)
    (ha : 0 ≤ altitude ∧ altitude ≤ state.altitudes - 1)
    (hv : 0 ≤ visibility ∧ visibility ≤ state.visibilities - 1)
    (hb : 0 ≤ albedo ∧ albedo ≤ state.albedos - 1)
    (hw : 0 ≤ wavelength ∧ wavelength ≤ state.channels - 1) :
    ∀ c ∈ arpragueskymodelground_interpolate_elevation_calls state elevation altitude
      visibility albedo wavelength, c.on_grid state := by
  obtain ⟨h0, h1⟩ := c_int_cast_on_axis elevation state.elevations he0 he1
  intro c hc
  unfold arpragueskymodelground_interpolate_elevation_calls at hc
  simp only [List.mem_cons] at hc
  rcases hc with rfl | hc
  · exact ⟨⟨h0, h1⟩, ha, hv, hb, hw⟩
  · split_ifs at hc with hcond
    · simp at hc
    · simp only [List.mem_singleton] at hc
      subst hc
      have hlt : ¬ (c_int_cast elevation ≥ state.elevations - 1) := fun h => hcond (Or.inr h)
      exact ⟨⟨by show 0 ≤ c_int_cast elevation + 1; omega,
        by show c_int_cast elevation + 1 ≤ state.elevations - 1; omega⟩, ha, hv, hb, hw⟩

theorem interpolate_altitude_calls_on_grid (state : ArPragueSkyModelGroundState)
    (elevation altitude : ℚ) (visibility albedo wavelength : Int)
    (he0 : 0 ≤ elevation) (he1 : elevation ≤ (state.elevations : ℚ) - 1)
    (ha0 : 0 ≤ altitude) (ha1 : altitude ≤ (state.altitudes : ℚ) - 1)
    (hv : 0 ≤ visibility ∧ visibility ≤ state.visibilities - 1)
    (hb : 0 ≤ albedo ∧ albedo ≤ state.albedos - 1)
    (hw : 0 ≤ wavelength ∧ wavelength ≤ state.channels - 1) :
    ∀ c ∈ arpragueskymodelground_interpolate_altitude_calls state elevation altitude
      visibility albedo wavelength, c.on_grid state := by
  obtain ⟨h0, h1⟩ := c_int_cast_on_axis altitude state.altitudes ha0 ha1
  intro c hc
  unfold arpragueskymodelground_interpolate_altitude_calls at hc
  simp only [List.mem_append] at hc
  rcases hc with hc | hc
  · exact interpolate_elevation_calls_on_grid state elevation _ visibility albedo wavelength
      he0 he1 ⟨h0, h1⟩ hv hb hw c hc
  · split_ifs at hc with hcond
    · simp at hc
    · have hlt : ¬ (c_int_cast altitude ≥ state.altitudes - 1) := fun h => hcond (Or.inr h)
      exact interpolate_elevation_calls_on_grid state elevation _ visibility albedo wavelength
        he0 he1 ⟨by omega, by omega⟩ hv hb hw c hc

theorem interpolate_visibility_calls_on_grid (state : ArPragueSkyModelGroundState)
    (elevation altitude visibility : ℚ) (albedo wavelength : Int)
    (he0 : 0 ≤ elevation) (he1 : elevation ≤ (state.elevations : ℚ) - 1)
    (ha0 : 0 ≤ altitude) (ha1 : altitude ≤ (state.altitudes : ℚ) - 1)
    (hv0 : 0 ≤ visibility) (hv1 : visibility ≤ (state.visibilities : ℚ) - 1)
    (hb : 0 ≤ albedo ∧ albedo ≤ state.albedos - 1)
    (hw : 0 ≤ wavelength ∧ wavelength ≤ state.channels - 1) :
    ∀ c ∈ arpragueskymodelground_interpolate_visibility_calls state elevation altitude
      visibility albedo wavelength, c.on_grid state := by
  obtain ⟨h0, h1⟩ := c_int_cast_on_axis visibility state.visibilities hv0 hv1
  intro c hc
  unfold arpragueskymodelground_interpolate_visibility_calls at hc
  simp only [List.mem_append] at hc
  rcases hc with hc | hc
  · exact interpolate_altitude_calls_on_grid state elevation altitude _ albedo wavelength
      he0 he1 ha0 ha1 ⟨h0, h1⟩ hb hw c hc
  · split_ifs at hc with hcond
    · simp at hc
    · have hlt : ¬ (c_int_cast visibility ≥ state.visibilities - 1) :=
        fun h => hcond (Or.inr h)
      exact interpolate_altitude_calls_on_grid state elevation altitude _ albedo wavelength
        he0 he1 ha0 ha1 ⟨by omega, by omega⟩ hb hw c hc

theorem interpolate_albedo_calls_on_grid (state : ArPragueSkyModelGroundState)
    (elevation altitude visibility albedo : ℚ) (wavelength : Int)
    (he0 : 0 ≤ elevation) (he1 : elevation ≤ (state.elevations : ℚ) - 1)
    (ha0 : 0 ≤ altitude) (ha1 : altitude ≤ (state.altitudes : ℚ) - 1)
    (hv0 : 0 ≤ visibility) (hv1 : visibility ≤ (state.visibilities : ℚ) - 1)
    (hb0 : 0 ≤ albedo) (hb1 : albedo ≤ (state.albedos : ℚ) - 1)
    (hw : 0 ≤ wavelength ∧ wavelength ≤ state.channels - 1) :
    ∀ c ∈ arpragueskymodelground_interpolate_albedo_calls state elevation altitude
      visibility albedo wavelength, c.on_grid state := by
  obtain ⟨h0, h1⟩ := c_int_cast_on_axis albedo state.albedos hb0 hb1
  intro c hc
  unfold arpragueskymodelground_interpolate_albedo_calls at hc
  simp only [List.mem_append] at hc
  rcases hc with hc | hc
  · exact interpolate_visibility_calls_on_grid state elevation altitude visibility _ wavelength
      he0 he1 ha0 ha1 hv0 hv1 ⟨h0, h1⟩ hw c hc
  · split_ifs at hc with hcond
    · simp at hc
    · have hlt : ¬ (c_int_cast albedo ≥ state.albedos - 1) := fun h => hcond (Or.inr h)
      exact interpolate_visibility_calls_on_grid state elevation altitude visibility _
        wavelength he0 he1 ha0 ha1 hv0 hv1 ⟨by omega, by omega⟩ hw c hc

theorem cascade_level_isSome (lo hi : Option ℚ) (cond : Prop) [Decidable cond] (f : ℚ) :
    (lo.bind fun res_low =>
      if cond then some res_low
      else hi.bind fun res_high => some (arpragueskymodelground_lerp res_low res_high f)).isSome
        = true ↔
      lo.isSome = true ∧ (¬ cond → hi.isSome = true) := by
  cases lo with
  | none => simp
  | some l =>
    by_cases hc : cond
    · simp [hc]
    · cases hi with
      | none => simp [hc]
      | some h => simp [hc]

theorem cascade_calls_forall (P : GridConfig → Prop) (l1 l2 : List GridConfig) (cond : Prop)
    [Decidable cond] :
    (∀ c ∈ l1 ++ (if cond then [] else l2), P c) ↔
      (∀ c ∈ l1, P c) ∧ (¬ cond → ∀ c ∈ l2, P c) := by
  by_cases hc : cond
  · simp [hc]
  · simp only [hc, if_false, List.mem_append, not_false_eq_true, true_implies]
    constructor
    · intro h
      exact ⟨fun c hc1 => h c (Or.inl hc1), fun c hc2 => h c (Or.inr hc2)⟩
    · rintro ⟨h1, h2⟩ c (hc1 | hc2)
      · exact h1 c hc1
      · exact h2 c hc2

theorem interpolate_elevation_isSome (state : ArPragueSkyModelGroundState)
    (elevation : ℚ) (altitude visibility albedo wavelength : Int) (gamma alpha theta : ℚ)
    (gs zs ts : Int) :
    (arpragueskymodelground_interpolate_elevation state elevation altitude visibility albedo
        wavelength gamma alpha theta gs zs ts).isSome = true ↔
      ∀ c ∈ arpragueskymodelground_interpolate_elevation_calls state elevation altitude
        visibility albedo wavelength,
        (c.reconstruct state gamma alpha theta gs zs ts).isSome = true := by
  unfold arpragueskymodelground_interpolate_elevation
    arpragueskymodelground_interpolate_elevation_calls
  simp only [bind]
  rw [cascade_level_isSome]
  have e : ∀ (x y : GridConfig) (cond : Prop) [Decidable cond],
      x :: (if cond then [] else [y]) = [x] ++ (if cond then [] else [y]) := fun _ _ _ _ => rfl
  rw [e, cascade_calls_forall]
  simp [GridConfig.reconstruct]

theorem interpolate_altitude_isSome (state : ArPragueSkyModelGroundState)
    (elevation altitude : ℚ) (visibility albedo wavelength : Int) (gamma alpha theta : ℚ)
    (gs zs ts : Int) :
    (arpragueskymodelground_interpolate_altitude state elevation altitude visibility albedo
        wavelength gamma alpha theta gs zs ts).isSome = true ↔
      ∀ c ∈ arpragueskymodelground_interpolate_altitude_calls state elevation altitude
        visibility albedo wavelength,
        (c.reconstruct state gamma alpha theta gs zs ts).isSome = true := by
  unfold arpragueskymodelground_interpolate_altitude
    arpragueskymodelground_interpolate_altitude_calls
  simp only [bind]
  rw [cascade_level_isSome, cascade_calls_forall, interpolate_elevation_isSome,
    interpolate_elevation_isSome]

theorem interpolate_visibility_isSome (state : ArPragueSkyModelGroundState)
    (elevation altitude visibility : ℚ) (albedo wavelength : Int) (gamma alpha theta : ℚ)
    (gs zs ts : Int) :
    (arpragueskymodelground_interpolate_visibility state elevation altitude visibility albedo
        wavelength gamma alpha theta gs zs ts).isSome = true ↔
      ∀ c ∈ arpragueskymodelground_interpolate_visibility_calls state elevation altitude
        visibility albedo wavelength,
        (c.reconstruct state gamma alpha theta gs zs ts).isSome = true := by
  unfold arpragueskymodelground_interpolate_visibility
    arpragueskymodelground_interpolate_visibility_calls
  simp only [bind]
  rw [cascade_level_isSome, cascade_calls_forall, interpolate_altitude_isSome,
    interpolate_altitude_isSome]

theorem interpolate_albedo_isSome (state : ArPragueSkyModelGroundState)
    (elevation altitude visibility albedo : ℚ) (wavelength : Int) (gamma alpha theta : ℚ)
    (gs zs ts : Int) :
    (arpragueskymodelground_interpolate_albedo state elevation altitude visibility albedo
        wavelength gamma alpha theta gs zs ts).isSome = true ↔
      ∀ c ∈ arpragueskymodelground_interpolate_albedo_calls state elevation altitude
        visibility albedo wavelength,
        (c.reconstruct state gamma alpha theta gs zs ts).isSome = true := by
  unfold arpragueskymodelground_interpolate_albedo
    arpragueskymodelground_interpolate_albedo_calls
  simp only [bind]
  rw [cascade_level_isSome, cascade_calls_forall, interpolate_visibility_isSome,
    interpolate_visibility_isSome]

theorem sky_radiance_calls_on_grid (state : ArPragueSkyModelGroundState)
    (theta gamma shadow wavelength : ℚ) (vc ac hc ec : ℚ) (gs zs ts : Int)
    (hv : arpragueskymodelground_map_parameter state.visibility state.visibilities
      state.visibility_vals = some vc)
    (ha : arpragueskymodelground_map_parameter state.albedo state.albedos
      state.albedo_vals = some ac)
    (hh : arpragueskymodelground_map_parameter 0 state.altitudes
      state.altitude_vals = some hc)
    (he : arpragueskymodelground_map_parameter (state.elevation * MATH_RAD_TO_DEG)
      state.elevations state.elevation_vals = some ec)
    (hv0 : 0 ≤ vc) (hv1 : vc ≤ (state.visibilities : ℚ) - 1)
    (ha0 : 0 ≤ ac) (ha1 : ac ≤ (state.albedos : ℚ) - 1)
    (hh0 : 0 ≤ hc) (hh1 : hc ≤ (state.altitudes : ℚ) - 1)
    (he0 : 0 ≤ ec) (he1 : ec ≤ (state.elevations : ℚ) - 1)
    (hw0 : 0 ≤ (wavelength - state.channel_start) / state.channel_width)
    (hw1 : (wavelength - state.channel_start) / state.channel_width < (state.channels : ℚ))
    (hgs : arpragueskymodelground_find_segment gamma state.sun_nbreaks state.sun_breaks
      = some gs)
    (hzs : arpragueskymodelground_find_segment (if state.elevation < 0 then shadow else theta)
      state.zenith_nbreaks state.zenith_breaks = some zs)
    (hts : arpragueskymodelground_find_segment theta state.emph_nbreaks state.emph_breaks
      = some ts) :
    ∃ calls, arpragueskymodelground_sky_radiance_calls state theta gamma shadow wavelength
        = some calls ∧
      (∀ c ∈ calls, c.on_grid state) ∧
      ((arpragueskymodelground_sky_radiance state theta gamma shadow wavelength).isSome = true ↔
        ∀ c ∈ calls, (c.reconstruct state gamma (if state.elevation < 0 then shadow else theta)
          theta gs zs ts).isSome = true) := by
  have hnot : ¬ ((wavelength - state.channel_start) / state.channel_width
      ≥ (state.channels : ℚ) ∨ (wavelength - state.channel_start) / state.channel_width < 0) := by
    intro h; rcases h with h | h <;> linarith
  refine ⟨arpragueskymodelground_interpolate_wavelength_calls state ec hc vc ac
    ((wavelength - state.channel_start) / state.channel_width), ?_, ?_, ?_⟩
  · unfold arpragueskymodelground_sky_radiance_calls
    simp only [bind, hv, ha, hh, he, Option.some_bind, if_neg hnot, hgs, hzs, hts]
  · exact interpolate_albedo_calls_on_grid state ec hc vc ac _ he0 he1 hh0 hh1 hv0 hv1 ha0 ha1
      (c_int_cast_channel _ state.channels hw0 hw1)
  · rw [sky_radiance_unfold, hv, ha, hh, he]
    simp only [Option.some_bind]
    rw [if_neg hnot, hgs, hzs, hts]
    simp only [Option.some_bind]
    unfold arpragueskymodelground_interpolate_wavelength
      arpragueskymodelground_interpolate_wavelength_calls
    exact interpolate_albedo_isSome state ec hc vc ac _ gamma _ theta gs zs ts

theorem sample_mid_maps :
    arpragueskymodelground_map_parameter sample_state_mid.visibility
      sample_state_mid.visibilities sample_state_mid.visibility_vals = some 0 ∧
    arpragueskymodelground_map_parameter sample_state_mid.albedo
      sample_state_mid.albedos sample_state_mid.albedo_vals = some 0 ∧
    arpragueskymodelground_map_parameter 0 sample_state_mid.altitudes
      sample_state_mid.altitude_vals = some 0 ∧
    arpragueskymodelground_map_parameter (sample_state_mid.elevation * MATH_RAD_TO_DEG)
      sample_state_mid.elevations sample_state_mid.elevation_vals = some (1 / 2) := by
  refine ⟨?_, ?_, ?_, ?_⟩ <;>
  norm_num [arpragueskymodelground_map_parameter, arpragueskymodelground_map_parameter_loop,
    read_at_ofNat, abs_lt, sample_state, sample_state_mid, MATH_RAD_TO_DEG, MATH_PI]

/-- C30: when the four configured parameters map to fractional indices in
`[0, count - 1]` on the visibility, albedo, altitude and elevation axes, the
channel index of the wavelength is in `[0, channels)` and the three segment
searches return, then every grid configuration at which
`arpragueskymodelground_sky_radiance` has `arpragueskymodelground_reconstruct`
called (the list `arpragueskymodelground_sky_radiance_calls`) has an index in
`[0, count - 1]` on each of the four axes and a bin in `[0, channels - 1]`, the
configurations at `low + 1` included; and the function returns a value exactly
when `arpragueskymodelground_reconstruct` returns one at each configuration
of the list. -/
theorem sky_radiance_calls_in_range (state : ArPragueSkyModelGroundState)
    (theta gamma shadow wavelength : ℚ) (vc ac hc ec : ℚ) (gs zs ts : Int)
    (hv : arpragueskymodelground_map_parameter state.visibility state.visibilities
      state.visibility_vals = some vc)
    (ha : arpragueskymodelground_map_parameter state.albedo state.albedos
      state.albedo_vals = some ac)
    (hh : arpragueskymodelground_map_parameter 0 state.altitudes
      state.altitude_vals = some hc)
    (he : arpragueskymodelground_map_parameter (state.elevation * MATH_RAD_TO_DEG)
      state.elevations state.elevation_vals = some ec)
    (hv0 : 0 ≤ vc) (hv1 : vc ≤ (state.visibilities : ℚ) - 1)
    (ha0 : 0 ≤ ac) (ha1 : ac ≤ (state.albedos : ℚ) - 1)
    (hh0 : 0 ≤ hc) (hh1 : hc ≤ (state.altitudes : ℚ) - 1)
    (he0 : 0 ≤ ec) (he1 : ec ≤ (state.elevations : ℚ) - 1)
    (hw0 : 0 ≤ (wavelength - state.channel_start) / state.channel_width)
    (hw1 : (wavelength - state.channel_start) / state.channel_width < (state.channels : ℚ))
    (hgs : arpragueskymodelground_find_segment gamma state.sun_nbreaks state.sun_breaks
      = some gs)
    (hzs : arpragueskymodelground_find_segment (if state.elevation < 0 then shadow else theta)
      state.zenith_nbreaks state.zenith_breaks = some zs)
    (hts : arpragueskymodelground_find_segment theta state.emph_nbreaks state.emph_breaks
      = some ts) :
    ∃ calls, arpragueskymodelground_sky_radiance_calls state theta gamma shadow wavelength
        = some calls ∧
      (∀ c ∈ calls,
        (0 ≤ c.elevation ∧ c.elevation ≤ state.elevations - 1) ∧
        (0 ≤ c.altitude ∧ c.altitude ≤ state.altitudes - 1) ∧
        (0 ≤ c.visibility ∧ c.visibility ≤ state.visibilities - 1) ∧
        (0 ≤ c.albedo ∧ c.albedo ≤ state.albedos - 1) ∧
        (0 ≤ c.wavelength ∧ c.wavelength ≤ state.channels - 1)) ∧
      ((arpragueskymodelground_sky_radiance state theta gamma shadow wavelength).isSome = true ↔
        ∀ c ∈ calls, (c.reconstruct state gamma (if state.elevation < 0 then shadow else theta)
          theta gs zs ts).isSome = true) :=
  sky_radiance_calls_on_grid state theta gamma shadow wavelength vc ac hc ec gs zs ts hv ha hh
    he hv0 hv1 ha0 ha1 hh0 hh1 he0 he1 hw0 hw1 hgs hzs hts

theorem sky_radiance_calls_in_range_witness :
    ∃ calls, arpragueskymodelground_sky_radiance_calls sample_state_mid 1 1 2 330
        = some calls ∧
      (∀ c ∈ calls,
        (0 ≤ c.elevation ∧ c.elevation ≤ sample_state_mid.elevations - 1) ∧
        (0 ≤ c.altitude ∧ c.altitude ≤ sample_state_mid.altitudes - 1) ∧
        (0 ≤ c.visibility ∧ c.visibility ≤ sample_state_mid.visibilities - 1) ∧
        (0 ≤ c.albedo ∧ c.albedo ≤ sample_state_mid.albedos - 1) ∧
        (0 ≤ c.wavelength ∧ c.wavelength ≤ sample_state_mid.channels - 1)) ∧
      ((arpragueskymodelground_sky_radiance sample_state_mid 1 1 2 330).isSome = true ↔
        ∀ c ∈ calls, (c.reconstruct sample_state_mid 1
          (if sample_state_mid.elevation < 0 then 2 else 1) 1 0 0 0).isSome = true) :=
  sky_radiance_calls_in_range sample_state_mid 1 1 2 330 0 0 0 (1 / 2) 0 0 0
    sample_mid_maps.1 sample_mid_maps.2.1 sample_mid_maps.2.2.1 sample_mid_maps.2.2.2
    (le_refl _) (by norm_num [sample_state_mid, sample_state])
    (le_refl _) (by norm_num [sample_state_mid, sample_state])
    (le_refl _) (by norm_num [sample_state_mid, sample_state])
    (by norm_num) (by norm_num [sample_state_mid, sample_state])
    (by norm_num [sample_state_mid, sample_state])
    (by norm_num [sample_state_mid, sample_state])
    (by decide)
    (by rw [if_neg (by norm_num [sample_state_mid, sample_state, MATH_PI])]; decide)
    (by decide)

theorem sample_mid_calls :
    arpragueskymodelground_sky_radiance_calls sample_state_mid 1 1 2 330 =
      some [⟨0, 0, 0, 0, 0⟩, ⟨1, 0, 0, 0, 0⟩] := by
  have hb : c_int_cast ((330 - sample_state_mid.channel_start) / sample_state_mid.channel_width)
      = 0 :=
    c_int_cast_of_bin _ 0 (le_refl _) (by norm_num [sample_state, sample_state_mid])
      (by norm_num [sample_state, sample_state_mid])
  have h0 : c_int_cast (0 : ℚ) = 0 := c_int_cast_intCast 0
  have h1 : c_int_cast (1 / 2 : ℚ) = 0 :=
    c_int_cast_of_bin _ 0 (le_refl _) (by norm_num) (by norm_num)
  have hnot : ¬ ((330 - sample_state_mid.channel_start) / sample_state_mid.channel_width
      ≥ (sample_state_mid.channels : ℚ) ∨
      (330 - sample_state_mid.channel_start) / sample_state_mid.channel_width < 0) := by
    norm_num [sample_state, sample_state_mid]
  have hgs : arpragueskymodelground_find_segment 1 sample_state_mid.sun_nbreaks
      sample_state_mid.sun_breaks = some 0 := by decide
  have hzs : arpragueskymodelground_find_segment
      (if sample_state_mid.elevation < 0 then 2 else 1) sample_state_mid.zenith_nbreaks
      sample_state_mid.zenith_breaks = some 0 := by
    rw [if_neg (by norm_num [sample_state_mid, sample_state, MATH_PI])]; decide
  have hts : arpragueskymodelground_find_segment 1 sample_state_mid.emph_nbreaks
      sample_state_mid.emph_breaks = some 0 := by decide
  unfold arpragueskymodelground_sky_radiance_calls
  simp only [bind, sample_mid_maps.1, sample_mid_maps.2.1, sample_mid_maps.2.2.1,
    sample_mid_maps.2.2.2, Option.some_bind, if_neg hnot, hgs, hzs, hts]
  unfold arpragueskymodelground_interpolate_wavelength_calls
    arpragueskymodelground_interpolate_albedo_calls
    arpragueskymodelground_interpolate_visibility_calls
    arpragueskymodelground_interpolate_altitude_calls
    arpragueskymodelground_interpolate_elevation_calls
  rw [hb]
  simp only [h0, h1]
  norm_num [sample_state, sample_state_mid]


/-! ## The loader: reading records -/

theorem fread_length_le (size : Nat) : ∀ (n : Nat) (s : List Byte),
    (fread size n s).1.length ≤ n := by
  intro n
  induction n with
  | zero => intro s; simp [fread]
  | succ n ih =>
    intro s
    unfold fread
    split_ifs with h
    · simp only [List.length_cons]
      exact Nat.succ_le_succ (ih _)
    · simp

theorem fread_append (size : Nat) : ∀ (n : Nat) (b s : List Byte), b.length = size * n →
    fread size n (b ++ s) = ((fread size n b).1, s) ∧ (fread size n b).1.length = n := by
  intro n
  induction n with
  | zero =>
    intro b s hb
    have hb0 : b = [] := List.length_eq_zero.mp (by simpa using hb)
    subst hb0
    simp [fread]
  | succ n ih =>
    intro b s hb
    have hsize : size ≤ b.length := by
      rw [hb, Nat.mul_succ]; exact Nat.le_add_left _ _
    have hdrop : (b.drop size).length = size * n := by
      rw [List.length_drop, hb, Nat.mul_succ]; omega
    obtain ⟨h1, h2⟩ := ih (b.drop size) s hdrop
    have hlen : size ≤ (b ++ s).length := by rw [List.length_append]; omega
    have htake : (b ++ s).take size = b.take size := List.take_append_of_le_length hsize
    have hdr : (b ++ s).drop size = b.drop size ++ s := List.drop_append_of_le_length hsize
    constructor
    · rw [fread, if_pos hlen, htake, hdr, h1]
      rw [fread, if_pos hsize]
    · rw [fread, if_pos hsize]
      simp only [List.length_cons, h2]

theorem fread_complete (size : Nat) : ∀ (n : Nat) (s : List Byte),
    (fread size n s).1.length = n →
    ∃ b, b.length = size * n ∧ s = b ++ (fread size n s).2 ∧
      (fread size n s).1 = (fread size n b).1 := by
  intro n
  induction n with
  | zero =>
    intro s _
    exact ⟨[], by simp, by simp [fread], by simp [fread]⟩
  | succ n ih =>
    intro s h
    by_cases hsize : size ≤ s.length
    · rw [fread, if_pos hsize] at h ⊢
      simp only [List.length_cons, Nat.succ.injEq, add_left_inj] at h
      obtain ⟨b, hb, hs, hr⟩ := ih (s.drop size) h
      have htl : (s.take size).length = size := by
        rw [List.length_take]; exact Nat.min_eq_left hsize
      refine ⟨s.take size ++ b, ?_, ?_, ?_⟩
      · rw [List.length_append, htl, hb, Nat.mul_succ]; omega
      · simp only []
        rw [List.append_assoc, ← hs, List.take_append_drop]
      · have hsz : size ≤ (s.take size ++ b).length := by
          rw [List.length_append, htl]; omega
        have e1 : (s.take size ++ b).take size = s.take size := by
          rw [List.take_append_of_le_length (by omega), List.take_of_length_le (by omega)]
        have e2 : (s.take size ++ b).drop size = b := by
          rw [List.drop_append_of_le_length (by omega), List.drop_of_length_le (by omega)]
          simp
        rw [fread, if_pos hsz, e1, e2, hr]
    · rw [fread, if_neg hsize] at h
      simp at h

theorem fread_one (size : Nat) (b s : List Byte) (hb : b.length = size) :
    fread size 1 (b ++ s) = ([b], s) := by
  have hlen : size ≤ (b ++ s).length := by rw [List.length_append]; omega
  have e1 : (b ++ s).take size = b := by
    rw [List.take_append_of_le_length (by omega), List.take_of_length_le (by omega)]
  have e2 : (b ++ s).drop size = s := by
    rw [List.drop_append_of_le_length (by omega), List.drop_of_length_le (by omega)]
    simp
  rw [fread, if_pos hlen, e1, e2]
  simp [fread]

theorem fread_one_complete (size : Nat) (s : List Byte)
    (h : ((fread size 1 s).1.length : ℤ) = 1) :
    ∃ b, b.length = size ∧ s = b ++ (fread size 1 s).2 ∧ (fread size 1 s).1 = [b] := by
  obtain ⟨b, hb, hs, hr⟩ := fread_complete size 1 s (by exact_mod_cast h)
  refine ⟨b, by simpa using hb, hs, ?_⟩
  rw [hr]
  have := fread_one size b [] (by simpa using hb)
  rw [List.append_nil] at this
  rw [this]

theorem read_int_field_append (L : ScalarLayout) (minimum : Int) (message : String)
    (b s : List Byte) (hb : b.length = sizeof_int) (hmin : minimum ≤ L.int_value b) :
    read_int_field L minimum message (b ++ s) = Except.ok (L.int_value b, s) := by
  unfold read_int_field
  rw [fread_one sizeof_int b s hb]
  simp only [List.length_singleton, List.headD_cons, Nat.cast_one, ne_eq, not_true_eq_false,
    false_or]
  rw [if_neg (by omega)]

theorem read_int_field_ok (L : ScalarLayout) (minimum : Int) (message : String)
    (s : List Byte) (x : Int) (rest : List Byte)
    (h : read_int_field L minimum message s = Except.ok (x, rest)) :
    ∃ b, b.length = sizeof_int ∧ s = b ++ rest ∧ x = L.int_value b ∧ minimum ≤ x := by
  unfold read_int_field at h
  dsimp only at h
  split_ifs at h with hc
  simp only [Except.ok.injEq, Prod.mk.injEq] at h
  obtain ⟨hx, hrest⟩ := h
  have hv : ((fread sizeof_int 1 s).1.length : ℤ) = 1 := by
    by_contra hne; exact hc (Or.inl hne)
  obtain ⟨b, hb, hs, hr⟩ := fread_one_complete sizeof_int s hv
  rw [hr] at hx hc
  simp only [List.headD_cons] at hx hc
  refine ⟨b, hb, by rw [← hrest]; exact hs, hx.symm, ?_⟩
  rw [← hx]
  by_contra hlt
  exact hc (Or.inr (not_le.mp hlt))

theorem read_int_field_defined (L : ScalarLayout) (minimum : Int) (message : String)
    (s : List Byte) : read_int_field L minimum message s ≠ Except.error Abort.undefined := by
  unfold read_int_field
  dsimp only
  split_ifs <;> simp

theorem read_double_field_append (L : ScalarLayout) (rejected : ℚ → Prop)
    [DecidablePred rejected] (message : String) (b s : List Byte)
    (hb : b.length = sizeof_double) (hok : ¬ rejected (L.double_value b)) :
    read_double_field L rejected message (b ++ s) = Except.ok (L.double_value b, s) := by
  unfold read_double_field
  rw [fread_one sizeof_double b s hb]
  simp only [List.length_singleton, List.headD_cons, Nat.cast_one, ne_eq, not_true_eq_false,
    false_or]
  rw [if_neg hok]

theorem read_double_field_ok (L : ScalarLayout) (rejected : ℚ → Prop)
    [DecidablePred rejected] (message : String) (s : List Byte) (x : ℚ) (rest : List Byte)
    (h : read_double_field L rejected message s = Except.ok (x, rest)) :
    ∃ b, b.length = sizeof_double ∧ s = b ++ rest ∧ x = L.double_value b ∧ ¬ rejected x := by
  unfold read_double_field at h
  dsimp only at h
  split_ifs at h with hc
  simp only [Except.ok.injEq, Prod.mk.injEq] at h
  obtain ⟨hx, hrest⟩ := h
  have hv : ((fread sizeof_double 1 s).1.length : ℤ) = 1 := by
    by_contra hne; exact hc (Or.inl hne)
  obtain ⟨b, hb, hs, hr⟩ := fread_one_complete sizeof_double s hv
  rw [hr] at hx hc
  simp only [List.headD_cons] at hx hc
  refine ⟨b, hb, by rw [← hrest]; exact hs, hx.symm, ?_⟩
  rw [← hx]
  exact fun hrej => hc (Or.inr hrej)

theorem read_double_field_defined (L : ScalarLayout) (rejected : ℚ → Prop)
    [DecidablePred rejected] (message : String) (s : List Byte) :
    read_double_field L rejected message s ≠ Except.error Abort.undefined := by
  unfold read_double_field
  dsimp only
  split_ifs <;> simp

theorem read_records_append {α : Type} (value : List Byte → α) (size : Nat) (count : Int)
    (message : String) (b s : List Byte) (hb : (b.length : ℤ) = size * count) (hsize : 0 < size) :
    read_records value size count message (b ++ s) =
        Except.ok ((fread size count.toNat b).1.map value, s) ∧
      (((fread size count.toNat b).1.map value).length : ℤ) = count := by
  have hc0 : 0 ≤ count := by
    by_contra hneg
    have : (size : ℤ) * count < 0 := mul_neg_of_pos_of_neg (by exact_mod_cast hsize) (by omega)
    omega
  obtain ⟨n, rfl⟩ := Int.eq_ofNat_of_zero_le hc0
  have hbn : b.length = size * n := by exact_mod_cast hb
  obtain ⟨h1, h2⟩ := fread_append size n b s hbn
  unfold read_records
  rw [if_neg (fun hneg => absurd hneg.1 (not_lt.mpr hc0))]
  simp only [Int.toNat_ofNat, h1, h2, ne_eq, not_true_eq_false, if_false, List.length_map,
    and_self]

theorem read_records_ok {α : Type} (value : List Byte → α) (size : Nat) (count : Int)
    (message : String) (s : List Byte) (xs : List α) (rest : List Byte)
    (h : read_records value size count message s = Except.ok (xs, rest)) :
    ∃ b, (b.length : ℤ) = size * count ∧ s = b ++ rest ∧
      xs = (fread size count.toNat b).1.map value ∧ (xs.length : ℤ) = count := by
  unfold read_records at h
  dsimp only at h
  split_ifs at h with _ hc
  simp only [Except.ok.injEq, Prod.mk.injEq] at h
  obtain ⟨hx, hrest⟩ := h
  have hv : ((fread size count.toNat s).1.length : ℤ) = count := by
    by_contra hne; exact hc hne
  have hc0 : 0 ≤ count := by rw [← hv]; exact Int.natCast_nonneg _
  obtain ⟨n, hn⟩ := Int.eq_ofNat_of_zero_le hc0
  subst hn
  simp only [Int.toNat_ofNat] at hv hx hrest ⊢
  obtain ⟨b, hb, hs, hr⟩ := fread_complete size n s (by exact_mod_cast hv)
  refine ⟨b, by rw [hb]; push_cast; ring, by rw [← hrest]; exact hs, by rw [← hx, hr], ?_⟩
  rw [← hx, List.length_map]
  exact hv

theorem read_records_defined {α : Type} (value : List Byte → α) (size : Nat) (count : Int)
    (message : String) (s : List Byte) (hc : 0 ≤ count) :
    read_records value size count message s ≠ Except.error Abort.undefined := by
  unfold read_records
  rw [if_neg (fun hneg => absurd hneg.1 (not_lt.mpr hc))]
  dsimp only
  split_ifs <;> simp

theorem except_bind_ok {α β : Type} (x : Except Abort α) (f : α → Except Abort β) (b : β) :
    (x >>= f) = Except.ok b ↔ ∃ a, x = Except.ok a ∧ f a = Except.ok b := by
  cases x with
  | error e => simp [bind, Except.bind]
  | ok a => simp [bind, Except.bind]

theorem except_bind_undefined {α β : Type} (x : Except Abort α) (f : α → Except Abort β) :
    (x >>= f) = Except.error Abort.undefined ↔
      x = Except.error Abort.undefined ∨ ∃ a, x = Except.ok a ∧
        f a = Except.error Abort.undefined := by
  cases x with
  | error e => simp [bind, Except.bind]
  | ok a => simp [bind, Except.bind]

/-! ## The loader: the data part -/

theorem write_at_length {α : Type} (a : List α) (i : Int) (x : α) (a1 : List α)
    (h : write_at a i x = some a1) : a1.length = a.length := by
  unfold write_at at h
  split_ifs at h
  cases h
  exact List.length_set _ _ _

theorem compute_pp_coefs_loop_length (breaks : List ℚ) (values : List UShort) (offset : Int)
    (scale : ℚ) : ∀ (n : Nat) (i : Int) (coefs c : List ℚ),
    arpragueskymodelground_compute_pp_coefs_from_half_loop breaks values offset scale n i coefs
      = some c → c.length = coefs.length := by
  intro n
  induction n with
  | zero =>
    intro i coefs c h
    cases h
    rfl
  | succ n ih =>
    intro i coefs c h
    rw [compute_pp_coefs_loop_succ] at h
    simp only [Option.bind_eq_some] at h
    obtain ⟨_, _, _, _, _, _, _, _, _, _, _, _, c1, hw1, c2, hw2, hl⟩ := h
    rw [ih _ _ _ hl, write_at_length _ _ _ _ hw2, write_at_length _ _ _ _ hw1]

theorem compute_pp_coefs_some (nbreaks : Int) (breaks : List ℚ) (values : List UShort)
    (coefs : List ℚ) (offset : Int) (scale : ℚ) (r : List ℚ × Int)
    (h : arpragueskymodelground_compute_pp_coefs_from_half nbreaks breaks values coefs offset
      scale = some r) : r.2 = 2 * nbreaks - 2 ∧ r.1.length = coefs.length := by
  unfold arpragueskymodelground_compute_pp_coefs_from_half at h
  simp only [bind, Option.bind_eq_some] at h
  obtain ⟨c, hc, hr⟩ := h
  cases hr
  exact ⟨rfl, compute_pp_coefs_loop_length _ _ _ _ _ _ _ _ hc⟩

theorem defined_or_abort_ok {α : Type} (x : Option α) (a : α) :
    defined_or_abort x = Except.ok a ↔ x = some a := by
  cases x <;> simp [defined_or_abort]

theorem defined_or_abort_some {α : Type} (a : α) :
    defined_or_abort (some a) = Except.ok a := rfl

theorem read_radiance_component_ok (L : ScalarLayout) (state : ArPragueSkyModelGroundState)
    (s s1 : List Byte × List ℚ × Int)
    (h : arpragueskymodelground_read_radiance_component L state s = Except.ok s1) :
    ∃ b, (b.length : ℤ) = 2 * state.sun_nbreaks + 8 + 2 * state.zenith_nbreaks ∧
      s.1 = b ++ s1.1 ∧ s1.2.1.length = s.2.1.length ∧
      s1.2.2 = s.2.2 + (2 * state.sun_nbreaks - 2) + (2 * state.zenith_nbreaks - 2) ∧
      ∃ sun_coefs rest1 dataset1 zenith_scale rest2 zenith_coefs,
        read_records L.ushort_value sizeof_unsigned_short state.sun_nbreaks
          "Error reading sky model data: sun_coefs" s.1 = Except.ok (sun_coefs, rest1) ∧
        arpragueskymodelground_compute_pp_coefs_from_half state.sun_nbreaks state.sun_breaks
          sun_coefs s.2.1 s.2.2 1 = some (dataset1, 2 * state.sun_nbreaks - 2) ∧
        read_double_field L (fun _ => False) "Error reading sky model data: zenith_scale" rest1
          = Except.ok (zenith_scale, rest2) ∧
        read_records L.ushort_value sizeof_unsigned_short state.zenith_nbreaks
          "Error reading sky model data: zenith_coefs" rest2 = Except.ok (zenith_coefs, s1.1) ∧
        arpragueskymodelground_compute_pp_coefs_from_half state.zenith_nbreaks
          state.zenith_breaks zenith_coefs dataset1 (s.2.2 + (2 * state.sun_nbreaks - 2))
          zenith_scale = some (s1.2.1, 2 * state.zenith_nbreaks - 2) := by
  unfold arpragueskymodelground_read_radiance_component at h
  simp only [except_bind_ok, defined_or_abort_ok] at h
  obtain ⟨⟨sun_coefs, rest1⟩, h1, ⟨dataset1, n1⟩, h2, ⟨zenith_scale, rest2⟩, h3,
    ⟨zenith_coefs, rest3⟩, h4, ⟨dataset2, n2⟩, h5, h6⟩ := h
  simp only [Except.ok.injEq] at h6
  subst h6
  obtain ⟨hn1, hl1⟩ := compute_pp_coefs_some _ _ _ _ _ _ _ h2
  obtain ⟨hn2, hl2⟩ := compute_pp_coefs_some _ _ _ _ _ _ _ h5
  simp only at hn1 hl1 hn2 hl2 h2 h5 h3 h4
  subst hn1
  subst hn2
  obtain ⟨b1, hb1, hs1, _, _⟩ := read_records_ok _ _ _ _ _ _ _ h1
  obtain ⟨b2, hb2, hs2, _, _⟩ := read_double_field_ok _ _ _ _ _ _ h3
  obtain ⟨b3, hb3, hs3, _, _⟩ := read_records_ok _ _ _ _ _ _ _ h4
  refine ⟨b1 ++ (b2 ++ b3), ?_, ?_, ?_, ?_, sun_coefs, rest1, dataset1, zenith_scale, rest2,
    zenith_coefs, h1, h2, h3, h4, h5⟩
  · simp only [List.length_append, Nat.cast_add, hb1, hb2, hb3, sizeof_unsigned_short,
      sizeof_double]
    push_cast
    ring
  · simp only [List.append_assoc]
    rw [hs1, hs2, hs3]
  · simp only
    rw [hl2, hl1]
  · simp only

theorem list_split_at (b : List Byte) (n m : Nat) (h : b.length = n + m) :
    ∃ b1 b2, b = b1 ++ b2 ∧ b1.length = n ∧ b2.length = m :=
  ⟨b.take n, b.drop n, (List.take_append_drop n b).symm,
    by rw [List.length_take]; omega, by rw [List.length_drop]; omega⟩

theorem read_radiance_component_append (L : ScalarLayout)
    (state : ArPragueSkyModelGroundState) (b s : List Byte) (d : List ℚ) (o : Int)
    (hs : 2 ≤ state.sun_nbreaks) (hsb : (state.sun_breaks.length : ℤ) = state.sun_nbreaks)
    (hz : 2 ≤ state.zenith_nbreaks)
    (hzb : (state.zenith_breaks.length : ℤ) = state.zenith_nbreaks)
    (hb : (b.length : ℤ) = 2 * state.sun_nbreaks + 8 + 2 * state.zenith_nbreaks)
    (ho : 0 ≤ o)
    (hd : o + (2 * state.sun_nbreaks - 2) + (2 * state.zenith_nbreaks - 2) ≤ d.length) :
    ∃ d1, arpragueskymodelground_read_radiance_component L state (b ++ s, d, o) =
        Except.ok (s, d1, o + (2 * state.sun_nbreaks - 2) + (2 * state.zenith_nbreaks - 2)) ∧
      d1.length = d.length := by
  obtain ⟨ns, hns⟩ := Int.eq_ofNat_of_zero_le (show (0 : ℤ) ≤ state.sun_nbreaks by omega)
  obtain ⟨nz, hnz⟩ := Int.eq_ofNat_of_zero_le (show (0 : ℤ) ≤ state.zenith_nbreaks by omega)
  obtain ⟨b1, b23, rfl, hb1, hb23⟩ := list_split_at b (2 * ns) (8 + 2 * nz) (by omega)
  obtain ⟨b2, b3, rfl, hb2, hb3⟩ := list_split_at b23 8 (2 * nz) hb23
  obtain ⟨e1, l1⟩ := read_records_append L.ushort_value sizeof_unsigned_short state.sun_nbreaks
    "Error reading sky model data: sun_coefs" b1 (b2 ++ b3 ++ s)
    (by rw [sizeof_unsigned_short]; push_cast; omega) (by decide)
  have e2 := read_double_field_append L (fun _ => False)
    "Error reading sky model data: zenith_scale" b2 (b3 ++ s) hb2 (fun h => h)
  obtain ⟨e3, l3⟩ := read_records_append L.ushort_value sizeof_unsigned_short
    state.zenith_nbreaks "Error reading sky model data: zenith_coefs" b3 s
    (by rw [sizeof_unsigned_short]; push_cast; omega) (by decide)
  obtain ⟨d1, hc1, hl1, _⟩ := compute_pp_coefs_segments state.sun_nbreaks state.sun_breaks
    ((fread sizeof_unsigned_short state.sun_nbreaks.toNat b1).1.map L.ushort_value) d o 1 hs
    (by omega) (by omega) ho (by omega)
  obtain ⟨d2, hc2, hl2, _⟩ := compute_pp_coefs_segments state.zenith_nbreaks
    state.zenith_breaks
    ((fread sizeof_unsigned_short state.zenith_nbreaks.toNat b3).1.map L.ushort_value) d1
    (o + 2 * (state.sun_nbreaks - 1)) (L.double_value b2) hz (by omega) (by omega) (by omega)
    (by omega)
  refine ⟨d2, ?_, by rw [hl2, hl1]⟩
  unfold arpragueskymodelground_read_radiance_component
  simp only [List.append_assoc] at e1 ⊢
  simp only [bind, Except.bind, e1, hc1, defined_or_abort_some, e2, e3, hc2]
  refine congrArg Except.ok (Prod.ext rfl (Prod.ext rfl ?_))
  simp only
  ring

theorem defined_or_abort_undefined {α : Type} (x : Option α) :
    defined_or_abort x = Except.error Abort.undefined ↔ x = none := by
  cases x <;> simp [defined_or_abort]

theorem except_ok_ne_undefined {α : Type} (a : α) :
    (Except.ok a : Except Abort α) ≠ Except.error Abort.undefined := by
  intro h; cases h

theorem read_radiance_component_defined (L : ScalarLayout)
    (state : ArPragueSkyModelGroundState) (x : List Byte) (d : List ℚ) (o : Int)
    (hs : 2 ≤ state.sun_nbreaks) (hsb : (state.sun_breaks.length : ℤ) = state.sun_nbreaks)
    (hz : 2 ≤ state.zenith_nbreaks)
    (hzb : (state.zenith_breaks.length : ℤ) = state.zenith_nbreaks)
    (ho : 0 ≤ o)
    (hd : o + (2 * state.sun_nbreaks - 2) + (2 * state.zenith_nbreaks - 2) ≤ d.length) :
    arpragueskymodelground_read_radiance_component L state (x, d, o) ≠
      Except.error Abort.undefined := by
  intro h
  unfold arpragueskymodelground_read_radiance_component at h
  simp only [except_bind_undefined, defined_or_abort_undefined, defined_or_abort_ok] at h
  rcases h with h | ⟨⟨sun_coefs, rest1⟩, h1, h⟩
  · exact read_records_defined _ _ _ _ _ (by omega) h
  obtain ⟨_, _, _, hl1⟩ := read_records_ok _ _ _ _ _ _ _ h1
  obtain ⟨d1, hc1, hdl1, _⟩ := compute_pp_coefs_segments state.sun_nbreaks state.sun_breaks
    sun_coefs d o 1 hs (by omega) (by omega) ho (by omega)
  rcases h with h | ⟨⟨dataset1, n1⟩, h2, h⟩
  · simp only at h
    rw [hc1] at h
    cases h
  simp only at h2
  rw [hc1] at h2
  simp only [Option.some.injEq, Prod.mk.injEq] at h2
  obtain ⟨rfl, rfl⟩ := h2
  rcases h with h | ⟨⟨zenith_scale, rest2⟩, h3, h⟩
  · exact read_double_field_defined _ _ _ _ h
  rcases h with h | ⟨⟨zenith_coefs, rest3⟩, h4, h⟩
  · exact read_records_defined _ _ _ _ _ (by omega) h
  obtain ⟨_, _, _, hl3⟩ := read_records_ok _ _ _ _ _ _ _ h4
  obtain ⟨d2, hc2, _, _⟩ := compute_pp_coefs_segments state.zenith_nbreaks state.zenith_breaks
    zenith_coefs d1 (o + 2 * (state.sun_nbreaks - 1)) zenith_scale hz (by omega) (by omega)
    (by omega) (by omega)
  rcases h with h | ⟨⟨dataset2, n2⟩, _, h⟩
  · simp only at h
    rw [hc2] at h
    cases h
  · exact except_ok_ne_undefined _ h

theorem read_radiance_components_loop_succ (L : ScalarLayout)
    (state : ArPragueSkyModelGroundState) (n : Nat) (s : List Byte × List ℚ × Int) :
    arpragueskymodelground_read_radiance_components_loop L state (n + 1) s =
      (arpragueskymodelground_read_radiance_component L state s >>=
        arpragueskymodelground_read_radiance_components_loop L state n) := rfl

theorem read_radiance_components_loop_ok (L : ScalarLayout)
    (state : ArPragueSkyModelGroundState) : ∀ (n : Nat) (s s1 : List Byte × List ℚ × Int),
    arpragueskymodelground_read_radiance_components_loop L state n s = Except.ok s1 →
    ∃ b, (b.length : ℤ) = n * (2 * state.sun_nbreaks + 8 + 2 * state.zenith_nbreaks) ∧
      s.1 = b ++ s1.1 ∧ s1.2.1.length = s.2.1.length ∧
      s1.2.2 = s.2.2 + n * ((2 * state.sun_nbreaks - 2) + (2 * state.zenith_nbreaks - 2)) := by
  intro n
  induction n with
  | zero =>
    intro s s1 h
    cases h
    exact ⟨[], by simp, by simp, rfl, by simp⟩
  | succ n ih =>
    intro s s1 h
    rw [read_radiance_components_loop_succ, except_bind_ok] at h
    obtain ⟨s2, h1, h2⟩ := h
    obtain ⟨b1, hb1, hs1, hl1, ho1, _⟩ := read_radiance_component_ok L state s s2 h1
    obtain ⟨b2, hb2, hs2, hl2, ho2⟩ := ih s2 s1 h2
    refine ⟨b1 ++ b2, ?_, ?_, ?_, ?_⟩
    · rw [List.length_append]; push_cast; rw [hb1, hb2]; ring
    · rw [List.append_assoc, ← hs2, hs1]
    · rw [hl2, hl1]
    · rw [ho2, ho1]; push_cast; ring

theorem read_radiance_components_loop_append (L : ScalarLayout)
    (state : ArPragueSkyModelGroundState)
    (hs : 2 ≤ state.sun_nbreaks) (hsb : (state.sun_breaks.length : ℤ) = state.sun_nbreaks)
    (hz : 2 ≤ state.zenith_nbreaks)
    (hzb : (state.zenith_breaks.length : ℤ) = state.zenith_nbreaks) :
    ∀ (n : Nat) (b s : List Byte) (d : List ℚ) (o : Int),
    (b.length : ℤ) = n * (2 * state.sun_nbreaks + 8 + 2 * state.zenith_nbreaks) → 0 ≤ o →
    o + n * ((2 * state.sun_nbreaks - 2) + (2 * state.zenith_nbreaks - 2)) ≤ d.length →
    ∃ d1, arpragueskymodelground_read_radiance_components_loop L state n (b ++ s, d, o) =
        Except.ok (s, d1,
          o + n * ((2 * state.sun_nbreaks - 2) + (2 * state.zenith_nbreaks - 2))) ∧
      d1.length = d.length := by
  intro n
  induction n with
  | zero =>
    intro b s d o hb _ _
    have hb0 : b = [] := List.length_eq_zero.mp (by simpa using hb)
    subst hb0
    exact ⟨d, by simp [arpragueskymodelground_read_radiance_components_loop], rfl⟩
  | succ n ih =>
    intro b s d o hb ho hd
    obtain ⟨ns, hns⟩ := Int.eq_ofNat_of_zero_le (show (0 : ℤ) ≤ state.sun_nbreaks by omega)
    obtain ⟨nz, hnz⟩ := Int.eq_ofNat_of_zero_le (show (0 : ℤ) ≤ state.zenith_nbreaks by omega)
    have hbn : b.length = (2 * ns + 8 + 2 * nz) + n * (2 * ns + 8 + 2 * nz) := by
      have : (b.length : ℤ) = ((2 * ns + 8 + 2 * nz) + n * (2 * ns + 8 + 2 * nz) : ℕ) := by
        rw [hb, hns, hnz]; push_cast; ring
      exact_mod_cast this
    obtain ⟨b1, b2, rfl, hb1, hb2⟩ := list_split_at b _ _ hbn
    have hstep : (0 : ℤ) ≤ (n : ℤ) * ((2 * state.sun_nbreaks - 2) +
        (2 * state.zenith_nbreaks - 2)) := by
      apply mul_nonneg (Int.natCast_nonneg n); omega
    push_cast at hd
    obtain ⟨d1, h1, hl1⟩ := read_radiance_component_append L state b1 (b2 ++ s) d o hs hsb hz hzb
      (by rw [hb1, hns, hnz]; push_cast; ring) ho (by linarith)
    obtain ⟨d2, h2, hl2⟩ := ih b2 s d1
      (o + (2 * state.sun_nbreaks - 2) + (2 * state.zenith_nbreaks - 2))
      (by rw [hb2, hns, hnz]; push_cast; ring) (by omega) (by rw [hl1]; linarith)
    refine ⟨d2, ?_, by rw [hl2, hl1]⟩
    rw [read_radiance_components_loop_succ, List.append_assoc, h1]
    simp only [bind, Except.bind]
    rw [h2]
    refine congrArg Except.ok (Prod.ext rfl (Prod.ext rfl ?_))
    simp only
    push_cast
    ring

theorem read_radiance_components_loop_defined (L : ScalarLayout)
    (state : ArPragueSkyModelGroundState)
    (hs : 2 ≤ state.sun_nbreaks) (hsb : (state.sun_breaks.length : ℤ) = state.sun_nbreaks)
    (hz : 2 ≤ state.zenith_nbreaks)
    (hzb : (state.zenith_breaks.length : ℤ) = state.zenith_nbreaks) :
    ∀ (n : Nat) (x : List Byte) (d : List ℚ) (o : Int), 0 ≤ o →
    o + n * ((2 * state.sun_nbreaks - 2) + (2 * state.zenith_nbreaks - 2)) ≤ d.length →
    arpragueskymodelground_read_radiance_components_loop L state n (x, d, o) ≠
      Except.error Abort.undefined := by
  intro n
  induction n with
  | zero =>
    intro x d o _ _ h
    cases h
  | succ n ih =>
    intro x d o ho hd h
    have hstep : (0 : ℤ) ≤ (n : ℤ) * ((2 * state.sun_nbreaks - 2) +
        (2 * state.zenith_nbreaks - 2)) := by
      apply mul_nonneg (Int.natCast_nonneg n); omega
    push_cast at hd
    rw [read_radiance_components_loop_succ, except_bind_undefined] at h
    rcases h with h | ⟨s2, h1, h2⟩
    · exact read_radiance_component_defined L state x d o hs hsb hz hzb ho (by linarith) h
    · obtain ⟨_, _, _, hl, ho2, _⟩ := read_radiance_component_ok L state _ s2 h1
      simp only at hl ho2
      refine ih s2.1 s2.2.1 s2.2.2 (by omega) ?_ h2
      rw [hl, ho2]
      linarith

theorem read_radiance_components_loop_split (L : ScalarLayout)
    (state : ArPragueSkyModelGroundState) : ∀ (k m : Nat) (s : List Byte × List ℚ × Int),
    arpragueskymodelground_read_radiance_components_loop L state (k + m) s =
      (arpragueskymodelground_read_radiance_components_loop L state k s >>=
        arpragueskymodelground_read_radiance_components_loop L state m) := by
  intro k
  induction k with
  | zero =>
    intro m s
    rw [Nat.zero_add]
    rfl
  | succ k ih =>
    intro m s
    rw [show k + 1 + m = (k + m) + 1 by ring, read_radiance_components_loop_succ,
      read_radiance_components_loop_succ]
    cases h : arpragueskymodelground_read_radiance_component L state s with
    | error e => rfl
    | ok s1 =>
      simp only [bind, Except.bind]
      exact ih m s1

theorem read_radiance_config_ok (L : ScalarLayout) (state : ArPragueSkyModelGroundState)
    (s s1 : List Byte × List ℚ × Int)
    (h : arpragueskymodelground_read_radiance_config L state s = Except.ok s1) :
    ∃ b, (b.length : ℤ) = state.tensor_components.toNat *
          (2 * state.sun_nbreaks + 8 + 2 * state.zenith_nbreaks) + 2 * state.emph_nbreaks ∧
      s.1 = b ++ s1.1 ∧ s1.2.1.length = s.2.1.length ∧
      s1.2.2 = s.2.2 + state.tensor_components.toNat *
          ((2 * state.sun_nbreaks - 2) + (2 * state.zenith_nbreaks - 2)) +
        (2 * state.emph_nbreaks - 2) ∧
      ∃ s2 emph_coefs,
        arpragueskymodelground_read_radiance_components_loop L state
          state.tensor_components.toNat s = Except.ok s2 ∧
        read_records L.ushort_value sizeof_unsigned_short state.emph_nbreaks
          "Error reading sky model data: emph_coefs" s2.1 = Except.ok (emph_coefs, s1.1) ∧
        arpragueskymodelground_compute_pp_coefs_from_half state.emph_nbreaks state.emph_breaks
          emph_coefs s2.2.1 (s.2.2 + state.tensor_components.toNat *
            ((2 * state.sun_nbreaks - 2) + (2 * state.zenith_nbreaks - 2))) 1 =
          some (s1.2.1, 2 * state.emph_nbreaks - 2) := by
  unfold arpragueskymodelground_read_radiance_config at h
  simp only [except_bind_ok, defined_or_abort_ok] at h
  obtain ⟨s2, h1, ⟨emph_coefs, rest1⟩, h2, ⟨dataset1, n1⟩, h3, h4⟩ := h
  simp only [Except.ok.injEq] at h4
  subst h4
  obtain ⟨hn1, hl1⟩ := compute_pp_coefs_some _ _ _ _ _ _ _ h3
  simp only at hn1 hl1 h2 h3
  subst hn1
  obtain ⟨b1, hb1, hs1, hdl, ho⟩ := read_radiance_components_loop_ok L state _ s s2 h1
  obtain ⟨b2, hb2, hs2, _, _⟩ := read_records_ok _ _ _ _ _ _ _ h2
  rw [ho] at h3
  refine ⟨b1 ++ b2, ?_, ?_, ?_, ?_, s2, emph_coefs, h1, h2, h3⟩
  · rw [List.length_append]; push_cast; rw [hb1, hb2, sizeof_unsigned_short]; push_cast; ring
  · rw [List.append_assoc, hs1, hs2]
  · simp only
    rw [hl1, hdl]
  · simp only
    rw [ho]

theorem read_radiance_config_append (L : ScalarLayout) (state : ArPragueSkyModelGroundState)
    (b s : List Byte) (d : List ℚ) (o : Int)
    (hs : 2 ≤ state.sun_nbreaks) (hsb : (state.sun_breaks.length : ℤ) = state.sun_nbreaks)
    (hz : 2 ≤ state.zenith_nbreaks)
    (hzb : (state.zenith_breaks.length : ℤ) = state.zenith_nbreaks)
    (he : 2 ≤ state.emph_nbreaks) (heb : (state.emph_breaks.length : ℤ) = state.emph_nbreaks)
    (hb : (b.length : ℤ) = state.tensor_components.toNat *
      (2 * state.sun_nbreaks + 8 + 2 * state.zenith_nbreaks) + 2 * state.emph_nbreaks)
    (ho : 0 ≤ o)
    (hd : o + state.tensor_components.toNat *
        ((2 * state.sun_nbreaks - 2) + (2 * state.zenith_nbreaks - 2)) +
      (2 * state.emph_nbreaks - 2) ≤ d.length) :
    ∃ d1, arpragueskymodelground_read_radiance_config L state (b ++ s, d, o) =
        Except.ok (s, d1, o + state.tensor_components.toNat *
          ((2 * state.sun_nbreaks - 2) + (2 * state.zenith_nbreaks - 2)) +
          (2 * state.emph_nbreaks - 2)) ∧
      d1.length = d.length := by
  obtain ⟨ns, hns⟩ := Int.eq_ofNat_of_zero_le (show (0 : ℤ) ≤ state.sun_nbreaks by omega)
  obtain ⟨nz, hnz⟩ := Int.eq_ofNat_of_zero_le (show (0 : ℤ) ≤ state.zenith_nbreaks by omega)
  obtain ⟨ne, hne⟩ := Int.eq_ofNat_of_zero_le (show (0 : ℤ) ≤ state.emph_nbreaks by omega)
  have hbn : b.length = state.tensor_components.toNat * (2 * ns + 8 + 2 * nz) + 2 * ne := by
    have : (b.length : ℤ) =
        ((state.tensor_components.toNat * (2 * ns + 8 + 2 * nz) + 2 * ne : ℕ) : ℤ) := by
      rw [hb, hns, hnz, hne]; push_cast; ring
    exact_mod_cast this
  obtain ⟨b1, b2, rfl, hb1, hb2⟩ := list_split_at b _ _ hbn
  have hstep : (0 : ℤ) ≤ (state.tensor_components.toNat : ℤ) *
      ((2 * state.sun_nbreaks - 2) + (2 * state.zenith_nbreaks - 2)) := by
    apply mul_nonneg (Int.natCast_nonneg _); omega
  obtain ⟨d1, h1, hl1⟩ := read_radiance_components_loop_append L state hs hsb hz hzb
    state.tensor_components.toNat b1 (b2 ++ s) d o
    (by rw [hb1, hns, hnz]; push_cast; ring) ho (by linarith)
  obtain ⟨e2, l2⟩ := read_records_append L.ushort_value sizeof_unsigned_short state.emph_nbreaks
    "Error reading sky model data: emph_coefs" b2 s
    (by rw [sizeof_unsigned_short, hb2, hne]; push_cast; ring) (by decide)
  obtain ⟨d2, hc2, hl2, _⟩ := compute_pp_coefs_segments state.emph_nbreaks state.emph_breaks
    ((fread sizeof_unsigned_short state.emph_nbreaks.toNat b2).1.map L.ushort_value) d1
    (o + state.tensor_components.toNat *
      ((2 * state.sun_nbreaks - 2) + (2 * state.zenith_nbreaks - 2))) 1 he
    (by omega) (by omega) (by linarith) (by rw [hl1]; linarith)
  refine ⟨d2, ?_, by rw [hl2, hl1]⟩
  unfold arpragueskymodelground_read_radiance_config
  rw [List.append_assoc, h1]
  simp only [bind, Except.bind, e2, hc2, defined_or_abort_some]
  refine congrArg Except.ok (Prod.ext rfl (Prod.ext rfl ?_))
  simp only
  ring

theorem read_radiance_config_defined (L : ScalarLayout) (state : ArPragueSkyModelGroundState)
    (x : List Byte) (d : List ℚ) (o : Int)
    (hs : 2 ≤ state.sun_nbreaks) (hsb : (state.sun_breaks.length : ℤ) = state.sun_nbreaks)
    (hz : 2 ≤ state.zenith_nbreaks)
    (hzb : (state.zenith_breaks.length : ℤ) = state.zenith_nbreaks)
    (he : 2 ≤ state.emph_nbreaks) (heb : (state.emph_breaks.length : ℤ) = state.emph_nbreaks)
    (ho : 0 ≤ o)
    (hd : o + state.tensor_components.toNat *
        ((2 * state.sun_nbreaks - 2) + (2 * state.zenith_nbreaks - 2)) +
      (2 * state.emph_nbreaks - 2) ≤ d.length) :
    arpragueskymodelground_read_radiance_config L state (x, d, o) ≠
      Except.error Abort.undefined := by
  intro h
  have hstep : (0 : ℤ) ≤ (state.tensor_components.toNat : ℤ) *
      ((2 * state.sun_nbreaks - 2) + (2 * state.zenith_nbreaks - 2)) := by
    apply mul_nonneg (Int.natCast_nonneg _); omega
  unfold arpragueskymodelground_read_radiance_config at h
  simp only [except_bind_undefined, defined_or_abort_undefined, defined_or_abort_ok] at h
  rcases h with h | ⟨s2, h1, h⟩
  · exact read_radiance_components_loop_defined L state hs hsb hz hzb _ x d o ho
      (by linarith) h
  obtain ⟨_, _, _, hl, ho2⟩ := read_radiance_components_loop_ok L state _ _ s2 h1
  simp only at hl ho2
  rcases h with h | ⟨⟨emph_coefs, rest1⟩, h2, h⟩
  · exact read_records_defined _ _ _ _ _ (by omega) h
  obtain ⟨_, _, _, hl3⟩ := read_records_ok _ _ _ _ _ _ _ h2
  obtain ⟨d2, hc2, _, _⟩ := compute_pp_coefs_segments state.emph_nbreaks state.emph_breaks
    emph_coefs s2.2.1 s2.2.2 1 he (by omega) (by omega) (by rw [ho2]; linarith)
    (by rw [hl, ho2]; linarith)
  rcases h with h | ⟨⟨dataset2, n2⟩, _, h⟩
  · simp only at h
    rw [hc2] at h
    cases h
  · exact except_ok_ne_undefined _ h

theorem read_radiance_configs_loop_succ (L : ScalarLayout)
    (state : ArPragueSkyModelGroundState) (n : Nat) (s : List Byte × List ℚ × Int) :
    arpragueskymodelground_read_radiance_configs_loop L state (n + 1) s =
      (arpragueskymodelground_read_radiance_config L state s >>=
        arpragueskymodelground_read_radiance_configs_loop L state n) := rfl

theorem read_radiance_configs_loop_ok (L : ScalarLayout)
    (state : ArPragueSkyModelGroundState) : ∀ (n : Nat) (s s1 : List Byte × List ℚ × Int),
    arpragueskymodelground_read_radiance_configs_loop L state n s = Except.ok s1 →
    ∃ b, (b.length : ℤ) = n * (state.tensor_components.toNat *
          (2 * state.sun_nbreaks + 8 + 2 * state.zenith_nbreaks) + 2 * state.emph_nbreaks) ∧
      s.1 = b ++ s1.1 ∧ s1.2.1.length = s.2.1.length ∧
      s1.2.2 = s.2.2 + n * (state.tensor_components.toNat *
          ((2 * state.sun_nbreaks - 2) + (2 * state.zenith_nbreaks - 2)) +
        (2 * state.emph_nbreaks - 2)) := by
  intro n
  induction n with
  | zero =>
    intro s s1 h
    cases h
    exact ⟨[], by simp, by simp, rfl, by simp⟩
  | succ n ih =>
    intro s s1 h
    rw [read_radiance_configs_loop_succ, except_bind_ok] at h
    obtain ⟨s2, h1, h2⟩ := h
    obtain ⟨b1, hb1, hs1, hl1, ho1, _⟩ := read_radiance_config_ok L state s s2 h1
    obtain ⟨b2, hb2, hs2, hl2, ho2⟩ := ih s2 s1 h2
    refine ⟨b1 ++ b2, ?_, ?_, ?_, ?_⟩
    · rw [List.length_append]; push_cast; rw [hb1, hb2]; ring
    · rw [List.append_assoc, ← hs2, hs1]
    · rw [hl2, hl1]
    · rw [ho2, ho1]; push_cast; ring

theorem read_radiance_configs_loop_append (L : ScalarLayout)
    (state : ArPragueSkyModelGroundState)
    (hs : 2 ≤ state.sun_nbreaks) (hsb : (state.sun_breaks.length : ℤ) = state.sun_nbreaks)
    (hz : 2 ≤ state.zenith_nbreaks)
    (hzb : (state.zenith_breaks.length : ℤ) = state.zenith_nbreaks)
    (he : 2 ≤ state.emph_nbreaks)
    (heb : (state.emph_breaks.length : ℤ) = state.emph_nbreaks) :
    ∀ (n : Nat) (b s : List Byte) (d : List ℚ) (o : Int),
    (b.length : ℤ) = n * (state.tensor_components.toNat *
      (2 * state.sun_nbreaks + 8 + 2 * state.zenith_nbreaks) + 2 * state.emph_nbreaks) →
    0 ≤ o →
    o + n * (state.tensor_components.toNat *
        ((2 * state.sun_nbreaks - 2) + (2 * state.zenith_nbreaks - 2)) +
      (2 * state.emph_nbreaks - 2)) ≤ d.length →
    ∃ d1, arpragueskymodelground_read_radiance_configs_loop L state n (b ++ s, d, o) =
        Except.ok (s, d1, o + n * (state.tensor_components.toNat *
          ((2 * state.sun_nbreaks - 2) + (2 * state.zenith_nbreaks - 2)) +
          (2 * state.emph_nbreaks - 2))) ∧
      d1.length = d.length := by
  intro n
  induction n with
  | zero =>
    intro b s d o hb _ _
    have hb0 : b = [] := List.length_eq_zero.mp (by simpa using hb)
    subst hb0
    exact ⟨d, by simp [arpragueskymodelground_read_radiance_configs_loop], rfl⟩
  | succ n ih =>
    intro b s d o hb ho hd
    obtain ⟨ns, hns⟩ := Int.eq_ofNat_of_zero_le (show (0 : ℤ) ≤ state.sun_nbreaks by omega)
    obtain ⟨nz, hnz⟩ := Int.eq_ofNat_of_zero_le (show (0 : ℤ) ≤ state.zenith_nbreaks by omega)
    obtain ⟨ne, hne⟩ := Int.eq_ofNat_of_zero_le (show (0 : ℤ) ≤ state.emph_nbreaks by omega)
    have hbn : b.length =
        (state.tensor_components.toNat * (2 * ns + 8 + 2 * nz) + 2 * ne) +
          n * (state.tensor_components.toNat * (2 * ns + 8 + 2 * nz) + 2 * ne) := by
      have : (b.length : ℤ) =
          (((state.tensor_components.toNat * (2 * ns + 8 + 2 * nz) + 2 * ne) +
            n * (state.tensor_components.toNat * (2 * ns + 8 + 2 * nz) + 2 * ne) : ℕ) : ℤ) := by
        rw [hb, hns, hnz, hne]; push_cast; ring
      exact_mod_cast this
    obtain ⟨b1, b2, rfl, hb1, hb2⟩ := list_split_at b _ _ hbn
    have hone : (0 : ℤ) ≤ (state.tensor_components.toNat : ℤ) *
        ((2 * state.sun_nbreaks - 2) + (2 * state.zenith_nbreaks - 2)) +
        (2 * state.emph_nbreaks - 2) := by
      have : (0 : ℤ) ≤ (state.tensor_components.toNat : ℤ) *
          ((2 * state.sun_nbreaks - 2) + (2 * state.zenith_nbreaks - 2)) := by
        apply mul_nonneg (Int.natCast_nonneg _); omega
      omega
    have hstep : (0 : ℤ) ≤ (n : ℤ) * ((state.tensor_components.toNat : ℤ) *
        ((2 * state.sun_nbreaks - 2) + (2 * state.zenith_nbreaks - 2)) +
        (2 * state.emph_nbreaks - 2)) := mul_nonneg (Int.natCast_nonneg n) hone
    push_cast at hd
    obtain ⟨d1, h1, hl1⟩ := read_radiance_config_append L state b1 (b2 ++ s) d o hs hsb hz hzb
      he heb (by rw [hb1, hns, hnz, hne]; push_cast; ring) ho (by linarith)
    obtain ⟨d2, h2, hl2⟩ := ih b2 s d1
      (o + state.tensor_components.toNat *
        ((2 * state.sun_nbreaks - 2) + (2 * state.zenith_nbreaks - 2)) +
        (2 * state.emph_nbreaks - 2))
      (by rw [hb2, hns, hnz, hne]; push_cast; ring) (by linarith) (by rw [hl1]; linarith)
    refine ⟨d2, ?_, by rw [hl2, hl1]⟩
    rw [read_radiance_configs_loop_succ, List.append_assoc, h1]
    simp only [bind, Except.bind]
    rw [h2]
    refine congrArg Except.ok (Prod.ext rfl (Prod.ext rfl ?_))
    simp only
    push_cast
    ring

theorem read_radiance_configs_loop_defined (L : ScalarLayout)
    (state : ArPragueSkyModelGroundState)
    (hs : 2 ≤ state.sun_nbreaks) (hsb : (state.sun_breaks.length : ℤ) = state.sun_nbreaks)
    (hz : 2 ≤ state.zenith_nbreaks)
    (hzb : (state.zenith_breaks.length : ℤ) = state.zenith_nbreaks)
    (he : 2 ≤ state.emph_nbreaks)
    (heb : (state.emph_breaks.length : ℤ) = state.emph_nbreaks) :
    ∀ (n : Nat) (x : List Byte) (d : List ℚ) (o : Int), 0 ≤ o →
    o + n * (state.tensor_components.toNat *
        ((2 * state.sun_nbreaks - 2) + (2 * state.zenith_nbreaks - 2)) +
      (2 * state.emph_nbreaks - 2)) ≤ d.length →
    arpragueskymodelground_read_radiance_configs_loop L state n (x, d, o) ≠
      Except.error Abort.undefined := by
  intro n
  induction n with
  | zero =>
    intro x d o _ _ h
    cases h
  | succ n ih =>
    intro x d o ho hd h
    have hone : (0 : ℤ) ≤ (state.tensor_components.toNat : ℤ) *
        ((2 * state.sun_nbreaks - 2) + (2 * state.zenith_nbreaks - 2)) +
        (2 * state.emph_nbreaks - 2) := by
      have : (0 : ℤ) ≤ (state.tensor_components.toNat : ℤ) *
          ((2 * state.sun_nbreaks - 2) + (2 * state.zenith_nbreaks - 2)) := by
        apply mul_nonneg (Int.natCast_nonneg _); omega
      omega
    have hstep : (0 : ℤ) ≤ (n : ℤ) * ((state.tensor_components.toNat : ℤ) *
        ((2 * state.sun_nbreaks - 2) + (2 * state.zenith_nbreaks - 2)) +
        (2 * state.emph_nbreaks - 2)) := mul_nonneg (Int.natCast_nonneg n) hone
    push_cast at hd
    rw [read_radiance_configs_loop_succ, except_bind_undefined] at h
    rcases h with h | ⟨s2, h1, h2⟩
    · exact read_radiance_config_defined L state x d o hs hsb hz hzb he heb ho (by linarith) h
    · obtain ⟨_, _, _, hl, ho2, _⟩ := read_radiance_config_ok L state _ s2 h1
      simp only at hl ho2
      refine ih s2.1 s2.2.1 s2.2.2 (by rw [ho2]; linarith) ?_ h2
      rw [hl, ho2]
      linarith

theorem read_radiance_configs_loop_split (L : ScalarLayout)
    (state : ArPragueSkyModelGroundState) : ∀ (k m : Nat) (s : List Byte × List ℚ × Int),
    arpragueskymodelground_read_radiance_configs_loop L state (k + m) s =
      (arpragueskymodelground_read_radiance_configs_loop L state k s >>=
        arpragueskymodelground_read_radiance_configs_loop L state m) := by
  intro k
  induction k with
  | zero =>
    intro m s
    rw [Nat.zero_add]
    rfl
  | succ k ih =>
    intro m s
    rw [show k + 1 + m = (k + m) + 1 by ring, read_radiance_configs_loop_succ,
      read_radiance_configs_loop_succ]
    cases h : arpragueskymodelground_read_radiance_config L state s with
    | error e => rfl
    | ok s1 =>
      simp only [bind, Except.bind]
      exact ih m s1

/-! ## The loader: the metadata part -/

theorem read_records_append_eq {α : Type} (value : List Byte → α) (size : Nat) (count : Int)
    (message : String) (b s : List Byte) (hb : (b.length : ℤ) = size * count)
    (hsize : 0 < size) :
    read_records value size count message (b ++ s) =
      Except.ok (records_of value size count b, s) :=
  (read_records_append value size count message b s hb hsize).1

theorem records_of_length {α : Type} (value : List Byte → α) (size : Nat) (count : Int)
    (b : List Byte) (hb : (b.length : ℤ) = size * count) (hsize : 0 < size) :
    ((records_of value size count b).length : ℤ) = count :=
  (read_records_append value size count "" b [] hb hsize).2

theorem read_radiance_metadata_append (L : ScalarLayout)
    (state : ArPragueSkyModelGroundState) (f : RadianceMetadataBytes) (s : List Byte)
    (h : f.well_formed L) :
    arpragueskymodelground_read_radiance_metadata L state (f.bytes ++ s) =
      Except.ok (f.state L state, s) := by
  obtain ⟨⟨a1, a2⟩, a3, ⟨a4, a5⟩, a6, ⟨a7, a8⟩, a9, ⟨a10, a11⟩, a12, ⟨a13, a14⟩, ⟨a15, a16⟩,
    ⟨a17, a18⟩, ⟨a19, a20⟩, ⟨a21, a22⟩, a23, ⟨a24, a25⟩, a26, ⟨a27, a28⟩, a29⟩ := h
  have e1 := fun t => read_int_field_append L 1 "Error reading sky model data: visibilities"
    f.visibilities t a1 a2
  have e2 := fun t => read_records_append_eq L.double_value sizeof_double
    (L.int_value f.visibilities) "Error reading sky model data: visibility_vals"
    f.visibility_vals t a3 (by decide)
  have e3 := fun t => read_int_field_append L 1 "Error reading sky model data: albedos"
    f.albedos t a4 a5
  have e4 := fun t => read_records_append_eq L.double_value sizeof_double
    (L.int_value f.albedos) "Error reading sky model data: albedo_vals"
    f.albedo_vals t a6 (by decide)
  have e5 := fun t => read_int_field_append L 1 "Error reading sky model data: altitudes"
    f.altitudes t a7 a8
  have e6 := fun t => read_records_append_eq L.double_value sizeof_double
    (L.int_value f.altitudes) "Error reading sky model data: altitude_vals"
    f.altitude_vals t a9 (by decide)
  have e7 := fun t => read_int_field_append L 1 "Error reading sky model data: elevations"
    f.elevations t a10 a11
  have e8 := fun t => read_records_append_eq L.double_value sizeof_double
    (L.int_value f.elevations) "Error reading sky model data: elevation_vals"
    f.elevation_vals t a12 (by decide)
  have e9 := fun t => read_int_field_append L 1 "Error reading sky model data: channels"
    f.channels t a13 a14
  have e10 := fun t => read_double_field_append L (fun x => x < 0)
    "Error reading sky model data: channel_start" f.channel_start t a15 (not_lt.mpr a16)
  have e11 := fun t => read_double_field_append L (fun x => x ≤ 0)
    "Error reading sky model data: channel_width" f.channel_width t a17 (not_le.mpr a18)
  have e12 := fun t => read_int_field_append L 1
    "Error reading sky model data: tensor_components" f.tensor_components t a19 a20
  have e13 := fun t => read_int_field_append L 2 "Error reading sky model data: sun_nbreaks"
    f.sun_nbreaks t a21 a22
  have e14 := fun t => read_records_append_eq L.double_value sizeof_double
    (L.int_value f.sun_nbreaks) "Error reading sky model data: sun_breaks"
    f.sun_breaks t a23 (by decide)
  have e15 := fun t => read_int_field_append L 2 "Error reading sky model data: zenith_nbreaks"
    f.zenith_nbreaks t a24 a25
  have e16 := fun t => read_records_append_eq L.double_value sizeof_double
    (L.int_value f.zenith_nbreaks) "Error reading sky model data: zenith_breaks"
    f.zenith_breaks t a26 (by decide)
  have e17 := fun t => read_int_field_append L 2 "Error reading sky model data: emph_nbreaks"
    f.emph_nbreaks t a27 a28
  have e18 := fun t => read_records_append_eq L.double_value sizeof_double
    (L.int_value f.emph_nbreaks) "Error reading sky model data: emph_breaks"
    f.emph_breaks t a29 (by decide)
  unfold arpragueskymodelground_read_radiance_metadata RadianceMetadataBytes.bytes
  simp only [List.append_assoc, bind, Except.bind, e1, e2, e3, e4, e5, e6, e7, e8, e9, e10, e11,
    e12, e13, e14, e15, e16, e17, e18]
  rfl

theorem read_int_field_ok_pair (L : ScalarLayout) (minimum : Int) (message : String)
    (s : List Byte) (r : Int × List Byte)
    (h : read_int_field L minimum message s = Except.ok r) :
    ∃ b, b.length = sizeof_int ∧ s = b ++ r.2 ∧ r.1 = L.int_value b ∧
      minimum ≤ L.int_value b := by
  obtain ⟨b, h1, h2, h3, h4⟩ := read_int_field_ok L minimum message s r.1 r.2 h
  exact ⟨b, h1, h2, h3, by rw [← h3]; exact h4⟩

theorem read_double_field_ok_pair (L : ScalarLayout) (rejected : ℚ → Prop)
    [DecidablePred rejected] (message : String) (s : List Byte) (r : ℚ × List Byte)
    (h : read_double_field L rejected message s = Except.ok r) :
    ∃ b, b.length = sizeof_double ∧ s = b ++ r.2 ∧ r.1 = L.double_value b ∧
      ¬ rejected (L.double_value b) := by
  obtain ⟨b, h1, h2, h3, h4⟩ := read_double_field_ok L rejected message s r.1 r.2 h
  exact ⟨b, h1, h2, h3, by rw [← h3]; exact h4⟩

theorem read_records_ok_pair {α : Type} (value : List Byte → α) (size : Nat) (count : Int)
    (message : String) (s : List Byte) (r : List α × List Byte)
    (h : read_records value size count message s = Except.ok r) :
    ∃ b, (b.length : ℤ) = size * count ∧ s = b ++ r.2 ∧ r.1 = records_of value size count b := by
  obtain ⟨b, h1, h2, h3, _⟩ := read_records_ok value size count message s r.1 r.2 h
  exact ⟨b, h1, h2, h3⟩

theorem read_radiance_metadata_ok (L : ScalarLayout) (state : ArPragueSkyModelGroundState)
    (stream : List Byte) (m : ArPragueSkyModelGroundState) (rest : List Byte)
    (h : arpragueskymodelground_read_radiance_metadata L state stream = Except.ok (m, rest)) :
    ∃ f : RadianceMetadataBytes, f.well_formed L ∧ stream = f.bytes ++ rest ∧
      m = f.state L state := by
  unfold arpragueskymodelground_read_radiance_metadata at h
  simp only [except_bind_ok] at h
  obtain ⟨r1, h1, r2, h2, r3, h3, r4, h4, r5, h5, r6, h6, r7, h7, r8, h8, r9, h9, r10, h10,
    r11, h11, r12, h12, r13, h13, r14, h14, r15, h15, r16, h16, r17, h17, r18, h18, hm⟩ := h
  obtain ⟨b1, l1, s1, v1, m1⟩ := read_int_field_ok_pair _ _ _ _ _ h1
  obtain ⟨b2, l2, s2, v2⟩ := read_records_ok_pair _ _ _ _ _ _ h2
  obtain ⟨b3, l3, s3, v3, m3⟩ := read_int_field_ok_pair _ _ _ _ _ h3
  obtain ⟨b4, l4, s4, v4⟩ := read_records_ok_pair _ _ _ _ _ _ h4
  obtain ⟨b5, l5, s5, v5, m5⟩ := read_int_field_ok_pair _ _ _ _ _ h5
  obtain ⟨b6, l6, s6, v6⟩ := read_records_ok_pair _ _ _ _ _ _ h6
  obtain ⟨b7, l7, s7, v7, m7⟩ := read_int_field_ok_pair _ _ _ _ _ h7
  obtain ⟨b8, l8, s8, v8⟩ := read_records_ok_pair _ _ _ _ _ _ h8
  obtain ⟨b9, l9, s9, v9, m9⟩ := read_int_field_ok_pair _ _ _ _ _ h9
  obtain ⟨b10, l10, s10, v10, m10⟩ := read_double_field_ok_pair _ _ _ _ _ h10
  obtain ⟨b11, l11, s11, v11, m11⟩ := read_double_field_ok_pair _ _ _ _ _ h11
  obtain ⟨b12, l12, s12, v12, m12⟩ := read_int_field_ok_pair _ _ _ _ _ h12
  obtain ⟨b13, l13, s13, v13, m13⟩ := read_int_field_ok_pair _ _ _ _ _ h13
  obtain ⟨b14, l14, s14, v14⟩ := read_records_ok_pair _ _ _ _ _ _ h14
  obtain ⟨b15, l15, s15, v15, m15⟩ := read_int_field_ok_pair _ _ _ _ _ h15
  obtain ⟨b16, l16, s16, v16⟩ := read_records_ok_pair _ _ _ _ _ _ h16
  obtain ⟨b17, l17, s17, v17, m17⟩ := read_int_field_ok_pair _ _ _ _ _ h17
  obtain ⟨b18, l18, s18, v18⟩ := read_records_ok_pair _ _ _ _ _ _ h18
  simp only [Except.ok.injEq, Prod.mk.injEq] at hm
  obtain ⟨hm1, hm2⟩ := hm
  rw [v1] at l2 v2
  rw [v3] at l4 v4
  rw [v5] at l6 v6
  rw [v7] at l8 v8
  rw [v13] at l14 v14
  rw [v15] at l16 v16
  rw [v17] at l18 v18
  refine ⟨⟨b1, b2, b3, b4, b5, b6, b7, b8, b9, b10, b11, b12, b13, b14, b15, b16, b17, b18⟩,
    ⟨⟨l1, m1⟩, l2, ⟨l3, m3⟩, l4, ⟨l5, m5⟩, l6, ⟨l7, m7⟩, l8, ⟨l9, m9⟩, ⟨l10, not_lt.mp m10⟩,
      ⟨l11, not_le.mp m11⟩, ⟨l12, m12⟩, ⟨l13, m13⟩, l14, ⟨l15, m15⟩, l16, ⟨l17, m17⟩, l18⟩,
    ?_, ?_⟩
  · simp only [RadianceMetadataBytes.bytes]
    rw [s1, s2, s3, s4, s5, s6, s7, s8, s9, s10, s11, s12, s13, s14, s15, s16, s17, s18, hm2]
    simp only [List.append_assoc]
  · rw [← hm1]
    simp only [RadianceMetadataBytes.state, RadianceMetadataBytes.sun_stride,
      RadianceMetadataBytes.emph_offset, RadianceMetadataBytes.total_coefs_single_config,
      RadianceMetadataBytes.total_configs, v1, v2, v3, v4, v5, v6, v7, v8, v9, v10, v11, v12,
      v13, v14, v15, v16, v17, v18]

/-! ## The loader: the transmittance part -/

theorem read_transmittance_append (L : ScalarLayout) (state : ArPragueSkyModelGroundState)
    (f : TransmittanceBytes) (s : List Byte) (h : f.well_formed L) :
    arpragueskymodelground_read_transmittance L state (f.bytes ++ s) =
      Except.ok (f.state L state, s) := by
  obtain ⟨⟨a1, a2⟩, ⟨a3, a4⟩, ⟨a5, a6⟩, ⟨a7, a8⟩, ⟨a9, a10⟩, a11, a12, a13, a14⟩ := h
  have e1 := fun t => read_int_field_append L 1 "Error reading sky model data: trans_n_d"
    f.trans_n_d t a1 a2
  have e2 := fun t => read_int_field_append L 1 "Error reading sky model data: trans_n_a"
    f.trans_n_a t a3 a4
  have e3 := fun t => read_int_field_append L 1
    "Error reading sky model data: trans_visibilities" f.trans_visibilities t a5 a6
  have e4 := fun t => read_int_field_append L 1 "Error reading sky model data: trans_altitudes"
    f.trans_altitudes t a7 a8
  have e5 := fun t => read_int_field_append L 1 "Error reading sky model data: trans_rank"
    f.trans_rank t a9 a10
  have e6 := fun t => read_records_append_eq L.float_value sizeof_float
    (L.int_value f.trans_altitudes) "Error reading sky model data: transmission_altitudes"
    f.transmission_altitudes t a11 (by decide)
  have e7 := fun t => read_records_append_eq L.float_value sizeof_float
    (L.int_value f.trans_visibilities) "Error reading sky model data: transmission_visibilities"
    f.transmission_visibilities t a12 (by decide)
  have e8 := fun t => read_records_append_eq L.float_value sizeof_float
    (int_wrap (L.int_value f.trans_n_d * L.int_value f.trans_n_a * L.int_value f.trans_rank *
      L.int_value f.trans_altitudes)) "Error reading sky model data: transmission_dataset_U"
    f.transmission_dataset_U t a13 (by decide)
  have e9 := fun t => read_records_append_eq L.float_value sizeof_float
    (int_wrap (L.int_value f.trans_visibilities * L.int_value f.trans_rank * 11 *
      L.int_value f.trans_altitudes)) "Error reading sky model data: transmission_dataset_V"
    f.transmission_dataset_V t a14 (by decide)
  unfold arpragueskymodelground_read_transmittance TransmittanceBytes.bytes
  simp only [List.append_assoc, bind, Except.bind, e1, e2, e3, e4, e5, e6, e7, e8, e9]
  rfl

theorem read_transmittance_ok (L : ScalarLayout) (state : ArPragueSkyModelGroundState)
    (stream : List Byte) (m : ArPragueSkyModelGroundState) (rest : List Byte)
    (h : arpragueskymodelground_read_transmittance L state stream = Except.ok (m, rest)) :
    ∃ f : TransmittanceBytes, f.well_formed L ∧ stream = f.bytes ++ rest ∧
      m = f.state L state := by
  unfold arpragueskymodelground_read_transmittance at h
  simp only [except_bind_ok] at h
  obtain ⟨r1, h1, r2, h2, r3, h3, r4, h4, r5, h5, r6, h6, r7, h7, r8, h8, r9, h9, hm⟩ := h
  obtain ⟨b1, l1, s1, v1, m1⟩ := read_int_field_ok_pair _ _ _ _ _ h1
  obtain ⟨b2, l2, s2, v2, m2⟩ := read_int_field_ok_pair _ _ _ _ _ h2
  obtain ⟨b3, l3, s3, v3, m3⟩ := read_int_field_ok_pair _ _ _ _ _ h3
  obtain ⟨b4, l4, s4, v4, m4⟩ := read_int_field_ok_pair _ _ _ _ _ h4
  obtain ⟨b5, l5, s5, v5, m5⟩ := read_int_field_ok_pair _ _ _ _ _ h5
  obtain ⟨b6, l6, s6, v6⟩ := read_records_ok_pair _ _ _ _ _ _ h6
  obtain ⟨b7, l7, s7, v7⟩ := read_records_ok_pair _ _ _ _ _ _ h7
  obtain ⟨b8, l8, s8, v8⟩ := read_records_ok_pair _ _ _ _ _ _ h8
  obtain ⟨b9, l9, s9, v9⟩ := read_records_ok_pair _ _ _ _ _ _ h9
  simp only [Except.ok.injEq, Prod.mk.injEq] at hm
  obtain ⟨hm1, hm2⟩ := hm
  rw [v4] at l6 v6
  rw [v3] at l7 v7
  rw [v1, v2, v5, v4] at l8 v8
  rw [v3, v5, v4] at l9 v9
  refine ⟨⟨b1, b2, b3, b4, b5, b6, b7, b8, b9⟩,
    ⟨⟨l1, m1⟩, ⟨l2, m2⟩, ⟨l3, m3⟩, ⟨l4, m4⟩, ⟨l5, m5⟩, l6, l7, l8, l9⟩, ?_, ?_⟩
  · simp only [TransmittanceBytes.bytes]
    rw [s1, s2, s3, s4, s5, s6, s7, s8, s9, hm2]
    simp only [List.append_assoc]
  · rw [← hm1]
    simp only [TransmittanceBytes.state, TransmittanceBytes.total_coefs_U,
      TransmittanceBytes.total_coefs_V, v1, v2, v3, v4, v5, v6, v7, v8, v9]


/-! ## The loader: the radiance part as a whole -/

theorem int_wrap_of_range (x : Int) (h0 : -2 ^ 31 ≤ x) (h1 : x < 2 ^ 31) : int_wrap x = x := by
  unfold int_wrap
  omega

theorem int_wrap_range (x : Int) : -2 ^ 31 ≤ int_wrap x ∧ int_wrap x < 2 ^ 31 := by
  unfold int_wrap
  omega

theorem radiance_metadata_state_facts (L : ScalarLayout) (state : ArPragueSkyModelGroundState)
    (f : RadianceMetadataBytes) (h : f.well_formed L) :
    (2 ≤ (f.state L state).sun_nbreaks ∧
      ((f.state L state).sun_breaks.length : ℤ) = (f.state L state).sun_nbreaks) ∧
    (2 ≤ (f.state L state).zenith_nbreaks ∧
      ((f.state L state).zenith_breaks.length : ℤ) = (f.state L state).zenith_nbreaks) ∧
    (2 ≤ (f.state L state).emph_nbreaks ∧
      ((f.state L state).emph_breaks.length : ℤ) = (f.state L state).emph_nbreaks) ∧
    1 ≤ (f.state L state).tensor_components ∧
    f.coefs_written L = ((f.state L state).total_configs.toNat : ℤ) *
      ((f.state L state).tensor_components.toNat *
        ((2 * (f.state L state).sun_nbreaks - 2) + (2 * (f.state L state).zenith_nbreaks - 2)) +
        (2 * (f.state L state).emph_nbreaks - 2)) ∧
    f.data_size L = ((f.state L state).total_configs.toNat : ℤ) *
      ((f.state L state).tensor_components.toNat *
        (2 * (f.state L state).sun_nbreaks + 8 + 2 * (f.state L state).zenith_nbreaks) +
        2 * (f.state L state).emph_nbreaks) := by
  obtain ⟨⟨a1, a2⟩, a3, ⟨a4, a5⟩, a6, ⟨a7, a8⟩, a9, ⟨a10, a11⟩, a12, ⟨a13, a14⟩, ⟨a15, a16⟩,
    ⟨a17, a18⟩, ⟨a19, a20⟩, ⟨a21, a22⟩, a23, ⟨a24, a25⟩, a26, ⟨a27, a28⟩, a29⟩ := h
  have htc : ((L.int_value f.tensor_components).toNat : ℤ) = L.int_value f.tensor_components :=
    Int.toNat_of_nonneg (by omega)
  simp only [RadianceMetadataBytes.state, RadianceMetadataBytes.data_size,
    RadianceMetadataBytes.coefs_written, htc, sizeof_unsigned_short, sizeof_double]
  refine ⟨⟨a22, records_of_length _ _ _ _ a23 (by decide)⟩,
    ⟨a25, records_of_length _ _ _ _ a26 (by decide)⟩,
    ⟨a28, records_of_length _ _ _ _ a29 (by decide)⟩, a20, ?_, ?_⟩
  · trivial
  · push_cast
    ring

theorem read_radiance_append (L : ScalarLayout) (state : ArPragueSkyModelGroundState)
    (f : RadianceMetadataBytes) (p s : List Byte) (h : f.well_formed L) (hfit : f.fits L)
    (hp : (p.length : ℤ) = f.data_size L) :
    ∃ d, arpragueskymodelground_read_radiance L state (f.bytes ++ (p ++ s)) =
        Except.ok ({ f.state L state with radiance_dataset := d }, s) ∧
      d.length = (f.state L state).total_coefs_all_configs.toNat ∧
      arpragueskymodelground_read_radiance_data L (f.state L state) (p ++ s) =
        Except.ok (s, d, f.coefs_written L) := by
  obtain ⟨⟨hs, hsb⟩, ⟨hz, hzb⟩, ⟨he, heb⟩, htc, hwr, hsize⟩ :=
    radiance_metadata_state_facts L state f h
  obtain ⟨d, hd, hdl⟩ := read_radiance_configs_loop_append L (f.state L state) hs hsb hz hzb he
    heb (f.state L state).total_configs.toNat p s
    (List.replicate (f.state L state).total_coefs_all_configs.toNat 0) 0
    (by rw [hp, hsize]) (le_refl _)
    (by rw [zero_add, ← hwr, List.length_replicate]; exact hfit)
  have hdata : arpragueskymodelground_read_radiance_data L (f.state L state) (p ++ s) =
      Except.ok (s, d, f.coefs_written L) := by
    unfold arpragueskymodelground_read_radiance_data
    rw [hd, zero_add, ← hwr]
  refine ⟨d, ?_, ?_, hdata⟩
  · unfold arpragueskymodelground_read_radiance
    rw [read_radiance_metadata_append L state f (p ++ s) h]
    simp only [bind, Except.bind, hdata]
  · rw [hdl, List.length_replicate]

theorem read_radiance_ok (L : ScalarLayout) (state : ArPragueSkyModelGroundState)
    (stream : List Byte) (st : ArPragueSkyModelGroundState) (rest : List Byte)
    (h : arpragueskymodelground_read_radiance L state stream = Except.ok (st, rest)) :
    ∃ (f : RadianceMetadataBytes) (p : List Byte) (d : List ℚ), f.well_formed L ∧
      (p.length : ℤ) = f.data_size L ∧ stream = f.bytes ++ (p ++ rest) ∧
      st = { f.state L state with radiance_dataset := d } ∧
      d.length = (f.state L state).total_coefs_all_configs.toNat ∧
      arpragueskymodelground_read_radiance_metadata L state stream =
        Except.ok (f.state L state, p ++ rest) ∧
      arpragueskymodelground_read_radiance_data L (f.state L state) (p ++ rest) =
        Except.ok (rest, d, f.coefs_written L) := by
  unfold arpragueskymodelground_read_radiance at h
  simp only [except_bind_ok] at h
  obtain ⟨⟨m, rest1⟩, h1, ⟨rest2, d, o⟩, h2, h3⟩ := h
  simp only [Except.ok.injEq, Prod.mk.injEq] at h3
  obtain ⟨h3a, h3b⟩ := h3
  obtain ⟨f, hwf, hstream, hm⟩ := read_radiance_metadata_ok L state stream m rest1 h1
  subst hm
  obtain ⟨⟨hs, hsb⟩, ⟨hz, hzb⟩, ⟨he, heb⟩, htc, hwr, hsize⟩ :=
    radiance_metadata_state_facts L state f hwf
  simp only at h2 h3a h3b
  subst h3b
  have h2c := h2
  unfold arpragueskymodelground_read_radiance_data at h2c
  obtain ⟨p, hp, hs2, hdl, ho⟩ := read_radiance_configs_loop_ok L (f.state L state) _ _ _ h2c
  simp only at hs2 hdl ho
  rw [zero_add, ← hwr] at ho
  subst ho
  rw [hs2] at h1 h2 hstream
  refine ⟨f, p, d, hwf, by rw [hp, hsize], hstream, h3a.symm, ?_, h1, h2⟩
  rw [hdl, List.length_replicate]

/-! ## The loader as a whole -/

theorem state_alloc_init_append (L : ScalarLayout) (state : ArPragueSkyModelGroundState)
    (f : DatasetBytes) (elevation visibility albedo : ℚ) (h : f.well_formed L)
    (hfit : f.metadata.fits L) :
    ∃ d, d.length = (f.metadata.state L state).total_coefs_all_configs.toNat ∧
      arpragueskymodelground_state_alloc_init L state (some f.bytes) elevation visibility albedo =
        Except.ok { f.transmittance.state L
            { f.metadata.state L state with radiance_dataset := d } with
          elevation := elevation
          visibility := visibility
          albedo := albedo } := by
  obtain ⟨h1, h2, h3⟩ := h
  obtain ⟨d, hd, hdl, _⟩ := read_radiance_append L state f.metadata f.radiance_data
    (f.transmittance.bytes ++ f.trailing) h1 hfit h2
  refine ⟨d, hdl, ?_⟩
  unfold arpragueskymodelground_state_alloc_init DatasetBytes.bytes
  simp only [bind, Except.bind, hd, read_transmittance_append L _ f.transmittance f.trailing h3]

theorem state_alloc_init_ok (L : ScalarLayout) (state : ArPragueSkyModelGroundState)
    (stream : List Byte) (elevation visibility albedo : ℚ) (st : ArPragueSkyModelGroundState)
    (h : arpragueskymodelground_state_alloc_init L state (some stream) elevation visibility
      albedo = Except.ok st) :
    ∃ (f : DatasetBytes) (d : List ℚ), f.well_formed L ∧ stream = f.bytes ∧
      d.length = (f.metadata.state L state).total_coefs_all_configs.toNat ∧
      st = { f.transmittance.state L
          { f.metadata.state L state with radiance_dataset := d } with
        elevation := elevation
        visibility := visibility
        albedo := albedo } := by
  unfold arpragueskymodelground_state_alloc_init at h
  simp only [except_bind_ok] at h
  obtain ⟨⟨r, rest1⟩, h1, ⟨t, rest2⟩, h2, h3⟩ := h
  simp only [Except.ok.injEq] at h3
  obtain ⟨fm, p, d, hwf, hp, hstream, hr, hdl, _, _⟩ := read_radiance_ok L state stream r rest1 h1
  obtain ⟨ft, hwt, hrest, ht⟩ := read_transmittance_ok L r rest1 t rest2 h2
  refine ⟨⟨fm, p, ft, rest2⟩, d, ⟨hwf, hp, hwt⟩, ?_, hdl, ?_⟩
  · simp only [DatasetBytes.bytes]
    rw [hstream, hrest]
  · rw [← h3, ht, hr]

theorem loaded_state_minima (L : ScalarLayout) (state : ArPragueSkyModelGroundState)
    (f : DatasetBytes) (d : List ℚ) (elevation visibility albedo : ℚ) (h : f.well_formed L)
    (st : ArPragueSkyModelGroundState)
    (hst : st = { f.transmittance.state L
          { f.metadata.state L state with radiance_dataset := d } with
        elevation := elevation
        visibility := visibility
        albedo := albedo }) :
    (1 ≤ st.visibilities ∧ 1 ≤ st.albedos ∧ 1 ≤ st.altitudes ∧ 1 ≤ st.elevations ∧
      1 ≤ st.channels ∧ 1 ≤ st.tensor_components ∧ 1 ≤ st.trans_n_d ∧ 1 ≤ st.trans_n_a ∧
      1 ≤ st.trans_visibilities ∧ 1 ≤ st.trans_altitudes ∧ 1 ≤ st.trans_rank) ∧
    (2 ≤ st.sun_nbreaks ∧ 2 ≤ st.zenith_nbreaks ∧ 2 ≤ st.emph_nbreaks) ∧
    (0 ≤ st.channel_start ∧ 0 < st.channel_width) ∧
    ((st.visibility_vals.length : ℤ) = st.visibilities ∧
      (st.albedo_vals.length : ℤ) = st.albedos ∧
      (st.altitude_vals.length : ℤ) = st.altitudes ∧
      (st.elevation_vals.length : ℤ) = st.elevations ∧
      (st.sun_breaks.length : ℤ) = st.sun_nbreaks ∧
      (st.zenith_breaks.length : ℤ) = st.zenith_nbreaks ∧
      (st.emph_breaks.length : ℤ) = st.emph_nbreaks ∧
      (st.transmission_altitudes.length : ℤ) = st.trans_altitudes ∧
      (st.transmission_visibilities.length : ℤ) = st.trans_visibilities ∧
      (st.transmission_dataset_U.length : ℤ) =
        int_wrap (st.trans_n_d * st.trans_n_a * st.trans_rank * st.trans_altitudes) ∧
      (st.transmission_dataset_V.length : ℤ) =
        int_wrap (st.trans_visibilities * st.trans_rank * 11 * st.trans_altitudes)) ∧
    st.elevation = elevation ∧ st.visibility = visibility ∧ st.albedo = albedo := by
  obtain ⟨⟨⟨a1, a2⟩, a3, ⟨a4, a5⟩, a6, ⟨a7, a8⟩, a9, ⟨a10, a11⟩, a12, ⟨a13, a14⟩, ⟨a15, a16⟩,
    ⟨a17, a18⟩, ⟨a19, a20⟩, ⟨a21, a22⟩, a23, ⟨a24, a25⟩, a26, ⟨a27, a28⟩, a29⟩, _,
    ⟨c1, c2⟩, ⟨c3, c4⟩, ⟨c5, c6⟩, ⟨c7, c8⟩, ⟨c9, c10⟩, c11, c12, c13, c14⟩ := h
  subst hst
  simp only [TransmittanceBytes.state, RadianceMetadataBytes.state]
  refine ⟨⟨a2, a5, a8, a11, a14, a20, c2, c4, c6, c8, c10⟩, ⟨a22, a25, a28⟩, ⟨a16, a18⟩,
    ⟨records_of_length _ _ _ _ a3 (by decide), records_of_length _ _ _ _ a6 (by decide),
      records_of_length _ _ _ _ a9 (by decide), records_of_length _ _ _ _ a12 (by decide),
      records_of_length _ _ _ _ a23 (by decide), records_of_length _ _ _ _ a26 (by decide),
      records_of_length _ _ _ _ a29 (by decide), records_of_length _ _ _ _ c11 (by decide),
      records_of_length _ _ _ _ c12 (by decide), records_of_length _ _ _ _ c13 (by decide),
      records_of_length _ _ _ _ c14 (by decide)⟩, ?_⟩
  simp

/-- C26 (the failing input): when the file at `path_to_dataset` cannot be
opened, `arpragueskymodelground_state_alloc_init` passes the null handle on to
`fread`: the run is undefined, no error is reported. -/
theorem state_alloc_init_missing_file (L : ScalarLayout)
    (state : ArPragueSkyModelGroundState) (elevation visibility albedo : ℚ) :
    arpragueskymodelground_state_alloc_init L state none elevation visibility albedo =
      Except.error Abort.undefined ∧
    ∀ message, arpragueskymodelground_state_alloc_init L state none elevation visibility albedo ≠
      Except.error (Abort.exit message) := by
  refine ⟨rfl, ?_⟩
  intro message h
  cases h


/-! ## The loader: sizes and offsets without overflow -/

theorem radiance_metadata_exact_sizes (L : ScalarLayout) (f : RadianceMetadataBytes)
    (h : f.well_formed L) (hx : f.exact_total_coefs L < 2 ^ 31) :
    f.sun_stride L =
      2 * (L.int_value f.sun_nbreaks - 1) + 2 * (L.int_value f.zenith_nbreaks - 1) ∧
    int_wrap (0 + 2 * L.int_value f.sun_nbreaks - 2) = 2 * (L.int_value f.sun_nbreaks - 1) ∧
    f.emph_offset L = L.int_value f.tensor_components *
      (2 * (L.int_value f.sun_nbreaks - 1) + 2 * (L.int_value f.zenith_nbreaks - 1)) ∧
    f.total_coefs_single_config L = L.int_value f.tensor_components *
        (2 * (L.int_value f.sun_nbreaks - 1) + 2 * (L.int_value f.zenith_nbreaks - 1)) +
      2 * (L.int_value f.emph_nbreaks - 1) ∧
    f.total_configs L = L.int_value f.channels * L.int_value f.elevations *
      L.int_value f.altitudes * L.int_value f.albedos * L.int_value f.visibilities ∧
    int_wrap (f.total_coefs_single_config L * f.total_configs L) = f.exact_total_coefs L ∧
    1 ≤ f.total_configs L ∧ 0 ≤ f.exact_total_coefs L := by
  obtain ⟨⟨a1, a2⟩, a3, ⟨a4, a5⟩, a6, ⟨a7, a8⟩, a9, ⟨a10, a11⟩, a12, ⟨a13, a14⟩, ⟨a15, a16⟩,
    ⟨a17, a18⟩, ⟨a19, a20⟩, ⟨a21, a22⟩, a23, ⟨a24, a25⟩, a26, ⟨a27, a28⟩, a29⟩ := h
  have p1 : 1 ≤ L.int_value f.channels * L.int_value f.elevations :=
    one_le_mul_of_one_le_of_one_le a14 a11
  have p2 : 1 ≤ L.int_value f.channels * L.int_value f.elevations * L.int_value f.altitudes :=
    one_le_mul_of_one_le_of_one_le p1 a8
  have p3 : 1 ≤ L.int_value f.channels * L.int_value f.elevations * L.int_value f.altitudes *
      L.int_value f.albedos := one_le_mul_of_one_le_of_one_le p2 a5
  have p4 : 1 ≤ L.int_value f.channels * L.int_value f.elevations * L.int_value f.altitudes *
      L.int_value f.albedos * L.int_value f.visibilities :=
    one_le_mul_of_one_le_of_one_le p3 a2
  unfold RadianceMetadataBytes.exact_total_coefs at hx ⊢
  unfold RadianceMetadataBytes.total_coefs_single_config RadianceMetadataBytes.emph_offset
    RadianceMetadataBytes.sun_stride RadianceMetadataBytes.total_configs
  generalize L.int_value f.channels * L.int_value f.elevations * L.int_value f.altitudes *
      L.int_value f.albedos * L.int_value f.visibilities = C at hx p4 ⊢
  generalize hX : 2 * (L.int_value f.sun_nbreaks - 1) + 2 * (L.int_value f.zenith_nbreaks - 1)
    = X at hx ⊢
  have hX4 : 4 ≤ X := by omega
  have q1 : X ≤ L.int_value f.tensor_components * X := le_mul_of_one_le_left (by omega) a20
  generalize hT : L.int_value f.tensor_components * X = T at hx q1 ⊢
  have q2 : T + 2 * (L.int_value f.emph_nbreaks - 1) ≤
      (T + 2 * (L.int_value f.emph_nbreaks - 1)) * C := le_mul_of_one_le_right (by omega) p4
  have q3 : C ≤ (T + 2 * (L.int_value f.emph_nbreaks - 1)) * C :=
    le_mul_of_one_le_left (by omega) (by omega)
  have w1 : int_wrap (2 * L.int_value f.sun_nbreaks - 2 + 2 * L.int_value f.zenith_nbreaks - 2)
      = X := by
    rw [int_wrap_of_range _ (by omega) (by omega)]; omega
  have w2 : int_wrap (0 + 2 * L.int_value f.sun_nbreaks - 2) =
      2 * (L.int_value f.sun_nbreaks - 1) := by
    rw [int_wrap_of_range _ (by omega) (by omega)]; omega
  have w3 : int_wrap (0 + T) = T := by
    rw [int_wrap_of_range _ (by omega) (by omega)]; omega
  have w4 : int_wrap (T + 2 * L.int_value f.emph_nbreaks - 2) =
      T + 2 * (L.int_value f.emph_nbreaks - 1) := by
    rw [int_wrap_of_range _ (by omega) (by omega)]; omega
  have w5 : int_wrap C = C := int_wrap_of_range _ (by omega) (by omega)
  rw [w1, hT, w3, w4, w5]
  refine ⟨rfl, w2, rfl, rfl, rfl, int_wrap_of_range _ (by omega) hx, p4, by omega⟩

theorem radiance_metadata_fits (L : ScalarLayout) (f : RadianceMetadataBytes)
    (h : f.well_formed L) (hx : f.exact_total_coefs L < 2 ^ 31) : f.fits L := by
  obtain ⟨_, _, _, e4, e5, e6, hc, h0⟩ := radiance_metadata_exact_sizes L f h hx
  have htc : 1 ≤ L.int_value f.tensor_components := h.2.2.2.2.2.2.2.2.2.2.2.1.2
  unfold RadianceMetadataBytes.fits RadianceMetadataBytes.coefs_written
  rw [e6, Int.toNat_of_nonneg h0, Int.toNat_of_nonneg (by omega : 0 ≤ f.total_configs L),
    Int.toNat_of_nonneg (by omega : 0 ≤ L.int_value f.tensor_components), e5]
  unfold RadianceMetadataBytes.exact_total_coefs
  apply le_of_eq
  ring

theorem radiance_metadata_state_sizes (L : ScalarLayout) (state : ArPragueSkyModelGroundState)
    (f : RadianceMetadataBytes) (h : f.well_formed L) (hx : f.exact_total_coefs L < 2 ^ 31) :
    ((f.state L state).total_coefs_single_config = (f.state L state).tensor_components *
        (2 * ((f.state L state).sun_nbreaks - 1) + 2 * ((f.state L state).zenith_nbreaks - 1)) +
        2 * ((f.state L state).emph_nbreaks - 1) ∧
      (f.state L state).total_configs = (f.state L state).channels *
        (f.state L state).elevations * (f.state L state).altitudes *
        (f.state L state).albedos * (f.state L state).visibilities ∧
      (f.state L state).total_coefs_all_configs =
        (f.state L state).total_coefs_single_config * (f.state L state).total_configs ∧
      0 ≤ (f.state L state).total_coefs_all_configs) ∧
    ((f.state L state).sun_offset = 0 ∧
      (f.state L state).sun_stride = 2 * ((f.state L state).sun_nbreaks - 1) +
        2 * ((f.state L state).zenith_nbreaks - 1) ∧
      (f.state L state).zenith_offset = 2 * ((f.state L state).sun_nbreaks - 1) ∧
      (f.state L state).zenith_stride = (f.state L state).sun_stride ∧
      (f.state L state).emph_offset =
        (f.state L state).tensor_components * (f.state L state).sun_stride) := by
  obtain ⟨e1, e2, e3, e4, e5, e6, _, h0⟩ := radiance_metadata_exact_sizes L f h hx
  have e7 : int_wrap (f.total_coefs_single_config L * f.total_configs L) =
      f.total_coefs_single_config L * f.total_configs L := by
    rw [e6, e4, e5]; rfl
  refine ⟨⟨e4, e5, e7, ?_⟩, rfl, e1, e2, rfl, ?_⟩
  · show 0 ≤ int_wrap (f.total_coefs_single_config L * f.total_configs L)
    rw [e6]; exact h0
  · show f.emph_offset L = L.int_value f.tensor_components * f.sun_stride L
    rw [e3, e1]

/-! ## The loader on small data files -/

theorem sample_metadata_well_formed : sample_metadata_bytes.well_formed sample_layout := by
  simp [RadianceMetadataBytes.well_formed, sample_metadata_bytes, sample_layout, sizeof_int,
    sizeof_double]
  exact Nat.cast_pos.mpr (by decide)

theorem sample_metadata_fits : sample_metadata_bytes.fits sample_layout :=
  radiance_metadata_fits sample_layout sample_metadata_bytes sample_metadata_well_formed
    (by decide)

theorem sample_radiance_data_size :
    (sample_radiance_data.length : ℤ) = sample_metadata_bytes.data_size sample_layout := by
  decide

theorem sample_transmittance_well_formed :
    sample_transmittance_bytes.well_formed sample_layout := by
  simp [TransmittanceBytes.well_formed, TransmittanceBytes.total_coefs_U,
    TransmittanceBytes.total_coefs_V, sample_transmittance_bytes, sample_layout, sizeof_int,
    sizeof_float, int_wrap]

theorem sample_dataset_well_formed : sample_dataset_bytes.well_formed sample_layout :=
  ⟨sample_metadata_well_formed, sample_radiance_data_size, sample_transmittance_well_formed⟩

theorem sample_metadata_wide_well_formed (channels : Byte) (hc : 1 ≤ channels.val) :
    (sample_metadata_bytes_wide channels).well_formed sample_layout := by
  have hc1 : (1 : ℤ) ≤ (channels.val : ℤ) := by exact_mod_cast hc
  have h128 : ((128 : Byte).val : ℤ) = 128 := by decide
  have h1024 : ((List.replicate 1024 (0 : Byte)).length : ℤ) = sizeof_double * 128 := by
    rw [List.length_replicate]; decide
  obtain ⟨_, _, _, _, _, _, _, _, _, w10, w11, w12, w13, w14, w15, w16, w17, w18⟩ :=
    sample_metadata_well_formed
  refine ⟨⟨rfl, ?_⟩, ?_, ⟨rfl, ?_⟩, ?_, ⟨rfl, ?_⟩, ?_, ⟨rfl, ?_⟩, ?_, ⟨rfl, hc1⟩, w10, w11, w12,
    w13, w14, w15, w16, w17, w18⟩
  all_goals first
    | exact (by decide : (1 : ℤ) ≤ 128)
    | exact h1024

theorem sample_dataset_wide_well_formed : sample_dataset_bytes_wide.well_formed sample_layout :=
  ⟨sample_metadata_wide_well_formed 8 (by decide), by decide, sample_transmittance_well_formed⟩

theorem sample_dataset_wide_fits : sample_dataset_bytes_wide.metadata.fits sample_layout := by
  unfold RadianceMetadataBytes.fits
  decide

/-! ## Segment search inside the breakpoint range -/

theorem find_segment_loop_reads_succ (x : ℚ) (breaks : List ℚ) (n : Nat) (segment : Int) :
    arpragueskymodelground_find_segment_loop_reads x breaks (n + 1) segment =
      (segment + 1) ::
        match read_at breaks (segment + 1) with
        | some b =>
          if b ≥ x then []
          else arpragueskymodelground_find_segment_loop_reads x breaks n (segment + 1)
        | none => [] := rfl

/-- A scan that meets an entry `≥ x` within its rounds stops at the first one
and has read the entries from the start of the scan up to that one. -/
theorem find_segment_loop_found (x : ℚ) (breaks : List ℚ) : ∀ (n s : Nat),
    (∃ j, s ≤ j ∧ j < s + n ∧ ∃ b, breaks[j + 1]? = some b ∧ b ≥ x) →
    ∃ r : Nat, arpragueskymodelground_find_segment_loop x breaks n (s : ℤ) = some (r : ℤ) ∧
      s ≤ r ∧ (∃ b, breaks[r + 1]? = some b ∧ b ≥ x) ∧
      (∀ j, s ≤ j → j < r → ∃ b, breaks[j + 1]? = some b ∧ b < x) ∧
      ∀ i ∈ arpragueskymodelground_find_segment_loop_reads x breaks n (s : ℤ),
        (s : ℤ) + 1 ≤ i ∧ i ≤ (r : ℤ) + 1 := by
  intro n
  induction n with
  | zero =>
    rintro s ⟨j, h1, h2, _⟩
    omega
  | succ n ih =>
    rintro s ⟨j, h1, h2, b, hb1, hb2⟩
    have e1 : ((s : ℤ) + 1) = ((s + 1 : ℕ) : ℤ) := by push_cast; ring
    have hjl : j + 1 < breaks.length := by
      by_contra hc
      rw [List.getElem?_eq_none (by omega)] at hb1
      exact Option.noConfusion hb1
    have hsl : s + 1 < breaks.length := by omega
    have hs : breaks[s + 1]? = some breaks[s + 1] := List.getElem?_eq_getElem hsl
    by_cases hx : breaks[s + 1] ≥ x
    · refine ⟨s, find_segment_loop_stop x breaks n s _ hs hx, le_refl _, ⟨_, hs, hx⟩,
        fun j h1 h2 => by omega, ?_⟩
      intro i hi
      rw [find_segment_loop_reads_succ, e1, read_at_natCast, hs] at hi
      simp only [hx, if_true, List.mem_singleton] at hi
      omega
    · have hjs : j ≠ s := by
        rintro rfl
        rw [hs] at hb1
        exact hx (by rw [Option.some.inj hb1]; exact hb2)
      obtain ⟨r, hr1, hr2, hr3, hr4, hr5⟩ := ih (s + 1) ⟨j, by omega, by omega, b, hb1, hb2⟩
      refine ⟨r, ?_, by omega, hr3, ?_, ?_⟩
      · rw [find_segment_loop_succ, e1, read_at_natCast, hs]
        simp only [Option.some_bind, hx, if_false]
        exact hr1
      · intro i hi1 hi2
        rcases Nat.eq_or_lt_of_le hi1 with h | h
        · subst h
          exact ⟨_, hs, not_le.mp hx⟩
        · exact hr4 i (by omega) hi2
      · intro i hi
        rw [find_segment_loop_reads_succ, e1, read_at_natCast, hs] at hi
        simp only [hx, if_false, List.mem_cons] at hi
        rcases hi with h | h
        · omega
        · have := hr5 i h
          omega

/-- Below or at the last breakpoint the segment search stays inside the
array: it returns the first segment whose upper breakpoint is `≥ x`. -/
theorem find_segment_within (x : ℚ) (nbreaks : Int) (breaks : List ℚ) (hn : 2 ≤ nbreaks)
    (hlen : (breaks.length : ℤ) = nbreaks) (last : ℚ)
    (hl : read_at breaks (nbreaks - 1) = some last) (hx : x ≤ last) :
    ∃ s : Int, arpragueskymodelground_find_segment x nbreaks breaks = some s ∧
      0 ≤ s ∧ s ≤ nbreaks - 2 ∧
      (∀ i ∈ arpragueskymodelground_find_segment_reads x nbreaks breaks,
        1 ≤ i ∧ i ≤ nbreaks - 1) ∧
      (∃ hi, read_at breaks (s + 1) = some hi ∧ x ≤ hi) ∧
      (∀ first, read_at breaks 0 = some first → first ≤ x →
        ∃ lo, read_at breaks s = some lo ∧ lo ≤ x) := by
  obtain ⟨m, rfl⟩ := Int.eq_ofNat_of_zero_le (show (0 : ℤ) ≤ nbreaks by omega)
  have hm : breaks.length = m := by omega
  have e : ((m : ℤ) - 1) = ((m - 2 + 1 : ℕ) : ℤ) := by omega
  rw [e, read_at_natCast] at hl
  obtain ⟨r, hr1, _, ⟨b, hb1, hb2⟩, hr4, hr5⟩ := find_segment_loop_found x breaks m 0
    ⟨m - 2, by omega, by omega, last, hl, hx⟩
  have hrm : r ≤ m - 2 := by
    by_contra hc
    obtain ⟨b2, hb3, hb4⟩ := hr4 (m - 2) (by omega) (by omega)
    rw [hl] at hb3
    have := Option.some.inj hb3
    linarith
  have e1 : ((r : ℤ) + 1) = ((r + 1 : ℕ) : ℤ) := by push_cast; ring
  refine ⟨(r : ℤ), hr1, by omega, by omega, ?_, ⟨b, ?_, hb2⟩, ?_⟩
  · intro i hi
    have := hr5 i hi
    omega
  · rw [e1, read_at_natCast]
    exact hb1
  · intro first hf hfx
    rw [read_at_natCast]
    rcases Nat.eq_zero_or_pos r with h | h
    · subst h
      exact ⟨first, by rw [← hf]; exact (read_at_natCast breaks 0).symm, hfx⟩
    · obtain ⟨b2, hb3, hb4⟩ := hr4 (r - 1) (by omega) (by omega)
      have e2 : r - 1 + 1 = r := by omega
      rw [e2] at hb3
      exact ⟨b2, hb3, le_of_lt hb4⟩

/-- C34: for `nbreaks ≥ 2` breakpoints, in non-decreasing order or not, and
every `x` that is at most the last breakpoint, `arpragueskymodelground_find_segment` reads only
the indices `1 .. nbreaks - 1` of the array and returns a segment `s` in
`[0, nbreaks - 2]` with `x ≤ breaks[s + 1]`; when moreover `breaks[0] ≤ x`,
also `breaks[s] ≤ x`. -/
theorem find_segment_in_range (x : ℚ) (nbreaks : Int) (breaks : List ℚ) (hn : 2 ≤ nbreaks)
    (hlen : (breaks.length : ℤ) = nbreaks)
    (last : ℚ) (hl : read_at breaks (nbreaks - 1) = some last) (hx : x ≤ last) :
    ∃ s : Int, arpragueskymodelground_find_segment x nbreaks breaks = some s ∧
      0 ≤ s ∧ s ≤ nbreaks - 2 ∧
      (∀ i ∈ arpragueskymodelground_find_segment_reads x nbreaks breaks,
        1 ≤ i ∧ i ≤ nbreaks - 1) ∧
      (∃ hi, read_at breaks (s + 1) = some hi ∧ x ≤ hi) ∧
      (∀ first, read_at breaks 0 = some first → first ≤ x →
        ∃ lo, read_at breaks s = some lo ∧ lo ≤ x) :=
  find_segment_within x nbreaks breaks hn hlen last hl hx

theorem find_segment_in_range_witness :
    ∃ s : Int, arpragueskymodelground_find_segment 3 4 [0, 1, 5, 7] = some s ∧
      0 ≤ s ∧ s ≤ 4 - 2 ∧
      (∀ i ∈ arpragueskymodelground_find_segment_reads 3 4 [0, 1, 5, 7],
        1 ≤ i ∧ i ≤ 4 - 1) ∧
      (∃ hi, read_at [(0 : ℚ), 1, 5, 7] (s + 1) = some hi ∧ 3 ≤ hi) ∧
      (∀ first, read_at [(0 : ℚ), 1, 5, 7] 0 = some first → first ≤ 3 →
        ∃ lo, read_at [(0 : ℚ), 1, 5, 7] s = some lo ∧ lo ≤ 3) :=
  find_segment_in_range 3 4 [0, 1, 5, 7] (by norm_num) (by simp) 7 (by decide) (by norm_num)

/-! ## The bucket search of the transmittance -/

/-- The bucket search of the witness, evaluated: the value 35 lies a quarter
of the way from 30 to 50. -/
theorem sample_find_in_array_between :
    arpragueskymodelground_find_in_array [20, 30, 50] 3 35 = some (1, 1, 1 / 4) := by
  norm_num [arpragueskymodelground_find_in_array, arpragueskymodelground_find_in_array_loop,
    read_at_ofNat]

/-! ## Safety of the parameter mapping -/

/-- The scan of `arpragueskymodelground_map_parameter` from the index `v` to
the end of the axis, for a parameter that is at most the last entry and at
least the entry before `v`: it ends at some index `w`, either by a snap to `w`
or by the fractional branch between the entries `w - 1` and `w`. -/
theorem map_parameter_loop_result (param : ℚ) (values : List ℚ) (first last : ℚ)
    (hf : values[0]? = some first) (hl : values[values.length - 1]? = some last)
    (h2 : param ≤ last) : ∀ (k v : Nat), v + (k + 1) = values.length →
    (v = 0 → first ≤ param) → (1 ≤ v → ∃ p, values[v - 1]? = some p ∧ p ≤ param) →
    ∃ (r : ℚ) (w : Nat) (val : ℚ),
      arpragueskymodelground_map_parameter_loop param values (k + 1) (v : ℤ) = some r ∧
      v ≤ w ∧ w < values.length ∧ values[w]? = some val ∧
      (∀ j, v ≤ j → j < w →
        ∃ a, values[j]? = some a ∧ 1 / 1000000 ≤ |a - param| ∧ a ≤ param) ∧
      ((|val - param| < 1 / 1000000 ∧ r = (w : ℚ)) ∨
       (1 / 1000000 ≤ |val - param| ∧ 1 ≤ w ∧ ∃ prev, values[w - 1]? = some prev ∧
          prev ≤ param ∧ param < val ∧ r = (w : ℚ) - (val - param) / (val - prev))) := by
  intro k
  induction k with
  | zero =>
    intro v hv hv0 hvp
    have hvl : v = values.length - 1 := by omega
    subst hvl
    by_cases hs : |last - param| < 1 / 1000000
    · exact ⟨_, _, last, map_parameter_loop_snap param values 0 _ last hl hs, le_refl _,
        by omega, hl, fun j h1 h2 => by omega, Or.inl ⟨hs, rfl⟩⟩
    · have hlt : param < last := by
        rcases lt_or_eq_of_le h2 with h | h
        · exact h
        · exfalso; apply hs; rw [h, sub_self, abs_zero]; norm_num
      have h1 : 1 ≤ values.length - 1 := by
        by_contra hc
        have h0 : values.length - 1 = 0 := by omega
        rw [h0] at hl
        have hfl : first = last := Option.some.inj (hf.symm.trans hl)
        have := hv0 h0
        linarith
      obtain ⟨p, hp1, hp2⟩ := hvp h1
      exact ⟨_, _, last, map_parameter_loop_frac param values 0 _ last p h1 hl hp1
        (not_lt.mp hs) hlt, le_refl _, by omega, hl, fun j h1 h2 => by omega,
        Or.inr ⟨not_lt.mp hs, h1, p, hp1, hp2, hlt, rfl⟩⟩
  | succ k ih =>
    intro v hv hv0 hvp
    have hvl : v < values.length := by omega
    obtain ⟨val, hval⟩ : ∃ val, values[v]? = some val := ⟨_, List.getElem?_eq_getElem hvl⟩
    by_cases hs : |val - param| < 1 / 1000000
    · exact ⟨_, v, val, map_parameter_loop_snap param values (k + 1) v _ hval hs, le_refl _,
        hvl, hval, fun j h1 h2 => by omega, Or.inl ⟨hs, rfl⟩⟩
    · by_cases hlt : param < val
      · have h1 : 1 ≤ v := by
          by_contra hc
          have h0 : v = 0 := by omega
          subst h0
          have hfv : first = val := Option.some.inj (hf.symm.trans hval)
          have := hv0 rfl
          linarith
        obtain ⟨p, hp1, hp2⟩ := hvp h1
        exact ⟨_, v, val, map_parameter_loop_frac param values (k + 1) v _ _ h1 hval hp1
          (not_lt.mp hs) hlt, le_refl _, hvl, hval, fun j h1 h2 => by omega,
          Or.inr ⟨not_lt.mp hs, h1, p, hp1, hp2, hlt, rfl⟩⟩
      · have e1 : ((v : ℤ) + 1) = ((v + 1 : ℕ) : ℤ) := by push_cast; ring
        have e3 : v + 1 - 1 = v := by omega
        obtain ⟨r, w, val2, hr, hw1, hw2, hw3, hmin, hw4⟩ := ih (v + 1) (by omega)
          (fun h => by omega) (fun _ => ⟨val, by rw [e3]; exact hval, not_lt.mp hlt⟩)
        refine ⟨r, w, val2, ?_, by omega, hw2, hw3, ?_, hw4⟩
        · rw [map_parameter_loop_succ, read_at_natCast, hval]
          simp only [Option.some_bind, hs, if_false, hlt, e1]
          exact hr
        · intro j hj1 hj2
          rcases Nat.eq_or_lt_of_le hj1 with h | h
          · subst h
            exact ⟨val, hval, not_lt.mp hs, not_lt.mp hlt⟩
          · exact hmin j (by omega) hj2

/-- The mapping of a parameter between the first and the last entry of an
axis of `value_count ≥ 1` entries: the scan ends at the first index `w` whose
entry is within `1e-6` of the parameter or above it, by a snap to `w` or by
the fractional branch between the entries `w - 1` and `w`. -/
theorem map_parameter_scan (param : ℚ) (value_count : Int) (values : List ℚ)
    (hn : 1 ≤ value_count) (hlen : (values.length : ℤ) = value_count) (first last : ℚ)
    (hf : values[0]? = some first) (hl : values[values.length - 1]? = some last)
    (h1 : first ≤ param) (h2 : param ≤ last) :
    ∃ (r : ℚ) (w : Nat) (val : ℚ),
      arpragueskymodelground_map_parameter param value_count values = some r ∧
      w < values.length ∧ values[w]? = some val ∧
      (∀ j, j < w → ∃ a, values[j]? = some a ∧ 1 / 1000000 ≤ |a - param| ∧ a ≤ param) ∧
      ((|val - param| < 1 / 1000000 ∧ r = (w : ℚ)) ∨
       (1 / 1000000 ≤ |val - param| ∧ 1 ≤ w ∧ ∃ prev, values[w - 1]? = some prev ∧
          prev ≤ param ∧ param < val ∧ r = (w : ℚ) - (val - param) / (val - prev))) := by
  obtain ⟨m, rfl⟩ := Int.eq_ofNat_of_zero_le (show (0 : ℤ) ≤ value_count by omega)
  have hm : values.length = m := by omega
  have e0 : read_at values 0 = some first := by
    rw [← hf]
    exact read_at_natCast values 0
  have e1 : read_at values ((m : ℤ) - 1) = some last := by
    have e : ((m : ℤ) - 1) = ((values.length - 1 : ℕ) : ℤ) := by omega
    rw [e, read_at_natCast]
    exact hl
  obtain ⟨_, _, c⟩ := map_parameter_edges param (m : ℤ) values _ _ e0 e1
  obtain ⟨k, hk⟩ : ∃ k : Nat, (m : ℤ).toNat = k + 1 := ⟨m - 1, by omega⟩
  have h0 : (0 : ℤ) = ((0 : ℕ) : ℤ) := rfl
  obtain ⟨r, w, val, hr, _, hw2, hw3, hmin, hw4⟩ := map_parameter_loop_result param values first
    last hf hl h2 k 0 (by omega) (fun _ => h1) (fun h => by omega)
  refine ⟨r, w, val, ?_, hw2, hw3, fun j hj => hmin j (Nat.zero_le _) hj, hw4⟩
  rw [c h1 h2, hk, h0]
  exact hr

/-- The result of `arpragueskymodelground_map_parameter` on an axis of
`value_count ≥ 1` entries, by the branch that assigns it. -/
theorem map_parameter_branches (param : ℚ) (value_count : Int) (values : List ℚ)
    (hn : 1 ≤ value_count) (hlen : (values.length : ℤ) = value_count) :
    ∃ (r first last : ℚ),
      arpragueskymodelground_map_parameter param value_count values = some r ∧
      read_at values 0 = some first ∧ read_at values (value_count - 1) = some last ∧
      0 ≤ r ∧ r ≤ (value_count : ℚ) - 1 ∧
      ((param < first ∧ r = 0) ∨
       (first ≤ param ∧ last < param ∧ r = (value_count : ℚ) - 1) ∨
       (first ≤ param ∧ param ≤ last ∧ ∃ (v : Int) (val : ℚ), 0 ≤ v ∧ v ≤ value_count - 1 ∧
          read_at values v = some val ∧
          ((|val - param| < 1 / 1000000 ∧ r = (v : ℚ)) ∨
           (1 ≤ v ∧ ∃ prev, read_at values (v - 1) = some prev ∧ prev ≤ param ∧ param < val ∧
              val - prev ≠ 0 ∧ r = (v : ℚ) - (val - param) / (val - prev))))) := by
  have hn0 : (0 : ℤ) ≤ value_count := by omega
  have hm : ((values.length - 1 : ℕ) : ℤ) = value_count - 1 := by omega
  obtain ⟨first, hf⟩ : ∃ first, values[0]? = some first :=
    ⟨_, List.getElem?_eq_getElem (show 0 < values.length by omega)⟩
  obtain ⟨last, hl⟩ : ∃ last, values[values.length - 1]? = some last :=
    ⟨_, List.getElem?_eq_getElem (show values.length - 1 < values.length by omega)⟩
  have e0 : read_at values 0 = some first := by
    rw [← hf]
    exact read_at_natCast values 0
  have e1 : read_at values (value_count - 1) = some last := by
    rw [← hm, read_at_natCast]
    exact hl
  have hm1 : (1 : ℚ) ≤ (value_count : ℚ) := by exact_mod_cast hn
  obtain ⟨a, b, _⟩ := map_parameter_edges param value_count values _ _ e0 e1
  by_cases h1 : param < first
  · exact ⟨0, first, last, a h1, e0, e1, le_refl _, by linarith, Or.inl ⟨h1, rfl⟩⟩
  · by_cases h2 : param > last
    · exact ⟨_, first, last, b h2 (not_lt.mp h1), e0, e1, by linarith, le_refl _,
        Or.inr (Or.inl ⟨not_lt.mp h1, h2, rfl⟩)⟩
    · obtain ⟨r, w, val, hmap, hw2, hw3, _, hw4⟩ := map_parameter_scan param value_count values
        hn hlen first last hf hl (not_lt.mp h1) (not_lt.mp h2)
      have hwm : ((w : ℤ) : ℚ) ≤ (value_count : ℚ) - 1 := by
        have : (w : ℤ) ≤ value_count - 1 := by omega
        exact_mod_cast this
      have hw0 : (0 : ℚ) ≤ ((w : ℤ) : ℚ) := by exact_mod_cast Int.natCast_nonneg w
      have hrw : read_at values (w : ℤ) = some val := by
        rw [read_at_natCast]
        exact hw3
      rcases hw4 with ⟨hs, rfl⟩ | ⟨hs, hw1, prev, hp1, hp2, hp3, rfl⟩
      · refine ⟨_, first, last, hmap, e0, e1, ?_, ?_, Or.inr (Or.inr ⟨not_lt.mp h1,
          not_lt.mp h2, (w : ℤ), val, by omega, by omega, hrw, Or.inl ⟨hs, ?_⟩⟩)⟩
        · exact_mod_cast hw0
        · exact_mod_cast hwm
        · push_cast; rfl
      · have hd : 0 < val - prev := by linarith
        have hq0 : 0 < (val - param) / (val - prev) := div_pos (by linarith) hd
        have hq1 : (val - param) / (val - prev) ≤ 1 := (div_le_one hd).mpr (by linarith)
        have hw1q : (1 : ℚ) ≤ (w : ℚ) := by exact_mod_cast hw1
        have hwmq : (w : ℚ) ≤ (value_count : ℚ) - 1 := by exact_mod_cast hwm
        have e2 : ((w : ℤ) - 1) = ((w - 1 : ℕ) : ℤ) := by omega
        refine ⟨_, first, last, hmap, e0, e1, by linarith, by linarith,
          Or.inr (Or.inr ⟨not_lt.mp h1, not_lt.mp h2, (w : ℤ), val, by omega, by omega, hrw,
            Or.inr ⟨by omega, prev, ?_, hp2, hp3, ne_of_gt hd, ?_⟩⟩)⟩
        · rw [e2, read_at_natCast]
          exact hp1
        · push_cast; rfl

/-- C32: on an axis of `value_count ≥ 1` entries, monotonic or not, and for
every parameter, `arpragueskymodelground_map_parameter` assigns its result `r`,
and `0 ≤ r ≤ value_count - 1`. The result comes from one of four branches:
below the first entry it is `0`; above the last one it is `value_count - 1`;
a snap to an index `v` of the axis gives `v`; the fractional branch at the
index `v` has `v ≥ 1` (the entry `v - 1` that it reads is inside the axis)
and `axis[v - 1] ≤ param < axis[v]`, so that the divisor `axis[v] - axis[v - 1]`
is not zero. -/
theorem map_parameter_safe (param : ℚ) (value_count : Int) (values : List ℚ)
    (hn : 1 ≤ value_count) (hlen : (values.length : ℤ) = value_count) :
    ∃ (r first last : ℚ),
      arpragueskymodelground_map_parameter param value_count values = some r ∧
      read_at values 0 = some first ∧ read_at values (value_count - 1) = some last ∧
      0 ≤ r ∧ r ≤ (value_count : ℚ) - 1 ∧
      ((param < first ∧ r = 0) ∨
       (first ≤ param ∧ last < param ∧ r = (value_count : ℚ) - 1) ∨
       (first ≤ param ∧ param ≤ last ∧ ∃ (v : Int) (val : ℚ), 0 ≤ v ∧ v ≤ value_count - 1 ∧
          read_at values v = some val ∧
          ((|val - param| < 1 / 1000000 ∧ r = (v : ℚ)) ∨
           (1 ≤ v ∧ ∃ prev, read_at values (v - 1) = some prev ∧ prev ≤ param ∧ param < val ∧
              val - prev ≠ 0 ∧ r = (v : ℚ) - (val - param) / (val - prev))))) :=
  map_parameter_branches param value_count values hn hlen

theorem map_parameter_safe_witness :
    ∃ (r first last : ℚ),
      arpragueskymodelground_map_parameter 4 4 [1, 5, 3, 7] = some r ∧
      read_at [(1 : ℚ), 5, 3, 7] 0 = some first ∧ read_at [(1 : ℚ), 5, 3, 7] (4 - 1) = some last ∧
      0 ≤ r ∧ r ≤ ((4 : ℤ) : ℚ) - 1 ∧
      ((4 < first ∧ r = 0) ∨
       (first ≤ 4 ∧ last < 4 ∧ r = ((4 : ℤ) : ℚ) - 1) ∨
       (first ≤ 4 ∧ 4 ≤ last ∧ ∃ (v : Int) (val : ℚ), 0 ≤ v ∧ v ≤ 4 - 1 ∧
          read_at [(1 : ℚ), 5, 3, 7] v = some val ∧
          ((|val - 4| < 1 / 1000000 ∧ r = (v : ℚ)) ∨
           (1 ≤ v ∧ ∃ prev, read_at [(1 : ℚ), 5, 3, 7] (v - 1) = some prev ∧ prev ≤ 4 ∧ 4 < val ∧
              val - prev ≠ 0 ∧ r = (v : ℚ) - (val - 4) / (val - prev))))) :=
  map_parameter_safe 4 4 [1, 5, 3, 7] (by norm_num) (by simp)

/-- The mapping on the axis `[1, 5, 3, 7]`, which is not monotonic, at the
parameter 4: the scan passes the entry 1, takes the fractional branch at the
index 1 between the entries 1 and 5 and returns `1 - (5 - 4) / (5 - 1)`. -/
theorem sample_map_parameter_not_monotonic :
    arpragueskymodelground_map_parameter 4 4 [1, 5, 3, 7] = some (3 / 4) := by
  norm_num [arpragueskymodelground_map_parameter, arpragueskymodelground_map_parameter_loop,
    read_at_ofNat, abs_lt]

/-! ## Monotonicity of the parameter mapping -/

/-- The mapping does not decrease with its parameter, on every axis of
`value_count ≥ 1` entries. -/
theorem map_parameter_le (value_count : Int) (values : List ℚ)
    (hn : 1 ≤ value_count) (hlen : (values.length : ℤ) = value_count) (p q : ℚ) (hpq : p ≤ q) :
    ∃ rp rq : ℚ, arpragueskymodelground_map_parameter p value_count values = some rp ∧
      arpragueskymodelground_map_parameter q value_count values = some rq ∧ rp ≤ rq := by
  obtain ⟨rp, first, last, hp, e0, e1, hp0, hp1, _⟩ :=
    map_parameter_branches p value_count values hn hlen
  obtain ⟨rq, first2, last2, hq, e02, e12, hq0, hq1, _⟩ :=
    map_parameter_branches q value_count values hn hlen
  have hm : ((values.length - 1 : ℕ) : ℤ) = value_count - 1 := by omega
  have hf : values[0]? = some first := by
    rw [← e0]
    exact (read_at_natCast values 0).symm
  have hl : values[values.length - 1]? = some last := by
    rw [← e1, ← hm, read_at_natCast]
  obtain ⟨a, b, _⟩ := map_parameter_edges p value_count values _ _ e0 e1
  obtain ⟨_, b2, _⟩ := map_parameter_edges q value_count values _ _ e0 e1
  by_cases h1 : p < first
  · refine ⟨rp, rq, hp, hq, ?_⟩
    have : rp = 0 := Option.some.inj (hp.symm.trans (a h1))
    rw [this]
    exact hq0
  · by_cases h2 : p > last
    · refine ⟨rp, rq, hp, hq, ?_⟩
      have e3 : rp = (value_count : ℚ) - 1 := Option.some.inj (hp.symm.trans (b h2 (not_lt.mp h1)))
      have e4 : rq = (value_count : ℚ) - 1 :=
        Option.some.inj (hq.symm.trans (b2 (lt_of_lt_of_le h2 hpq) (le_trans (not_lt.mp h1) hpq)))
      rw [e3, e4]
    · by_cases h3 : q > last
      · refine ⟨rp, rq, hp, hq, ?_⟩
        have e4 : rq = (value_count : ℚ) - 1 :=
          Option.some.inj (hq.symm.trans (b2 h3 (le_trans (not_lt.mp h1) hpq)))
        rw [e4]
        exact hp1
      · obtain ⟨sp, wp, valp, hsp, _, hvp, hminp, hbp⟩ := map_parameter_scan p value_count values
          hn hlen first last hf hl (not_lt.mp h1) (not_lt.mp h2)
        obtain ⟨sq, wq, valq, hsq, _, hvq, _, hbq⟩ := map_parameter_scan q value_count values
          hn hlen first last hf hl (le_trans (not_lt.mp h1) hpq) (not_lt.mp h3)
        refine ⟨sp, sq, hsp, hsq, ?_⟩
        have hle : wp ≤ wq := by
          by_contra hc
          obtain ⟨a1, ha1, ha2, ha3⟩ := hminp wq (by omega)
          rw [hvq] at ha1
          have ha : valq = a1 := Option.some.inj ha1
          subst ha
          rw [abs_of_nonpos (by linarith)] at ha2
          rcases hbq with ⟨hs, _⟩ | ⟨_, _, prev, _, _, hlt, _⟩
          · rw [abs_lt] at hs
            linarith [hs.1]
          · linarith
        have hsp_le : sp ≤ (wp : ℚ) := by
          rcases hbp with ⟨_, rfl⟩ | ⟨_, _, prev, _, h5, h6, rfl⟩
          · exact le_refl _
          · have : 0 ≤ (valp - p) / (valp - prev) := div_nonneg (by linarith) (by linarith)
            linarith
        have hsq_ge : (wq : ℚ) - 1 ≤ sq := by
          rcases hbq with ⟨_, rfl⟩ | ⟨_, _, prev, _, h5, h6, rfl⟩
          · linarith
          · have : (valq - q) / (valq - prev) ≤ 1 :=
              (div_le_one (by linarith)).mpr (by linarith)
            linarith
        rcases Nat.lt_or_ge wp wq with hlt | hge
        · have : (wp : ℚ) + 1 ≤ (wq : ℚ) := by exact_mod_cast hlt
          linarith
        · have hw : wp = wq := le_antisymm hle hge
          subst hw
          rw [hvp] at hvq
          have hv : valp = valq := Option.some.inj hvq
          subst hv
          rcases hbq with ⟨_, rfl⟩ | ⟨hs, _, prev, hpr, h5, h6, rfl⟩
          · exact hsp_le
          · rcases hbp with ⟨hs2, _⟩ | ⟨_, _, prev2, hpr2, h7, h8, rfl⟩
            · rw [abs_lt] at hs2
              rw [abs_of_nonneg (by linarith)] at hs
              linarith [hs2.2]
            · rw [hpr] at hpr2
              have hv2 : prev = prev2 := Option.some.inj hpr2
              subst hv2
              have : (valp - q) / (valp - prev) ≤ (valp - p) / (valp - prev) :=
                div_le_div_of_nonneg_right (by linarith) (by linarith)
              linarith

/-- C33: on every axis of `value_count ≥ 1` entries, strictly increasing or
not, `arpragueskymodelground_map_parameter` is monotone non-decreasing in its
parameter: for `p ≤ q` both calls assign a result and the result for `p` is at
most the result for `q`. The snapping zones of width `1e-6` around the axis
entries are part of the statement, no parameter is left out. -/
theorem map_parameter_monotone (value_count : Int) (values : List ℚ)
    (hn : 1 ≤ value_count) (hlen : (values.length : ℤ) = value_count) (p q : ℚ) (hpq : p ≤ q) :
    ∃ rp rq : ℚ, arpragueskymodelground_map_parameter p value_count values = some rp ∧
      arpragueskymodelground_map_parameter q value_count values = some rq ∧ rp ≤ rq :=
  map_parameter_le value_count values hn hlen p q hpq

theorem map_parameter_monotone_witness :
    ∃ rp rq : ℚ, arpragueskymodelground_map_parameter (1999999 / 2000000) 3 [0, 1, 2] = some rp ∧
      arpragueskymodelground_map_parameter (500001 / 500000) 3 [0, 1, 2] = some rq ∧ rp ≤ rq :=
  map_parameter_monotone 3 [0, 1, 2] (by norm_num) (by simp) (1999999 / 2000000)
    (500001 / 500000) (by norm_num)

/-- The two calls of the witness, evaluated: the parameter `1 - 5e-7` lies in
the snapping zone of the entry 1 and is mapped to 1, the parameter `1 + 2e-6`
lies behind the zone and is mapped to `1 + 2e-6`. -/
theorem sample_map_parameter_across_snap :
    arpragueskymodelground_map_parameter (1999999 / 2000000) 3 [0, 1, 2] = some 1 ∧
    arpragueskymodelground_map_parameter (500001 / 500000) 3 [0, 1, 2] =
      some (500001 / 500000) := by
  constructor <;>
  norm_num [arpragueskymodelground_map_parameter, arpragueskymodelground_map_parameter_loop,
    read_at_ofNat, abs_lt]

/-! ## Facts of a loaded state -/

/-- The counts and array sizes of a state that the loader returned. -/
theorem loaded_state_counts (L : ScalarLayout) (state : ArPragueSkyModelGroundState)
    (stream : List Byte) (elevation visibility albedo : ℚ) (st : ArPragueSkyModelGroundState)
    (h : arpragueskymodelground_state_alloc_init L state (some stream) elevation visibility
      albedo = Except.ok st) :
    (1 ≤ st.visibilities ∧ 1 ≤ st.albedos ∧ 1 ≤ st.altitudes ∧ 1 ≤ st.elevations ∧
      1 ≤ st.channels ∧ 1 ≤ st.tensor_components ∧ 1 ≤ st.trans_n_d ∧ 1 ≤ st.trans_n_a ∧
      1 ≤ st.trans_visibilities ∧ 1 ≤ st.trans_altitudes ∧ 1 ≤ st.trans_rank) ∧
    (2 ≤ st.sun_nbreaks ∧ 2 ≤ st.zenith_nbreaks ∧ 2 ≤ st.emph_nbreaks) ∧
    (0 ≤ st.channel_start ∧ 0 < st.channel_width) ∧
    ((st.visibility_vals.length : ℤ) = st.visibilities ∧
      (st.albedo_vals.length : ℤ) = st.albedos ∧
      (st.altitude_vals.length : ℤ) = st.altitudes ∧
      (st.elevation_vals.length : ℤ) = st.elevations ∧
      (st.sun_breaks.length : ℤ) = st.sun_nbreaks ∧
      (st.zenith_breaks.length : ℤ) = st.zenith_nbreaks ∧
      (st.emph_breaks.length : ℤ) = st.emph_nbreaks ∧
      (st.transmission_altitudes.length : ℤ) = st.trans_altitudes ∧
      (st.transmission_visibilities.length : ℤ) = st.trans_visibilities ∧
      (st.transmission_dataset_U.length : ℤ) =
        int_wrap (st.trans_n_d * st.trans_n_a * st.trans_rank * st.trans_altitudes) ∧
      (st.transmission_dataset_V.length : ℤ) =
        int_wrap (st.trans_visibilities * st.trans_rank * 11 * st.trans_altitudes)) ∧
    st.elevation = elevation ∧ st.visibility = visibility ∧ st.albedo = albedo := by
  obtain ⟨f, d, hwf, _, _, heq⟩ := state_alloc_init_ok L state stream elevation visibility
    albedo st h
  exact loaded_state_minima L state f d elevation visibility albedo hwf st heq

/-- The sizes, offsets and strides of the radiance data in a state that the
loader returned for a data file of less than `2^31` coefficients: no size
leaves the range of `int`, and each is the one that the counts describe. -/
theorem loaded_state_sizes (L : ScalarLayout) (state : ArPragueSkyModelGroundState)
    (stream : List Byte) (elevation visibility albedo : ℚ) (st : ArPragueSkyModelGroundState)
    (h : arpragueskymodelground_state_alloc_init L state (some stream) elevation visibility
      albedo = Except.ok st) (hx : st.exact_total_coefs < 2 ^ 31) :
    (st.total_coefs_single_config = st.tensor_components *
        (2 * (st.sun_nbreaks - 1) + 2 * (st.zenith_nbreaks - 1)) + 2 * (st.emph_nbreaks - 1) ∧
      st.total_configs =
        st.channels * st.elevations * st.altitudes * st.albedos * st.visibilities ∧
      st.total_coefs_all_configs = st.total_coefs_single_config * st.total_configs ∧
      (st.radiance_dataset.length : ℤ) = st.total_coefs_all_configs) ∧
    (st.sun_offset = 0 ∧
      st.sun_stride = 2 * (st.sun_nbreaks - 1) + 2 * (st.zenith_nbreaks - 1) ∧
      st.zenith_offset = 2 * (st.sun_nbreaks - 1) ∧ st.zenith_stride = st.sun_stride ∧
      st.emph_offset = st.tensor_components * st.sun_stride) := by
  obtain ⟨f, d, ⟨hwf, _, _⟩, _, hdl, heq⟩ := state_alloc_init_ok L state stream elevation
    visibility albedo st h
  subst heq
  have hx2 : f.metadata.exact_total_coefs L < 2 ^ 31 := hx
  obtain ⟨⟨s1, s2, s3, s4⟩, hoff⟩ := radiance_metadata_state_sizes L state f.metadata hwf hx2
  refine ⟨⟨s1, s2, s3, ?_⟩, hoff⟩
  show (d.length : ℤ) = (f.metadata.state L state).total_coefs_all_configs
  rw [hdl]
  exact Int.toNat_of_nonneg s4

/-! ## Addressing of the configurations -/

/-- One digit of a mixed-radix number: range. -/
theorem radix_range (C M w r : Int) (hw0 : 0 ≤ w) (hw : w < C) (hr0 : 0 ≤ r) (hr : r < M) :
    0 ≤ w + C * r ∧ w + C * r < C * M := by
  have hC : 0 ≤ C := by omega
  have h1 : 0 ≤ C * r := mul_nonneg hC hr0
  have h2 : C * r ≤ C * (M - 1) := mul_le_mul_of_nonneg_left (by omega) hC
  have h3 : C * (M - 1) = C * M - C := by ring
  omega

/-- One digit of a mixed-radix number: uniqueness. -/
theorem radix_unique (C w r w2 r2 : Int) (hw0 : 0 ≤ w) (hw : w < C) (hv0 : 0 ≤ w2)
    (hv : w2 < C) (h : w + C * r = w2 + C * r2) : w = w2 ∧ r = r2 := by
  have h1 : (w + C * r) % C = w := by
    rw [Int.add_mul_emod_self_left]
    exact Int.emod_eq_of_lt hw0 hw
  have h2 : (w2 + C * r2) % C = w2 := by
    rw [Int.add_mul_emod_self_left]
    exact Int.emod_eq_of_lt hv0 hv
  have hww : w = w2 := by rw [← h1, ← h2, h]
  subst hww
  have h3 : C * r = C * r2 := by omega
  exact ⟨rfl, mul_left_cancel₀ (by omega) h3⟩

/-- One digit of a mixed-radix number: existence. -/
theorem radix_split (C M k : Int) (hC : 0 < C) (hk0 : 0 ≤ k) (hk : k < C * M) :
    ∃ w r : Int, 0 ≤ w ∧ w < C ∧ 0 ≤ r ∧ r < M ∧ k = w + C * r :=
  ⟨k % C, k / C, Int.emod_nonneg k (by omega), Int.emod_lt_of_pos k hC,
    Int.ediv_nonneg hk0 (by omega), Int.ediv_lt_of_lt_mul hC (by rw [mul_comm]; exact hk),
    (Int.emod_add_ediv k C).symm⟩

/-- The offset of the pointer that
`arpragueskymodelground_control_params_single_config` returns, as a block size
times a mixed-radix number. -/
theorem control_params_single_config_off (state : ArPragueSkyModelGroundState)
    (dataset : List ℚ) (total elevation altitude visibility albedo wavelength : Int) :
    (arpragueskymodelground_control_params_single_config state dataset total elevation altitude
      visibility albedo wavelength).off =
      total * (wavelength + state.channels * (elevation + state.elevations *
        (altitude + state.altitudes * (albedo + state.albedos * visibility)))) := by
  simp only [arpragueskymodelground_control_params_single_config]
  ring

/-- The linear index of the on-grid configurations of a state with positive
counts: range, uniqueness and existence. -/
theorem config_index_bijective (state : ArPragueSkyModelGroundState)
    (hb : 1 ≤ state.albedos) (ha : 1 ≤ state.altitudes) (he : 1 ≤ state.elevations)
    (hc : 1 ≤ state.channels) :
    (∀ c : GridConfig, c.on_grid state →
      0 ≤ c.wavelength + state.channels * (c.elevation + state.elevations *
        (c.altitude + state.altitudes * (c.albedo + state.albedos * c.visibility))) ∧
      c.wavelength + state.channels * (c.elevation + state.elevations *
        (c.altitude + state.altitudes * (c.albedo + state.albedos * c.visibility))) <
        state.channels * state.elevations * state.altitudes * state.albedos *
          state.visibilities) ∧
    (∀ c c2 : GridConfig, c.on_grid state → c2.on_grid state →
      c.wavelength + state.channels * (c.elevation + state.elevations *
        (c.altitude + state.altitudes * (c.albedo + state.albedos * c.visibility))) =
      c2.wavelength + state.channels * (c2.elevation + state.elevations *
        (c2.altitude + state.altitudes * (c2.albedo + state.albedos * c2.visibility))) →
      c = c2) ∧
    (∀ k : Int, 0 ≤ k → k < state.channels * state.elevations * state.altitudes *
        state.albedos * state.visibilities →
      ∃ c : GridConfig, c.on_grid state ∧
        c.wavelength + state.channels * (c.elevation + state.elevations *
          (c.altitude + state.altitudes * (c.albedo + state.albedos * c.visibility))) = k) := by
  refine ⟨?_, ?_, ?_⟩
  · rintro c ⟨⟨e0, e1⟩, ⟨a0, a1⟩, ⟨v0, v1⟩, ⟨b0, b1⟩, ⟨w0, w1⟩⟩
    obtain ⟨s1, s2⟩ := radix_range state.albedos state.visibilities c.albedo c.visibility b0
      (by omega) v0 (by omega)
    obtain ⟨s3, s4⟩ := radix_range state.altitudes (state.albedos * state.visibilities)
      c.altitude _ a0 (by omega) s1 s2
    obtain ⟨s5, s6⟩ := radix_range state.elevations
      (state.altitudes * (state.albedos * state.visibilities)) c.elevation _ e0 (by omega) s3 s4
    obtain ⟨s7, s8⟩ := radix_range state.channels
      (state.elevations * (state.altitudes * (state.albedos * state.visibilities)))
      c.wavelength _ w0 (by omega) s5 s6
    refine ⟨s7, lt_of_lt_of_eq s8 (by ring)⟩
  · rintro c c2 ⟨⟨e0, e1⟩, ⟨a0, a1⟩, ⟨v0, v1⟩, ⟨b0, b1⟩, ⟨w0, w1⟩⟩
      ⟨⟨e2, e3⟩, ⟨a2, a3⟩, ⟨v2, v3⟩, ⟨b2, b3⟩, ⟨w2, w3⟩⟩ h
    obtain ⟨t1, h1⟩ := radix_unique state.channels _ _ _ _ w0 (by omega) w2 (by omega) h
    obtain ⟨t2, h2⟩ := radix_unique state.elevations _ _ _ _ e0 (by omega) e2 (by omega) h1
    obtain ⟨t3, h3⟩ := radix_unique state.altitudes _ _ _ _ a0 (by omega) a2 (by omega) h2
    obtain ⟨t4, t5⟩ := radix_unique state.albedos _ _ _ _ b0 (by omega) b2 (by omega) h3
    cases c
    cases c2
    simp only [GridConfig.mk.injEq]
    exact ⟨t2, t3, t5, t4, t1⟩
  · intro k hk0 hk
    have e : state.channels * state.elevations * state.altitudes * state.albedos *
        state.visibilities = state.channels * (state.elevations * (state.altitudes *
          (state.albedos * state.visibilities))) := by ring
    rw [e] at hk
    obtain ⟨w, r1, w0, w1, p1, q1, rfl⟩ := radix_split state.channels _ k (by omega) hk0 hk
    obtain ⟨el, r2, el0, el1, p2, q2, rfl⟩ := radix_split state.elevations _ r1 (by omega) p1 q1
    obtain ⟨al, r3, al0, al1, p3, q3, rfl⟩ := radix_split state.altitudes _ r2 (by omega) p2 q2
    obtain ⟨ab, vi, ab0, ab1, vi0, vi1, rfl⟩ := radix_split state.albedos _ r3 (by omega) p3 q3
    exact ⟨⟨el, al, vi, ab, w⟩, ⟨⟨el0, Int.le_sub_one_of_lt el1⟩, ⟨al0, Int.le_sub_one_of_lt al1⟩,
      ⟨vi0, Int.le_sub_one_of_lt vi1⟩, ⟨ab0, Int.le_sub_one_of_lt ab1⟩,
      ⟨w0, Int.le_sub_one_of_lt w1⟩⟩, rfl⟩

/-- The coefficient block of an on-grid configuration lies inside the
radiance data of a state loaded from a data file of less than `2^31`
coefficients. -/
theorem control_params_block_inside (L : ScalarLayout) (state : ArPragueSkyModelGroundState)
    (stream : List Byte) (elevation visibility albedo : ℚ) (st : ArPragueSkyModelGroundState)
    (h : arpragueskymodelground_state_alloc_init L state (some stream) elevation visibility
      albedo = Except.ok st) (hx : st.exact_total_coefs < 2 ^ 31) (c : GridConfig)
    (hc : c.on_grid st) :
    0 ≤ (arpragueskymodelground_control_params_single_config st st.radiance_dataset
      st.total_coefs_single_config c.elevation c.altitude c.visibility c.albedo
      c.wavelength).off ∧
    (arpragueskymodelground_control_params_single_config st st.radiance_dataset
      st.total_coefs_single_config c.elevation c.altitude c.visibility c.albedo
      c.wavelength).off + st.total_coefs_single_config ≤ (st.radiance_dataset.length : ℤ) := by
  obtain ⟨⟨n1, n2, n3, n4, n5, n6, _⟩, ⟨m1, m2, m3⟩, _⟩ :=
    loaded_state_counts L state stream elevation visibility albedo st h
  obtain ⟨⟨s1, s2, s3, s4⟩, _⟩ :=
    loaded_state_sizes L state stream elevation visibility albedo st h hx
  obtain ⟨hr, _, _⟩ := config_index_bijective st n2 n3 n4 n5
  obtain ⟨i0, i1⟩ := hr c hc
  have hT : 0 ≤ st.total_coefs_single_config := by
    rw [s1]
    have : 0 ≤ st.tensor_components * (2 * (st.sun_nbreaks - 1) + 2 * (st.zenith_nbreaks - 1)) :=
      mul_nonneg (by omega) (by omega)
    omega
  rw [control_params_single_config_off, s4, s3, s2]
  constructor
  · exact mul_nonneg hT i0
  · have h2 := mul_le_mul_of_nonneg_left (show c.wavelength + st.channels * (c.elevation +
        st.elevations * (c.altitude + st.altitudes * (c.albedo + st.albedos * c.visibility)))
        + 1 ≤ st.channels * st.elevations * st.altitudes * st.albedos * st.visibilities
        by omega) hT
    rw [mul_add, mul_one] at h2
    exact h2

/-- In a state loaded from a data file of less than `2^31` coefficients the
addressing of `arpragueskymodelground_control_params_single_config` (with
exact index arithmetic) is a bijection between
the index tuples with `wavelength` in `[0, channels)`, `elevation` in
`[0, elevations)`, `altitude` in `[0, altitudes)`, `albedo` in `[0, albedos)`,
`visibility` in `[0, visibilities)` and the linear indices in
`[0, total_configs)`. The pointer that the function returns for a tuple is at
the offset `total_coefs_single_config * index` with `index = wavelength +
channels*(elevation + elevations*(altitude + altitudes*(albedo +
albedos*visibility)))`; the index lies in `[0, total_configs)`, two tuples
with the same index are the same tuple, each index in `[0, total_configs)`
belongs to a tuple, and the block `[index*total_coefs_single_config,
(index+1)*total_coefs_single_config)` lies inside the buffer
`radiance_dataset` of `total_coefs_all_configs` entries. -/
theorem control_params_bijection_without_overflow (L : ScalarLayout)
    (state : ArPragueSkyModelGroundState) (stream : List Byte)
    (elevation visibility albedo : ℚ) (st : ArPragueSkyModelGroundState)
    (h : arpragueskymodelground_state_alloc_init L state (some stream) elevation visibility
      albedo = Except.ok st) (hx : st.exact_total_coefs < 2 ^ 31) :
    (∀ c : GridConfig, c.on_grid st →
      (arpragueskymodelground_control_params_single_config st st.radiance_dataset
        st.total_coefs_single_config c.elevation c.altitude c.visibility c.albedo
        c.wavelength).off = st.total_coefs_single_config *
          (c.wavelength + st.channels * (c.elevation + st.elevations *
            (c.altitude + st.altitudes * (c.albedo + st.albedos * c.visibility)))) ∧
      0 ≤ c.wavelength + st.channels * (c.elevation + st.elevations *
        (c.altitude + st.altitudes * (c.albedo + st.albedos * c.visibility))) ∧
      c.wavelength + st.channels * (c.elevation + st.elevations *
        (c.altitude + st.altitudes * (c.albedo + st.albedos * c.visibility))) <
        st.total_configs ∧
      0 ≤ (arpragueskymodelground_control_params_single_config st st.radiance_dataset
        st.total_coefs_single_config c.elevation c.altitude c.visibility c.albedo
        c.wavelength).off ∧
      (arpragueskymodelground_control_params_single_config st st.radiance_dataset
        st.total_coefs_single_config c.elevation c.altitude c.visibility c.albedo
        c.wavelength).off + st.total_coefs_single_config ≤ st.total_coefs_all_configs) ∧
    (st.radiance_dataset.length : ℤ) = st.total_coefs_all_configs ∧
    (∀ c c2 : GridConfig, c.on_grid st → c2.on_grid st →
      c.wavelength + st.channels * (c.elevation + st.elevations *
        (c.altitude + st.altitudes * (c.albedo + st.albedos * c.visibility))) =
      c2.wavelength + st.channels * (c2.elevation + st.elevations *
        (c2.altitude + st.altitudes * (c2.albedo + st.albedos * c2.visibility))) →
      c = c2) ∧
    (∀ k : Int, 0 ≤ k → k < st.total_configs →
      ∃ c : GridConfig, c.on_grid st ∧
        c.wavelength + st.channels * (c.elevation + st.elevations *
          (c.altitude + st.altitudes * (c.albedo + st.albedos * c.visibility))) = k) := by
  obtain ⟨⟨n1, n2, n3, n4, n5, _⟩, _⟩ :=
    loaded_state_counts L state stream elevation visibility albedo st h
  obtain ⟨⟨_, s2, _, s4⟩, _⟩ :=
    loaded_state_sizes L state stream elevation visibility albedo st h hx
  obtain ⟨hr, hu, hex⟩ := config_index_bijective st n2 n3 n4 n5
  refine ⟨fun c hc => ?_, s4, hu, ?_⟩
  · obtain ⟨b0, b1⟩ := control_params_block_inside L state stream elevation visibility albedo
      st h hx c hc
    rw [s4] at b1
    exact ⟨control_params_single_config_off _ _ _ _ _ _ _ _, (hr c hc).1,
      by rw [s2]; exact (hr c hc).2, b0, b1⟩
  · intro k hk0 hk
    rw [s2] at hk
    exact hex k hk0 hk

theorem control_params_bijection_without_overflow_witness :
    ∃ st, arpragueskymodelground_state_alloc_init sample_layout sample_state
        (some sample_dataset_bytes.bytes) 0 50 0 = Except.ok st ∧
      st.exact_total_coefs < 2 ^ 31 ∧
      (∀ c : GridConfig, c.on_grid st →
        (arpragueskymodelground_control_params_single_config st st.radiance_dataset
          st.total_coefs_single_config c.elevation c.altitude c.visibility c.albedo
          c.wavelength).off = st.total_coefs_single_config *
            (c.wavelength + st.channels * (c.elevation + st.elevations *
              (c.altitude + st.altitudes * (c.albedo + st.albedos * c.visibility)))) ∧
        0 ≤ c.wavelength + st.channels * (c.elevation + st.elevations *
          (c.altitude + st.altitudes * (c.albedo + st.albedos * c.visibility))) ∧
        c.wavelength + st.channels * (c.elevation + st.elevations *
          (c.altitude + st.altitudes * (c.albedo + st.albedos * c.visibility))) <
          st.total_configs ∧
        0 ≤ (arpragueskymodelground_control_params_single_config st st.radiance_dataset
          st.total_coefs_single_config c.elevation c.altitude c.visibility c.albedo
          c.wavelength).off ∧
        (arpragueskymodelground_control_params_single_config st st.radiance_dataset
          st.total_coefs_single_config c.elevation c.altitude c.visibility c.albedo
          c.wavelength).off + st.total_coefs_single_config ≤ st.total_coefs_all_configs) ∧
      (st.radiance_dataset.length : ℤ) = st.total_coefs_all_configs ∧
      (∀ c c2 : GridConfig, c.on_grid st → c2.on_grid st →
        c.wavelength + st.channels * (c.elevation + st.elevations *
          (c.altitude + st.altitudes * (c.albedo + st.albedos * c.visibility))) =
        c2.wavelength + st.channels * (c2.elevation + st.elevations *
          (c2.altitude + st.altitudes * (c2.albedo + st.albedos * c2.visibility))) →
        c = c2) ∧
      (∀ k : Int, 0 ≤ k → k < st.total_configs →
        ∃ c : GridConfig, c.on_grid st ∧
          c.wavelength + st.channels * (c.elevation + st.elevations *
            (c.altitude + st.altitudes * (c.albedo + st.albedos * c.visibility))) = k) := by
  obtain ⟨d, _, hd⟩ := state_alloc_init_append sample_layout sample_state sample_dataset_bytes
    0 50 0 sample_dataset_well_formed sample_metadata_fits
  have hx : ({ sample_transmittance_bytes.state sample_layout
      { sample_metadata_bytes.state sample_layout sample_state with radiance_dataset := d } with
      elevation := 0
      visibility := 50
      albedo := 0 } : ArPragueSkyModelGroundState).exact_total_coefs < 2 ^ 31 :=
    show sample_metadata_bytes.exact_total_coefs sample_layout < 2 ^ 31 by decide
  exact ⟨_, hd, hx,
    control_params_bijection_without_overflow sample_layout sample_state _ 0 50 0 _ hd hx⟩

/-! ## Grid cells of the transmittance: proofs -/

/-- The two cells of the witness, evaluated on the grid of 2 by 2 nodes: the
coordinate `1/4` lies in the cell 0 of the `a` axis (`floor(1/4 * 2) = 0`,
below `trans_n_a - 1 = 1`: increment 1), the coordinate `1` at the top edge of
the `d` axis (`floor(1 * 2) = 2`: cell 1, increment 0, weight 0). -/
theorem sample_calc_transmittance_svd_cells :
    arpragueskymodelground_calc_transmittance_svd_cell sample_libm sample_state_grid.trans_n_a
      (1 / 4) 3 = (0, 1, 1) ∧
    arpragueskymodelground_calc_transmittance_svd_cell sample_libm sample_state_grid.trans_n_d
      1 4 = (1, 0, 0) := by
  have e1 : ⌊(1 / 4 : ℚ) * ((2 : ℤ) : ℚ)⌋ = 0 := by
    rw [Int.floor_eq_iff]
    norm_num
  have e2 : ⌊(1 : ℚ) * ((2 : ℤ) : ℚ)⌋ = 2 := by
    rw [Int.floor_eq_iff]
    norm_num
  constructor
  · simp only [arpragueskymodelground_calc_transmittance_svd_cell, sample_state_grid, e1]
    norm_num [arpragueskymodelground_nonlinlerp, sample_libm]
  · simp only [arpragueskymodelground_calc_transmittance_svd_cell, sample_state_grid, e2]
    norm_num

/-! ## Non-negative radiance -/

theorem read_at_in_bounds {α : Type} (a : List α) (i : Int) (h0 : 0 ≤ i)
    (h1 : i < (a.length : ℤ)) : ∃ x, read_at a i = some x := by
  obtain ⟨k, rfl⟩ := Int.eq_ofNat_of_zero_le h0
  exact ⟨_, read_at_of_lt a k (by omega)⟩

/-- The evaluation of a segment whose breakpoint and two coefficients lie
inside their arrays is defined. -/
theorem eval_pp_in_bounds (x : ℚ) (segment : Int) (breaks : List ℚ) (p : DoublePtr) (k : Int)
    (hs0 : 0 ≤ segment) (hs1 : segment < (breaks.length : ℤ))
    (h0 : 0 ≤ p.off + k + 2 * segment) (h1 : p.off + k + 2 * segment + 1 < (p.buf.length : ℤ)) :
    ∃ y, arpragueskymodelground_eval_pp x segment breaks (p.add k) = some y := by
  obtain ⟨b, hb⟩ := read_at_in_bounds breaks segment hs0 hs1
  obtain ⟨c0, hc0⟩ := read_at_in_bounds p.buf (p.off + k + 2 * segment) h0 (by omega)
  obtain ⟨c1, hc1⟩ := read_at_in_bounds p.buf (p.off + k + 2 * segment + 1) (by omega) h1
  have e : p.off + k + 2 * segment + 1 = p.off + k + (2 * segment + 1) := by ring
  rw [e] at hc1
  exact ⟨_, (eval_pp_eq_some_iff x segment breaks (p.add k) _).mpr
    ⟨b, c0, c1, hb, hc0, hc1, rfl⟩⟩

/-- A reconstruction whose segment evaluations are all defined is defined. -/
theorem reconstruct_defined (state : ArPragueSkyModelGroundState) (gamma alpha theta : ℚ)
    (gamma_segment alpha_segment theta_segment : Int) (control_params : DoublePtr)
    (hsun : ∀ t : Nat, (t : ℤ) < state.tensor_components →
      ∃ y, arpragueskymodelground_eval_pp gamma gamma_segment state.sun_breaks
        (control_params.add (state.sun_offset + t * state.sun_stride)) = some y)
    (hzen : ∀ t : Nat, (t : ℤ) < state.tensor_components →
      ∃ y, arpragueskymodelground_eval_pp alpha alpha_segment state.zenith_breaks
        (control_params.add (state.zenith_offset + t * state.zenith_stride)) = some y)
    (hemph : ∃ y, arpragueskymodelground_eval_pp theta theta_segment state.emph_breaks
        (control_params.add state.emph_offset) = some y) :
    ∃ r, arpragueskymodelground_reconstruct state gamma alpha theta gamma_segment alpha_segment
        theta_segment control_params = some r := by
  obtain ⟨e, he⟩ := hemph
  refine ⟨_, reconstruct_eq state gamma alpha theta gamma_segment alpha_segment theta_segment
    control_params
    (fun t => (arpragueskymodelground_eval_pp gamma gamma_segment state.sun_breaks
        (control_params.add (state.sun_offset + t * state.sun_stride))).getD 0)
    (fun t => (arpragueskymodelground_eval_pp alpha alpha_segment state.zenith_breaks
        (control_params.add (state.zenith_offset + t * state.zenith_stride))).getD 0)
    e ?_ ?_ he⟩
  · intro t ht
    obtain ⟨y, hy⟩ := hsun t ht
    beta_reduce
    rw [hy]
    rfl
  · intro t ht
    obtain ⟨y, hy⟩ := hzen t ht
    beta_reduce
    rw [hy]
    rfl

/-- In a state loaded from a data file of less than `2^31` coefficients the
reconstruction at an on-grid configuration, with each of the three segments
inside its breakpoint array, reads inside the radiance data and is defined. -/
theorem reconstruct_loaded (L : ScalarLayout) (state : ArPragueSkyModelGroundState)
    (stream : List Byte) (elevation visibility albedo : ℚ) (st : ArPragueSkyModelGroundState)
    (h : arpragueskymodelground_state_alloc_init L state (some stream) elevation visibility
      albedo = Except.ok st) (hx : st.exact_total_coefs < 2 ^ 31) (c : GridConfig)
    (hc : c.on_grid st) (gamma alpha theta : ℚ)
    (gs zs ts : Int) (hgs0 : 0 ≤ gs) (hgs1 : gs ≤ st.sun_nbreaks - 2)
    (hzs0 : 0 ≤ zs) (hzs1 : zs ≤ st.zenith_nbreaks - 2)
    (hts0 : 0 ≤ ts) (hts1 : ts ≤ st.emph_nbreaks - 2) :
    ∃ r, c.reconstruct st gamma alpha theta gs zs ts = some r := by
  obtain ⟨⟨_, _, _, _, _, n6, _⟩, ⟨m1, m2, m3⟩, _, ⟨_, _, _, _, l5, l6, l7, _⟩, _⟩ :=
    loaded_state_counts L state stream elevation visibility albedo st h
  obtain ⟨⟨s1, _, _, _⟩, o1, o2, o3, o4, o5⟩ :=
    loaded_state_sizes L state stream elevation visibility albedo st h hx
  obtain ⟨b0, b1⟩ := control_params_block_inside L state stream elevation visibility albedo
    st h hx c hc
  have hS : 0 ≤ st.sun_stride := by omega
  have hT : st.total_coefs_single_config =
      st.tensor_components * st.sun_stride + 2 * (st.emph_nbreaks - 1) := by rw [s1, o2]
  have hmul : ∀ t : Nat, (t : ℤ) < st.tensor_components →
      0 ≤ (t : ℤ) * st.sun_stride ∧
      (t : ℤ) * st.sun_stride + st.sun_stride ≤ st.tensor_components * st.sun_stride := by
    intro t ht
    have h5 : ((t : ℤ) + 1) * st.sun_stride ≤ st.tensor_components * st.sun_stride :=
      mul_le_mul_of_nonneg_right (by omega) hS
    have h6 : ((t : ℤ) + 1) * st.sun_stride = (t : ℤ) * st.sun_stride + st.sun_stride := by ring
    exact ⟨mul_nonneg (by omega) hS, by omega⟩
  unfold GridConfig.reconstruct
  refine reconstruct_defined st gamma alpha theta gs zs ts _ ?_ ?_ ?_
  · intro t ht
    obtain ⟨q0, q1⟩ := hmul t ht
    exact eval_pp_in_bounds gamma gs st.sun_breaks _ _ hgs0 (by omega) (by omega)
      (lt_of_lt_of_le (by omega) b1)
  · intro t ht
    obtain ⟨q0, q1⟩ := hmul t ht
    rw [o4]
    exact eval_pp_in_bounds alpha zs st.zenith_breaks _ _ hzs0 (by omega) (by omega)
      (lt_of_lt_of_le (by omega) b1)
  · have q2 : 0 ≤ st.tensor_components * st.sun_stride := mul_nonneg (by omega) hS
    rw [o5]
    exact eval_pp_in_bounds theta ts st.emph_breaks _ _ hts0 (by omega) (by omega)
      (lt_of_lt_of_le (by omega) b1)

theorem lerp_nonneg (lo hi f : ℚ) (hlo : 0 ≤ lo) (hhi : 0 ≤ hi) (hf0 : 0 ≤ f) (hf1 : f ≤ 1) :
    0 ≤ arpragueskymodelground_lerp lo hi f := by
  unfold arpragueskymodelground_lerp
  exact add_nonneg (mul_nonneg (by linarith) hlo) (mul_nonneg hf0 hhi)

/-- The blend factor of a cascade level with a fractional index `x ≥ 0` lies
in `[0, 1)`. -/
theorem c_int_cast_factor (x : ℚ) (h : 0 ≤ x) :
    0 ≤ x - (c_int_cast x : ℚ) ∧ x - (c_int_cast x : ℚ) < 1 := by
  rw [c_int_cast_of_nonneg x h]
  have h1 := Int.floor_le x
  have h2 := Int.lt_floor_add_one x
  constructor <;> linarith

/-- One level of the cascade: a blend of two non-negative values by a factor
in `[0, 1]` is non-negative. -/
theorem cascade_level_nonneg (lo hi : Option ℚ) (cond : Prop) [Decidable cond] (f : ℚ)
    (hf0 : 0 ≤ f) (hf1 : f ≤ 1) (hlo : ∀ x, lo = some x → 0 ≤ x)
    (hhi : ∀ x, hi = some x → 0 ≤ x) (r : ℚ)
    (h : (lo.bind fun res_low =>
      if cond then some res_low
      else hi.bind fun res_high => some (arpragueskymodelground_lerp res_low res_high f))
        = some r) : 0 ≤ r := by
  cases lo with
  | none => exact Option.noConfusion h
  | some x =>
    simp only [Option.some_bind] at h
    by_cases hc : cond
    · rw [if_pos hc] at h
      rw [← Option.some.inj h]
      exact hlo x rfl
    · rw [if_neg hc] at h
      cases hi with
      | none => exact Option.noConfusion h
      | some y =>
        simp only [Option.some_bind] at h
        rw [← Option.some.inj h]
        exact lerp_nonneg x y f (hlo x rfl) (hhi y rfl) hf0 hf1

theorem interpolate_elevation_nonneg (state : ArPragueSkyModelGroundState)
    (elevation : ℚ) (altitude visibility albedo wavelength : Int) (gamma alpha theta : ℚ)
    (gs zs ts : Int) (h0 : 0 ≤ elevation) (r : ℚ)
    (h : arpragueskymodelground_interpolate_elevation state elevation altitude visibility albedo
        wavelength gamma alpha theta gs zs ts = some r) : 0 ≤ r := by
  obtain ⟨f0, f1⟩ := c_int_cast_factor elevation h0
  unfold arpragueskymodelground_interpolate_elevation at h
  simp only [bind] at h
  exact cascade_level_nonneg _ _ _ _ f0 (le_of_lt f1)
    (fun x hx => reconstruct_some_nonneg _ _ _ _ _ _ _ _ x hx)
    (fun x hx => reconstruct_some_nonneg _ _ _ _ _ _ _ _ x hx) r h

theorem interpolate_altitude_nonneg (state : ArPragueSkyModelGroundState)
    (elevation altitude : ℚ) (visibility albedo wavelength : Int) (gamma alpha theta : ℚ)
    (gs zs ts : Int) (h0 : 0 ≤ elevation) (h1 : 0 ≤ altitude) (r : ℚ)
    (h : arpragueskymodelground_interpolate_altitude state elevation altitude visibility albedo
        wavelength gamma alpha theta gs zs ts = some r) : 0 ≤ r := by
  obtain ⟨f0, f1⟩ := c_int_cast_factor altitude h1
  unfold arpragueskymodelground_interpolate_altitude at h
  simp only [bind] at h
  exact cascade_level_nonneg _ _ _ _ f0 (le_of_lt f1)
    (fun x hx => interpolate_elevation_nonneg _ _ _ _ _ _ _ _ _ _ _ _ h0 x hx)
    (fun x hx => interpolate_elevation_nonneg _ _ _ _ _ _ _ _ _ _ _ _ h0 x hx) r h

theorem interpolate_visibility_nonneg (state : ArPragueSkyModelGroundState)
    (elevation altitude visibility : ℚ) (albedo wavelength : Int) (gamma alpha theta : ℚ)
    (gs zs ts : Int) (h0 : 0 ≤ elevation) (h1 : 0 ≤ altitude) (h2 : 0 ≤ visibility) (r : ℚ)
    (h : arpragueskymodelground_interpolate_visibility state elevation altitude visibility
        albedo wavelength gamma alpha theta gs zs ts = some r) : 0 ≤ r := by
  obtain ⟨f0, f1⟩ := c_int_cast_factor visibility h2
  unfold arpragueskymodelground_interpolate_visibility at h
  simp only [bind] at h
  exact cascade_level_nonneg _ _ _ _ f0 (le_of_lt f1)
    (fun x hx => interpolate_altitude_nonneg _ _ _ _ _ _ _ _ _ _ _ _ h0 h1 x hx)
    (fun x hx => interpolate_altitude_nonneg _ _ _ _ _ _ _ _ _ _ _ _ h0 h1 x hx) r h

theorem interpolate_albedo_nonneg (state : ArPragueSkyModelGroundState)
    (elevation altitude visibility albedo : ℚ) (wavelength : Int) (gamma alpha theta : ℚ)
    (gs zs ts : Int) (h0 : 0 ≤ elevation) (h1 : 0 ≤ altitude) (h2 : 0 ≤ visibility)
    (h3 : 0 ≤ albedo) (r : ℚ)
    (h : arpragueskymodelground_interpolate_albedo state elevation altitude visibility
        albedo wavelength gamma alpha theta gs zs ts = some r) : 0 ≤ r := by
  obtain ⟨f0, f1⟩ := c_int_cast_factor albedo h3
  unfold arpragueskymodelground_interpolate_albedo at h
  simp only [bind] at h
  exact cascade_level_nonneg _ _ _ _ f0 (le_of_lt f1)
    (fun x hx => interpolate_visibility_nonneg _ _ _ _ _ _ _ _ _ _ _ _ h0 h1 h2 x hx)
    (fun x hx => interpolate_visibility_nonneg _ _ _ _ _ _ _ _ _ _ _ _ h0 h1 h2 x hx) r h

/-- Whatever `arpragueskymodelground_sky_radiance` returns on a state with
loaded axes is non-negative. -/
theorem sky_radiance_some_nonneg (state : ArPragueSkyModelGroundState)
    (theta gamma shadow wavelength : ℚ) (haxes : axes_loaded state) (r : ℚ)
    (h : arpragueskymodelground_sky_radiance state theta gamma shadow wavelength = some r) :
    0 ≤ r := by
  obtain ⟨v1, v2, b1, b2, a1, a2, e1, e2⟩ := haxes
  obtain ⟨vc, _, _, hv, _, _, hv0, _, _⟩ :=
    map_parameter_branches state.visibility state.visibilities state.visibility_vals v1 v2
  obtain ⟨ac, _, _, ha, _, _, ha0, _, _⟩ :=
    map_parameter_branches state.albedo state.albedos state.albedo_vals b1 b2
  obtain ⟨hc, _, _, hh, _, _, hh0, _, _⟩ :=
    map_parameter_branches 0 state.altitudes state.altitude_vals a1 a2
  obtain ⟨ec, _, _, he, _, _, he0, _, _⟩ :=
    map_parameter_branches (state.elevation * MATH_RAD_TO_DEG) state.elevations
      state.elevation_vals e1 e2
  rw [sky_radiance_unfold, hv, ha, hh, he] at h
  simp only [Option.some_bind] at h
  by_cases hout : (wavelength - state.channel_start) / state.channel_width ≥
      (state.channels : ℚ) ∨ (wavelength - state.channel_start) / state.channel_width < 0
  · rw [if_pos hout] at h
    rw [← Option.some.inj h]
  · rw [if_neg hout] at h
    cases hgs : arpragueskymodelground_find_segment gamma state.sun_nbreaks state.sun_breaks with
    | none => rw [hgs] at h; exact Option.noConfusion h
    | some gs =>
      cases hzs : arpragueskymodelground_find_segment (if state.elevation < 0 then shadow
          else theta) state.zenith_nbreaks state.zenith_breaks with
      | none => rw [hgs, hzs] at h; exact Option.noConfusion h
      | some zs =>
        cases hts : arpragueskymodelground_find_segment theta state.emph_nbreaks
            state.emph_breaks with
        | none => rw [hgs, hzs, hts] at h; exact Option.noConfusion h
        | some ts =>
          rw [hgs, hzs, hts] at h
          simp only [Option.some_bind] at h
          exact interpolate_albedo_nonneg _ _ _ _ _ _ _ _ _ _ _ _ he0 hh0 hv0 ha0 r h

/-- Beyond the last sun breakpoint the segment search of
`arpragueskymodelground_sky_radiance` reads past the end of `sun_breaks`. -/
theorem sky_radiance_past_sun_breaks (state : ArPragueSkyModelGroundState)
    (theta gamma shadow wavelength : ℚ) (haxes : axes_loaded state)
    (hin : ¬ ((wavelength - state.channel_start) / state.channel_width ≥
      (state.channels : ℚ) ∨ (wavelength - state.channel_start) / state.channel_width < 0))
    (hn : 2 ≤ state.sun_nbreaks) (hlen : (state.sun_breaks.length : ℤ) = state.sun_nbreaks)
    (hx : ∀ b ∈ state.sun_breaks, b < gamma) :
    arpragueskymodelground_sky_radiance state theta gamma shadow wavelength = none := by
  obtain ⟨v1, v2, b1, b2, a1, a2, e1, e2⟩ := haxes
  obtain ⟨vc, hv⟩ :=
    map_parameter_total state.visibility state.visibilities state.visibility_vals v1 v2
  obtain ⟨ac, ha⟩ := map_parameter_total state.albedo state.albedos state.albedo_vals b1 b2
  obtain ⟨hc, hh⟩ := map_parameter_total 0 state.altitudes state.altitude_vals a1 a2
  obtain ⟨ec, he⟩ := map_parameter_total (state.elevation * MATH_RAD_TO_DEG) state.elevations
      state.elevation_vals e1 e2
  rw [sky_radiance_unfold, hv, ha, hh, he]
  simp only [Option.some_bind]
  rw [if_neg hin, find_segment_past_end gamma state.sun_nbreaks state.sun_breaks hn hlen hx]
  rfl

/-- In a state loaded from a data file of less than `2^31` coefficients, for
angles that are at most the last breakpoint of their breakpoint array,
`arpragueskymodelground_sky_radiance` reads inside its arrays and returns a
value `≥ 0`. -/
theorem sky_radiance_loaded_nonneg (L : ScalarLayout) (state : ArPragueSkyModelGroundState)
    (stream : List Byte) (elevation visibility albedo : ℚ) (st : ArPragueSkyModelGroundState)
    (h : arpragueskymodelground_state_alloc_init L state (some stream) elevation visibility
      albedo = Except.ok st) (hx : st.exact_total_coefs < 2 ^ 31)
    (theta gamma shadow wavelength : ℚ)
    (last_sun last_zenith last_emph : ℚ)
    (hls : read_at st.sun_breaks (st.sun_nbreaks - 1) = some last_sun)
    (hlz : read_at st.zenith_breaks (st.zenith_nbreaks - 1) = some last_zenith)
    (hle : read_at st.emph_breaks (st.emph_nbreaks - 1) = some last_emph)
    (hgamma : gamma ≤ last_sun)
    (halpha : (if st.elevation < 0 then shadow else theta) ≤ last_zenith)
    (htheta : theta ≤ last_emph) :
    ∃ r, arpragueskymodelground_sky_radiance st theta gamma shadow wavelength = some r ∧
      0 ≤ r := by
  obtain ⟨⟨n1, n2, n3, n4, n5, n6, _⟩, ⟨m1, m2, m3⟩, ⟨_, w2⟩, ⟨l1, l2, l3, l4, l5, l6, l7, _⟩, _⟩ :=
    loaded_state_counts L state stream elevation visibility albedo st h
  have haxes : axes_loaded st := ⟨n1, l1, n2, l2, n3, l3, n4, l4⟩
  suffices hsome : ∃ r, arpragueskymodelground_sky_radiance st theta gamma shadow wavelength
      = some r by
    obtain ⟨r, hr⟩ := hsome
    exact ⟨r, hr, sky_radiance_some_nonneg st theta gamma shadow wavelength haxes r hr⟩
  obtain ⟨vc, _, _, hv, _, _, hv0, hv1, _⟩ :=
    map_parameter_branches st.visibility st.visibilities st.visibility_vals n1 l1
  obtain ⟨ac, _, _, ha, _, _, ha0, ha1, _⟩ :=
    map_parameter_branches st.albedo st.albedos st.albedo_vals n2 l2
  obtain ⟨hc, _, _, hh, _, _, hh0, hh1, _⟩ :=
    map_parameter_branches 0 st.altitudes st.altitude_vals n3 l3
  obtain ⟨ec, _, _, he, _, _, he0, he1, _⟩ :=
    map_parameter_branches (st.elevation * MATH_RAD_TO_DEG) st.elevations
      st.elevation_vals n4 l4
  by_cases hout : (wavelength - st.channel_start) / st.channel_width ≥
      (st.channels : ℚ) ∨ (wavelength - st.channel_start) / st.channel_width < 0
  · refine ⟨0, ?_⟩
    rw [sky_radiance_unfold, hv, ha, hh, he]
    simp only [Option.some_bind]
    rw [if_pos hout]
  · obtain ⟨gs, hgs, g0, g1, _⟩ := find_segment_within gamma st.sun_nbreaks st.sun_breaks m1 l5
      last_sun hls hgamma
    obtain ⟨zs, hzs, z0, z1, _⟩ := find_segment_within (if st.elevation < 0 then shadow
      else theta) st.zenith_nbreaks st.zenith_breaks m2 l6 last_zenith hlz halpha
    obtain ⟨ts, hts, t0, t1, _⟩ := find_segment_within theta st.emph_nbreaks st.emph_breaks m3
      l7 last_emph hle htheta
    rw [not_or, not_le, not_lt] at hout
    obtain ⟨calls, _, hgrid, hiff⟩ := sky_radiance_calls_on_grid st theta gamma shadow
      wavelength vc ac hc ec gs zs ts hv ha hh he hv0 hv1 ha0 ha1 hh0 hh1 he0 he1 hout.2 hout.1
      hgs hzs hts
    have hall : ∀ c ∈ calls, (c.reconstruct st gamma (if st.elevation < 0 then shadow else theta)
        theta gs zs ts).isSome = true := by
      intro c hc
      obtain ⟨r, hr⟩ := reconstruct_loaded L state stream elevation visibility albedo st h hx c
        (hgrid c hc) gamma (if st.elevation < 0 then shadow else theta) theta gs zs ts g0 g1 z0
        z1 t0 t1
      rw [hr]
      rfl
    exact Option.isSome_iff_exists.mp (hiff.mpr hall)

theorem sample_dataset_short_well_formed :
    sample_dataset_bytes_short.well_formed sample_layout := by
  refine ⟨?_, ?_, sample_transmittance_well_formed⟩
  · simp [RadianceMetadataBytes.well_formed, sample_dataset_bytes_short, sample_metadata_bytes,
      sample_layout, sizeof_int, sizeof_double]
    exact Nat.cast_pos.mpr (by decide)
  · decide

/-- The state that the loader returns for the small data file with the sun
breakpoints `0` and `3`. -/
theorem sample_short_loaded :
    ∃ st, arpragueskymodelground_state_alloc_init sample_layout sample_state
        (some sample_dataset_bytes_short.bytes) 0 50 0 = Except.ok st ∧
      st.exact_total_coefs < 2 ^ 31 ∧
      (st.sun_nbreaks = 2 ∧ st.sun_breaks = [0, 3]) ∧
      (st.zenith_nbreaks = 2 ∧ st.zenith_breaks = [0, 4]) ∧
      (st.emph_nbreaks = 2 ∧ st.emph_breaks = [0, 4]) ∧
      (st.channels = 1 ∧ st.channel_start = 200 ∧ st.channel_width = 40) ∧
      st.elevation = 0 := by
  obtain ⟨d, _, hd⟩ := state_alloc_init_append sample_layout sample_state
    sample_dataset_bytes_short 0 50 0 sample_dataset_short_well_formed
    (radiance_metadata_fits sample_layout _ sample_dataset_short_well_formed.1 (by decide))
  have h3 : (((3 : Fin 256) : ℕ) : ℚ) = 3 := by
    rw [show ((3 : Fin 256) : ℕ) = 3 by decide]
    norm_num
  have h4 : (((4 : Fin 256) : ℕ) : ℚ) = 4 := by
    rw [show ((4 : Fin 256) : ℕ) = 4 by decide]
    norm_num
  have h200 : (((200 : Fin 256) : ℕ) : ℚ) = 200 := by
    rw [show ((200 : Fin 256) : ℕ) = 200 by decide]
    norm_num
  have h40 : (((40 : Fin 256) : ℕ) : ℚ) = 40 := by
    rw [show ((40 : Fin 256) : ℕ) = 40 by decide]
    norm_num
  refine ⟨_, hd,
    show sample_dataset_bytes_short.metadata.exact_total_coefs sample_layout < 2 ^ 31 by decide,
    ⟨?_, ?_⟩, ⟨?_, ?_⟩, ⟨?_, ?_⟩, ⟨?_, ?_, ?_⟩, rfl⟩ <;>
    simp [TransmittanceBytes.state, RadianceMetadataBytes.state, sample_dataset_bytes_short,
      sample_dataset_bytes, sample_metadata_bytes, sample_layout, records_of, fread,
      sizeof_double, h3, h4, h200, h40]

/-- C36: the radiance beyond the last sun breakpoint, evaluated. The loader
accepts the small data file whose sun breakpoints are `0` and `3`. With
`gamma = 3.1`, below `MATH_PI`, and the wavelength 220 inside the single
channel, the segment search of `arpragueskymodelground_sky_radiance` reads
`sun_breaks[1]` and then `sun_breaks[2]`, outside the array of two entries: no
value is returned. With `gamma = 1` the same call returns a value `≥ 0`, as
it does in every state loaded from a data file of less than `2^31`
coefficients for angles that are at most the last breakpoint of their array
(`sky_radiance_loaded_nonneg`); and whatever the function
returns is `≥ 0` (`sky_radiance_some_nonneg`): every cascade level blends
non-negative reconstructions by a factor in `[0, 1)`. -/
theorem sky_radiance_beyond_last_breakpoint :
    ∃ st, arpragueskymodelground_state_alloc_init sample_layout sample_state
        (some sample_dataset_bytes_short.bytes) 0 50 0 = Except.ok st ∧
      st.sun_nbreaks = 2 ∧ st.sun_breaks = [0, 3] ∧ (31 / 10 : ℚ) ≤ MATH_PI ∧
      arpragueskymodelground_find_segment_reads (31 / 10) st.sun_nbreaks st.sun_breaks = [1, 2] ∧
      read_at st.sun_breaks 2 = none ∧
      arpragueskymodelground_sky_radiance st 1 (31 / 10) 1 220 = none ∧
      ∃ r, arpragueskymodelground_sky_radiance st 1 1 1 220 = some r ∧ 0 ≤ r := by
  obtain ⟨st, hd, hx, ⟨hn, hb⟩, ⟨hzn, hzb⟩, ⟨hen, heb⟩, ⟨hch, hcs, hcw⟩, hel⟩ :=
    sample_short_loaded
  obtain ⟨⟨n1, n2, n3, n4, _⟩, _, _, ⟨l1, l2, l3, l4, l5, _⟩, _⟩ :=
    loaded_state_counts sample_layout sample_state _ 0 50 0 st hd
  have haxes : axes_loaded st := ⟨n1, l1, n2, l2, n3, l3, n4, l4⟩
  refine ⟨st, hd, hn, hb, by norm_num [MATH_PI], ?_, ?_, ?_, ?_⟩
  · rw [hn, hb]
    norm_num [arpragueskymodelground_find_segment_reads,
      arpragueskymodelground_find_segment_loop_reads, read_at_ofNat]
  · rw [hb]
    rfl
  · refine sky_radiance_past_sun_breaks st 1 (31 / 10) 1 220 haxes ?_ (by omega) l5 ?_
    · rw [hch, hcs, hcw]
      norm_num
    · rw [hb]
      intro b hb2
      simp only [List.mem_cons, List.mem_singleton, List.not_mem_nil, or_false] at hb2
      rcases hb2 with rfl | rfl <;> norm_num
  · refine sky_radiance_loaded_nonneg sample_layout sample_state _ 0 50 0 st hd hx 1 1 1 220 3 4
      4 ?_ ?_ ?_ (by norm_num) ?_ (by norm_num)
    · rw [hn, hb]; rfl
    · rw [hzn, hzb]; rfl
    · rw [hen, heb]; rfl
    · rw [hel]; norm_num

/-! ## The loader on data files whose sizes leave the range of `int` -/

theorem write_at_nil {α : Type} (i : Int) (x : α) : write_at ([] : List α) i x = none := by
  unfold write_at
  split_ifs with h1 h2
  · rfl
  · simp at h2
  · rfl

/-- On a buffer without entries the first round of
`arpragueskymodelground_compute_pp_coefs_from_half` writes outside the
buffer, if it gets that far. -/
theorem compute_pp_coefs_empty_buffer (nbreaks : Int) (breaks : List ℚ) (values : List UShort)
    (offset : Int) (scale : ℚ) (hn : 2 ≤ nbreaks) :
    arpragueskymodelground_compute_pp_coefs_from_half nbreaks breaks values [] offset scale =
      none := by
  obtain ⟨n, hn1⟩ : ∃ n, (nbreaks - 1).toNat = n + 1 := ⟨(nbreaks - 1).toNat - 1, by omega⟩
  unfold arpragueskymodelground_compute_pp_coefs_from_half
  rw [hn1, compute_pp_coefs_loop_succ]
  have hnone : ∀ {α β : Type} (x : Option α), (x.bind fun _ => (none : Option β)) = none := by
    intro α β x
    cases x <;> rfl
  simp only [write_at_nil, Option.none_bind, hnone]
  rfl

/-- With a buffer that has no entry and at least one configuration to read,
the part `Read data` of `arpragueskymodelground_read_radiance` is undefined as
soon as the stream holds the sun halves of the first component: their
coefficients are written outside the buffer. -/
theorem read_radiance_data_empty_buffer (L : ScalarLayout)
    (state : ArPragueSkyModelGroundState) (b rest : List Byte)
    (hcfg : 1 ≤ state.total_configs) (htc : 1 ≤ state.tensor_components)
    (hs : 2 ≤ state.sun_nbreaks) (hbuf : state.total_coefs_all_configs ≤ 0)
    (hb : (b.length : ℤ) = sizeof_unsigned_short * state.sun_nbreaks) :
    arpragueskymodelground_read_radiance_data L state (b ++ rest) =
      Except.error Abort.undefined := by
  obtain ⟨n, hn⟩ : ∃ n, state.total_configs.toNat = n + 1 :=
    ⟨state.total_configs.toNat - 1, by omega⟩
  obtain ⟨k, hk⟩ : ∃ k, state.tensor_components.toNat = k + 1 :=
    ⟨state.tensor_components.toNat - 1, by omega⟩
  have h0 : state.total_coefs_all_configs.toNat = 0 := by omega
  have hrec := read_records_append_eq L.ushort_value sizeof_unsigned_short state.sun_nbreaks
    "Error reading sky model data: sun_coefs" b rest hb (by decide)
  have hcomp : arpragueskymodelground_read_radiance_component L state (b ++ rest, [], 0) =
      Except.error Abort.undefined := by
    unfold arpragueskymodelground_read_radiance_component
    simp only [hrec, bind, Except.bind,
      compute_pp_coefs_empty_buffer state.sun_nbreaks _ _ _ _ hs, defined_or_abort]
  unfold arpragueskymodelground_read_radiance_data
  rw [hn, h0, read_radiance_configs_loop_succ]
  unfold arpragueskymodelground_read_radiance_config
  rw [hk, read_radiance_components_loop_succ]
  simp only [List.replicate, hcomp, bind, Except.bind]

/-- When the part `Read data` is undefined on what follows a metadata part
with complete records, so is the run of the loader. -/
theorem state_alloc_init_data_undefined (L : ScalarLayout)
    (state : ArPragueSkyModelGroundState) (f : RadianceMetadataBytes) (s : List Byte)
    (elevation visibility albedo : ℚ) (h : f.well_formed L)
    (hdata : arpragueskymodelground_read_radiance_data L (f.state L state) s =
      Except.error Abort.undefined) :
    arpragueskymodelground_state_alloc_init L state (some (f.bytes ++ s)) elevation visibility
      albedo = Except.error Abort.undefined := by
  unfold arpragueskymodelground_state_alloc_init arpragueskymodelground_read_radiance
  simp only [read_radiance_metadata_append L state f s h, bind, Except.bind, hdata]

/-- The state that the loader returns for the data file with `2^31`
configurations in its metadata and no coefficient. -/
theorem sample_wide_loaded :
    ∃ st, arpragueskymodelground_state_alloc_init sample_layout sample_state
        (some sample_dataset_bytes_wide.bytes) 0 50 0 = Except.ok st ∧
      (st.channels = 8 ∧ st.elevations = 128 ∧ st.altitudes = 128 ∧ st.albedos = 128 ∧
        st.visibilities = 128) ∧
      (st.tensor_components = 1 ∧ st.sun_nbreaks = 2 ∧ st.zenith_nbreaks = 2 ∧
        st.emph_nbreaks = 2) ∧
      st.total_coefs_single_config = 6 ∧ st.total_configs = -2 ^ 31 ∧
      st.total_coefs_all_configs = 0 ∧ st.radiance_dataset = [] := by
  obtain ⟨d, hdl, hd⟩ := state_alloc_init_append sample_layout sample_state
    sample_dataset_bytes_wide 0 50 0 sample_dataset_wide_well_formed sample_dataset_wide_fits
  have h0 : (sample_dataset_bytes_wide.metadata.state sample_layout
      sample_state).total_coefs_all_configs.toNat = 0 := by decide
  have hd0 : d = [] := List.length_eq_zero.mp (hdl.trans h0)
  subst hd0
  exact ⟨_, hd, by decide, by decide, by decide, by decide, by decide, rfl⟩

/-- C25: the loader on a data file whose number of coefficients leaves the
range of `int`, evaluated. The metadata with 128 visibilities, albedos,
altitudes and elevations, 4 channels, one tensor component and two breakpoints
on each axis holds every record in full with every field at or above its
minimum (`well_formed`); it describes `2^30` configurations of 6 coefficients.
The loader computes `total_configs = 2^30` and `total_coefs_all_configs =
6 * 2^30` reduced to 32 bits, which is `-2^31`: `ALLOC_ARRAY` gets no buffer
for that size, and the first round of the loop over the configurations reads
the two sun halves and writes their coefficients outside the buffer. Whatever
follows the two halves in the stream, so also when the stream holds all
`2^30` configurations and the transmittance part, the run neither returns a
state nor ends in `arpragueskymodelground_print_error_and_exit`: it is
undefined. When the number of coefficients is below `2^31` and the records
are complete the loader returns a state (`state_alloc_init_append` with
`radiance_metadata_fits`), and every state that it returns comes from a
stream with complete records and fields at their minima
(`state_alloc_init_ok`). -/
theorem state_alloc_init_buffer_overflow :
    (sample_metadata_bytes_wide 4).well_formed sample_layout ∧
    (sample_metadata_bytes_wide 4).exact_total_coefs sample_layout = 6 * 2 ^ 30 ∧
    ((sample_metadata_bytes_wide 4).state sample_layout sample_state).total_configs = 2 ^ 30 ∧
    ((sample_metadata_bytes_wide 4).state sample_layout sample_state).total_coefs_all_configs =
      -2 ^ 31 ∧
    ∀ rest : List Byte,
      arpragueskymodelground_read_radiance_metadata sample_layout sample_state
          ((sample_metadata_bytes_wide 4).bytes ++ ([1, 0, 2, 0] ++ rest)) =
        Except.ok ((sample_metadata_bytes_wide 4).state sample_layout sample_state,
          [1, 0, 2, 0] ++ rest) ∧
      arpragueskymodelground_state_alloc_init sample_layout sample_state
          (some ((sample_metadata_bytes_wide 4).bytes ++ ([1, 0, 2, 0] ++ rest))) 0 50 0 =
        Except.error Abort.undefined := by
  have hwf := sample_metadata_wide_well_formed 4 (by decide)
  refine ⟨hwf, by decide, by decide, by decide, fun rest => ?_⟩
  have hm := read_radiance_metadata_append sample_layout sample_state
    (sample_metadata_bytes_wide 4) ([1, 0, 2, 0] ++ rest) hwf
  refine ⟨hm, ?_⟩
  have hdata := read_radiance_data_empty_buffer sample_layout
    ((sample_metadata_bytes_wide 4).state sample_layout sample_state) [1, 0, 2, 0] rest
    (by decide) (by decide) (by decide) (by decide) (by decide)
  exact state_alloc_init_data_undefined sample_layout sample_state
    (sample_metadata_bytes_wide 4) ([1, 0, 2, 0] ++ rest) 0 50 0 hwf hdata

/-- C27: the sizes that the loader derives for a data file with `2^31`
configurations, evaluated. The data file with 128 visibilities, albedos,
altitudes and elevations and 8 channels in its metadata, no coefficient and
the transmittance part loads. In the state that the loader returns
`channels * elevations * altitudes * albedos * visibilities` is `2^31`, while
`total_configs`, the same product in `int` arithmetic, is `-2^31`;
`total_coefs_single_config` is 6 and `total_coefs_all_configs` is 0, not the
product `6 * 2^31` of the counts, and `radiance_dataset` has no entry. When the
number of coefficients is below `2^31` the sizes, offsets and strides of a
loaded state are those of the counts (`loaded_state_sizes`). -/
theorem state_alloc_init_sizes_wrap :
    ∃ st, arpragueskymodelground_state_alloc_init sample_layout sample_state
        (some sample_dataset_bytes_wide.bytes) 0 50 0 = Except.ok st ∧
      st.channels * st.elevations * st.altitudes * st.albedos * st.visibilities = 2 ^ 31 ∧
      st.total_configs = -2 ^ 31 ∧
      st.total_coefs_single_config = st.tensor_components *
        (2 * (st.sun_nbreaks - 1) + 2 * (st.zenith_nbreaks - 1)) + 2 * (st.emph_nbreaks - 1) ∧
      st.total_coefs_single_config = 6 ∧ st.total_coefs_all_configs = 0 ∧
      st.total_coefs_single_config *
        (st.channels * st.elevations * st.altitudes * st.albedos * st.visibilities) =
          6 * 2 ^ 31 ∧
      st.radiance_dataset.length = 0 := by
  obtain ⟨st, hd, ⟨c1, c2, c3, c4, c5⟩, ⟨t1, t2, t3, t4⟩, s1, s2, s3, s4⟩ := sample_wide_loaded
  refine ⟨st, hd, ?_, s2, ?_, s1, s3, ?_, ?_⟩
  · rw [c1, c2, c3, c4, c5]; norm_num
  · rw [s1, t1, t2, t3, t4]; norm_num
  · rw [s1, c1, c2, c3, c4, c5]; norm_num
  · rw [s4]; rfl

/-- C35: the addressing of the configurations in the state loaded from the
data file with `2^31` configurations in its metadata, evaluated. The index
tuple `(0, 0, 0, 0, 0)` lies on the grid of the loaded state; its linear index
0 is not below `total_configs = -2^31`, so not in `[0, total_configs)`; the
pointer that `arpragueskymodelground_control_params_single_config` returns for
it is at the offset 0, and its block of `total_coefs_single_config = 6`
coefficients does not lie inside `radiance_dataset`, which has
`total_coefs_all_configs = 0` entries: the read of its first entry is outside
the buffer. When the number of coefficients is below `2^31` the addressing of
a loaded state is a bijection onto `[0, total_configs)` and every block lies
inside the buffer (`control_params_bijection_without_overflow`). -/
theorem control_params_single_config_outside_buffer :
    ∃ st, arpragueskymodelground_state_alloc_init sample_layout sample_state
        (some sample_dataset_bytes_wide.bytes) 0 50 0 = Except.ok st ∧
      (⟨0, 0, 0, 0, 0⟩ : GridConfig).on_grid st ∧
      (arpragueskymodelground_control_params_single_config st st.radiance_dataset
        st.total_coefs_single_config 0 0 0 0 0).off = 0 ∧
      st.total_configs = -2 ^ 31 ∧ ¬ (0 : ℤ) < st.total_configs ∧
      st.total_coefs_single_config = 6 ∧ st.total_coefs_all_configs = 0 ∧
      st.radiance_dataset.length = 0 ∧
      ¬ (arpragueskymodelground_control_params_single_config st st.radiance_dataset
          st.total_coefs_single_config 0 0 0 0 0).off + st.total_coefs_single_config ≤
        (st.radiance_dataset.length : ℤ) ∧
      (arpragueskymodelground_control_params_single_config st st.radiance_dataset
        st.total_coefs_single_config 0 0 0 0 0).read 0 = none := by
  obtain ⟨st, hd, ⟨c1, c2, c3, c4, c5⟩, _, s1, s2, s3, s4⟩ := sample_wide_loaded
  have hoff : (arpragueskymodelground_control_params_single_config st st.radiance_dataset
      st.total_coefs_single_config 0 0 0 0 0).off = 0 := by
    rw [control_params_single_config_off]; ring
  refine ⟨st, hd, ?_, hoff, s2, ?_, s1, s3, ?_, ?_, ?_⟩
  · simp only [GridConfig.on_grid, c1, c2, c3, c4, c5]
    norm_num
  · rw [s2]; norm_num
  · rw [s4]; rfl
  · rw [hoff, s1, s4]; norm_num
  · unfold DoublePtr.read
    rw [hoff]
    simp only [arpragueskymodelground_control_params_single_config, s4]
    rfl


/-! ## Transmittance: infinities and NaN -/

theorem dbl_overflow_gt_one : (1 : ℚ) < DBL_OVERFLOW := by
  norm_num [DBL_OVERFLOW]

theorem of_exact_unit (q : ℚ) (h0 : 0 ≤ q) (h1 : q ≤ 1) :
    CDouble.of_exact DBL_OVERFLOW q = CDouble.fin q := by
  have h := dbl_overflow_gt_one
  unfold CDouble.of_exact
  rw [if_neg (by linarith), if_neg (by linarith)]

/-- The clamp and the square at the end of
`arpragueskymodelground_transmittance`, with the special values: NaN passes
both comparisons of the clamp, every other value ends in `[0, 1]`. -/
theorem clamp_square_ieee (x : CDouble) :
    CDouble.mul
        (if CDouble.lt x (CDouble.fin 0) then CDouble.fin 0
          else (if CDouble.lt (CDouble.fin 1) x then CDouble.fin 1 else x))
        (if CDouble.lt x (CDouble.fin 0) then CDouble.fin 0
          else (if CDouble.lt (CDouble.fin 1) x then CDouble.fin 1 else x)) = CDouble.nan ∧
      x = CDouble.nan ∨
    ∃ r : ℚ, CDouble.mul
        (if CDouble.lt x (CDouble.fin 0) then CDouble.fin 0
          else (if CDouble.lt (CDouble.fin 1) x then CDouble.fin 1 else x))
        (if CDouble.lt x (CDouble.fin 0) then CDouble.fin 0
          else (if CDouble.lt (CDouble.fin 1) x then CDouble.fin 1 else x)) = CDouble.fin r ∧
      0 ≤ r ∧ r ≤ 1 := by
  cases x with
  | nan => exact Or.inl ⟨rfl, rfl⟩
  | pinf =>
    refine Or.inr ⟨1, ?_, by norm_num, le_refl _⟩
    simp only [CDouble.lt, CDouble.mul, if_true, Bool.false_eq_true, if_false]
    rw [mul_one]
    exact of_exact_unit 1 (by norm_num) (le_refl _)
  | ninf =>
    refine Or.inr ⟨0, ?_, le_refl _, by norm_num⟩
    simp only [CDouble.lt, CDouble.mul, if_true]
    rw [mul_zero]
    exact of_exact_unit 0 (le_refl _) (by norm_num)
  | fin q =>
    right
    simp only [CDouble.lt, decide_eq_true_eq]
    by_cases h1 : q < 0
    · refine ⟨0, ?_, le_refl _, by norm_num⟩
      rw [if_pos h1]
      simp only [CDouble.mul]
      rw [mul_zero]
      exact of_exact_unit 0 (le_refl _) (by norm_num)
    · rw [if_neg h1]
      by_cases h2 : 1 < q
      · refine ⟨1, ?_, by norm_num, le_refl _⟩
        rw [if_pos h2]
        simp only [CDouble.mul]
        rw [mul_one]
        exact of_exact_unit 1 (by norm_num) (le_refl _)
      · have h3 : 0 ≤ q := not_lt.mp h1
        have h4 : q ≤ 1 := not_lt.mp h2
        refine ⟨q * q, ?_, by nlinarith, by nlinarith⟩
        rw [if_neg h2]
        simp only [CDouble.mul]
        exact of_exact_unit (q * q) (by nlinarith) (by nlinarith)

theorem transmittance_ieee_unfold (m : LibM) (state : ArPragueSkyModelGroundState)
    (theta wavelength distance : ℚ) :
    arpragueskymodelground_transmittance_ieee m state theta wavelength distance =
      if (wavelength - state.channel_start) / state.channel_width ≥ (state.channels : ℚ) ∨
          (wavelength - state.channel_start) / state.channel_width < 0 then
        some (CDouble.fin 0)
      else
        (arpragueskymodelground_find_in_array state.transmission_visibilities
          state.trans_visibilities state.visibility).bind fun vis =>
        (arpragueskymodelground_toAD m theta distance 0).bind fun ad =>
        (arpragueskymodelground_calc_transmittance_svd_ieee m state ad.1 ad.2 vis.1
          (c_int_cast ((wavelength - state.channel_start) / state.channel_width))
          (if c_int_cast ((wavelength - state.channel_start) / state.channel_width) < 10
            then 1 else 0) 0 0 0 0).bind fun trans_low =>
        (arpragueskymodelground_calc_transmittance_svd_ieee m state ad.1 ad.2 (vis.1 + vis.2.1)
          (c_int_cast ((wavelength - state.channel_start) / state.channel_width))
          (if c_int_cast ((wavelength - state.channel_start) / state.channel_width) < 10
            then 1 else 0) 0 0 0 0).bind fun trans_high =>
        some (CDouble.mul
          (if CDouble.lt (arpragueskymodelground_lerp_ieee trans_low trans_high
              (CDouble.fin vis.2.2)) (CDouble.fin 0) then CDouble.fin 0
            else (if CDouble.lt (CDouble.fin 1) (arpragueskymodelground_lerp_ieee trans_low
                trans_high (CDouble.fin vis.2.2)) then CDouble.fin 1
              else arpragueskymodelground_lerp_ieee trans_low trans_high (CDouble.fin vis.2.2)))
          (if CDouble.lt (arpragueskymodelground_lerp_ieee trans_low trans_high
              (CDouble.fin vis.2.2)) (CDouble.fin 0) then CDouble.fin 0
            else (if CDouble.lt (CDouble.fin 1) (arpragueskymodelground_lerp_ieee trans_low
                trans_high (CDouble.fin vis.2.2)) then CDouble.fin 1
              else arpragueskymodelground_lerp_ieee trans_low trans_high
                (CDouble.fin vis.2.2)))) := rfl

/-- With the special values, whatever `arpragueskymodelground_transmittance`
returns is NaN or a finite number of `[0, 1]`; it is NaN exactly when the
blend of the two bucket lookups is NaN. -/
theorem transmittance_ieee_range (m : LibM) (state : ArPragueSkyModelGroundState)
    (theta wavelength distance : ℚ) (v : CDouble)
    (h : arpragueskymodelground_transmittance_ieee m state theta wavelength distance = some v) :
    v = CDouble.nan ∨ ∃ r : ℚ, v = CDouble.fin r ∧ 0 ≤ r ∧ r ≤ 1 := by
  rw [transmittance_ieee_unfold] at h
  by_cases hc : (wavelength - state.channel_start) / state.channel_width
      ≥ (state.channels : ℚ) ∨ (wavelength - state.channel_start) / state.channel_width < 0
  · rw [if_pos hc] at h
    exact Or.inr ⟨0, (Option.some.inj h).symm, le_refl _, by norm_num⟩
  · rw [if_neg hc] at h
    simp only [Option.bind_eq_some, Option.some.injEq] at h
    obtain ⟨vis, _, ad, _, tl, _, th, _, rfl⟩ := h
    rcases clamp_square_ieee (arpragueskymodelground_lerp_ieee tl th (CDouble.fin vis.2.2)) with
      ⟨h1, _⟩ | ⟨r, h1, h2, h3⟩
    · exact Or.inl h1
    · exact Or.inr ⟨r, h1, h2, h3⟩

theorem sample_huge_find_in_array :
    arpragueskymodelground_find_in_array sample_state_huge.transmission_visibilities
      sample_state_huge.trans_visibilities sample_state_huge.visibility = some (0, 0, 1) := by
  norm_num [arpragueskymodelground_find_in_array, read_at_ofNat, sample_state_huge,
    sample_state]

theorem sample_huge_channel_bin :
    c_int_cast ((330 - sample_state_huge.channel_start) / sample_state_huge.channel_width) = 0 :=
  c_int_cast_of_bin _ 0 (le_refl _) (by norm_num [sample_state_huge, sample_state])
    (by norm_num [sample_state_huge, sample_state])

theorem sample_huge_cell (p : ℚ) :
    arpragueskymodelground_calc_transmittance_svd_cell sample_libm 1 0 p = (0, 0, 0) := by
  have e : ⌊(0 : ℚ) * ((1 : ℤ) : ℚ)⌋ = 0 := by
    rw [Int.floor_eq_iff]
    norm_num
  simp only [arpragueskymodelground_calc_transmittance_svd_cell, e]
  norm_num

/-- The bucket lookup on the state with entries `3e38`: the product
`9e76` of the `float` entry of U and the coefficient is a finite `double`, and
its store into the `float` accumulator `t[0]` overflows to `+inf`. -/
theorem sample_huge_calc_transmittance_svd_ieee :
    arpragueskymodelground_calc_transmittance_svd_ieee sample_libm sample_state_huge 0 0 0 0 1
      0 0 0 0 = some CDouble.pinf := by
  have hc : ∀ p : ℚ, arpragueskymodelground_calc_transmittance_svd_cell sample_libm
      sample_state_huge.trans_n_a 0 p = (0, 0, 0) := sample_huge_cell
  have hd : ∀ p : ℚ, arpragueskymodelground_calc_transmittance_svd_cell sample_libm
      sample_state_huge.trans_n_d 0 p = (0, 0, 0) := sample_huge_cell
  unfold arpragueskymodelground_calc_transmittance_svd_ieee
  rw [hc, hd]
  norm_num [arpragueskymodelground_calc_transmittance_svd_altitude_ieee,
    arpragueskymodelground_calc_transmittance_svd_altitude_loop_al_ieee,
    arpragueskymodelground_calc_transmittance_svd_altitude_loop_dl_ieee,
    arpragueskymodelground_calc_transmittance_svd_altitude_loop_i_ieee,
    arpragueskymodelground_transmittance_interpolate_wavelength_ieee,
    arpragueskymodelground_transmittance_interpolate_wavelength_loop_ieee,
    arpragueskymodelground_transmittance_coefs_index, arpragueskymodelground_lerp_ieee,
    CDouble.add, CDouble.mul, CDouble.sub, CDouble.neg, CDouble.to_float, CDouble.of_exact,
    DBL_OVERFLOW, FLT_OVERFLOW,
    DoublePtr.read, read_at_ofNat, write_at_ofNat, List.replicate, sample_state_huge,
    sample_state]

/-- On the small model, whose values stay finite, the function with the
special values returns the value of the exact function. -/
theorem sample_transmittance_ieee :
    arpragueskymodelground_transmittance_ieee sample_libm sample_state 0 330 0 =
      some (CDouble.fin 1) ∧
    arpragueskymodelground_transmittance sample_libm sample_state 0 330 0 = some 1 := by
  have hc : ∀ p : ℚ, arpragueskymodelground_calc_transmittance_svd_cell sample_libm
      sample_state.trans_n_a 0 p = (0, 0, 0) := sample_huge_cell
  have hd : ∀ p : ℚ, arpragueskymodelground_calc_transmittance_svd_cell sample_libm
      sample_state.trans_n_d 0 p = (0, 0, 0) := sample_huge_cell
  have hsvd : arpragueskymodelground_calc_transmittance_svd_ieee sample_libm sample_state 0 0 0
      0 1 0 0 0 0 = some (CDouble.fin 1) := by
    unfold arpragueskymodelground_calc_transmittance_svd_ieee
    rw [hc, hd]
    norm_num [arpragueskymodelground_calc_transmittance_svd_altitude_ieee,
      arpragueskymodelground_calc_transmittance_svd_altitude_loop_al_ieee,
      arpragueskymodelground_calc_transmittance_svd_altitude_loop_dl_ieee,
      arpragueskymodelground_calc_transmittance_svd_altitude_loop_i_ieee,
      arpragueskymodelground_transmittance_interpolate_wavelength_ieee,
      arpragueskymodelground_transmittance_interpolate_wavelength_loop_ieee,
      arpragueskymodelground_transmittance_coefs_index, arpragueskymodelground_lerp_ieee,
      CDouble.add, CDouble.mul, CDouble.sub, CDouble.neg, CDouble.to_float, CDouble.of_exact,
      DBL_OVERFLOW, FLT_OVERFLOW,
      DoublePtr.read, read_at_ofNat, write_at_ofNat, List.replicate, sample_state]
  constructor
  · rw [transmittance_ieee_unfold, if_neg (by norm_num [sample_state]), sample_find_in_array,
      sample_toAD]
    simp only [Option.some_bind, sample_channel_bin]
    norm_num [hsvd, arpragueskymodelground_lerp_ieee, CDouble.add, CDouble.mul, CDouble.sub,
      CDouble.neg, CDouble.lt, CDouble.of_exact, DBL_OVERFLOW]
  · rw [transmittance_unfold, if_neg (by norm_num [sample_state]), sample_find_in_array,
      sample_toAD]
    simp only [Option.some_bind, sample_channel_bin]
    norm_num [sample_calc_transmittance_svd, arpragueskymodelground_lerp]

/-- C19: the transmittance on `float` data that overflow, evaluated. On the
model whose entries of U and V are `3e38` (finite `float` values) the product
`9e76` overflows at the store into the `float` accumulator `t[0]`: both bucket
lookups return `+inf`. The visibility search returns the weight `1.0`, the
blend `lerp(inf, inf, 1.0)` is `0 * inf + inf`, which is NaN, both comparisons
of the clamp are false for NaN, and
`arpragueskymodelground_transmittance` returns NaN, a value outside `[0, 1]`.
In general the function returns NaN or a number of `[0, 1]`
(`transmittance_ieee_range`); with exact arithmetic it returns a number of
`[0, 1]` (`transmittance_range`), here 1. -/
theorem transmittance_overflow_nan :
    arpragueskymodelground_find_in_array sample_state_huge.transmission_visibilities
      sample_state_huge.trans_visibilities sample_state_huge.visibility = some (0, 0, 1) ∧
    arpragueskymodelground_calc_transmittance_svd_ieee sample_libm sample_state_huge 0 0 0 0 1
      0 0 0 0 = some CDouble.pinf ∧
    arpragueskymodelground_lerp_ieee CDouble.pinf CDouble.pinf (CDouble.fin 1) = CDouble.nan ∧
    arpragueskymodelground_transmittance_ieee sample_libm sample_state_huge 0 330 0 =
      some CDouble.nan := by
  have hl : arpragueskymodelground_lerp_ieee CDouble.pinf CDouble.pinf (CDouble.fin 1)
      = CDouble.nan := by
    norm_num [arpragueskymodelground_lerp_ieee, CDouble.add, CDouble.mul, CDouble.sub,
      CDouble.neg, CDouble.of_exact, DBL_OVERFLOW]
  refine ⟨sample_huge_find_in_array, sample_huge_calc_transmittance_svd_ieee, hl, ?_⟩
  rw [transmittance_ieee_unfold, if_neg (by norm_num [sample_state_huge, sample_state]),
    sample_huge_find_in_array, sample_toAD]
  simp only [Option.some_bind, sample_huge_channel_bin]
  norm_num [sample_huge_calc_transmittance_svd_ieee, hl, CDouble.lt, CDouble.mul]
